import Mathlib

/-! SuperNode payment-channel engine.

A shallow embedding of `channel/channel.go` (the bilateral channel engine) and
theorems about it.

Conventions of the embedding.

* Go methods with a pointer receiver that may assign fields of the channel are
  functions returning the channel after the call together with the error
  (`none` is the `nil` error of Go).
* `*EndState` pointers held by the channel code only ever point at
  `c.OurState` or `c.PartnerState`; they are values of `EndPtr`.
* `*big.Int` is `Int`; `uint64` is `Nat` with an explicit `% 2 ^ 64`; `int64`
  addition wraps around (complement of two).
* `common.Address` and `common.Hash` are byte strings, read as naturals.
* Hashing (`mtree`, `utils.ShaSecret`) and the constant
  `params.ForkConfirmNumber` are taken as parameters (`Params`).
* Calls into external collaborators that leave the channel value alone (the
  log, `ExternState.db.RemoveLock`, `ExternState.funcRegisterChannelForHashlock`)
  have no counterpart in the embedding.
-/

namespace channel

abbrev Address := Nat

abbrev Hash := Nat

/-- Modelled from the spec: the constant `utils.EmptyHash` of package `utils`, the
all-zero hash that stands for the empty locks root. -/
def EmptyHash : Hash := 0

/-- Go addition on `uint64`. -/
def addUint64 (a b : Nat) : Nat := (a + b) % 2 ^ 64

/-- Go addition on `int64` (wrap-around, complement of two). -/
def addInt64 (a b : Int) : Int := (a + b + 2 ^ 63) % 2 ^ 64 - 2 ^ 63

/-- Modelled from the spec: the type `channeltype.State` is declared in package
`channeltype`; its values are the lifecycle states that `channel.go` names. -/
inductive State where
  | StateOpened
  | StateClosed
  | StateSettled
  | StateClosing
  | StateSettling
  | StateWithdraw
  | StateCooprativeSettle
  | StatePrepareForWithdraw
  | StatePrepareForCooperativeSettle
  | StatePartnerWithdrawing
  | StatePartnerCooperativeSettling
  deriving DecidableEq, Repr

/-- Modelled from the spec: the table `channeltype.CanTransferMap` is declared in
package `channeltype`; the spec says that transfers are only admissible in
`Opened`, so the table holds `true` for `StateOpened` alone. -/
def CanTransferMap (s : State) : Bool :=
  match s with
  | .StateOpened => true
  | _ => false

/-- Modelled from the spec: the error values of package `rerr`, by the names under
which `channel.go` returns them (the error taxonomy of §7). `ErrUnspecified`
stands for a failure of an endpoint operation whose tag the spec does not name. -/
inductive Err where
  | ChannelStateError (s : State)
  | ErrChannelState
  | ErrChannelBalanceNotMatch
  | ErrChannelCooperativeSettleButHasLocks
  | ErrChannelIdentifierMismatch
  | ErrChannelInvalidSender
  | ErrChannelInvalidSttleTimeout
  | ErrChannelLockExpirationTooLarge
  | ErrChannelLockMisMatch
  | ErrChannelLockSecretHashNotFound
  | ErrChannelNotAllowWithdraw
  | ErrChannelNotParticipant
  | ErrChannelRevealTimeout
  | ErrChannelSettleTimeout
  | ErrChannelTransferAmountDecrease
  | ErrChannelTransferAmountMismatch
  | ErrChannelWithdrawAmount
  | ErrChannelWithdrawButHasLocks
  | ErrInsufficientBalance
  | ErrUpdateBalanceProofAfterClosed
  | InvalidLocksRoot (expected got : Hash)
  | InvalidNonce
  | ErrUnspecified
  deriving DecidableEq, Repr

deriving instance DecidableEq for Except

/-- Modelled from the spec: the struct `mtree.Lock` of package `mtree`,
`{amount, expiration_block, lock_secret_hash}`, with the field names that
`channel.go` uses. -/
structure Lock where
  Amount : Int
  Expiration : Int
  LockSecretHash : Hash
  deriving DecidableEq, Repr

/-- Modelled from the spec: the struct `contracts.ChannelUniqueID`, the pair
`(channel_hash, open_block)`, with the field names that `channel.go` uses. -/
structure ChannelUniqueID where
  ChannelIdentifier : Hash
  OpenBlockNumber : Int
  deriving DecidableEq, Repr

/-- Modelled from the spec: the struct `transfer.BalanceProofState` of package
`transfer`: the latest signed balance proof of an endpoint and, in the
`Contract*` fields that `Channel.Settle` reads, the values mirrored from the
chain. -/
structure BalanceProofState where
  Nonce : Nat
  TransferAmount : Int
  LocksRoot : Hash
  ContractTransferAmount : Int
  ContractLocksRoot : Hash
  ContractNonce : Nat
  deriving DecidableEq, Repr

/-- Modelled from the spec: the struct `channeltype.PendingLock`, a lock whose
secret is unknown. -/
structure PendingLock where
  Lock : Lock
  deriving DecidableEq, Repr

/-- Modelled from the spec: the struct `channeltype.UnlockPartialProof`, a lock
whose secret is known. -/
structure UnlockPartialProof where
  Lock : Lock
  Secret : Hash
  IsRegisteredOnChain : Bool
  deriving DecidableEq, Repr

/-- Modelled from the spec: the struct `EndState` (the endpoint state of §3),
with the fields that `channel.go` reads and writes. A Go map is an association
list; `Tree` is the Merkle tree, held as its ordered leaves. -/
structure EndState where
  Address : Address
  ContractBalance : Int
  BalanceProofState : Option BalanceProofState
  Lock2PendingLocks : List (Hash × PendingLock)
  Lock2UnclaimedLocks : List (Hash × UnlockPartialProof)
  Tree : List Lock
  deriving DecidableEq, Repr

/-- Modelled from the spec: the struct `ExternalState`, by the data fields that
`channel.go` reads and writes; its callbacks into the chain client and the
database are external collaborators. -/
structure ExternalState where
  ClosedBlock : Int
  SettledBlock : Int
  ChannelIdentifier : ChannelUniqueID
  deriving DecidableEq, Repr

/-- The struct `Channel` (without the `feeCharger` collaborator). -/
structure Channel where
  OurState : EndState
  PartnerState : EndState
  ExternState : ExternalState
  ChannelIdentifier : ChannelUniqueID
  TokenAddress : Address
  RevealTimeout : Int
  SettleTimeout : Int
  State : State
  deriving DecidableEq, Repr

/-- A `*EndState` held by the channel code: it points at one of the two
endpoints of the channel. -/
inductive EndPtr where
  | our
  | partner
  deriving DecidableEq, Repr

/-- Dereference of a `*EndState`. -/
def Channel.deref (c : Channel) (p : EndPtr) : EndState :=
  match p with
  | .our => c.OurState
  | .partner => c.PartnerState

/-- Write through a `*EndState`. -/
def Channel.assign (c : Channel) (p : EndPtr) (es : EndState) : Channel :=
  match p with
  | .our => { c with OurState := es }
  | .partner => { c with PartnerState := es }

/-- The parameters of the embedding: the Merkle root of a non-empty list of
leaves, the hash of a secret, and `params.ForkConfirmNumber`. -/
structure Params where
  HashLeaves : List Lock → Hash
  ShaSecret : Hash → Hash
  ForkConfirmNumber : Int

/-! ## Messages (package `encoding`) -/

/-- Modelled from the spec: the struct `encoding.EnvelopMessage`, the signed
envelope `{nonce, channel_identifier, open_block, transferred_amount, locks_root,
signature}` of §6; `Sender` is the address recovered from the signature, which
`GetSender` returns. -/
structure EnvelopMessage where
  Nonce : Nat
  ChannelIdentifier : Hash
  OpenBlockNumber : Int
  TransferAmount : Int
  Locksroot : Hash
  Sender : Address
  deriving DecidableEq, Repr

/-- Modelled from the spec: the message `encoding.DirectTransfer`; its
type-specific tail is empty. -/
structure DirectTransfer where
  env : EnvelopMessage
  deriving DecidableEq, Repr

/-- Modelled from the spec: the message `encoding.MediatedTransfer`, with the
tail `{payment_amount, expiration, lock_secret_hash, target, initiator, fee,
path}`. -/
structure MediatedTransfer where
  env : EnvelopMessage
  PaymentAmount : Int
  Expiration : Int
  LockSecretHash : Hash
  Target : Address
  Initiator : Address
  Fee : Int
  Path : List Address
  deriving DecidableEq, Repr

/-- Modelled from the spec: the message `encoding.UnLock`, with the tail
`{lock_secret}`. -/
structure UnLock where
  env : EnvelopMessage
  LockSecret : Hash
  deriving DecidableEq, Repr

/-- Modelled from the spec: the message `encoding.AnnounceDisposedResponse`, with
the tail `{lock_secret_hash}`. -/
structure AnnounceDisposedResponse where
  env : EnvelopMessage
  LockSecretHash : Hash
  deriving DecidableEq, Repr

/-- Modelled from the spec: the message `encoding.RemoveExpiredHashlockTransfer`,
with the tail `{lock_secret_hash}`. -/
structure RemoveExpiredHashlockTransfer where
  env : EnvelopMessage
  LockSecretHash : Hash
  deriving DecidableEq, Repr

/-- Modelled from the spec: the interface `encoding.EnvelopMessager`, with the
five message types that `RegisterTransfer` switches on. -/
inductive EnvelopMessager where
  | MediatedTransfer (msg : MediatedTransfer)
  | DirectTransfer (msg : DirectTransfer)
  | UnLock (msg : UnLock)
  | AnnounceDisposedResponse (msg : AnnounceDisposedResponse)
  | RemoveExpiredHashlockTransfer (msg : RemoveExpiredHashlockTransfer)
  deriving DecidableEq, Repr

/-- Modelled from the spec: the method `GetEnvelopMessage`, the envelope of a
message. -/
def EnvelopMessager.GetEnvelopMessage (tr : EnvelopMessager) : EnvelopMessage :=
  match tr with
  | .MediatedTransfer m => m.env
  | .DirectTransfer m => m.env
  | .UnLock m => m.env
  | .AnnounceDisposedResponse m => m.env
  | .RemoveExpiredHashlockTransfer m => m.env

/-- Modelled from the spec: the method `GetSender`, the signer of a message. -/
def EnvelopMessager.GetSender (tr : EnvelopMessager) : Address :=
  tr.GetEnvelopMessage.Sender

/-! ## NewChannel -/

/-- The function `NewChannel`. -/
def NewChannel (ourState partnerState : EndState) (externState : ExternalState)
    (tokenAddr : Address) (channelIdentifier : ChannelUniqueID)
    (revealTimeout settleTimeout : Int) : Except Err Channel :=
  if settleTimeout ≤ revealTimeout then
    .error .ErrChannelInvalidSttleTimeout
  else if revealTimeout < 3 then
    .error .ErrChannelRevealTimeout
  else
    .ok { OurState := ourState
          PartnerState := partnerState
          ExternState := externState
          ChannelIdentifier := channelIdentifier
          TokenAddress := tokenAddr
          RevealTimeout := revealTimeout
          SettleTimeout := settleTimeout
          State := .StateOpened }

/-! ## Endpoint state (package `channel`, file of `EndState`)

The methods of `EndState` are declared in another file of package
`channel`. They are modelled from the spec (§3, §4.1, §4.2, §4.3.3) and from what `channel.go` shows
of them (`Channel.Balance`, `Channel.Locked`, the result types at the call
sites, the comments above the `register*` methods). -/

/-- Modelled from the spec: `Merkletree.MerkleRoot` of package `mtree`, the root
of the tree over the ordered leaves; the root of the tree without leaves is the
empty hash. -/
def MerkleRoot (P : Params) (leaves : List Lock) : Hash :=
  match leaves with
  | [] => EmptyHash
  | l :: ls => P.HashLeaves (l :: ls)

/-- Modelled from the spec: `EndState.nonce`, the nonce of the latest balance
proof; 0, the null sentinel, when there is none. -/
def EndState.nonce (node : EndState) : Nat :=
  match node.BalanceProofState with
  | some bp => bp.Nonce
  | none => 0

/-- Modelled from the spec: `EndState.TransferAmount`, the transferred amount of
the latest balance proof; 0 when there is none. -/
def EndState.TransferAmount (node : EndState) : Int :=
  match node.BalanceProofState with
  | some bp => bp.TransferAmount
  | none => 0

/-- Modelled from the spec: `EndState.amountLocked`, the amount locked here: the
sum of the amounts of the locks this endpoint holds, pending and unclaimed. -/
def EndState.amountLocked (node : EndState) : Int :=
  (node.Lock2PendingLocks.map (fun kv => kv.2.Lock.Amount)).sum +
    (node.Lock2UnclaimedLocks.map (fun kv => kv.2.Lock.Amount)).sum

/-- Modelled from the spec: `EndState.Balance`,
`balance_to(other) = contract_balance - transferred_out + other.transferred_in`
(the computation `Channel.Balance` spells out). -/
def EndState.Balance (node counterpart : EndState) : Int :=
  node.ContractBalance - node.TransferAmount + counterpart.TransferAmount

/-- Modelled from the spec: `EndState.Distributable`,
`distributable_to(other) = balance_to(other) - amount_locked_here`. -/
def EndState.Distributable (node counterpart : EndState) : Int :=
  node.Balance counterpart - node.amountLocked

/-- Modelled from the spec: `EndState.IsKnown`, whether the endpoint holds a lock
with this secret hash, pending or unclaimed. -/
def EndState.IsKnown (node : EndState) (lockSecretHash : Hash) : Bool :=
  (node.Lock2PendingLocks.lookup lockSecretHash).isSome ||
    (node.Lock2UnclaimedLocks.lookup lockSecretHash).isSome

/-- Modelled from the spec: `EndState.getLockByHashlock`, the lock held under
this secret hash, pending or unclaimed. -/
def EndState.getLockByHashlock (node : EndState) (lockSecretHash : Hash) : Option Lock :=
  match node.Lock2PendingLocks.lookup lockSecretHash with
  | some pl => some pl.Lock
  | none =>
    match node.Lock2UnclaimedLocks.lookup lockSecretHash with
    | some up => some up.Lock
    | none => none

/-- Modelled from the spec: `EndState.computeMerkleRootWith`, `compute_with(lock)`:
the tree with the lock added as the last leaf and its root; nothing is mutated. -/
def EndState.computeMerkleRootWith (P : Params) (node : EndState) (lock : Lock) :
    List Lock × Hash :=
  (node.Tree ++ [lock], MerkleRoot P (node.Tree ++ [lock]))

/-- Modelled from the spec: `EndState.computeMerkleRootWithout`,
`compute_without(lock)`: the tree without the leaf of the lock and its root; it fails
when the lock is not a leaf of the tree. -/
def EndState.computeMerkleRootWithout (P : Params) (node : EndState) (lock : Lock) :
    Except Err (List Lock × Hash) :=
  if lock ∈ node.Tree then
    .ok (node.Tree.erase lock, MerkleRoot P (node.Tree.erase lock))
  else
    .error .ErrUnspecified

/-- Modelled from the spec: `transfer.NewBalanceProofStateFromEnvelopMessage`
assigned to `BalanceProofState`: the latest balance proof of the endpoint becomes the
one of the message; the values mirrored from the chain stay. -/
def EndState.setBalanceProof (node : EndState) (env : EnvelopMessage) : EndState :=
  { node with
    BalanceProofState := some
      { Nonce := env.Nonce
        TransferAmount := env.TransferAmount
        LocksRoot := env.Locksroot
        ContractTransferAmount :=
          match node.BalanceProofState with
          | some bp => bp.ContractTransferAmount
          | none => 0
        ContractLocksRoot :=
          match node.BalanceProofState with
          | some bp => bp.ContractLocksRoot
          | none => EmptyHash
        ContractNonce :=
          match node.BalanceProofState with
          | some bp => bp.ContractNonce
          | none => 0 } }

/-- Modelled from the spec: `EndState.registerDirectTransfer`. For a
DirectTransfer the locks root is unchanged: the declared root must be the root of
the tree of the endpoint; then the balance proof is replaced. -/
def EndState.registerDirectTransfer (P : Params) (node : EndState) (tr : DirectTransfer) :
    EndState × Option Err :=
  if tr.env.Locksroot ≠ MerkleRoot P node.Tree then
    (node, some (.InvalidLocksRoot (MerkleRoot P node.Tree) tr.env.Locksroot))
  else
    (node.setBalanceProof tr.env, none)

/-- Modelled from the spec: `EndState.registerMediatedMessage`. A lock with the
same secret hash must not exist yet, the declared locks root must equal the one
recomputed after adding the lock, and the transferred amount is unchanged; then
the lock becomes pending, the tree is the one with the lock added and the balance
proof is replaced. -/
def EndState.registerMediatedMessage (P : Params) (node : EndState) (tr : MediatedTransfer) :
    EndState × Option Err :=
  let lock : Lock :=
    { Amount := tr.PaymentAmount, Expiration := tr.Expiration, LockSecretHash := tr.LockSecretHash }
  if node.IsKnown lock.LockSecretHash then
    (node, some .ErrUnspecified)
  else if (node.computeMerkleRootWith P lock).2 ≠ tr.env.Locksroot then
    (node, some (.InvalidLocksRoot (node.computeMerkleRootWith P lock).2 tr.env.Locksroot))
  else if tr.env.TransferAmount ≠ node.TransferAmount then
    (node, some .ErrChannelTransferAmountMismatch)
  else
    (EndState.setBalanceProof
      { node with
        Lock2PendingLocks := node.Lock2PendingLocks ++ [(lock.LockSecretHash, { Lock := lock })]
        Tree := (node.computeMerkleRootWith P lock).1 } tr.env, none)

/-- Modelled from the spec: `EndState.registerSecretMessage`. For an Unlock the
revealed secret must unlock a lock the endpoint holds, the locks root must equal
the root of the tree without that lock and the transferred amount must equal
`from.transferred + lock.amount`; then the lock is gone from the maps and the
tree, and the balance proof is replaced. -/
def EndState.registerSecretMessage (P : Params) (node : EndState) (tr : UnLock) :
    EndState × Option Err :=
  match node.getLockByHashlock (P.ShaSecret tr.LockSecret) with
  | none => (node, some .ErrChannelLockSecretHashNotFound)
  | some lock =>
    match node.computeMerkleRootWithout P lock with
    | .error e => (node, some e)
    | .ok (newtree, newLocksroot) =>
      if tr.env.Locksroot ≠ newLocksroot then
        (node, some (.InvalidLocksRoot newLocksroot tr.env.Locksroot))
      else if tr.env.TransferAmount ≠ node.TransferAmount + lock.Amount then
        (node, some .ErrChannelTransferAmountMismatch)
      else
        (EndState.setBalanceProof
          { node with
            Lock2PendingLocks :=
              node.Lock2PendingLocks.filter (fun kv => kv.1 ≠ P.ShaSecret tr.LockSecret)
            Lock2UnclaimedLocks :=
              node.Lock2UnclaimedLocks.filter (fun kv => kv.1 ≠ P.ShaSecret tr.LockSecret)
            Tree := newtree } tr.env, none)

/-- Modelled from the spec: `EndState.TryRemoveHashLock`,
`try_remove_hash_lock(hash, block, must_be_expired)`: returns the lock, the tree
without it and the new root; fails if the lock is missing, if `must_be_expired`
and `block ≤ expiration + fork_confirm`, or if the secret of the lock is already
known. Nothing is mutated. -/
def EndState.TryRemoveHashLock (P : Params) (node : EndState) (lockSecretHash : Hash)
    (blockNumber : Int) (mustExpired : Bool) : Except Err (Lock × List Lock × Hash) :=
  match node.Lock2PendingLocks.lookup lockSecretHash with
  | none =>
    if (node.Lock2UnclaimedLocks.lookup lockSecretHash).isSome then
      .error .ErrUnspecified
    else
      .error .ErrChannelLockSecretHashNotFound
  | some pl =>
    if mustExpired = true ∧ blockNumber ≤ pl.Lock.Expiration + P.ForkConfirmNumber then
      .error .ErrUnspecified
    else
      match node.computeMerkleRootWithout P pl.Lock with
      | .error e => .error e
      | .ok (newtree, newlocksroot) => .ok (pl.Lock, newtree, newlocksroot)

/-- Modelled from the spec: `EndState.registerRemoveLock`. The checks of a
RemoveExpiredHashlock and of an AnnounceDisposedResponse (transferred amount
unchanged, lock removable, locks root equal to tree-minus-lock) are those of
`Channel.registerRemoveLock`; what is left for the endpoint is to drop the lock
from its maps and to replace the balance proof. -/
def EndState.registerRemoveLock (node : EndState) (msg : EnvelopMessager)
    (lockSecretHash : Hash) : EndState × Option Err :=
  (EndState.setBalanceProof
    { node with
      Lock2PendingLocks := node.Lock2PendingLocks.filter (fun kv => kv.1 ≠ lockSecretHash)
      Lock2UnclaimedLocks := node.Lock2UnclaimedLocks.filter (fun kv => kv.1 ≠ lockSecretHash) }
    msg.GetEnvelopMessage, none)

/-! ## Channel queries -/

/-- The method `Channel.Distributable`. -/
def Channel.Distributable (c : Channel) : Int :=
  c.OurState.Distributable c.PartnerState

/-- The method `Channel.CanTransfer`. -/
def Channel.CanTransfer (c : Channel) : Bool :=
  CanTransferMap c.State

/-- The method `Channel.IsClosed`. -/
def Channel.IsClosed (c : Channel) : Bool :=
  c.State == .StateClosed

/-- The method `Channel.GetSettleExpiration`. -/
def Channel.GetSettleExpiration (c : Channel) (blocknumer : Int) : Int :=
  if c.ExternState.ClosedBlock ≠ 0 then
    addInt64 c.ExternState.ClosedBlock c.SettleTimeout
  else
    addInt64 blocknumer c.SettleTimeout

/-- The method `Channel.isChannelIdentifierValid`. -/
def Channel.isChannelIdentifierValid (c : Channel) (evMsg : EnvelopMessage) : Bool :=
  evMsg.ChannelIdentifier == c.ChannelIdentifier.ChannelIdentifier &&
    evMsg.OpenBlockNumber == c.ChannelIdentifier.OpenBlockNumber

/-- The method `Channel.GetNextNonce`. -/
def Channel.GetNextNonce (c : Channel) : Nat :=
  if c.OurState.nonce ≠ 0 then
    addUint64 c.OurState.nonce 1
  else
    1

/-! ## Registration of received envelope messages -/

/-- The method `Channel.PreCheckRecievedTransfer`: on success the pointers
`fromState` and `toState`. -/
def Channel.PreCheckRecievedTransfer (c : Channel) (tr : EnvelopMessager) :
    Except Err (EndPtr × EndPtr) :=
  let evMsg := tr.GetEnvelopMessage
  if ¬ c.isChannelIdentifierValid evMsg = true then
    .error .ErrChannelIdentifierMismatch
  else
    let ends : Option (EndPtr × EndPtr) :=
      if tr.GetSender = c.OurState.Address then
        some (.our, .partner)
      else if tr.GetSender = c.PartnerState.Address then
        some (.partner, .our)
      else
        none
    match ends with
    | none => .error .ErrChannelNotParticipant
    | some (fromState, toState) =>
      if evMsg.Nonce < 1 ∨ evMsg.Nonce ≠ addUint64 (c.deref fromState).nonce 1 then
        .error .InvalidNonce
      else if evMsg.TransferAmount < (c.deref fromState).TransferAmount then
        .error .ErrChannelTransferAmountDecrease
      else
        .ok (fromState, toState)

/-- The method `Channel.registerUnlock`. -/
def Channel.registerUnlock (P : Params) (c : Channel) (tr : UnLock) (_blockNumber : Int) :
    Channel × Option Err :=
  if c.IsClosed = true then
    (c, some .ErrUpdateBalanceProofAfterClosed)
  else
    match c.PreCheckRecievedTransfer (.UnLock tr) with
    | .error e => (c, some e)
    | .ok (fromState, _) =>
      let r := (c.deref fromState).registerSecretMessage P tr
      (c.assign fromState r.1, r.2)

/-- The method `Channel.registerDirectTransfer`. -/
def Channel.registerDirectTransfer (P : Params) (c : Channel) (tr : DirectTransfer)
    (_blockNumber : Int) : Channel × Option Err :=
  if c.IsClosed = true then
    (c, some .ErrUpdateBalanceProofAfterClosed)
  else
    match c.PreCheckRecievedTransfer (.DirectTransfer tr) with
    | .error e => (c, some e)
    | .ok (fromState, toState) =>
      let amount := tr.env.TransferAmount - (c.deref fromState).TransferAmount
      if amount ≤ 0 then
        (c, some .ErrChannelTransferAmountMismatch)
      else if amount > (c.deref fromState).Distributable (c.deref toState) then
        (c, some .ErrChannelTransferAmountMismatch)
      else
        let r := (c.deref fromState).registerDirectTransfer P tr
        (c.assign fromState r.1, r.2)

/-- The method `Channel.registerMediatedTranser`. -/
def Channel.registerMediatedTranser (P : Params) (c : Channel) (tr : MediatedTransfer)
    (blockNumber : Int) : Channel × Option Err :=
  if c.IsClosed = true then
    (c, some .ErrUpdateBalanceProofAfterClosed)
  else
    match c.PreCheckRecievedTransfer (.MediatedTransfer tr) with
    | .error e => (c, some e)
    | .ok (fromState, toState) =>
      let amount := tr.PaymentAmount
      if amount ≤ 0 then
        (c, some .ErrChannelTransferAmountMismatch)
      else if amount > (c.deref fromState).Distributable (c.deref toState) then
        (c, some .ErrInsufficientBalance)
      else
        let endSettlePeriod := c.GetSettleExpiration blockNumber
        let expiresAfterSettle := decide (tr.Expiration > endSettlePeriod)
        if expiresAfterSettle = true then
          (c, some .ErrChannelLockExpirationTooLarge)
        else
          let r := (c.deref fromState).registerMediatedMessage P tr
          (c.assign fromState r.1, r.2)

/-- The method `Channel.registerRemoveLock`. -/
def Channel.registerRemoveLock (P : Params) (c : Channel) (messager : EnvelopMessager)
    (blockNumber : Int) (lockSecretHash : Hash) (mustExpired : Bool) : Channel × Option Err :=
  if c.IsClosed = true then
    (c, some .ErrUpdateBalanceProofAfterClosed)
  else
    let msg := messager.GetEnvelopMessage
    match c.PreCheckRecievedTransfer messager with
    | .error e => (c, some e)
    | .ok (fromState, _) =>
      if msg.TransferAmount ≠ (c.deref fromState).TransferAmount then
        (c, some .ErrChannelTransferAmountMismatch)
      else
        match (c.deref fromState).TryRemoveHashLock P lockSecretHash blockNumber mustExpired with
        | .error e => (c, some e)
        | .ok (_, newtree, newlocksroot) =>
          if newlocksroot ≠ msg.Locksroot then
            (c, some (.InvalidLocksRoot newlocksroot msg.Locksroot))
          else
            let c1 := c.assign fromState { c.deref fromState with Tree := newtree }
            let r := (c1.deref fromState).registerRemoveLock messager lockSecretHash
            (c1.assign fromState r.1, r.2)

/-- The method `Channel.RegisterRemoveExpiredHashlockTransfer`. -/
def Channel.RegisterRemoveExpiredHashlockTransfer (P : Params) (c : Channel)
    (tr : RemoveExpiredHashlockTransfer) (blockNumber : Int) : Channel × Option Err :=
  c.registerRemoveLock P (.RemoveExpiredHashlockTransfer tr) blockNumber tr.LockSecretHash true

/-- The method `Channel.RegisterAnnounceDisposedResponse`. -/
def Channel.RegisterAnnounceDisposedResponse (P : Params) (c : Channel)
    (response : AnnounceDisposedResponse) (blockNumber : Int) : Channel × Option Err :=
  c.registerRemoveLock P (.AnnounceDisposedResponse response) blockNumber
    response.LockSecretHash false

/-- The method `Channel.RegisterTransfer`. -/
def Channel.RegisterTransfer (P : Params) (c : Channel) (blocknumber : Int)
    (tr : EnvelopMessager) : Channel × Option Err :=
  match tr with
  | .MediatedTransfer msg => c.registerMediatedTranser P msg blocknumber
  | .DirectTransfer msg => c.registerDirectTransfer P msg blocknumber
  | .UnLock msg => c.registerUnlock P msg blocknumber
  | .AnnounceDisposedResponse msg => c.RegisterAnnounceDisposedResponse P msg blocknumber
  | .RemoveExpiredHashlockTransfer msg => c.RegisterRemoveExpiredHashlockTransfer P msg blocknumber

/-! ## Construction of outgoing messages -/

/-- Modelled from the spec: the sender of a message that carries no signature
yet, the all-zero address. -/
def EmptyAddress : Address := 0

/-- Modelled from the spec: the function `encoding.NewBalanceProof`, the envelope
of a message that the caller still has to sign. -/
def NewBalanceProof (nonce : Nat) (transferAmount : Int) (locksRoot : Hash)
    (channelIdentifier : ChannelUniqueID) : EnvelopMessage :=
  { Nonce := nonce
    ChannelIdentifier := channelIdentifier.ChannelIdentifier
    OpenBlockNumber := channelIdentifier.OpenBlockNumber
    TransferAmount := transferAmount
    Locksroot := locksRoot
    Sender := EmptyAddress }

/-- The method `Channel.CreateDirectTransfer`. No field of the channel is
assigned, so the channel after the call is the channel before it. -/
def Channel.CreateDirectTransfer (P : Params) (c : Channel) (amount : Int) :
    Channel × Except Err DirectTransfer :=
  if ¬ c.CanTransfer = true then
    (c, .error (.ChannelStateError c.State))
  else
    let fromState := c.OurState
    let toState := c.PartnerState
    let distributable := fromState.Distributable toState
    if amount ≤ 0 ∨ amount > distributable then
      (c, .error .ErrInsufficientBalance)
    else
      let transferAmount := fromState.TransferAmount + amount
      let currentLocksroot := MerkleRoot P fromState.Tree
      let nonce := c.GetNextNonce
      let bp := NewBalanceProof nonce transferAmount currentLocksroot c.ChannelIdentifier
      (c, .ok { env := bp })

/-- The method `Channel.CreateMediatedTransfer`. No field of the channel is
assigned, so the channel after the call is the channel before it. -/
def Channel.CreateMediatedTransfer (P : Params) (c : Channel) (initiator target : Address)
    (fee amount : Int) (expiration : Int) (lockSecretHash : Hash) (path : List Address) :
    Channel × Except Err MediatedTransfer :=
  if ¬ c.CanTransfer = true then
    (c, .error (.ChannelStateError c.State))
  else if amount ≤ 0 ∨ amount > c.Distributable then
    (c, .error .ErrInsufficientBalance)
  else
    let fromState := c.OurState
    let lock : Lock := { Amount := amount, Expiration := expiration, LockSecretHash := lockSecretHash }
    let updatedLocksroot := (fromState.computeMerkleRootWith P lock).2
    let transferAmount := fromState.TransferAmount
    let nonce := c.GetNextNonce
    let bp := NewBalanceProof nonce transferAmount updatedLocksroot c.ChannelIdentifier
    (c, .ok { env := bp
              PaymentAmount := lock.Amount
              Expiration := lock.Expiration
              LockSecretHash := lock.LockSecretHash
              Target := target
              Initiator := initiator
              Fee := fee
              Path := path })

/-! ## On-chain event handlers -/

/-- Modelled from the spec: `transfer.NewEmptyBalanceProofState`, the empty
balance proof: nonce 0, nothing transferred, the empty locks root, and nothing
mirrored from the chain. -/
def NewEmptyBalanceProofState : BalanceProofState :=
  { Nonce := 0
    TransferAmount := 0
    LocksRoot := EmptyHash
    ContractTransferAmount := 0
    ContractLocksRoot := EmptyHash
    ContractNonce := 0 }

/-- Modelled from the spec: the balance proof record of an endpoint that a setter
of the contract mirror writes into; an endpoint without a balance proof has the
empty one. -/
def EndState.proofOrEmpty (node : EndState) : channel.BalanceProofState :=
  match node.BalanceProofState with
  | some bp => bp
  | none => NewEmptyBalanceProofState

/-- Modelled from the spec: `EndState.SetContractTransferAmount`, which sets the
`contract_transferred_amount` mirrored from the chain. -/
def EndState.SetContractTransferAmount (node : EndState) (amount : Int) : EndState :=
  { node with BalanceProofState := some { node.proofOrEmpty with ContractTransferAmount := amount } }

/-- Modelled from the spec: `EndState.SetContractLocksroot`, which sets the
`contract_locks_root` mirrored from the chain. -/
def EndState.SetContractLocksroot (node : EndState) (locksroot : Hash) : EndState :=
  { node with BalanceProofState := some { node.proofOrEmpty with ContractLocksRoot := locksroot } }

/-- Modelled from the spec: `EndState.SetContractNonce`, which sets the
`contract_nonce` mirrored from the chain. -/
def EndState.SetContractNonce (node : EndState) (nonce : Nat) : EndState :=
  { node with BalanceProofState := some { node.proofOrEmpty with ContractNonce := nonce } }

/-- The method `Channel.HandleChannelPunished`; `none` is the panic on an address
that is no participant. -/
def Channel.HandleChannelPunished (c : Channel) (beneficiaries : Address) : Option Channel :=
  let ends : Option (EndPtr × EndPtr) :=
    if beneficiaries = c.OurState.Address then
      some (.our, .partner)
    else if beneficiaries = c.PartnerState.Address then
      some (.partner, .our)
    else
      none
  match ends with
  | none => none
  | some (beneficiaryState, cheaterState) =>
    let c1 := c.assign beneficiaryState ((c.deref beneficiaryState).SetContractTransferAmount 0)
    let c2 := c1.assign beneficiaryState ((c1.deref beneficiaryState).SetContractLocksroot EmptyHash)
    let c3 := c2.assign beneficiaryState
      ((c2.deref beneficiaryState).SetContractNonce 0xffffffffffffffff)
    let c4 := c3.assign beneficiaryState
      { c3.deref beneficiaryState with
        ContractBalance :=
          (c3.deref beneficiaryState).ContractBalance + (c3.deref cheaterState).ContractBalance }
    let c5 := c4.assign cheaterState { c4.deref cheaterState with ContractBalance := 0 }
    some c5

/-- The method `Channel.HandleSettled`. -/
def Channel.HandleSettled (c : Channel) (_blockNumber : Int) : Channel :=
  { c with State := .StateSettled }

/-- The method `Channel.HandleWithdrawed`; `none` is the panic on addresses that
are not the two participants. -/
def Channel.HandleWithdrawed (c : Channel) (newOpenBlockNumber : Int)
    (participant1 participant2 : Address) (participant1Balance participant2Balance : Int) :
    Option Channel :=
  let ends : Option (EndPtr × EndPtr) :=
    if c.OurState.Address = participant1 ∧ c.PartnerState.Address = participant2 then
      some (.our, .partner)
    else if c.OurState.Address = participant2 ∧ c.PartnerState.Address = participant1 then
      some (.partner, .our)
    else
      none
  match ends with
  | none => none
  | some (p1, p2) =>
    let c1 : Channel :=
      { c with
        ChannelIdentifier := { c.ChannelIdentifier with OpenBlockNumber := newOpenBlockNumber }
        State := .StateOpened
        ExternState :=
          { ChannelIdentifier :=
              { c.ExternState.ChannelIdentifier with OpenBlockNumber := newOpenBlockNumber }
            ClosedBlock := 0
            SettledBlock := 0 } }
    let c2 := c1.assign p1
      { c1.deref p1 with
        ContractBalance := participant1Balance
        BalanceProofState := some NewEmptyBalanceProofState
        Lock2PendingLocks := []
        Lock2UnclaimedLocks := []
        Tree := [] }
    let c3 := c2.assign p2
      { c2.deref p2 with
        ContractBalance := participant2Balance
        BalanceProofState := some NewEmptyBalanceProofState
        Lock2PendingLocks := []
        Lock2UnclaimedLocks := []
        Tree := [] }
    some c3

/-! ## Cooperative settle and withdraw -/

/-- Modelled from the spec: the message `encoding.WithdrawRequest`,
`{participant1, participant2, balances, withdraw_amount}` with the
channel identifier; `Sender` is the signer. -/
structure WithdrawRequest where
  ChannelIdentifier : Hash
  OpenBlockNumber : Int
  Participant1 : Address
  Participant2 : Address
  Participant1Balance : Int
  Participant1Withdraw : Int
  Sender : Address
  deriving DecidableEq, Repr

/-- Modelled from the spec: the message `encoding.SettleRequest`,
`{participant1, participant2, balances}` with the channel identifier; `Sender`
is the signer. -/
structure SettleRequest where
  ChannelIdentifier : Hash
  OpenBlockNumber : Int
  Participant1 : Address
  Participant2 : Address
  Participant1Balance : Int
  Participant2Balance : Int
  Sender : Address
  deriving DecidableEq, Repr

/-- The method `Channel.CreateWithdrawRequest`. The result is the pair `(w, err)`
of the Go function, both of which may be set; `none` is the nil dereference of
`w.Participant1Balance`, read while `w` is still unassigned. -/
def Channel.CreateWithdrawRequest (c : Channel) (withdrawAmount : Int) :
    Option (Option WithdrawRequest × Option Err) :=
  let err : Option Err :=
    if c.OurState.Lock2PendingLocks.length > 0 ∨
        c.OurState.Lock2PendingLocks.length > 0 ∨
        c.PartnerState.Lock2PendingLocks.length > 0 ∨
        c.PartnerState.Lock2UnclaimedLocks.length > 0 then
      some .ErrChannelWithdrawButHasLocks
    else
      none
  let d : WithdrawRequest :=
    { ChannelIdentifier := c.ChannelIdentifier.ChannelIdentifier
      OpenBlockNumber := c.ChannelIdentifier.OpenBlockNumber
      Participant1 := c.OurState.Address
      Participant2 := c.PartnerState.Address
      Participant1Balance := c.OurState.Balance c.PartnerState
      Participant1Withdraw := withdrawAmount
      Sender := EmptyAddress }
  if withdrawAmount > d.Participant1Balance then
    none
  else
    some (some d, err)

/-- The method `Channel.hasAnyLock`. -/
def Channel.hasAnyLock (c : Channel) : Bool :=
  if c.PartnerState.Lock2UnclaimedLocks.length > 0 ∨
      c.PartnerState.Lock2PendingLocks.length > 0 ∨
      c.OurState.Lock2UnclaimedLocks.length > 0 ∨
      c.OurState.Lock2PendingLocks.length > 0 then
    true
  else
    false

/-- The method `Channel.RegisterWithdrawRequest`. -/
def Channel.RegisterWithdrawRequest (c : Channel) (tr : WithdrawRequest) :
    Channel × Option Err :=
  if c.ChannelIdentifier.ChannelIdentifier ≠ tr.ChannelIdentifier ∨
      c.ChannelIdentifier.OpenBlockNumber ≠ tr.OpenBlockNumber then
    (c, some .ErrChannelIdentifierMismatch)
  else if tr.Sender ≠ c.PartnerState.Address then
    (c, some .ErrChannelInvalidSender)
  else if c.PartnerState.Balance c.OurState ≠ tr.Participant1Balance then
    (c, some .ErrChannelBalanceNotMatch)
  else if c.PartnerState.Lock2UnclaimedLocks.length > 0 ∨
      c.PartnerState.Lock2PendingLocks.length > 0 ∨
      c.OurState.Lock2UnclaimedLocks.length > 0 then
    (c, some .ErrChannelWithdrawButHasLocks)
  else
    ({ c with State := .StatePartnerWithdrawing }, none)

/-- The method `Channel.CreateCooperativeSettleRequest`. The result is the pair
`(s, err)` of the Go function; the request is built whether or not `err` is
set. -/
def Channel.CreateCooperativeSettleRequest (c : Channel) : SettleRequest × Option Err :=
  let err : Option Err :=
    if c.OurState.Lock2PendingLocks.length > 0 ∨
        c.OurState.Lock2PendingLocks.length > 0 ∨
        c.PartnerState.Lock2PendingLocks.length > 0 ∨
        c.PartnerState.Lock2UnclaimedLocks.length > 0 then
      some .ErrChannelCooperativeSettleButHasLocks
    else
      none
  ({ ChannelIdentifier := c.ChannelIdentifier.ChannelIdentifier
     OpenBlockNumber := c.ChannelIdentifier.OpenBlockNumber
     Participant1 := c.OurState.Address
     Participant2 := c.PartnerState.Address
     Participant1Balance := c.OurState.Balance c.PartnerState
     Participant2Balance := c.PartnerState.Balance c.OurState
     Sender := EmptyAddress }, err)

/-- The method `Channel.preCheckSettleDataInMessage`, on the settle data of a
message and its sender. -/
def Channel.preCheckSettleDataInMessage (c : Channel) (sd : SettleRequest) : Option Err :=
  if c.ChannelIdentifier.ChannelIdentifier ≠ sd.ChannelIdentifier ∨
      c.ChannelIdentifier.OpenBlockNumber ≠ sd.OpenBlockNumber then
    some .ErrChannelIdentifierMismatch
  else
    let ends : Option (EndPtr × EndPtr) :=
      if sd.Sender = c.OurState.Address then
        some (.our, .partner)
      else if sd.Sender = c.PartnerState.Address then
        some (.partner, .our)
      else
        none
    match ends with
    | none => some .ErrChannelInvalidSender
    | some (state1, state2) =>
      if ((c.deref state1).Address ≠ sd.Participant1 ∧ (c.deref state1).Address ≠ sd.Participant2) ∨
          ((c.deref state2).Address ≠ sd.Participant1 ∧
            (c.deref state2).Address ≠ sd.Participant2) ∨
          sd.Participant1 = sd.Participant2 then
        some .ErrChannelNotParticipant
      else if (c.deref state1).Address = sd.Participant1 then
        if (c.deref state1).Balance (c.deref state2) ≠ sd.Participant1Balance ∨
            (c.deref state2).Balance (c.deref state1) ≠ sd.Participant2Balance then
          some .ErrChannelBalanceNotMatch
        else
          none
      else
        if (c.deref state2).Balance (c.deref state1) ≠ sd.Participant1Balance ∨
            (c.deref state1).Balance (c.deref state2) ≠ sd.Participant2Balance then
          some .ErrChannelBalanceNotMatch
        else
          none

/-- The method `Channel.RegisterCooperativeSettleRequest`. -/
def Channel.RegisterCooperativeSettleRequest (c : Channel) (msg : SettleRequest) :
    Channel × Option Err :=
  match c.preCheckSettleDataInMessage msg with
  | some err => (c, some err)
  | none =>
    if c.PartnerState.Lock2UnclaimedLocks.length > 0 ∨
        c.PartnerState.Lock2PendingLocks.length > 0 ∨
        c.OurState.Lock2UnclaimedLocks.length > 0 then
      (c, some .ErrChannelCooperativeSettleButHasLocks)
    else
      ({ c with State := .StatePartnerCooperativeSettling }, none)

/-- The method `Channel.PrepareForWithdraw`. -/
def Channel.PrepareForWithdraw (c : Channel) : Channel × Option Err :=
  if c.State ≠ .StateOpened then
    (c, some .ErrChannelNotAllowWithdraw)
  else
    ({ c with State := .StatePrepareForWithdraw }, none)

/-- The method `Channel.PrepareForCooperativeSettle`. -/
def Channel.PrepareForCooperativeSettle (c : Channel) : Channel × Option Err :=
  if c.State ≠ .StateOpened then
    (c, some (.ChannelStateError c.State))
  else
    ({ c with State := .StatePrepareForCooperativeSettle }, none)

/-- The method `Channel.CancelWithdrawOrCooperativeSettle`. -/
def Channel.CancelWithdrawOrCooperativeSettle (c : Channel) : Channel × Option Err :=
  if c.ExternState.ClosedBlock ≠ 0 then
    (c, some (.ChannelStateError c.State))
  else if c.State ≠ .StatePrepareForCooperativeSettle ∧ c.State ≠ .StatePrepareForWithdraw then
    (c, some (.ChannelStateError c.State))
  else
    ({ c with State := .StateOpened }, none)

/-- The method `Channel.Close`. `externClose` is the outcome of the call
`ExternState.Close(bp)` into the chain client. -/
def Channel.Close (externClose : Option BalanceProofState → Option Err) (c : Channel) :
    Channel × Option Err :=
  if c.State = .StateClosed ∨ c.State = .StateSettled then
    (c, some (.ChannelStateError c.State))
  else
    let bp := c.PartnerState.BalanceProofState
    match externClose bp with
    | some err => (c, some err)
    | none => ({ c with State := .StateClosing }, none)

/-- The method `Channel.Settle`. `externSettle` is the outcome of the call
`ExternState.Settle(...)` into the chain client. -/
def Channel.Settle (externSettle : Int → Int → Hash → Hash → Option Err) (c : Channel)
    (blockNumber : Int) : Channel × Option Err :=
  if c.State ≠ .StateClosed then
    (c, some (.ChannelStateError c.State))
  else
    let mine : Int × Hash :=
      match c.OurState.BalanceProofState with
      | some bp => (bp.ContractTransferAmount, bp.ContractLocksRoot)
      | none => (0, EmptyHash)
    let partner : Int × Hash :=
      match c.PartnerState.BalanceProofState with
      | some bp => (bp.ContractTransferAmount, bp.ContractLocksRoot)
      | none => (0, EmptyHash)
    if c.ExternState.SettledBlock > blockNumber then
      (c, some .ErrChannelSettleTimeout)
    else
      match externSettle mine.1 partner.1 mine.2 partner.2 with
      | some err => (c, some err)
      | none => ({ c with State := .StateSettling }, none)

/-! ## Concrete data for the examples -/

/-- A toy instance of the hashing parameters. -/
def exParams : Params :=
  { HashLeaves := fun ls => 1 + (ls.map (fun l => l.LockSecretHash)).sum
    ShaSecret := fun s => s + 1000
    ForkConfirmNumber := 17 }

/-- An endpoint with a deposit and no balance proof yet. -/
def exEnd (addr : Address) (deposit : Int) : EndState :=
  { Address := addr
    ContractBalance := deposit
    BalanceProofState := none
    Lock2PendingLocks := []
    Lock2UnclaimedLocks := []
    Tree := [] }

/-- A channel between the addresses 1 (ours) and 2 (partner), 100 tokens
deposited on each side, reveal timeout 10, settle timeout 100. -/
def exChannel (st : State) : Channel :=
  { OurState := exEnd 1 100
    PartnerState := exEnd 2 100
    ExternState := { ClosedBlock := 0, SettledBlock := 0, ChannelIdentifier := ⟨7, 5⟩ }
    ChannelIdentifier := ⟨7, 5⟩
    TokenAddress := 9
    RevealTimeout := 10
    SettleTimeout := 100
    State := st }

/-- The envelope of a message on `exChannel`. -/
def exEnv (nonce : Nat) (transferred : Int) (root : Hash) (sender : Address) : EnvelopMessage :=
  { Nonce := nonce
    ChannelIdentifier := 7
    OpenBlockNumber := 5
    TransferAmount := transferred
    Locksroot := root
    Sender := sender }

/-- The example channel in `StateClosed` after both sides have exchanged balance
proofs: ours with nonce 2 and 10 transferred, the one of the partner with nonce 3
and 20 transferred, each mirrored from the chain. -/
def exChannelMirror : Channel :=
  { exChannel .StateClosed with
    OurState :=
      { exEnd 1 100 with
        BalanceProofState := some
          { Nonce := 2, TransferAmount := 10, LocksRoot := 0,
            ContractTransferAmount := 10, ContractLocksRoot := 44, ContractNonce := 2 } }
    PartnerState :=
      { exEnd 2 100 with
        BalanceProofState := some
          { Nonce := 3, TransferAmount := 20, LocksRoot := 0,
            ContractTransferAmount := 20, ContractLocksRoot := 55, ContractNonce := 3 } } }

/-- The opened example channel in which our endpoint holds one lock whose secret
is known (an unclaimed lock) and no other lock exists. -/
def exChannelUnclaimed : Channel :=
  { exChannel .StateOpened with
    OurState :=
      { exEnd 1 100 with
        Lock2UnclaimedLocks :=
          [(77, { Lock := { Amount := 30, Expiration := 150, LockSecretHash := 77 },
                  Secret := 5, IsRegisteredOnChain := false })]
        Tree := [{ Amount := 30, Expiration := 150, LockSecretHash := 77 }] } }


/-- The opened example channel as the partner holds it: the address 2 is ours
and the address 1 the partner; same deposits and same timeouts. -/
def exChannelPartner : Channel :=
  { exChannel .StateOpened with
    OurState := exEnd 2 100
    PartnerState := exEnd 1 100 }

/-- A withdraw request of 10 tokens on `exChannel`, signed by the partner 2, whose
balance is 100. -/
def exWithdrawRequest : WithdrawRequest :=
  { ChannelIdentifier := 7
    OpenBlockNumber := 5
    Participant1 := 2
    Participant2 := 1
    Participant1Balance := 100
    Participant1Withdraw := 10
    Sender := 2 }

/-- A cooperative settle request on `exChannel`, signed by the partner 2, with the
balance 100 on both sides. -/
def exSettleRequest : SettleRequest :=
  { ChannelIdentifier := 7
    OpenBlockNumber := 5
    Participant1 := 2
    Participant2 := 1
    Participant1Balance := 100
    Participant2Balance := 100
    Sender := 2 }

end channel

/-! # Mediator state machine

A shallow embedding of `transfer/mediatedtransfer/mediator/transition.go`.

Conventions of the embedding.

* A pair in `TransfersPair` is a pointer in Go and is updated in place; a loop
  over pairs is a function from the list of pairs to the updated list and the
  events it appends.
* A panic is the result `none`.
* `int64` and `int` arithmetic wraps around; `*big.Int` is `Int`.
* The declarations of the packages `mediatedtransfer`, `route`, `transfer` and
  `rerr` are modelled from the spec and from the way `transition.go` uses them.
* The time stamp of a fee record (`time.Now()`) and the database handle of the
  state are left out.
-/

namespace mediator

/-- Go subtraction on `int64` and on `int` (wrap-around, complement of two). -/
def subInt64 (a b : Int) : Int := (a - b + 2 ^ 63) % 2 ^ 64 - 2 ^ 63

/-- Modelled from the spec: the struct `route.State`, a route candidate
`{hop, channel, settle_timeout, reveal_timeout, total_fee, available_balance}`
derived from a live channel. The fields named after the methods `HopNode`,
`Channel`, `State`, `CanTransfer`, `AvailableBalance`, `SettleTimeout`,
`RevealTimeout` and `ClosedBlock` hold what these methods return during one
transition; `Fee`, `TotalFee`, `Path` and `ChannelIdentifier` are fields. -/
structure RouteState where
  HopNode : channel.Address
  Channel : channel.Channel
  ChannelIdentifier : channel.Hash
  State : channel.State
  CanTransfer : Bool
  AvailableBalance : Int
  SettleTimeout : Int
  RevealTimeout : Int
  ClosedBlock : Int
  Fee : Int
  TotalFee : Int
  Path : List channel.Address
  deriving DecidableEq, Repr

/-- Modelled from the spec: the struct `route.CanceledRoute`, a route that was
given up together with the reason; `Route` is a pointer and may be nil. -/
structure CanceledRoute where
  Route : Option RouteState
  Reason : String
  deriving DecidableEq, Repr

/-- Modelled from the spec: the struct `route.RoutesState`, the ordered lists of
routes of a payment. -/
structure RoutesState where
  AvailableRoutes : List RouteState
  IgnoredRoutes : List RouteState
  RefundedRoutes : List RouteState
  CanceledRoutes : List CanceledRoute
  deriving DecidableEq, Repr

/-- Modelled from the spec: the struct `mediatedtransfer.LockedTransferState`,
with the fields that the two files `transition.go` read and write. -/
structure LockedTransferState where
  TargetAmount : Int
  Amount : Int
  Token : channel.Address
  Initiator : channel.Address
  Target : channel.Address
  Expiration : Int
  LockSecretHash : channel.Hash
  Secret : channel.Hash
  Fee : Int
  Data : String
  deriving DecidableEq, Repr

/-- The parameters of the embedding: the hash of a secret (`utils.ShaSecret`),
the key of a state manager (`utils.Sha3` of the lock secret hash and the token),
the constant `params.ForkConfirmNumber`, and the method
`LockedTransferState.AlmostEqual`, which is declared in package
`mediatedtransfer`. -/
structure MediatorParams where
  ShaSecret : channel.Hash → channel.Hash
  Sha3 : channel.Hash → channel.Address → channel.Hash
  ForkConfirmNumber : Int
  AlmostEqual : LockedTransferState → LockedTransferState → Bool

/-- Modelled from the spec: the payee state tags `StatePayee...` of package
`mediatedtransfer`: `Pending, SecretRevealed, BalanceProof, Expired`. -/
inductive PayeeState where
  | StatePayeePending
  | StatePayeeSecretRevealed
  | StatePayeeBalanceProof
  | StatePayeeExpired
  deriving DecidableEq, Repr

/-- Modelled from the spec: the payer state tags `StatePayer...` of package
`mediatedtransfer`: `Pending, SecretRevealed, WaitingRegisterSecret, BalanceProof,
Expired`. -/
inductive PayerState where
  | StatePayerPending
  | StatePayerSecretRevealed
  | StatePayerWaitingRegisterSecret
  | StatePayerBalanceProof
  | StatePayerExpired
  deriving DecidableEq, Repr

/-- The table `stateSecretKnownMaps`, on payee tags. -/
def PayeeState.secretKnown (s : PayeeState) : Bool :=
  match s with
  | .StatePayeeSecretRevealed => true
  | .StatePayeeBalanceProof => true
  | _ => false

/-- The table `stateSecretKnownMaps`, on payer tags. -/
def PayerState.secretKnown (s : PayerState) : Bool :=
  match s with
  | .StatePayerSecretRevealed => true
  | .StatePayerWaitingRegisterSecret => true
  | .StatePayerBalanceProof => true
  | _ => false

/-- The table `stateTransferPaidMaps`, on payee tags. -/
def PayeeState.paid (s : PayeeState) : Bool :=
  match s with
  | .StatePayeeBalanceProof => true
  | _ => false

/-- The table `stateTransferPaidMaps`, on payer tags. -/
def PayerState.paid (s : PayerState) : Bool :=
  match s with
  | .StatePayerBalanceProof => true
  | _ => false

/-- The table `stateTransferFinalMaps`, on payee tags. -/
def PayeeState.final (s : PayeeState) : Bool :=
  match s with
  | .StatePayeeExpired => true
  | .StatePayeeBalanceProof => true
  | _ => false

/-- The table `stateTransferFinalMaps`, on payer tags. -/
def PayerState.final (s : PayerState) : Bool :=
  match s with
  | .StatePayerExpired => true
  | .StatePayerBalanceProof => true
  | _ => false

/-- Modelled from the spec: the struct `mediatedtransfer.MediationPairState`,
`{payer_route, payee_route, payer_transfer, payee_transfer, payer_state,
payee_state}`. -/
structure MediationPairState where
  PayerRoute : RouteState
  PayeeRoute : RouteState
  PayerTransfer : LockedTransferState
  PayeeTransfer : LockedTransferState
  PayerState : PayerState
  PayeeState : PayeeState
  deriving DecidableEq, Repr

/-- Modelled from the spec: the function `mediatedtransfer.NewMediationPairState`;
a new pair is pending on both sides. -/
def NewMediationPairState (payerRoute payeeRoute : RouteState)
    (payerTransfer payeeTransfer : LockedTransferState) : MediationPairState :=
  { PayerRoute := payerRoute
    PayeeRoute := payeeRoute
    PayerTransfer := payerTransfer
    PayeeTransfer := payeeTransfer
    PayerState := .StatePayerPending
    PayeeState := .StatePayeePending }

/-- Modelled from the spec: the struct `mediatedtransfer.MediatorState`,
`{our_address, routes, block_number, hashlock, secret, token, lock_secret_hash,
transfers_pair[]}`. -/
structure MediatorState where
  OurAddress : channel.Address
  Routes : RoutesState
  BlockNumber : Int
  Hashlock : channel.Hash
  Secret : channel.Hash
  Token : channel.Address
  LockSecretHash : channel.Hash
  TransfersPair : List MediationPairState
  deriving DecidableEq, Repr

/-- Modelled from the spec: the method `MediatorState.SetSecret`, which records
the secret: in the state and in the transfers of every pair (the sanity check
compares the secret of the first payer transfer with the one of the state). -/
def MediatorState.SetSecret (m : MediatorState) (secret : channel.Hash) : MediatorState :=
  { m with
    Secret := secret
    TransfersPair := m.TransfersPair.map (fun p =>
      { p with
        PayerTransfer := { p.PayerTransfer with Secret := secret }
        PayeeTransfer := { p.PayeeTransfer with Secret := secret } }) }

/-- Modelled from the spec: the reasons of package `rerr` that a refund carries.
`ErrNoAvailabeRoute` comes with the cause that `nextRoute` formats into its
message, if any. -/
inductive RouteProblem where
  | cannotTransfer
  | balanceNotEnough
  | tooNearLockExpiration
  | notEnoughFee
  | cycleRoute
  deriving DecidableEq, Repr

/-- Modelled from the spec: the type `rerr.StandardError`, for the errors that
`transition.go` names. -/
inductive StandardError where
  | ErrNoAvailabeRoute (cause : Option RouteProblem)
  | ErrRejectTransferBecauseChannelHoldingTooMuchLock
  | ErrRejectTransferBecausePayerChannelClosed
  deriving DecidableEq, Repr

/-- Modelled from the spec: the events of package `mediatedtransfer` that the
mediator emits, with the fields that `transition.go` sets. -/
inductive Event where
  | EventRemoveStateManager (Key : channel.Hash)
  | EventSendMediatedTransfer (Transfer : LockedTransferState) (Receiver : channel.Address)
      (Path : List channel.Address) (FromChannel : channel.Hash)
  | EventWithdrawFailed (LockSecretHash ChannelIdentifier : channel.Hash)
  | EventUnlockFailed (LockSecretHash ChannelIdentifier : channel.Hash)
  | EventSendAnnounceDisposed (Token : channel.Address) (Amount : Int)
      (LockSecretHash : channel.Hash) (Expiration : Int) (Receiver : channel.Address)
      (Reason : StandardError)
  | EventSendRevealSecret (LockSecretHash Secret : channel.Hash) (Token Receiver
      Sender : channel.Address)
  | EventSaveFeeChargeRecord (LockSecretHash : channel.Hash) (TokenAddress TransferFrom
      TransferTo : channel.Address) (TransferAmount : Int) (InChannel OutChannel : channel.Hash)
      (Fee : Int) (BlockNumber : Int)
  | EventSendBalanceProof (LockSecretHash ChannelIdentifier : channel.Hash)
      (Token Receiver : channel.Address)
  | EventUnlockSuccess (LockSecretHash : channel.Hash)
  | EventContractSendRegisterSecret (Secret : channel.Hash)
  | EventSendAnnounceDisposedResponse (Token : channel.Address) (LockSecretHash : channel.Hash)
      (Receiver : channel.Address)
  | EventContractSendUnlock (LockSecretHash ChannelIdentifier : channel.Hash)
  | EventWithdrawSuccess (LockSecretHash : channel.Hash)
  deriving DecidableEq, Repr

/-- Modelled from the spec: the state changes that the mediator handles, with the
fields that `transition.go` reads; `Other` is any other state change. -/
inductive StateChange where
  | ActionInitMediatorStateChange (OurAddress : channel.Address)
      (FromTranfer : LockedTransferState) (Routes : RoutesState) (FromRoute : RouteState)
      (BlockNumber : Int)
  | BlockStateChange (BlockNumber : Int)
  | ReceiveAnnounceDisposedStateChange (Sender : channel.Address) (Lock : channel.Lock)
      (Token : channel.Address) (MessageChannelIdentifier : channel.Hash)
  | ReceiveSecretRevealStateChange (Secret : channel.Hash) (Sender : channel.Address)
  | ContractSecretRevealOnChainStateChange (Secret LockSecretHash : channel.Hash)
      (BlockNumber : Int)
  | ReceiveUnlockStateChange (NodeAddress : channel.Address) (LockSecret : channel.Hash)
  | MediatorReReceiveStateChange (FromRoute : RouteState) (FromTransfer : LockedTransferState)
  | ContractCooperativeSettledStateChange (ChannelIdentifier : channel.Hash)
  | ContractChannelWithdrawStateChange (ChannelIdentifier : channel.ChannelUniqueID)
  | Other
  deriving DecidableEq, Repr

/-- Modelled from the spec: the struct `transfer.TransitionResult`. -/
structure TransitionResult where
  NewState : Option MediatorState
  Events : List Event
  deriving DecidableEq, Repr

/-! ## Predicates on transfers and pairs -/

/-- The function `isLockValid`. -/
def isLockValid (tr : LockedTransferState) (blockNumber : Int) : Bool :=
  decide (blockNumber ≤ tr.Expiration)

/-- The function `IsSafeToWait`. -/
def IsSafeToWait (tr : LockedTransferState) (revealTimeout : Int) (blockNumber : Int) : Bool :=
  decide (blockNumber < subInt64 tr.Expiration revealTimeout)

/-- The function `IsValidRefund`, on the sender, the lock and the token of a
`ReceiveAnnounceDisposedStateChange`. -/
def IsValidRefund (originTr : LockedTransferState) (originRoute : RouteState)
    (stSender : channel.Address) (stLock : channel.Lock) (stToken : channel.Address) : Bool :=
  if stSender = originTr.Target then
    false
  else if stSender ≠ originRoute.HopNode then
    false
  else
    decide (originTr.Amount = stLock.Amount) &&
      decide (originTr.LockSecretHash = stLock.LockSecretHash) &&
      decide (originTr.Token = stToken) &&
      decide (originTr.Expiration = stLock.Expiration)

/-- The function `isSecretRegisterNeeded`. -/
def isSecretRegisterNeeded (tr : MediationPairState) (blockNumber : Int) : Bool :=
  let payeeReceived := tr.PayeeState.paid
  let payerPayed := tr.PayerState.paid
  let channelClosed := decide (tr.PayerRoute.State = .StateClosed)
  let AlreadyRegisterring := decide (tr.PayerState = .StatePayerWaitingRegisterSecret)
  let safeToWait := IsSafeToWait tr.PayerTransfer tr.PayerRoute.RevealTimeout blockNumber
  ((payeeReceived && !safeToWait) || channelClosed) && !AlreadyRegisterring && !payerPayed

/-- The test of `getPendingTransferPairs`: the pair is not at a final state on
both sides. -/
def isPendingPair (pair : MediationPairState) : Bool :=
  !pair.PayeeState.final || !pair.PayerState.final

/-- The function `getPendingTransferPairs`. -/
def getPendingTransferPairs (pairs : List MediationPairState) : List MediationPairState :=
  pairs.filter isPendingPair

/-- The function `getTimeoutBlocks`; `none` is the panic on a closed block after
the current block. -/
def getTimeoutBlocks (payerRoute : RouteState) (payerTransfer : LockedTransferState)
    (blockNumber : Int) : Option Int :=
  let afterClose : Option Int :=
    if payerRoute.ClosedBlock ≠ 0 then
      if blockNumber < payerRoute.ClosedBlock then
        none
      else
        some (subInt64 payerRoute.SettleTimeout (subInt64 blockNumber payerRoute.ClosedBlock))
    else
      some payerRoute.SettleTimeout
  match afterClose with
  | none => none
  | some blocksUntilSettlement =>
    if blocksUntilSettlement > subInt64 payerTransfer.Expiration blockNumber then
      some (subInt64 payerTransfer.Expiration blockNumber)
    else
      some blocksUntilSettlement

/-- The second half of the loop of `sanityCheck`, on consecutive pairs: `true`
when no panic is raised. -/
def sanityCheckConsecutive (P : MediatorParams) : List MediationPairState → Bool
  | original :: refund :: rest =>
    P.AlmostEqual original.PayeeTransfer refund.PayerTransfer &&
      !decide (original.PayeeRoute.HopNode = refund.PayerRoute.HopNode) &&
      !decide (original.PayeeTransfer.Expiration < refund.PayerTransfer.Expiration) &&
      sanityCheckConsecutive P (refund :: rest)
  | _ => true

/-- The function `sanityCheck`: `true` when it returns, `false` when it panics.
The state tags are valid by their types (`ValidPayerStateMap`,
`ValidPayeeStateMap`). -/
def sanityCheck (P : MediatorParams) (state : MediatorState) : Bool :=
  if state.TransfersPair.length = 0 then
    true
  else
    (state.TransfersPair.all fun pair =>
        !(pair.PayerState.paid && decide (state.Secret = channel.EmptyHash)) &&
          !(pair.PayeeState.paid && decide (state.Secret = channel.EmptyHash))) &&
      (match state.TransfersPair with
        | [] => true
        | firstPair :: _ =>
          decide (state.Hashlock = firstPair.PayerTransfer.LockSecretHash) &&
            (decide (state.Secret = channel.EmptyHash) ||
              decide (firstPair.PayerTransfer.Secret = state.Secret))) &&
      (state.TransfersPair.all fun p =>
        P.AlmostEqual p.PayerTransfer p.PayeeTransfer &&
          !decide (p.PayerTransfer.Expiration < p.PayeeTransfer.Expiration)) &&
      sanityCheckConsecutive P state.TransfersPair

/-- The function `clearIfFinalized`. -/
def clearIfFinalized (P : MediatorParams) (result : TransitionResult) : TransitionResult :=
  match result.NewState with
  | none => result
  | some state =>
    let isAllFinalized := state.TransfersPair.all fun p => p.PayeeState.paid && p.PayerState.paid
    if isAllFinalized = true then
      { NewState := none
        Events := result.Events ++ [.EventRemoveStateManager (P.Sha3 state.LockSecretHash state.Token)] }
    else
      result

/-! ## Routes -/

/-- The loop of `nextRoute`, on the available routes still to be tried, the
ignored routes and the error so far: the route to use, the error, and the two
lists afterwards. -/
def nextRouteLoop (fromRoute : RouteState) (timeoutBlocks : Int) (transferAmount fee : Int) :
    List RouteState → List RouteState → Option StandardError →
    Option RouteState × Option StandardError × List RouteState × List RouteState
  | [], ignored, err => (none, err, [], ignored)
  | route :: rest, ignored, err =>
    let lockTimeout := subInt64 timeoutBlocks route.RevealTimeout
    if ¬ route.CanTransfer = true then
      nextRouteLoop fromRoute timeoutBlocks transferAmount fee rest (ignored ++ [route])
        (some (.ErrNoAvailabeRoute (some .cannotTransfer)))
    else if route.AvailableBalance < transferAmount then
      nextRouteLoop fromRoute timeoutBlocks transferAmount fee rest (ignored ++ [route])
        (some (.ErrNoAvailabeRoute (some .balanceNotEnough)))
    else if lockTimeout ≤ 0 then
      nextRouteLoop fromRoute timeoutBlocks transferAmount fee rest (ignored ++ [route])
        (some (.ErrNoAvailabeRoute (some .tooNearLockExpiration)))
    else if fee < route.Fee then
      nextRouteLoop fromRoute timeoutBlocks transferAmount fee rest (ignored ++ [route])
        (some (.ErrNoAvailabeRoute (some .notEnoughFee)))
    else if route.HopNode = fromRoute.HopNode then
      nextRouteLoop fromRoute timeoutBlocks transferAmount fee rest (ignored ++ [route])
        (some (.ErrNoAvailabeRoute (some .cycleRoute)))
    else
      (some route, err, rest, ignored)

/-- The function `nextRoute`: the route to use, the error, and the routes state
after the call. -/
def nextRoute (fromRoute : RouteState) (rss : RoutesState) (timeoutBlocks : Int)
    (transferAmount fee : Int) : Option RouteState × Option StandardError × RoutesState :=
  let r := nextRouteLoop fromRoute timeoutBlocks transferAmount fee rss.AvailableRoutes
    rss.IgnoredRoutes none
  (r.1, r.2.1, { rss with AvailableRoutes := r.2.2.1, IgnoredRoutes := r.2.2.2 })

/-- The function `nextTransferPair`: the pair, the events, the error and the
routes state after the call; `none` is a panic of one of its two assertions. -/
def nextTransferPair (payerRoute : RouteState) (payerTransfer : LockedTransferState)
    (routesState : RoutesState) (timeoutBlocks : Int) (blockNumber : Int) :
    Option (Option MediationPairState × List Event × Option StandardError × RoutesState) :=
  if timeoutBlocks ≤ 0 then
    none
  else if timeoutBlocks > subInt64 payerTransfer.Expiration blockNumber then
    none
  else
    let r := nextRoute payerRoute routesState timeoutBlocks payerTransfer.Amount payerTransfer.Fee
    match r.1 with
    | none => some (none, [], r.2.1, r.2.2)
    | some payeeRoute =>
      let timeoutBlocks :=
        if timeoutBlocks ≥ payeeRoute.SettleTimeout then payeeRoute.SettleTimeout
        else timeoutBlocks
      let lockTimeout := timeoutBlocks
      let lockExpiration := channel.addInt64 lockTimeout blockNumber
      let payeeTransfer : LockedTransferState :=
        { TargetAmount := payerTransfer.TargetAmount
          Amount := payerTransfer.Amount - payeeRoute.Fee
          Token := payerTransfer.Token
          Initiator := payerTransfer.Initiator
          Target := payerTransfer.Target
          Expiration := lockExpiration
          LockSecretHash := payerTransfer.LockSecretHash
          Secret := payerTransfer.Secret
          Fee := payerTransfer.Fee - payeeRoute.Fee
          Data := "" }
      let payeeTransfer : LockedTransferState :=
        if payeeRoute.HopNode = payeeTransfer.Target then
          { payeeTransfer with Fee := 0, Amount := payerTransfer.TargetAmount }
        else
          payeeTransfer
      let transferPair := NewMediationPairState payerRoute payeeRoute payerTransfer payeeTransfer
      let eventSendMediatedTransfer : Event :=
        .EventSendMediatedTransfer payeeTransfer payeeRoute.HopNode payeeRoute.Path
          payerRoute.ChannelIdentifier
      some (some transferPair, [eventSendMediatedTransfer], r.2.1, r.2.2)


/-! ## Loops over the pairs -/

/-- The loop of `setPayeeStateAndCheckRevealOrder`, on the pairs from the last to
the first: the first pair met whose payee hop is `payeeAddress` gets the new
payee state and the loop stops. -/
def setPayeeStateLoop (payeeAddress : channel.Address) (newPayeeState : PayeeState) :
    List MediationPairState → List MediationPairState
  | [] => []
  | back :: rest =>
    if back.PayeeRoute.HopNode = payeeAddress then
      { back with PayeeState := newPayeeState } :: rest
    else
      back :: setPayeeStateLoop payeeAddress newPayeeState rest

/-- The function `setPayeeStateAndCheckRevealOrder`: the pairs after the call and
the events, which are empty whether or not the reveal order was wrong. -/
def setPayeeStateAndCheckRevealOrder (transferPair : List MediationPairState)
    (payeeAddress : channel.Address) (newPayeeState : PayeeState) :
    List MediationPairState × List Event :=
  ((setPayeeStateLoop payeeAddress newPayeeState transferPair.reverse).reverse, [])

/-- The body of the loop of `setExpiredPairs` for one pending pair; `none` is the
panic on a payee expiration after the payer expiration. -/
def setExpiredPair (P : MediatorParams) (blockNumber : Int) (pair : MediationPairState) :
    Option (MediationPairState × List Event) :=
  let first : Option (MediationPairState × List Event) :=
    if blockNumber > pair.PayerTransfer.Expiration then
      if pair.PayeeTransfer.Expiration > pair.PayerTransfer.Expiration then
        none
      else if pair.PayerState ≠ .StatePayerExpired then
        some ({ pair with PayerState := .StatePayerExpired },
          [.EventWithdrawFailed pair.PayerTransfer.LockSecretHash
            pair.PayerRoute.ChannelIdentifier])
      else
        some (pair, [])
    else
      some (pair, [])
  match first with
  | none => none
  | some (pair, events) =>
    if subInt64 blockNumber P.ForkConfirmNumber > pair.PayeeTransfer.Expiration then
      if pair.PayeeTransfer.Expiration > pair.PayerTransfer.Expiration then
        none
      else if pair.PayeeState ≠ .StatePayeeExpired then
        some ({ pair with PayeeState := .StatePayeeExpired },
          events ++ [.EventUnlockFailed pair.PayeeTransfer.LockSecretHash
            pair.PayeeRoute.ChannelIdentifier])
      else
        some (pair, events)
    else
      some (pair, events)

/-- The loop of `setExpiredPairs`: the pending pairs are handled in order, the
other pairs are left alone. -/
def setExpiredPairsLoop (P : MediatorParams) (blockNumber : Int) :
    List MediationPairState → Option (List MediationPairState × List Event)
  | [] => some ([], [])
  | pair :: rest =>
    if isPendingPair pair = true then
      match setExpiredPair P blockNumber pair with
      | none => none
      | some (pair1, events) =>
        match setExpiredPairsLoop P blockNumber rest with
        | none => none
        | some (rest1, events1) => some (pair1 :: rest1, events ++ events1)
    else
      match setExpiredPairsLoop P blockNumber rest with
      | none => none
      | some (rest1, events1) => some (pair :: rest1, events1)

/-- The function `setExpiredPairs`: the pairs after the call, the events and
`allExpired`; `none` is a panic. -/
def setExpiredPairs (P : MediatorParams) (transfersPairs : List MediationPairState) (blockNumber : Int) :
    Option (List MediationPairState × List Event × Bool) :=
  let pendingTransfersPairs := getPendingTransferPairs transfersPairs
  let allExpired := decide (pendingTransfersPairs.length = 0)
  match setExpiredPairsLoop P blockNumber transfersPairs with
  | none => none
  | some (pairs, events) => some (pairs, events, allExpired)

/-- The function `eventsForRefund`. -/
def eventsForRefund (refundRoute : RouteState) (refundTransfer : LockedTransferState)
    (reason : StandardError) : List Event :=
  [.EventSendAnnounceDisposed refundTransfer.Token refundTransfer.Amount
    refundTransfer.LockSecretHash refundTransfer.Expiration refundRoute.HopNode reason]

/-- The body of the loop of `eventsForRevealSecret` for one pair. -/
def eventsForRevealSecretPair (ourAddress : channel.Address) (blockNumber : Int)
    (pair : MediationPairState) : MediationPairState × List Event :=
  let isPayeeSecretKnown := pair.PayeeState.secretKnown
  let isPayerSecretKnown := pair.PayerState.secretKnown
  let isExpired := decide (blockNumber > pair.PayerTransfer.Expiration)
  let tr := pair.PayerTransfer
  let first : MediationPairState × List Event :=
    if (isPayeeSecretKnown && !isPayerSecretKnown && !isExpired) = true then
      ({ pair with PayerState := .StatePayerSecretRevealed },
        [.EventSendRevealSecret tr.LockSecretHash tr.Secret tr.Token pair.PayerRoute.HopNode
          ourAddress])
    else
      (pair, [])
  if tr.Fee > 0 then
    (first.1, first.2 ++ [.EventSaveFeeChargeRecord tr.LockSecretHash tr.Token tr.Initiator
      tr.Target tr.TargetAmount pair.PayerRoute.ChannelIdentifier
      pair.PayeeRoute.ChannelIdentifier (pair.PayerTransfer.Fee - pair.PayeeTransfer.Fee)
      blockNumber])
  else
    first

/-- A loop `for j := len(pairs) - 1; j >= 0; j--` whose body handles the pair `j`
alone, on the pairs from the last to the first: the pairs after the loop, in the
same reversed order, and the events in the order in which they are appended. -/
def backwardLoop (body : MediationPairState → MediationPairState × List Event) :
    List MediationPairState → List MediationPairState × List Event
  | [] => ([], [])
  | pair :: rest =>
    ((body pair).1 :: (backwardLoop body rest).1, (body pair).2 ++ (backwardLoop body rest).2)

/-- The function `eventsForRevealSecret`: the pairs after the call and the
events. -/
def eventsForRevealSecret (transfersPair : List MediationPairState) (ourAddress : channel.Address)
    (blockNumber : Int) : List MediationPairState × List Event :=
  let r := backwardLoop (eventsForRevealSecretPair ourAddress blockNumber) transfersPair.reverse
  (r.1.reverse, r.2)

/-- The body of the loop of `eventsForBalanceProof` for one pair. -/
def eventsForBalanceProofPair (blockNumber : Int) (pair : MediationPairState) :
    MediationPairState × List Event :=
  let payeeKnowsSecret := pair.PayeeState.secretKnown
  let payeePayed := pair.PayeeState.paid
  let payeeChannelOpen := decide (pair.PayeeRoute.State = .StateOpened)
  let payerChannelOpen := decide (pair.PayerRoute.State = .StateOpened)
  let payerTransferInDanger :=
    decide (blockNumber > subInt64 pair.PayerTransfer.Expiration pair.PayerRoute.RevealTimeout)
  let lockValid := isLockValid pair.PayeeTransfer blockNumber
  if (payerChannelOpen && payeeChannelOpen && payeeKnowsSecret && !payeePayed && lockValid &&
      !payerTransferInDanger) = true then
    let tr := pair.PayeeTransfer
    ({ pair with PayeeState := .StatePayeeBalanceProof },
      [.EventSendBalanceProof tr.LockSecretHash pair.PayeeRoute.ChannelIdentifier tr.Token
          pair.PayeeRoute.HopNode,
        .EventUnlockSuccess pair.PayerTransfer.LockSecretHash])
  else
    (pair, [])

/-- The function `eventsForBalanceProof`: the pairs after the call and the
events. -/
def eventsForBalanceProof (transfersPair : List MediationPairState) (blockNumber : Int) :
    List MediationPairState × List Event :=
  let r := backwardLoop (eventsForBalanceProofPair blockNumber) transfersPair.reverse
  (r.1.reverse, r.2)

/-- The loop of `eventsForRegisterSecret`, on the pairs from the last to the
first, with the flag `needRegisterSecret` and the events so far: the pairs after
the loop, in the same reversed order, the flag and the events. A pair that
`getPendingTransferPairs` leaves out is skipped. -/
def eventsForRegisterSecretLoop (blockNumber : Int) :
    List MediationPairState → Bool → List Event → List MediationPairState × Bool × List Event
  | [], needRegisterSecret, events => ([], needRegisterSecret, events)
  | pair :: rest, needRegisterSecret, events =>
    if (isPendingPair pair && isSecretRegisterNeeded pair blockNumber) = true then
      if needRegisterSecret = true then
        let r := eventsForRegisterSecretLoop blockNumber rest needRegisterSecret events
        ({ pair with PayerState := .StatePayerWaitingRegisterSecret } :: r.1, r.2.1, r.2.2)
      else
        let r := eventsForRegisterSecretLoop blockNumber rest true
          (events ++ [.EventContractSendRegisterSecret pair.PayeeTransfer.Secret])
        ({ pair with PayerState := .StatePayerWaitingRegisterSecret } :: r.1, r.2.1, r.2.2)
    else
      let r := eventsForRegisterSecretLoop blockNumber rest needRegisterSecret events
      (pair :: r.1, r.2.1, r.2.2)

/-- The function `eventsForRegisterSecret`: the pairs after the call and the
events. -/
def eventsForRegisterSecret (transfersPair : List MediationPairState) (blockNumber : Int) :
    List MediationPairState × List Event :=
  let r := eventsForRegisterSecretLoop blockNumber transfersPair.reverse false []
  (r.1.reverse, r.2.2)


/-! ## Handlers -/

/-- The function `secretLearned`; `none` is the panic on a new payee state
outside `stateSecretKnownMaps`. -/
def secretLearned (state : MediatorState) (secret : channel.Hash)
    (payeeAddress : channel.Address) (newPayeeState : PayeeState) : Option TransitionResult :=
  if ¬ newPayeeState.secretKnown = true then
    none
  else
    let state := if state.Secret = channel.EmptyHash then state.SetSecret secret else state
    let r1 := setPayeeStateAndCheckRevealOrder state.TransfersPair payeeAddress newPayeeState
    let r2 := eventsForRevealSecret r1.1 state.OurAddress state.BlockNumber
    let r3 := eventsForBalanceProof r2.1 state.BlockNumber
    let r4 := eventsForRegisterSecret r3.1 state.BlockNumber
    some
      { NewState := some { state with TransfersPair := r4.1 }
        Events := r1.2 ++ r2.2 ++ r3.2 ++ r4.2 }

/-- The function `mediateTransfer`; `none` is a panic of `getTimeoutBlocks` or of
`nextTransferPair`. -/
def mediateTransfer (state : MediatorState) (payerRoute : RouteState)
    (payerTransfer : LockedTransferState) : Option TransitionResult :=
  match getTimeoutBlocks payerRoute payerTransfer state.BlockNumber with
  | none => none
  | some timeoutBlocks =>
    let next : Option (Option MediationPairState × List Event × Option StandardError ×
        RoutesState) :=
      if timeoutBlocks > 0 then
        nextTransferPair payerRoute payerTransfer state.Routes timeoutBlocks state.BlockNumber
      else
        some (none, [], none, state.Routes)
    match next with
    | none => none
    | some (none, _, err, routes) =>
      let err : StandardError :=
        match err with
        | some e => e
        | none => .ErrNoAvailabeRoute none
      let originalTransfer := payerTransfer
      let originalRoute := payerRoute
      let refundEvents := eventsForRefund originalRoute originalTransfer err
      some { NewState := some { state with Routes := routes }, Events := refundEvents }
    | some (some transferPair, events, _, routes) =>
      let state := { state with Routes := routes }
      let payerChannel := transferPair.PayerRoute.Channel
      if (payerChannel.PartnerState.Lock2PendingLocks.length : Int) +
          payerChannel.PartnerState.Lock2UnclaimedLocks.length > payerChannel.RevealTimeout then
        some
          { NewState := some state
            Events := eventsForRefund payerRoute payerTransfer
              .ErrRejectTransferBecauseChannelHoldingTooMuchLock }
      else
        some
          { NewState := some { state with TransfersPair := state.TransfersPair ++ [transferPair] }
            Events := events }

/-- The function `cancelCurrentRoute`; `none` is a panic. -/
def cancelCurrentRoute (state : MediatorState) (refundChannelIdentify : channel.Hash) :
    Option TransitionResult :=
  match state.TransfersPair.getLast? with
  | none => some { NewState := some state, Events := [] }
  | some transferPair =>
    let state := { state with TransfersPair := state.TransfersPair.dropLast }
    if refundChannelIdentify = transferPair.PayerRoute.ChannelIdentifier then
      none
    else if transferPair.PayerRoute.ClosedBlock ≠ 0 then
      some
        { NewState := some state
          Events := eventsForRefund transferPair.PayerRoute transferPair.PayerTransfer
            .ErrRejectTransferBecausePayerChannelClosed }
    else
      mediateTransfer state transferPair.PayerRoute transferPair.PayerTransfer

/-- The function `handleMediatedTransferAgain`. -/
def handleMediatedTransferAgain (state : MediatorState) (fromRoute : RouteState)
    (fromTransfer : LockedTransferState) : Option TransitionResult :=
  mediateTransfer state fromRoute fromTransfer

/-- The function `handleBlock`; `none` is a panic of `setExpiredPairs`. -/
def handleBlock (P : MediatorParams) (state : MediatorState) (stBlockNumber : Int) :
    Option TransitionResult :=
  let blockNumber := if state.BlockNumber < stBlockNumber then stBlockNumber else state.BlockNumber
  let state := { state with BlockNumber := blockNumber }
  let closed := eventsForRegisterSecret state.TransfersPair blockNumber
  match setExpiredPairs P closed.1 blockNumber with
  | none => none
  | some (pairs, unlockfailEvents, allExpired) =>
    let state := { state with TransfersPair := pairs }
    let events := closed.2 ++ unlockfailEvents
    let events :=
      if allExpired = true then
        events ++ [.EventRemoveStateManager (P.Sha3 state.LockSecretHash state.Token)]
      else
        events
    some { NewState := some state, Events := events }

/-- The function `handleAnnouceDisposed`; `none` is a panic. -/
def handleAnnouceDisposed (state : MediatorState) (stSender : channel.Address)
    (stLock : channel.Lock) (stToken : channel.Address)
    (stMessageChannelIdentifier : channel.Hash) : Option TransitionResult :=
  if state.Secret ≠ channel.EmptyHash then
    none
  else
    match state.TransfersPair.getLast? with
    | none => some { NewState := some state, Events := [] }
    | some transferPair =>
      let payeeTransfer := transferPair.PayeeTransfer
      let payeeRoute := transferPair.PayeeRoute
      if IsValidRefund payeeTransfer payeeRoute stSender stLock stToken = true then
        if payeeTransfer.Expiration > state.BlockNumber then
          match cancelCurrentRoute state stMessageChannelIdentifier with
          | none => none
          | some it =>
            some
              { it with
                Events := it.Events ++
                  [.EventSendAnnounceDisposedResponse state.Token stLock.LockSecretHash stSender] }
        else
          some { NewState := some state, Events := [] }
      else
        some { NewState := some state, Events := [] }

/-- The function `handleSecretReveal`; `none` is a panic. -/
def handleSecretReveal (P : MediatorParams) (state : MediatorState) (stSecret : channel.Hash)
    (stSender : channel.Address) : Option TransitionResult :=
  let secret := stSecret
  if P.ShaSecret secret ≠ state.Hashlock then
    none
  else
    secretLearned state secret stSender .StatePayeeSecretRevealed

/-- The body of the loop of `handleSecretRevealOnChain` for one pair. -/
def handleSecretRevealOnChainPair (stLockSecretHash : channel.Hash) (stBlockNumber : Int)
    (pair : MediationPairState) : MediationPairState × List Event :=
  let first : MediationPairState × List Event :=
    let tr := pair.PayeeTransfer
    let route := pair.PayeeRoute
    if tr.Expiration ≥ stBlockNumber then
      let events : List Event :=
        [.EventSendBalanceProof tr.LockSecretHash route.ChannelIdentifier tr.Token route.HopNode]
      let pair1 := { pair with PayeeState := .StatePayeeBalanceProof }
      if tr.Fee > 0 then
        (pair1, events ++ [.EventSaveFeeChargeRecord tr.LockSecretHash tr.Token tr.Initiator
          tr.Target tr.TargetAmount pair.PayerRoute.ChannelIdentifier
          pair.PayeeRoute.ChannelIdentifier pair.PayerRoute.Fee 0])
      else
        (pair1, events)
    else
      (pair, [])
  let route := first.1.PayerRoute
  if route.State = .StateClosed then
    ({ first.1 with PayerState := .StatePayerBalanceProof },
      first.2 ++ [.EventContractSendUnlock stLockSecretHash route.ChannelIdentifier])
  else
    first

/-- A loop `for _, pair := range pairs` whose body handles one pair alone: the
pairs after the loop and the events in the order in which they are appended. -/
def forwardLoop (body : MediationPairState → MediationPairState × List Event) :
    List MediationPairState → List MediationPairState × List Event
  | [] => ([], [])
  | pair :: rest =>
    ((body pair).1 :: (forwardLoop body rest).1, (body pair).2 ++ (forwardLoop body rest).2)

/-- The function `handleSecretRevealOnChain`; `none` is a panic. -/
def handleSecretRevealOnChain (state : MediatorState) (stSecret stLockSecretHash : channel.Hash)
    (stBlockNumber : Int) : Option TransitionResult :=
  if state.LockSecretHash ≠ stLockSecretHash then
    none
  else
    let state := state.SetSecret stSecret
    let r := forwardLoop (handleSecretRevealOnChainPair stLockSecretHash stBlockNumber)
      state.TransfersPair
    some { NewState := some { state with TransfersPair := r.1 }, Events := r.2 }

/-- The body of the loop of `handleBalanceProof` for one pair. -/
def handleBalanceProofPair (stNodeAddress : channel.Address) (pair : MediationPairState) :
    MediationPairState × List Event :=
  if pair.PayerRoute.HopNode ≠ stNodeAddress then
    (pair, [])
  else
    let first : MediationPairState × List Event :=
      if pair.PayeeState ≠ .StatePayeeBalanceProof then
        let tr := pair.PayeeTransfer
        ({ pair with PayeeState := .StatePayeeBalanceProof },
          [.EventSendBalanceProof tr.LockSecretHash pair.PayeeRoute.ChannelIdentifier tr.Token
              pair.PayeeRoute.HopNode,
            .EventUnlockSuccess pair.PayerTransfer.LockSecretHash])
      else
        (pair, [])
    ({ first.1 with PayerState := .StatePayerBalanceProof },
      first.2 ++ [.EventWithdrawSuccess pair.PayeeTransfer.LockSecretHash])

/-- The function `handleBalanceProof`. -/
def handleBalanceProof (state : MediatorState) (stNodeAddress : channel.Address)
    (stLockSecret : channel.Hash) : TransitionResult :=
  let state := state.SetSecret stLockSecret
  let r := forwardLoop (handleBalanceProofPair stNodeAddress) state.TransfersPair
  { NewState := some { state with TransfersPair := r.1 }, Events := r.2 }

/-- The part of `StateTransition` before the sanity check: the result `it` of
handling the state change; `none` is a panic of a handler. -/
def handleStateChange (P : MediatorParams) (originalState : Option MediatorState)
    (stateChange : StateChange) : Option TransitionResult :=
  match originalState with
  | none =>
    match stateChange with
    | .ActionInitMediatorStateChange ourAddress fromTranfer routes fromRoute blockNumber =>
      let state : MediatorState :=
        { OurAddress := ourAddress
          Routes := routes
          BlockNumber := blockNumber
          Hashlock := fromTranfer.LockSecretHash
          Secret := channel.EmptyHash
          Token := fromTranfer.Token
          LockSecretHash := fromTranfer.LockSecretHash
          TransfersPair := [] }
      mediateTransfer state fromRoute fromTranfer
    | _ => some { NewState := none, Events := [] }
  | some state =>
    match stateChange with
    | .BlockStateChange blockNumber => handleBlock P state blockNumber
    | .ReceiveAnnounceDisposedStateChange sender lock token messageChannelIdentifier =>
      if state.Secret = channel.EmptyHash then
        handleAnnouceDisposed state sender lock token messageChannelIdentifier
      else
        some { NewState := some state, Events := [] }
    | .ReceiveSecretRevealStateChange secret sender => handleSecretReveal P state secret sender
    | .ContractSecretRevealOnChainStateChange secret lockSecretHash blockNumber =>
      handleSecretRevealOnChain state secret lockSecretHash blockNumber
    | .ReceiveUnlockStateChange nodeAddress lockSecret =>
      some (handleBalanceProof state nodeAddress lockSecret)
    | .MediatorReReceiveStateChange fromRoute fromTransfer =>
      if state.Secret = channel.EmptyHash then
        handleMediatedTransferAgain state fromRoute fromTransfer
      else
        some { NewState := some state, Events := [] }
    | .ContractCooperativeSettledStateChange channelIdentifier =>
      cancelCurrentRoute state channelIdentifier
    | .ContractChannelWithdrawStateChange channelIdentifier =>
      cancelCurrentRoute state channelIdentifier.ChannelIdentifier
    | _ => some { NewState := some state, Events := [] }

/-- The function `StateTransition`: the state change is handled, the sanity
check runs on a new state that is not nil, and `clearIfFinalized` gives the
result; `none` is a panic. -/
def StateTransition (P : MediatorParams) (originalState : Option MediatorState)
    (stateChange : StateChange) : Option TransitionResult :=
  match handleStateChange P originalState stateChange with
  | none => none
  | some it =>
    match it.NewState with
    | none => some (clearIfFinalized P it)
    | some newState =>
      if sanityCheck P newState = true then
        some (clearIfFinalized P it)
      else
        none


/-! ## Concrete data for the examples -/

/-- A toy instance of the parameters; two transfers are almost equal when they
agree on target amount, token, target, lock secret hash and secret. -/
def exMediatorParams : MediatorParams :=
  { ShaSecret := fun s => s + 1000
    Sha3 := fun h t => h + t
    ForkConfirmNumber := 17
    AlmostEqual := fun a b =>
      decide (a.TargetAmount = b.TargetAmount) && decide (a.Token = b.Token) &&
        decide (a.Target = b.Target) && decide (a.LockSecretHash = b.LockSecretHash) &&
        decide (a.Secret = b.Secret) }

/-- A route over an opened channel with the hop `hop`: settle timeout 40, reveal
timeout 10, 100 tokens available, no fee. -/
def exRoute (hop : channel.Address) (channelIdentifier : channel.Hash) : RouteState :=
  { HopNode := hop
    Channel := channel.exChannel .StateOpened
    ChannelIdentifier := channelIdentifier
    State := .StateOpened
    CanTransfer := true
    AvailableBalance := 100
    SettleTimeout := 40
    RevealTimeout := 10
    ClosedBlock := 0
    Fee := 0
    TotalFee := 0
    Path := [] }

/-- A locked transfer of 30 tokens from the initiator 1 to the target 4, with
lock secret hash 1005 (the hash of the secret 5) and the secret still
unknown. -/
def exTransfer (expiration : Int) : LockedTransferState :=
  { TargetAmount := 30
    Amount := 30
    Token := 9
    Initiator := 1
    Target := 4
    Expiration := expiration
    LockSecretHash := 1005
    Secret := channel.EmptyHash
    Fee := 0
    Data := "" }

/-- A mediator state at block 100 without pairs, with one available route over
the hop 3. -/
def exState : MediatorState :=
  { OurAddress := 7
    Routes :=
      { AvailableRoutes := [exRoute 3 12], IgnoredRoutes := [], RefundedRoutes := [],
        CanceledRoutes := [] }
    BlockNumber := 100
    Hashlock := 1005
    Secret := channel.EmptyHash
    Token := 9
    LockSecretHash := 1005
    TransfersPair := [] }

/-- A pair between the payer hop 2 and the payee hop 3, both transfers expiring
at block 130, in the given states. -/
def exPair (payerState : PayerState) (payeeState : PayeeState) : MediationPairState :=
  { PayerRoute := exRoute 2 11
    PayeeRoute := exRoute 3 12
    PayerTransfer := exTransfer 130
    PayeeTransfer := exTransfer 130
    PayerState := payerState
    PayeeState := payeeState }

/-- The mediator state at block 100 that mediates over one pending pair. -/
def exStatePair : MediatorState :=
  { exState with
    Routes := { exState.Routes with AvailableRoutes := [] }
    TransfersPair := [exPair .StatePayerPending .StatePayeePending] }

/-- The pair of `exPair` once the secret 5 is known in both transfers. -/
def exPairSecret (payerState : PayerState) (payeeState : PayeeState) : MediationPairState :=
  { exPair payerState payeeState with
    PayerTransfer := { exTransfer 130 with Secret := 5 }
    PayeeTransfer := { exTransfer 130 with Secret := 5 } }

/-- The state of `exStatePair` once the secret 5 is known and its pair is paid on
both sides. -/
def exStatePaid : MediatorState :=
  { exStatePair with
    Secret := 5
    TransfersPair := [exPairSecret .StatePayerBalanceProof .StatePayeeBalanceProof] }

/-- An opened channel with reveal timeout 3 in which the partner endpoint holds
four pending locks. -/
def exChannelFlooded : channel.Channel :=
  { channel.exChannel .StateOpened with
    RevealTimeout := 3
    PartnerState :=
      { channel.exEnd 2 100 with
        Lock2PendingLocks :=
          [(71, { Lock := { Amount := 1, Expiration := 150, LockSecretHash := 71 } }),
            (72, { Lock := { Amount := 1, Expiration := 150, LockSecretHash := 72 } }),
            (73, { Lock := { Amount := 1, Expiration := 150, LockSecretHash := 73 } }),
            (74, { Lock := { Amount := 1, Expiration := 150, LockSecretHash := 74 } })]
        Tree :=
          [{ Amount := 1, Expiration := 150, LockSecretHash := 71 },
            { Amount := 1, Expiration := 150, LockSecretHash := 72 },
            { Amount := 1, Expiration := 150, LockSecretHash := 73 },
            { Amount := 1, Expiration := 150, LockSecretHash := 74 }] } }

/-- The route of the payer hop 2 over `exChannelFlooded`. -/
def exRouteFlooded : RouteState :=
  { exRoute 2 11 with Channel := exChannelFlooded }

/-- Routes of which the first five fail one test of `nextRoute` each, for the
inbound hop 2, 30 timeout blocks, 30 tokens and a fee of 1: the route cannot
transfer, holds 20 tokens, has a reveal timeout of 30, asks a fee of 2, leads
back to the hop 2. The routes over the hops 5 and 6 pass; one route was ignored
before. -/
def exRoutesMixed : RoutesState :=
  { AvailableRoutes :=
      [{ exRoute 3 12 with CanTransfer := false },
        { exRoute 3 12 with AvailableBalance := 20 },
        { exRoute 3 12 with RevealTimeout := 30 },
        { exRoute 3 12 with Fee := 2 },
        exRoute 2 12, exRoute 5 13, exRoute 6 14]
    IgnoredRoutes := [exRoute 8 15]
    RefundedRoutes := []
    CanceledRoutes := [] }

/-- The state of `exState` without an available route. -/
def exStateNoRoute : MediatorState :=
  { exState with Routes := { exState.Routes with AvailableRoutes := [] } }


/-- The pending pair of `exPair` over a payer channel that is closed. -/
def exPairClosed : MediationPairState :=
  { exPair .StatePayerPending .StatePayeePending with
    PayerRoute := { exRoute 2 11 with State := .StateClosed } }

/-- The mediator state at block 100 with the pending pair over the closed payer
channel; the secret is not known. -/
def exStateClosedPayer : MediatorState :=
  { exStatePair with TransfersPair := [exPairClosed] }

/-- The state of `exStatePair` once the secret 5 is known, the payee is paid and
the payer has been told the secret. -/
def exStatePayeePaid : MediatorState :=
  { exStatePair with
    Secret := 5
    TransfersPair := [exPairSecret .StatePayerSecretRevealed .StatePayeeBalanceProof] }

end mediator

/-! # Initiator state machine

A shallow embedding of `transfer/mediatedtransfer/initiator/transition.go`, with
the conventions of the mediator.

* The state is held by pointer and written in place. `tryNewRoute` and
  `cancelCurrentRoute`, whose result may carry a nil `NewState`, return the
  state after the call next to the result; the other functions return the
  result, whose `NewState` is the state after the call.
* A panic, a nil dereference included, is the result `none`.
* The database handle `Db` of the state is read through `IsThisLockRemoved`
  only, which is a parameter.
* The pointer `Transfer` of the state is never nil.
-/

namespace initiator

open mediator (RouteState RoutesState CanceledRoute LockedTransferState subInt64)

/-- The parameters of the embedding: the key of a state manager (`utils.Sha3` of
the lock secret hash and the token), the constants `params.ForkConfirmNumber`
and `params.DefaultRevealTimeout`, the query `Db.IsThisLockRemoved` on the
channel, our address and the lock secret hash, and the text of a
`rerr.StandardError` with a code and a message (`Error()`). -/
structure InitiatorParams where
  Sha3 : channel.Hash → channel.Address → channel.Hash
  ForkConfirmNumber : Int
  DefaultRevealTimeout : Int
  IsThisLockRemoved : channel.Hash → channel.Address → channel.Hash → Bool
  StandardErrorText : Int → String → String

/-- Modelled from the spec: the struct `mediatedtransfer.EventSendMediatedTransfer`,
the locked transfer to send to the next hop. -/
structure EventSendMediatedTransfer where
  Transfer : LockedTransferState
  Receiver : channel.Address
  Path : List channel.Address
  FromChannel : channel.Hash
  deriving DecidableEq, Repr

/-- Modelled from the spec: the function
`mediatedtransfer.NewEventSendMediatedTransfer`; `FromChannel` is left at its
zero value. -/
def NewEventSendMediatedTransfer (transfer : LockedTransferState) (receiver : channel.Address)
    (path : List channel.Address) : EventSendMediatedTransfer :=
  { Transfer := transfer
    Receiver := receiver
    Path := path
    FromChannel := channel.EmptyHash }

/-- Modelled from the spec: the struct `mediatedtransfer.EventSendRevealSecret`,
with the fields that `transition.go` sets. -/
structure EventSendRevealSecret where
  LockSecretHash : channel.Hash
  Secret : channel.Hash
  Token : channel.Address
  Receiver : channel.Address
  Sender : channel.Address
  Data : String
  deriving DecidableEq, Repr

/-- Modelled from the spec: the struct
`mediatedtransfer.ReceiveSecretRequestStateChange`, with the fields that
`transition.go` reads. -/
structure ReceiveSecretRequestStateChange where
  Sender : channel.Address
  LockSecretHash : channel.Hash
  Amount : Int
  deriving DecidableEq, Repr

/-- Modelled from the spec: the events that the initiator emits, with the fields
that `transition.go` sets. -/
inductive InitiatorEvent where
  | EventTransferSentFailed (LockSecretHash : channel.Hash) (Reason : String)
      (Target Token : channel.Address)
  | EventRemoveStateManager (Key : channel.Hash)
  | EventSendMediatedTransfer (msg : initiator.EventSendMediatedTransfer)
  | EventUnlockFailed (LockSecretHash ChannelIdentifier : channel.Hash) (Reason : String)
  | EventSendAnnounceDisposedResponse (LockSecretHash : channel.Hash)
      (Token Receiver : channel.Address)
  | EventSendRevealSecret (revealSecret : initiator.EventSendRevealSecret)
  | EventSendBalanceProof (LockSecretHash ChannelIdentifier : channel.Hash)
      (Token Receiver : channel.Address)
  | EventTransferSentSuccess (LockSecretHash : channel.Hash) (Amount : Int)
      (Target : channel.Address) (ChannelIdentifier : channel.Hash) (Token : channel.Address)
      (Data : String)
  | EventUnlockSuccess (LockSecretHash : channel.Hash)
  deriving DecidableEq, Repr

/-- Modelled from the spec: the struct `mediatedtransfer.InitiatorState`,
`{our_address, transfer, routes, block_number, lock_secret_hash, secret,
reveal_secret?, secret_request?, cancel_by_exception_secret_request}`, with the
current route and the message in flight that `transition.go` writes. -/
structure InitiatorState where
  OurAddress : channel.Address
  Transfer : LockedTransferState
  Routes : RoutesState
  BlockNumber : Int
  LockSecretHash : channel.Hash
  Secret : channel.Hash
  CancelByExceptionSecretRequest : Bool
  Route : Option RouteState
  Message : Option EventSendMediatedTransfer
  SecretRequest : Option ReceiveSecretRequestStateChange
  RevealSecret : Option EventSendRevealSecret
  deriving DecidableEq, Repr

/-- Modelled from the spec: the state changes that the initiator handles, with
the fields that `transition.go` reads; `Other` is any other state change. -/
inductive InitiatorStateChange where
  | ActionInitInitiatorStateChange (OurAddress : channel.Address)
      (Tranfer : LockedTransferState) (Routes : RoutesState) (BlockNumber : Int)
      (LockSecretHash Secret : channel.Hash)
  | BlockStateChange (BlockNumber : Int)
  | ReceiveSecretRevealStateChange (Secret : channel.Hash) (Sender : channel.Address)
  | ContractSecretRevealOnChainStateChange (LockSecretHash : channel.Hash) (BlockNumber : Int)
  | ReceiveSecretRequestStateChange (stateChange : initiator.ReceiveSecretRequestStateChange)
  | ReceiveAnnounceDisposedStateChange (Sender : channel.Address) (Lock : channel.Lock)
      (Token : channel.Address) (ErrorCode : Int) (ErrorMsg : String)
  | ActionCancelRouteStateChange (LockSecretHash : channel.Hash)
  | ActionCancelTransferStateChange
  | ContractCooperativeSettledStateChange
  | ContractChannelWithdrawStateChange
  | Other
  deriving DecidableEq, Repr

/-- Modelled from the spec: the struct `transfer.TransitionResult`, for the
initiator. -/
structure InitiatorTransitionResult where
  NewState : Option InitiatorState
  Events : List InitiatorEvent
  deriving DecidableEq, Repr

/-! ## Routes -/

/-- The loop of `tryNewRoute`, on the available routes still to be tried and the
ignored routes: the route to try, and the two lists afterwards. -/
def tryNewRouteLoop (targetAmount : Int) :
    List RouteState → List RouteState → Option RouteState × List RouteState × List RouteState
  | [], ignored => (none, [], ignored)
  | r :: rest, ignored =>
    if (!r.CanTransfer || decide (r.AvailableBalance < targetAmount)) = true then
      tryNewRouteLoop targetAmount rest (ignored ++ [r])
    else
      (some r, rest, ignored)

/-- The reason of the failure that `tryNewRoute` reports: each canceled route
adds a comma and its reason (`fmt.Sprintf("%s,%s", ...)`), and an empty text is
replaced. -/
def failedReason (canceledRoutes : List CanceledRoute) : String :=
  let reason := canceledRoutes.foldl
    (fun reason canceledRoute => reason ++ "," ++ canceledRoute.Reason) ""
  if reason = "" then "no route available" else reason

/-- The function `tryNewRoute`: the state after the call and the result; `none`
is the panic on a route in use, or the nil dereference of the route of the last
canceled route. -/
def tryNewRoute (P : InitiatorParams) (state : InitiatorState) :
    Option (InitiatorState × InitiatorTransitionResult) :=
  if state.Route ≠ none then
    none
  else
    let l := tryNewRouteLoop state.Transfer.TargetAmount state.Routes.AvailableRoutes
      state.Routes.IgnoredRoutes
    let state : InitiatorState :=
      { state with
        Routes := { state.Routes with AvailableRoutes := l.2.1, IgnoredRoutes := l.2.2 } }
    match l.1 with
    | none =>
      let transferFailed : InitiatorEvent :=
        .EventTransferSentFailed state.Transfer.LockSecretHash
          (failedReason state.Routes.CanceledRoutes) state.Transfer.Target state.Transfer.Token
      let removeManager : InitiatorEvent :=
        .EventRemoveStateManager (P.Sha3 state.LockSecretHash state.Transfer.Token)
      some (state, { NewState := none, Events := [transferFailed, removeManager] })
    | some tryRoute =>
      let lockExpiration :=
        subInt64 (channel.addInt64 state.BlockNumber tryRoute.SettleTimeout)
          P.DefaultRevealTimeout
      let lockExpiration :=
        if lockExpiration > state.Transfer.Expiration ∧ state.Transfer.Expiration ≠ 0 then
          state.Transfer.Expiration
        else
          lockExpiration
      let tr : LockedTransferState :=
        { TargetAmount := state.Transfer.TargetAmount
          Amount := state.Transfer.TargetAmount + tryRoute.TotalFee
          Token := state.Transfer.Token
          Initiator := state.Transfer.Initiator
          Target := state.Transfer.Target
          Expiration := lockExpiration
          LockSecretHash := state.LockSecretHash
          Secret := state.Secret
          Fee := tryRoute.TotalFee
          Data := state.Transfer.Data }
      let msg := NewEventSendMediatedTransfer tr tryRoute.HopNode tryRoute.Path
      let msg : Option EventSendMediatedTransfer :=
        match state.Routes.CanceledRoutes.getLast? with
        | none => some msg
        | some canceledRoute =>
          match canceledRoute.Route with
          | none => none
          | some route => some { msg with FromChannel := route.ChannelIdentifier }
      match msg with
      | none => none
      | some msg =>
        let state : InitiatorState :=
          { state with Route := some tryRoute, Transfer := tr, Message := some msg }
        some (state, { NewState := some state, Events := [.EventSendMediatedTransfer msg] })

/-- The function `cancelCurrentRoute`: the state after the call and the result;
`none` is a panic. -/
def cancelCurrentRoute (P : InitiatorParams) (state : InitiatorState) (reason : String) :
    Option (InitiatorState × InitiatorTransitionResult) :=
  if state.RevealSecret ≠ none then
    none
  else
    let state : InitiatorState :=
      { state with
        Routes :=
          { state.Routes with
            CanceledRoutes :=
              state.Routes.CanceledRoutes ++ [{ Route := state.Route, Reason := reason }] }
        Message := none
        Route := none
        SecretRequest := none }
    tryNewRoute P state

/-- The function `userCancelTransfer`; `none` is a panic. -/
def userCancelTransfer (state : InitiatorState) : Option InitiatorTransitionResult :=
  if state.RevealSecret ≠ none then
    none
  else
    let state : InitiatorState :=
      { state with
        Transfer := { state.Transfer with Secret := channel.EmptyHash }
        Message := none
        SecretRequest := none
        RevealSecret := none }
    let cancel : InitiatorEvent :=
      .EventTransferSentFailed state.Transfer.LockSecretHash "user canceled transfer"
        state.Transfer.Target state.Transfer.Token
    some { NewState := some state, Events := [cancel] }

/-! ## Handlers -/

/-- The function `expiredHashLockEvents`. -/
def expiredHashLockEvents (P : InitiatorParams) (state : InitiatorState) : List InitiatorEvent :=
  if subInt64 state.BlockNumber P.ForkConfirmNumber > state.Transfer.Expiration then
    match state.Route with
    | none => []
    | some route =>
      if (!P.IsThisLockRemoved route.ChannelIdentifier state.OurAddress
          state.Transfer.LockSecretHash) = true then
        [.EventUnlockFailed state.Transfer.LockSecretHash route.ChannelIdentifier "lock expired",
          .EventTransferSentFailed state.Transfer.LockSecretHash "no route available"
            state.Transfer.Target state.Transfer.Token]
      else
        []
  else
    []

/-- The function `handleBlock`, on the block number of the state change. -/
def handleBlock (P : InitiatorParams) (state : InitiatorState) (stBlockNumber : Int) :
    InitiatorTransitionResult :=
  let state : InitiatorState :=
    if state.BlockNumber < stBlockNumber then { state with BlockNumber := stBlockNumber }
    else state
  let events : List InitiatorEvent :=
    if subInt64 state.BlockNumber P.ForkConfirmNumber > state.Transfer.Expiration then
      expiredHashLockEvents P state ++
        [.EventRemoveStateManager (P.Sha3 state.LockSecretHash state.Transfer.Token)]
    else
      []
  { NewState := some state, Events := events }

/-- The function `handleRefund`, on the sender, the lock, the token and the error
of the message of a `ReceiveAnnounceDisposedStateChange`; `none` is a panic, the
nil dereference of the route by `IsValidRefund` included. -/
def handleRefund (P : InitiatorParams) (state : InitiatorState) (stSender : channel.Address)
    (stLock : channel.Lock) (stToken : channel.Address) (errorCode : Int) (errorMsg : String) :
    Option InitiatorTransitionResult :=
  let valid : Option Bool :=
    match state.Route with
    | some route => some (mediator.IsValidRefund state.Transfer route stSender stLock stToken)
    | none => if stSender = state.Transfer.Target then some false else none
  match valid with
  | none => none
  | some true =>
    match cancelCurrentRoute P state (P.StandardErrorText errorCode errorMsg) with
    | none => none
    | some (state, it) =>
      let ev : InitiatorEvent :=
        .EventSendAnnounceDisposedResponse stLock.LockSecretHash state.Transfer.Token stSender
      some { it with Events := it.Events ++ [ev] }
  | some false => some { NewState := some state, Events := [] }

/-- The function `handleCancelRoute`, on the lock secret hash of the state
change; `none` is a panic. -/
def handleCancelRoute (P : InitiatorParams) (state : InitiatorState)
    (stLockSecretHash : channel.Hash) : Option InitiatorTransitionResult :=
  if stLockSecretHash = state.Transfer.LockSecretHash then
    (cancelCurrentRoute P state "initiator cancel").map Prod.snd
  else
    some { NewState := some state, Events := [] }

/-- The function `handleCancelTransfer`; `none` is a panic. -/
def handleCancelTransfer (state : InitiatorState) : Option InitiatorTransitionResult :=
  userCancelTransfer state

/-- The function `handleSecretRequest`. -/
def handleSecretRequest (state : InitiatorState) (stateChange : ReceiveSecretRequestStateChange) :
    InitiatorTransitionResult :=
  let isValid :=
    decide (stateChange.Sender = state.Transfer.Target) &&
      decide (stateChange.LockSecretHash = state.Transfer.LockSecretHash) &&
      decide (stateChange.Amount = state.Transfer.TargetAmount)
  if (isValid && !state.CancelByExceptionSecretRequest &&
      decide (state.BlockNumber < state.Transfer.Expiration)) = true then
    let tr := state.Transfer
    let revealSecret : EventSendRevealSecret :=
      { LockSecretHash := tr.LockSecretHash
        Secret := tr.Secret
        Token := tr.Token
        Receiver := tr.Target
        Sender := state.OurAddress
        Data := tr.Data }
    let state : InitiatorState := { state with RevealSecret := some revealSecret }
    { NewState := some state, Events := [.EventSendRevealSecret revealSecret] }
  else
    let state : InitiatorState := { state with CancelByExceptionSecretRequest := true }
    { NewState := some state, Events := [] }

/-- The function `transferSuccessEvents`; `none` is the nil dereference of the
route. -/
def transferSuccessEvents (P : InitiatorParams) (state : InitiatorState) :
    Option (List InitiatorEvent) :=
  let tr := state.Transfer
  match state.Route with
  | none => none
  | some route =>
    some
      [.EventSendBalanceProof tr.LockSecretHash route.ChannelIdentifier tr.Token route.HopNode,
        .EventTransferSentSuccess tr.LockSecretHash tr.Amount tr.Target route.ChannelIdentifier
          tr.Token tr.Data,
        .EventUnlockSuccess tr.LockSecretHash,
        .EventRemoveStateManager (P.Sha3 tr.LockSecretHash tr.Token)]

/-- The function `handleSecretRevealOnChain`, on the lock secret hash and the
block number of the state change; `none` is a panic. -/
def handleSecretRevealOnChain (P : InitiatorParams) (state : InitiatorState)
    (stLockSecretHash : channel.Hash) (stBlockNumber : Int) : Option InitiatorTransitionResult :=
  if stLockSecretHash ≠ state.LockSecretHash then
    none
  else if state.Transfer.Expiration < stBlockNumber then
    let events := expiredHashLockEvents P state ++
      [.EventRemoveStateManager (P.Sha3 state.LockSecretHash state.Transfer.Token)]
    some { NewState := some state, Events := events }
  else
    match transferSuccessEvents P state with
    | none => none
    | some events => some { NewState := some state, Events := events }

/-- The function `handleSecretReveal`, on the secret and the sender of the state
change; `none` is the nil dereference of the route. -/
def handleSecretReveal (P : InitiatorParams) (state : InitiatorState) (stSecret : channel.Hash)
    (stSender : channel.Address) : Option InitiatorTransitionResult :=
  if state.BlockNumber ≥ state.Transfer.Expiration then
    some { NewState := some state, Events := [] }
  else
    match state.Route with
    | none => none
    | some route =>
      if stSender = route.HopNode ∧ stSecret = state.Transfer.Secret then
        match transferSuccessEvents P state with
        | none => none
        | some events => some { NewState := none, Events := events }
      else
        some { NewState := some state, Events := [] }

/-- The function `StateTransition`, on an original state that is nil or an
initiator state; `none` is a panic. -/
def StateTransition (P : InitiatorParams) (originalState : Option InitiatorState)
    (st : InitiatorStateChange) : Option InitiatorTransitionResult :=
  match originalState with
  | none =>
    match st with
    | .ActionInitInitiatorStateChange ourAddress tranfer routes blockNumber lockSecretHash
        secret =>
      let state : InitiatorState :=
        { OurAddress := ourAddress
          Transfer := tranfer
          Routes := routes
          BlockNumber := blockNumber
          LockSecretHash := lockSecretHash
          Secret := secret
          CancelByExceptionSecretRequest := false
          Route := none
          Message := none
          SecretRequest := none
          RevealSecret := none }
      (tryNewRoute P state).map Prod.snd
    | _ => some { NewState := none, Events := [] }
  | some state =>
    match st with
    | .BlockStateChange blockNumber => some (handleBlock P state blockNumber)
    | .ReceiveSecretRevealStateChange secret sender => handleSecretReveal P state secret sender
    | .ContractSecretRevealOnChainStateChange lockSecretHash blockNumber =>
      handleSecretRevealOnChain P state lockSecretHash blockNumber
    | .ReceiveSecretRequestStateChange stateChange =>
      if state.RevealSecret = none then
        some (handleSecretRequest state stateChange)
      else
        some { NewState := some state, Events := [] }
    | .ReceiveAnnounceDisposedStateChange sender lock token errorCode errorMsg =>
      if state.RevealSecret = none then
        handleRefund P state sender lock token errorCode errorMsg
      else
        some { NewState := some state, Events := [] }
    | .ActionCancelRouteStateChange lockSecretHash =>
      if state.RevealSecret = none then
        handleCancelRoute P state lockSecretHash
      else
        none
    | .ActionCancelTransferStateChange =>
      if state.RevealSecret = none then
        handleCancelTransfer state
      else
        none
    | .ContractCooperativeSettledStateChange =>
      (cancelCurrentRoute P state "partner cooperative settle channel with me").map Prod.snd
    | .ContractChannelWithdrawStateChange =>
      (cancelCurrentRoute P state "partner withdraw on channel with me").map Prod.snd
    | _ => some { NewState := some state, Events := [] }

/-! ## Concrete data for the examples -/

/-- A toy instance of the parameters: no lock has been removed, a fork is
confirmed after 17 blocks, the default reveal timeout is 10. -/
def exInitiatorParams : InitiatorParams :=
  { Sha3 := fun h t => h + t
    ForkConfirmNumber := 17
    DefaultRevealTimeout := 10
    IsThisLockRemoved := fun _ _ _ => false
    StandardErrorText := fun _ msg => msg }

/-- A route like `mediator.exRoute` that cannot transfer. -/
def exRouteDown (hop : channel.Address) (channelIdentifier : channel.Hash) : RouteState :=
  { mediator.exRoute hop channelIdentifier with CanTransfer := false }

/-- A route like `mediator.exRoute` with 20 tokens available. -/
def exRoutePoor (hop : channel.Address) (channelIdentifier : channel.Hash) : RouteState :=
  { mediator.exRoute hop channelIdentifier with AvailableBalance := 20 }

/-- The transfer that a payment of 30 tokens to the target 4 starts from: secret
5, lock secret hash 1005, the expiration as requested (0 when not set). -/
def exInitTransfer (expiration : Int) : LockedTransferState :=
  { mediator.exTransfer expiration with Secret := 5 }

/-- An initiator state at block 100 before a route is tried: the routes over the
hops 2 (cannot transfer), 3 (20 tokens), 5 and 6 are available. -/
def exInitState (expiration : Int) : InitiatorState :=
  { OurAddress := 1
    Transfer := exInitTransfer expiration
    Routes :=
      { AvailableRoutes :=
          [exRouteDown 2 11, exRoutePoor 3 12, mediator.exRoute 5 13, mediator.exRoute 6 14]
        IgnoredRoutes := []
        RefundedRoutes := []
        CanceledRoutes := [] }
    BlockNumber := 100
    LockSecretHash := 1005
    Secret := 5
    CancelByExceptionSecretRequest := false
    Route := none
    Message := none
    SecretRequest := none
    RevealSecret := none }

/-- The state of `exInitState` without a usable route. -/
def exInitStateNoRoute : InitiatorState :=
  { exInitState 0 with
    Routes :=
      { AvailableRoutes := [exRouteDown 2 11, exRoutePoor 3 12]
        IgnoredRoutes := []
        RefundedRoutes := []
        CanceledRoutes := [] } }

/-- An initiator state at block `blockNumber` that waits on the route over the
hop 5, with a lock that expires at block 130. -/
def exInitStateSent (blockNumber : Int) : InitiatorState :=
  { OurAddress := 1
    Transfer := exInitTransfer 130
    Routes :=
      { AvailableRoutes := [mediator.exRoute 6 14]
        IgnoredRoutes := [exRouteDown 2 11, exRoutePoor 3 12]
        RefundedRoutes := []
        CanceledRoutes := [] }
    BlockNumber := blockNumber
    LockSecretHash := 1005
    Secret := 5
    CancelByExceptionSecretRequest := false
    Route := some (mediator.exRoute 5 13)
    Message := some
      { Transfer := exInitTransfer 130, Receiver := 5, Path := [], FromChannel := channel.EmptyHash }
    SecretRequest := none
    RevealSecret := none }

/-- The state of `exInitStateSent` once the secret has been revealed to the
target. -/
def exInitStateRevealed (blockNumber : Int) : InitiatorState :=
  { exInitStateSent blockNumber with
    RevealSecret := some
      { LockSecretHash := 1005, Secret := 5, Token := 9, Receiver := 4, Sender := 1, Data := "" } }


/-- Modelled from the spec: the state manager of a payment hands the state changes
to `StateTransition` one by one, from the nil state on, and the new state of a
result is the state of the next call. The result is the state after the last
state change; the outer `none` is a panic of one of the calls. -/
def runStateTransitions (P : InitiatorParams) :
    Option InitiatorState → List InitiatorStateChange → Option (Option InitiatorState)
  | state, [] => some state
  | state, st :: rest =>
    match StateTransition P state st with
    | none => none
    | some it => runStateTransitions P it.NewState rest

/-- The state changes of a payment of 30 tokens: the init at the block 100 with the
routes of `exInitState`, then the block 101. -/
def exInitRun : List InitiatorStateChange :=
  [.ActionInitInitiatorStateChange 1 (exInitTransfer 0) (exInitState 0).Routes 100 1005 5,
    .BlockStateChange 101]

end initiator

/-! # Ingest of the events of the chain

A shallow embedding of `blockchain/events.go`.

Conventions of the embedding.

* The loop of `startAlarmTask` is the function `alarmIteration` on the local
  variables of the task, one call for each pass; what the pass reads from
  outside is its input: the header that `HeaderByNumber` returns, the logs of
  the chain at the time of the query, and whether the stop channel fires in
  the final `select`. The messages written to `StateChangeChannel` are
  returned in the order in which they are sent.
* `int64` arithmetic wraps around; a block number of a log is a `uint64`.
* The poll period, the time spent sleeping, the log and the call of
  `RecoverDisconnect` have no counterpart in the embedding.
* The packages `contracts`, `params`, `rpc` and `mediatedtransfer` are not in the
  repository's files: a log keeps its payload undecoded, and a contract state
  change is the name of its type, its block number and the log it was built
  from.
-/

namespace blockchain

/-- Go conversion `int64(x)`, also of a `uint64`, and the result of an `int64`
operation on the exact result `x` (wrap-around, complement of two). -/
def toInt64 (x : Int) : Int := (x + 2 ^ 63) % 2 ^ 64 - 2 ^ 63

/-- Modelled from the spec: the event names `params.Name...` that
`topicToEventName` maps the first topic of a log to; `Unknown` is the empty name
of a topic that the map does not hold. -/
inductive EventName where
  | NameTokenNetworkCreated
  | NameSecretRevealed
  | NameChannelOpenedAndDeposit
  | NameChannelNewDeposit
  | NameChannelWithdraw
  | NameChannelClosed
  | NameChannelPunished
  | NameChannelUnlocked
  | NameBalanceProofUpdated
  | NameChannelSettled
  | NameChannelCooperativeSettled
  | Unknown
  deriving DecidableEq, Repr

/-- Modelled from the spec: the struct `types.Log`, by what `events.go` reads: the
event name of its first topic, the hash of its transaction (32 bytes, read as a
natural), the index of the transaction and of the log in the block, the number of
the block, and the payload that the ABI decodes. -/
structure Log where
  Name : EventName
  TxHash : Nat
  TxIndex : Nat
  Index : Nat
  BlockNumber : Nat
  Data : Nat
  deriving DecidableEq, Repr

/-- The parameters of the embedding: the constants `params.ForkConfirmNumber` and
`params.EnableForkConfirm`, and whether the ABI decoding of a log
(`newEvent...`, package `contracts`) succeeds. -/
structure EventsParams where
  ForkConfirmNumber : Int
  EnableForkConfirm : Bool
  Unpack : Log → Bool

/-- The type `eventID`: 25 bytes, the first 24 bytes of the transaction hash
followed by the lowest byte of the index of the log. -/
abbrev eventID := Nat × Nat

/-- The function `makeEventID`: `copy` fills the 25 bytes from the hash and the
last byte is overwritten by `byte(l.Index)`. -/
def makeEventID (l : Log) : eventID :=
  (l.TxHash / 2 ^ 64, l.Index % 256)

/-- Modelled from the spec: the types of package `mediatedtransfer` that implement
`ContractStateChange`, one for each function `event...2StateChange`. -/
inductive ContractStateChangeType where
  | ContractTokenAddedStateChange
  | ContractSecretRevealOnChainStateChange
  | ContractNewChannelStateChange
  | ContractBalanceStateChange
  | ContractClosedStateChange
  | ContractUnlockStateChange
  | ContractBalanceProofUpdatedStateChange
  | ContractPunishedStateChange
  | ContractSettledStateChange
  | ContractCooperativeSettledStateChange
  | ContractChannelWithdrawStateChange
  deriving DecidableEq, Repr

/-- Modelled from the spec: the interface `mediatedtransfer.ContractStateChange`.
`BlockNumber` is what `GetBlockNumber` returns, the one block number that the
function `event...2StateChange` stores (`int64(ev.Raw.BlockNumber)`); the fields
decoded from the payload stay in the log `Raw`. -/
structure ContractStateChange where
  Kind : ContractStateChangeType
  BlockNumber : Int
  Raw : Log
  deriving DecidableEq, Repr

/-- The messages that `events.go` writes to `StateChangeChannel`, which are values
of the interface `transfer.StateChange`. -/
inductive ChainStateChange where
  | BlockStateChange (BlockNumber : Int)
  | ContractHistoryEventCompleteStateChange (BlockNumber : Int)
  | Contract (sc : ContractStateChange)
  deriving DecidableEq, Repr

/-- The struct `Events`, by the fields that the ingest reads and writes; `txDone`
is a map, held as the list of its entries. -/
structure Events where
  lastBlockNumber : Int
  txDone : List (eventID × Nat)
  firstStart : Bool
  deriving DecidableEq, Repr

/-- The function `NewBlockChainEvents`. -/
def NewBlockChainEvents : Events :=
  { lastBlockNumber := 0
    txDone := []
    firstStart := true }

/-- The method `notifyPhotonStartupCompleteIfNeeded`: the receiver after the call
and the messages sent. -/
def Events.notifyPhotonStartupCompleteIfNeeded (be : Events) (currentBlock : Int) :
    Events × List ChainStateChange :=
  if be.firstStart = true then
    ({ be with firstStart := false }, [.ContractHistoryEventCompleteStateChange currentBlock])
  else
    (be, [])

/-- The function `needConfirm`. -/
def needConfirm (eventName : EventName) : Bool :=
  if eventName = .NameChannelOpenedAndDeposit ∨ eventName = .NameChannelNewDeposit ∨
      eventName = .NameChannelWithdraw then
    true
  else
    false

/-- The functions `event...2StateChange`, by the name of the event: the state
changes that the `switch` of `parseLogsToEvents` appends for a decoded log, two
for `ChannelOpenedAndDeposit` and none for a name that is not known. -/
def stateChangesOf (l : Log) : List ContractStateChange :=
  let blockNumber := toInt64 l.BlockNumber
  match l.Name with
  | .NameTokenNetworkCreated => [⟨.ContractTokenAddedStateChange, blockNumber, l⟩]
  | .NameSecretRevealed => [⟨.ContractSecretRevealOnChainStateChange, blockNumber, l⟩]
  | .NameChannelOpenedAndDeposit =>
    [⟨.ContractNewChannelStateChange, blockNumber, l⟩,
      ⟨.ContractBalanceStateChange, blockNumber, l⟩]
  | .NameChannelNewDeposit => [⟨.ContractBalanceStateChange, blockNumber, l⟩]
  | .NameChannelClosed => [⟨.ContractClosedStateChange, blockNumber, l⟩]
  | .NameChannelUnlocked => [⟨.ContractUnlockStateChange, blockNumber, l⟩]
  | .NameBalanceProofUpdated => [⟨.ContractBalanceProofUpdatedStateChange, blockNumber, l⟩]
  | .NameChannelPunished => [⟨.ContractPunishedStateChange, blockNumber, l⟩]
  | .NameChannelSettled => [⟨.ContractSettledStateChange, blockNumber, l⟩]
  | .NameChannelCooperativeSettled =>
    [⟨.ContractCooperativeSettledStateChange, blockNumber, l⟩]
  | .NameChannelWithdraw => [⟨.ContractChannelWithdrawStateChange, blockNumber, l⟩]
  | .Unknown => []

/-- The loop of `parseLogsToEvents`, on the logs still to be read and the state
changes so far: the receiver after the loop, the state changes, and the error,
which is the log that the ABI could not decode. -/
def parseLogsToEventsLoop (P : EventsParams) :
    Events → List Log → List ContractStateChange →
    Events × List ContractStateChange × Option Log
  | be, [], stateChanges => (be, stateChanges, none)
  | be, l :: rest, stateChanges =>
    let eventName := l.Name
    if be.txDone.lookup (makeEventID l) = some l.BlockNumber then
      parseLogsToEventsLoop P be rest stateChanges
    else if (P.EnableForkConfirm && needConfirm eventName) = true ∧
        toInt64 (be.lastBlockNumber - toInt64 l.BlockNumber) < P.ForkConfirmNumber then
      parseLogsToEventsLoop P be rest stateChanges
    else if (eventName = .NameSecretRevealed ∧ P.EnableForkConfirm = true) ∧
        toInt64 (be.lastBlockNumber - toInt64 l.BlockNumber) < P.ForkConfirmNumber then
      parseLogsToEventsLoop P be rest stateChanges
    else if eventName ≠ .Unknown ∧ P.Unpack l = false then
      (be, stateChanges, some l)
    else
      parseLogsToEventsLoop P
        { be with
          txDone := (makeEventID l, l.BlockNumber) ::
            be.txDone.filter (fun entry => entry.1 ≠ makeEventID l) }
        rest (stateChanges ++ stateChangesOf l)

/-- The method `parseLogsToEvents`. -/
def Events.parseLogsToEvents (P : EventsParams) (be : Events) (logs : List Log) :
    Events × List ContractStateChange × Option Log :=
  parseLogsToEventsLoop P be logs []

/-- Modelled from the spec: `rpc.EventsGetInternal` behind `getLogsFromChain`
fetches the raw logs of the contracts in the blocks `[fromBlock, toBlock]`, in
the order of the chain; `none` is an error of the client. -/
def getLogsFromChain (chain : Option (List Log)) (fromBlock toBlock : Int) : Option (List Log) :=
  chain.map fun logs =>
    logs.filter fun l => decide (fromBlock ≤ (l.BlockNumber : Int) ∧ (l.BlockNumber : Int) ≤ toBlock)

/-- Modelled from the spec: `sortContractStateChange` sorts by block number, index
of the transaction and index of the log. -/
def sortContractStateChange (stateChanges : List ContractStateChange) : List ContractStateChange :=
  stateChanges.insertionSort fun a b =>
    a.BlockNumber < b.BlockNumber ∨
      (a.BlockNumber = b.BlockNumber ∧
        (a.Raw.TxIndex < b.Raw.TxIndex ∨
          (a.Raw.TxIndex = b.Raw.TxIndex ∧ a.Raw.Index ≤ b.Raw.Index)))

/-- The method `queryAllStateChange`: the receiver after the call and the sorted
state changes; `none` is an error, of the client or of the decoding. -/
def Events.queryAllStateChange (P : EventsParams) (be : Events) (chain : Option (List Log))
    (fromBlock toBlock : Int) : Events × Option (List ContractStateChange) :=
  match getLogsFromChain chain fromBlock toBlock with
  | none => (be, none)
  | some logs =>
    let r := be.parseLogsToEvents P logs
    match r.2.2 with
    | some _ => (r.1, none)
    | none => (r.1, some (sortContractStateChange r.2.1))

/-- The local variables of `startAlarmTask`, with the receiver. -/
structure AlarmTask where
  be : Events
  startUpBlockNumber : Int
  currentBlock : Int
  retryTime : Int
  deriving DecidableEq, Repr

/-- The loop of `startAlarmTask` over the state changes (`for _, sc := range
stateChanges`): the messages sent and `lastSendBlockNumber` after the loop. -/
def sendStateChangesLoop :
    List ContractStateChange → Int → List ChainStateChange × Int
  | [], lastSendBlockNumber => ([], lastSendBlockNumber)
  | sc :: rest, lastSendBlockNumber =>
    if sc.BlockNumber ≠ lastSendBlockNumber then
      let r := sendStateChangesLoop rest sc.BlockNumber
      (.BlockStateChange sc.BlockNumber :: .Contract sc :: r.1, r.2)
    else
      let r := sendStateChangesLoop rest lastSendBlockNumber
      (.Contract sc :: r.1, r.2)

/-- One pass of the loop of `startAlarmTask`: the messages sent, the local
variables after the pass, and whether the loop goes on (`false` is a `return`).
`header` is the block number of the header that `HeaderByNumber` returns, `none`
on an error; `chain` holds the logs that the client would return, `none` on an
error; `stop` tells whether the stop channel fires before the poll period is
over. -/
def alarmIteration (P : EventsParams) (t : AlarmTask) (header : Option Int)
    (chain : Option (List Log)) (stop : Bool) : List ChainStateChange × AlarmTask × Bool :=
  match header with
  | none =>
    let n := t.be.notifyPhotonStartupCompleteIfNeeded t.currentBlock
    (n.2, { t with be := n.1 }, false)
  | some lastedBlock =>
    if t.currentBlock ≥ lastedBlock then
      let first : List ChainStateChange × Int :=
        if t.startUpBlockNumber ≥ lastedBlock then
          ([.BlockStateChange t.currentBlock], 0)
        else
          ([], t.startUpBlockNumber)
      let n := t.be.notifyPhotonStartupCompleteIfNeeded t.currentBlock
      (first.1 ++ n.2,
        { t with
          be := n.1
          startUpBlockNumber := first.2
          retryTime := toInt64 (t.retryTime + 1) },
        true)
    else
      let fromBlockNumber := toInt64 (t.currentBlock - toInt64 (2 * P.ForkConfirmNumber))
      let fromBlockNumber := if fromBlockNumber < 0 then 0 else fromBlockNumber
      let q := t.be.queryAllStateChange P chain fromBlockNumber lastedBlock
      match q.2 with
      | none =>
        let n := q.1.notifyPhotonStartupCompleteIfNeeded t.currentBlock
        (n.2, { t with be := n.1, retryTime := 0 }, true)
      | some stateChanges =>
        let currentBlock := lastedBlock
        let be : Events := { q.1 with lastBlockNumber := currentBlock }
        let sent := sendStateChangesLoop stateChanges 0
        let lastSendBlockNumber := sent.2
        let n := be.notifyPhotonStartupCompleteIfNeeded currentBlock
        let last : List ChainStateChange :=
          if lastSendBlockNumber ≠ currentBlock then [.BlockStateChange currentBlock] else []
        let be : Events :=
          { n.1 with
            txDone := n.1.txDone.filter fun entry =>
              ¬ (entry.2 : Int) ≤ fromBlockNumber }
        (sent.1 ++ n.2 ++ last,
          { t with be := be, currentBlock := currentBlock, retryTime := 0 },
          !stop)

/-- What one pass of the loop reads from outside. -/
structure PollInput where
  header : Option Int
  chain : Option (List Log)
  stop : Bool

/-- The loop of `startAlarmTask` on the inputs of its passes: the messages sent
until the loop returns or the inputs end. -/
def alarmLoop (P : EventsParams) : AlarmTask → List PollInput → List ChainStateChange
  | _, [] => []
  | t, input :: rest =>
    let r := alarmIteration P t input.header input.chain input.stop
    if r.2.2 = true then r.1 ++ alarmLoop P r.2.1 rest else r.1

/-- The method `Start` followed by `startAlarmTask`: the messages sent. -/
def Events.Start (P : EventsParams) (be : Events) (LastBlockNumber : Int)
    (inputs : List PollInput) : List ChainStateChange :=
  let be : Events := { be with lastBlockNumber := LastBlockNumber }
  let startUpBlockNumber := be.lastBlockNumber
  let currentBlock := be.lastBlockNumber
  .BlockStateChange currentBlock ::
    alarmLoop P
      { be := be, startUpBlockNumber := startUpBlockNumber, currentBlock := currentBlock,
        retryTime := 0 }
      inputs

/-! ## Concrete data for the examples -/

/-- A toy instance of the parameters: a log is confirmed after 17 blocks and every
log can be decoded. -/
def exEventsParams : EventsParams :=
  { ForkConfirmNumber := 17
    EnableForkConfirm := true
    Unpack := fun _ => true }

/-- The log of a deposit in the block `blockNumber`, from the transaction with the
hash `txHash * 2 ^ 64`. -/
def exDeposit (txHash blockNumber : Nat) : Log :=
  { Name := .NameChannelNewDeposit
    TxHash := txHash * 2 ^ 64
    TxIndex := 0
    Index := 0
    BlockNumber := blockNumber
    Data := 0 }

/-- The log of the close of a channel in the block `blockNumber`. -/
def exClosed (txHash blockNumber : Nat) : Log :=
  { Name := .NameChannelClosed
    TxHash := txHash * 2 ^ 64
    TxIndex := 0
    Index := 0
    BlockNumber := blockNumber
    Data := 0 }

/-- A chain with a deposit in the block 105, a deposit in the block 120 and the
close of a channel in the block 130. -/
def exChain : List Log :=
  [exDeposit 1 105, exDeposit 2 120, exClosed 3 130]

/-- The passes of a node that was last at the block 100 and finds the chain at
the block 140, then at the blocks 141 to 160, one block at each pass. -/
def exPolls : List PollInput :=
  (List.range 21).map fun i =>
    { header := some (140 + (i : Int)), chain := some exChain, stop := false }

/-- The local variables of the task of a node that was last at the block 100. -/
def exAlarmTask : AlarmTask :=
  { be := { NewBlockChainEvents with lastBlockNumber := 100 }
    startUpBlockNumber := 100
    currentBlock := 100
    retryTime := 0 }

end blockchain


/-! # Persistence of the chain id (`models/gkvdb/chainid.go`, `models/stormdb/chainid.go`)

Both implementations hand the chain id to a key-value store under the bucket
`models.BucketChainID` and the key `models.KeyChainID`. The stores, the method
`saveKeyValueToBucket` / `getKeyValueToBucket` of `GkvDB` and the method
`Set` / `Get` of the storm database, and the two constants are not in the
repository's files. A Go `error` is an `Option`: `none` is `nil`. -/

namespace models

/-- Modelled from the spec: the key-value store that the persistence is delegated
to: the values by bucket and key, the latest first, and whether the store has
been closed. -/
structure KVStore where
  entries : List ((String × String) × Int)
  closed : Bool
  deriving DecidableEq, Repr

/-- Modelled from the spec: the error of a store. -/
inductive StoreErr where
  | ErrClosed
  | ErrNotFound
  deriving DecidableEq, Repr

/-- Modelled from the spec: the constant `models.BucketChainID`. -/
def BucketChainID : String := "ChainID"

/-- Modelled from the spec: the constant `models.KeyChainID`. -/
def KeyChainID : String := "ChainID"

/-- Modelled from the spec: the write of a value under a bucket and a key; the
value replaces the one that the store held there; a closed store returns an
error and is left as it was. -/
def KVStore.Set (db : KVStore) (bucket key : String) (value : Int) :
    KVStore × Option StoreErr :=
  if db.closed = true then
    (db, some .ErrClosed)
  else
    ({ db with
        entries := ((bucket, key), value) ::
          db.entries.filter fun entry => entry.1 ≠ (bucket, key) },
      none)

/-- Modelled from the spec: the read of the value under a bucket and a key into
the variable `target`: the variable after the call and the error; on an error the
variable is left as it was. -/
def KVStore.Get (db : KVStore) (bucket key : String) (target : Int) : Int × Option StoreErr :=
  if db.closed = true then
    (target, some .ErrClosed)
  else
    match db.entries.lookup (bucket, key) with
    | none => (target, some .ErrNotFound)
    | some value => (value, none)

/-- The struct `GkvDB`, by its store. -/
structure GkvDB where
  db : KVStore
  deriving DecidableEq, Repr

/-- Modelled from the spec: the method `saveKeyValueToBucket` of `GkvDB`. -/
def GkvDB.saveKeyValueToBucket (dao : GkvDB) (bucket key : String) (value : Int) :
    GkvDB × Option StoreErr :=
  let r := dao.db.Set bucket key value
  ({ dao with db := r.1 }, r.2)

/-- Modelled from the spec: the method `getKeyValueToBucket` of `GkvDB`. -/
def GkvDB.getKeyValueToBucket (dao : GkvDB) (bucket key : String) (target : Int) :
    Int × Option StoreErr :=
  dao.db.Get bucket key target

/-- The method `GetChainID` of `GkvDB`: an error is logged, and the value of the
variable `chainID` is returned in both cases. -/
def GkvDB.GetChainID (dao : GkvDB) : Int :=
  let chainID : Int := 0
  let r := dao.getKeyValueToBucket BucketChainID KeyChainID chainID
  let chainID := r.1
  match r.2 with
  | some _ => chainID
  | none => chainID

/-- The method `SaveChainID` of `GkvDB`: the receiver after the call; an error is
logged. -/
def GkvDB.SaveChainID (dao : GkvDB) (chainID : Int) : GkvDB :=
  let r := dao.saveKeyValueToBucket BucketChainID KeyChainID chainID
  match r.2 with
  | some _ => r.1
  | none => r.1

/-- The struct `StormDB`, by its store. -/
structure StormDB where
  db : KVStore
  deriving DecidableEq, Repr

/-- The method `GetChainID` of `StormDB`. -/
def StormDB.GetChainID (model : StormDB) : Int :=
  let chainID : Int := 0
  let r := model.db.Get BucketChainID KeyChainID chainID
  let chainID := r.1
  match r.2 with
  | some _ => chainID
  | none => chainID

/-- The method `SaveChainID` of `StormDB`: the receiver after the call. -/
def StormDB.SaveChainID (model : StormDB) (chainID : Int) : StormDB :=
  let r := model.db.Set BucketChainID KeyChainID chainID
  match r.2 with
  | some _ => { model with db := r.1 }
  | none => { model with db := r.1 }

/-- A store that holds a block number and an older chain id. -/
def exStore : KVStore :=
  { entries := [(("BlockNumber", "BlockNumber"), 140), ((BucketChainID, KeyChainID), 8545)]
    closed := false }

end models
/-! # Theorems -/

namespace channel

/-! ## Helper lemmas -/

theorem assign_deref (c : Channel) (p : EndPtr) : c.assign p (c.deref p) = c := by
  cases p <;> rfl

theorem isClosed_eq_true_iff (c : Channel) : c.IsClosed = true ↔ c.State = .StateClosed := by
  unfold Channel.IsClosed
  cases c.State <;> decide

/-! ## NewChannel -/

/-- C9: `NewChannel` returns a channel exactly when `settleTimeout > revealTimeout`
and `revealTimeout ≥ 3`; it fails with `ErrChannelInvalidSttleTimeout` whenever
`settleTimeout ≤ revealTimeout`; a returned channel is in `StateOpened` and
records the two timeouts it was given. -/
theorem NewChannel_spec (ourState partnerState : EndState) (externState : ExternalState)
    (tokenAddr : Address) (channelIdentifier : ChannelUniqueID)
    (revealTimeout settleTimeout : Int) :
    ((∃ c, NewChannel ourState partnerState externState tokenAddr channelIdentifier
        revealTimeout settleTimeout = .ok c) ↔
      (settleTimeout > revealTimeout ∧ revealTimeout ≥ 3)) ∧
    (settleTimeout ≤ revealTimeout →
      NewChannel ourState partnerState externState tokenAddr channelIdentifier
        revealTimeout settleTimeout = .error .ErrChannelInvalidSttleTimeout) ∧
    (∀ c, NewChannel ourState partnerState externState tokenAddr channelIdentifier
        revealTimeout settleTimeout = .ok c →
      c.State = .StateOpened ∧ c.RevealTimeout = revealTimeout ∧
        c.SettleTimeout = settleTimeout) := by
  unfold NewChannel
  refine ⟨?_, ?_, ?_⟩
  · constructor
    · rintro ⟨c, hc⟩
      split at hc
      · cases hc
      · split at hc
        · cases hc
        · omega
    · rintro ⟨h1, h2⟩
      rw [if_neg (by omega), if_neg (by omega)]
      exact ⟨_, rfl⟩
  · intro h
    rw [if_pos h]
  · intro c hc
    split at hc
    · cases hc
    · split at hc
      · cases hc
      · cases hc
        exact ⟨rfl, rfl, rfl⟩

/-- Witness of C9 on the example endpoints, reveal timeout 10 and settle
timeout 100. -/
theorem NewChannel_spec_witness :
    ((∃ c, NewChannel (exEnd 1 100) (exEnd 2 100) ⟨0, 0, ⟨7, 5⟩⟩ 9 ⟨7, 5⟩ 10 100 = .ok c) ↔
      ((100 : Int) > 10 ∧ (10 : Int) ≥ 3)) ∧
    NewChannel (exEnd 1 100) (exEnd 2 100) ⟨0, 0, ⟨7, 5⟩⟩ 9 ⟨7, 5⟩ 10 100 =
      .ok (exChannel .StateOpened) :=
  ⟨(NewChannel_spec (exEnd 1 100) (exEnd 2 100) ⟨0, 0, ⟨7, 5⟩⟩ 9 ⟨7, 5⟩ 10 100).1, rfl⟩

/-- C10, as stated, fails: with `revealTimeout = 2 < 3` and `settleTimeout = 1` the
settle-timeout check comes first and the error is `ErrChannelInvalidSttleTimeout`,
not `ErrChannelRevealTimeout`. -/
theorem NewChannel_reveal_counterexample :
    (2 : Int) < 3 ∧
    NewChannel (exEnd 1 100) (exEnd 2 100) ⟨0, 0, ⟨7, 5⟩⟩ 9 ⟨7, 5⟩ 2 1 =
      .error .ErrChannelInvalidSttleTimeout ∧
    NewChannel (exEnd 1 100) (exEnd 2 100) ⟨0, 0, ⟨7, 5⟩⟩ 9 ⟨7, 5⟩ 2 1 ≠
      .error .ErrChannelRevealTimeout := by
  decide

/-- C10 (amended): for every `revealTimeout < 3`, `NewChannel` returns no channel;
the error is `ErrChannelRevealTimeout` when `settleTimeout > revealTimeout` and
`ErrChannelInvalidSttleTimeout` when `settleTimeout ≤ revealTimeout`. -/
theorem NewChannel_reveal_too_small (ourState partnerState : EndState)
    (externState : ExternalState) (tokenAddr : Address) (channelIdentifier : ChannelUniqueID)
    (revealTimeout settleTimeout : Int) (h : revealTimeout < 3) :
    NewChannel ourState partnerState externState tokenAddr channelIdentifier
        revealTimeout settleTimeout =
      .error (if settleTimeout > revealTimeout then .ErrChannelRevealTimeout
              else .ErrChannelInvalidSttleTimeout) := by
  unfold NewChannel
  by_cases hs : settleTimeout ≤ revealTimeout
  · rw [if_pos hs, if_neg (by omega)]
  · rw [if_neg hs, if_pos h, if_pos (by omega)]

/-- Witness of the amended C10: reveal timeout 2 with settle timeout 100. -/
theorem NewChannel_reveal_too_small_witness :
    (2 : Int) < 3 ∧
    NewChannel (exEnd 1 100) (exEnd 2 100) ⟨0, 0, ⟨7, 5⟩⟩ 9 ⟨7, 5⟩ 2 100 =
      .error .ErrChannelRevealTimeout :=
  ⟨by decide, NewChannel_reveal_too_small (exEnd 1 100) (exEnd 2 100) ⟨0, 0, ⟨7, 5⟩⟩ 9 ⟨7, 5⟩
    2 100 (by decide)⟩

theorem nonce_check_iff (m n : Nat) (hm : m < 2 ^ 64) (hn : n < 2 ^ 64) :
    (m < 1 ∨ m ≠ addUint64 n 1) ↔ ¬ (1 ≤ m ∧ m = n + 1) := by
  unfold addUint64
  omega

theorem precheck_char (c : Channel) (tr : EnvelopMessager)
    (hm : tr.GetEnvelopMessage.Nonce < 2 ^ 64)
    (ho : c.OurState.nonce < 2 ^ 64) (hp : c.PartnerState.nonce < 2 ^ 64) :
    c.PreCheckRecievedTransfer tr =
      if ¬ (tr.GetEnvelopMessage.ChannelIdentifier = c.ChannelIdentifier.ChannelIdentifier ∧
          tr.GetEnvelopMessage.OpenBlockNumber = c.ChannelIdentifier.OpenBlockNumber) then
        .error .ErrChannelIdentifierMismatch
      else if tr.GetSender = c.OurState.Address then
        if ¬ (1 ≤ tr.GetEnvelopMessage.Nonce ∧ tr.GetEnvelopMessage.Nonce = c.OurState.nonce + 1) then
          .error .InvalidNonce
        else if tr.GetEnvelopMessage.TransferAmount < c.OurState.TransferAmount then
          .error .ErrChannelTransferAmountDecrease
        else .ok (.our, .partner)
      else if tr.GetSender = c.PartnerState.Address then
        if ¬ (1 ≤ tr.GetEnvelopMessage.Nonce ∧ tr.GetEnvelopMessage.Nonce = c.PartnerState.nonce + 1) then
          .error .InvalidNonce
        else if tr.GetEnvelopMessage.TransferAmount < c.PartnerState.TransferAmount then
          .error .ErrChannelTransferAmountDecrease
        else .ok (.partner, .our)
      else .error .ErrChannelNotParticipant := by
  unfold Channel.PreCheckRecievedTransfer Channel.isChannelIdentifierValid
  simp only [Bool.and_eq_true, beq_iff_eq]
  by_cases h1 : (tr.GetEnvelopMessage.ChannelIdentifier = c.ChannelIdentifier.ChannelIdentifier ∧
          tr.GetEnvelopMessage.OpenBlockNumber = c.ChannelIdentifier.OpenBlockNumber)
  · simp only [h1, and_self, not_true_eq_false, if_false]
    by_cases h2 : tr.GetSender = c.OurState.Address
    · simp only [h2, if_true, Channel.deref, nonce_check_iff _ _ hm ho]
    · by_cases h3 : tr.GetSender = c.PartnerState.Address
      · rw [if_neg h2, if_pos h3, if_neg h2, if_pos h3]
        simp only [Channel.deref, nonce_check_iff _ _ hm hp]
      · rw [if_neg h2, if_neg h3, if_neg h2, if_neg h3]
  · simp only [h1, not_false_eq_true, if_true]

/-- C1: `PreCheckRecievedTransfer` accepts an envelope message exactly when
(1) its channel identifier and open block are those of the channel, (2) its sender is
`OurState.Address` or `PartnerState.Address`, (3) its nonce is at least 1 and
equals `from.nonce() + 1`, and (4) its transferred amount is at least
`from.TransferAmount()`, `from` being the endpoint of the sender. On acceptance
`fromState` points at the endpoint of the sender and `toState` at the other one; on
rejection the error is the one of the first failing step, in the order
`ErrChannelIdentifierMismatch`, `ErrChannelNotParticipant`, `InvalidNonce`,
`ErrChannelTransferAmountDecrease`. Nonces are `uint64` values. -/
theorem PreCheckRecievedTransfer_spec (c : Channel) (tr : EnvelopMessager)
    (hm : tr.GetEnvelopMessage.Nonce < 2 ^ 64)
    (ho : c.OurState.nonce < 2 ^ 64) (hp : c.PartnerState.nonce < 2 ^ 64) :
    let ev := tr.GetEnvelopMessage
    let fromState : EndPtr := if tr.GetSender = c.OurState.Address then .our else .partner
    let toState : EndPtr := if tr.GetSender = c.OurState.Address then .partner else .our
    let idOk := ev.ChannelIdentifier = c.ChannelIdentifier.ChannelIdentifier ∧
      ev.OpenBlockNumber = c.ChannelIdentifier.OpenBlockNumber
    let senderOk := tr.GetSender = c.OurState.Address ∨ tr.GetSender = c.PartnerState.Address
    let nonceOk := 1 ≤ ev.Nonce ∧ ev.Nonce = (c.deref fromState).nonce + 1
    let amountOk := (c.deref fromState).TransferAmount ≤ ev.TransferAmount
    ((∃ r, c.PreCheckRecievedTransfer tr = .ok r) ↔ (idOk ∧ senderOk ∧ nonceOk ∧ amountOk)) ∧
    (∀ r, c.PreCheckRecievedTransfer tr = .ok r →
      r = (fromState, toState) ∧ (c.deref r.1).Address = tr.GetSender ∧ r.2 ≠ r.1) ∧
    (¬ idOk → c.PreCheckRecievedTransfer tr = .error .ErrChannelIdentifierMismatch) ∧
    (idOk → ¬ senderOk → c.PreCheckRecievedTransfer tr = .error .ErrChannelNotParticipant) ∧
    (idOk → senderOk → ¬ nonceOk → c.PreCheckRecievedTransfer tr = .error .InvalidNonce) ∧
    (idOk → senderOk → nonceOk → ¬ amountOk →
      c.PreCheckRecievedTransfer tr = .error .ErrChannelTransferAmountDecrease) := by
  intro ev fromState toState idOk senderOk nonceOk amountOk
  have hchar := precheck_char c tr hm ho hp
  by_cases h1 : idOk
  · rw [if_neg (not_not.mpr h1)] at hchar
    by_cases h2 : tr.GetSender = c.OurState.Address
    · have hso : senderOk := Or.inl h2
      have hf : fromState = .our := if_pos h2
      have ht : toState = .partner := if_pos h2
      rw [if_pos h2] at hchar
      by_cases h3 : nonceOk
      · have h3' : 1 ≤ tr.GetEnvelopMessage.Nonce ∧
            tr.GetEnvelopMessage.Nonce = c.OurState.nonce + 1 := by
          have := h3; simp only [nonceOk, hf, Channel.deref] at this; exact this
        rw [if_neg (not_not.mpr h3')] at hchar
        by_cases h4 : amountOk
        · have h4' : ¬ tr.GetEnvelopMessage.TransferAmount < c.OurState.TransferAmount := by
            have := h4; simp only [amountOk, hf, Channel.deref, ev] at this; omega
          rw [if_neg h4'] at hchar
          refine ⟨⟨fun _ => ⟨h1, hso, h3, h4⟩, fun _ => ⟨_, hchar⟩⟩, ?_, ?_, ?_, ?_, ?_⟩
          · intro r hr
            rw [hchar] at hr
            cases hr
            refine ⟨by rw [hf, ht], h2.symm, by decide⟩
          · intro h; exact absurd h1 h
          · intro _ h; exact absurd hso h
          · intro _ _ h; exact absurd h3 h
          · intro _ _ _ h; exact absurd h4 h
        · have h4' : tr.GetEnvelopMessage.TransferAmount < c.OurState.TransferAmount := by
            have := h4; simp only [amountOk, hf, Channel.deref, ev] at this; omega
          rw [if_pos h4'] at hchar
          refine ⟨⟨?_, fun h => absurd h.2.2.2 h4⟩, ?_, ?_, ?_, ?_, ?_⟩
          · rintro ⟨r, hr⟩; rw [hchar] at hr; cases hr
          · intro r hr; rw [hchar] at hr; cases hr
          · intro h; exact absurd h1 h
          · intro _ h; exact absurd hso h
          · intro _ _ h; exact absurd h3 h
          · intro _ _ _ _; exact hchar
      · have h3' : ¬ (1 ≤ tr.GetEnvelopMessage.Nonce ∧
            tr.GetEnvelopMessage.Nonce = c.OurState.nonce + 1) := by
          intro h; apply h3; simp only [nonceOk, hf, Channel.deref]; exact h
        rw [if_pos h3'] at hchar
        refine ⟨⟨?_, fun h => absurd h.2.2.1 h3⟩, ?_, ?_, ?_, ?_, ?_⟩
        · rintro ⟨r, hr⟩; rw [hchar] at hr; cases hr
        · intro r hr; rw [hchar] at hr; cases hr
        · intro h; exact absurd h1 h
        · intro _ h; exact absurd hso h
        · intro _ _ _; exact hchar
        · intro _ _ h; exact absurd h h3
    · have hf : fromState = .partner := if_neg h2
      have ht : toState = .our := if_neg h2
      rw [if_neg h2] at hchar
      by_cases h2' : tr.GetSender = c.PartnerState.Address
      · have hso : senderOk := Or.inr h2'
        rw [if_pos h2'] at hchar
        by_cases h3 : nonceOk
        · have h3' : 1 ≤ tr.GetEnvelopMessage.Nonce ∧
              tr.GetEnvelopMessage.Nonce = c.PartnerState.nonce + 1 := by
            have := h3; simp only [nonceOk, hf, Channel.deref] at this; exact this
          rw [if_neg (not_not.mpr h3')] at hchar
          by_cases h4 : amountOk
          · have h4' : ¬ tr.GetEnvelopMessage.TransferAmount < c.PartnerState.TransferAmount := by
              have := h4; simp only [amountOk, hf, Channel.deref, ev] at this; omega
            rw [if_neg h4'] at hchar
            refine ⟨⟨fun _ => ⟨h1, hso, h3, h4⟩, fun _ => ⟨_, hchar⟩⟩, ?_, ?_, ?_, ?_, ?_⟩
            · intro r hr
              rw [hchar] at hr
              cases hr
              refine ⟨by rw [hf, ht], h2'.symm, by decide⟩
            · intro h; exact absurd h1 h
            · intro _ h; exact absurd hso h
            · intro _ _ h; exact absurd h3 h
            · intro _ _ _ h; exact absurd h4 h
          · have h4' : tr.GetEnvelopMessage.TransferAmount < c.PartnerState.TransferAmount := by
              have := h4; simp only [amountOk, hf, Channel.deref, ev] at this; omega
            rw [if_pos h4'] at hchar
            refine ⟨⟨?_, fun h => absurd h.2.2.2 h4⟩, ?_, ?_, ?_, ?_, ?_⟩
            · rintro ⟨r, hr⟩; rw [hchar] at hr; cases hr
            · intro r hr; rw [hchar] at hr; cases hr
            · intro h; exact absurd h1 h
            · intro _ h; exact absurd hso h
            · intro _ _ h; exact absurd h3 h
            · intro _ _ _ _; exact hchar
        · have h3' : ¬ (1 ≤ tr.GetEnvelopMessage.Nonce ∧
              tr.GetEnvelopMessage.Nonce = c.PartnerState.nonce + 1) := by
            intro h; apply h3; simp only [nonceOk, hf, Channel.deref]; exact h
          rw [if_pos h3'] at hchar
          refine ⟨⟨?_, fun h => absurd h.2.2.1 h3⟩, ?_, ?_, ?_, ?_, ?_⟩
          · rintro ⟨r, hr⟩; rw [hchar] at hr; cases hr
          · intro r hr; rw [hchar] at hr; cases hr
          · intro h; exact absurd h1 h
          · intro _ h; exact absurd hso h
          · intro _ _ _; exact hchar
          · intro _ _ h; exact absurd h h3
      · have hso : ¬ senderOk := fun h => h.elim h2 h2'
        rw [if_neg h2'] at hchar
        refine ⟨⟨?_, fun h => absurd h.2.1 hso⟩, ?_, ?_, ?_, ?_, ?_⟩
        · rintro ⟨r, hr⟩; rw [hchar] at hr; cases hr
        · intro r hr; rw [hchar] at hr; cases hr
        · intro h; exact absurd h1 h
        · intro _ _; exact hchar
        · intro _ h; exact absurd h hso
        · intro _ h; exact absurd h hso
  · rw [if_pos h1] at hchar
    refine ⟨⟨?_, fun h => absurd h.1 h1⟩, ?_, ?_, ?_, ?_, ?_⟩
    · rintro ⟨r, hr⟩; rw [hchar] at hr; cases hr
    · intro r hr; rw [hchar] at hr; cases hr
    · intro _; exact hchar
    · intro h; exact absurd h h1
    · intro h; exact absurd h h1
    · intro h; exact absurd h h1

/-- Witness of C1: the first DirectTransfer of the partner on the example
channel. -/
theorem PreCheckRecievedTransfer_spec_witness :
    (EnvelopMessager.DirectTransfer ⟨exEnv 1 30 0 2⟩).GetEnvelopMessage.Nonce < 2 ^ 64 ∧
    (exChannel .StateOpened).OurState.nonce < 2 ^ 64 ∧
    (exChannel .StateOpened).PartnerState.nonce < 2 ^ 64 ∧
    ∃ r, (exChannel .StateOpened).PreCheckRecievedTransfer
      (.DirectTransfer ⟨exEnv 1 30 0 2⟩) = .ok r :=
  ⟨by decide, by decide, by decide,
    (PreCheckRecievedTransfer_spec (exChannel .StateOpened) (.DirectTransfer ⟨exEnv 1 30 0 2⟩)
      (by decide) (by decide) (by decide)).1.mpr (by decide)⟩

/-! ## RegisterTransfer -/

theorem registerTransfer_of_isClosed (P : Params) (c : Channel) (blocknumber : Int)
    (tr : EnvelopMessager) (h : c.IsClosed = true) :
    c.RegisterTransfer P blocknumber tr = (c, some .ErrUpdateBalanceProofAfterClosed) := by
  cases tr <;>
    simp only [Channel.RegisterTransfer, Channel.registerMediatedTranser,
      Channel.registerDirectTransfer, Channel.registerUnlock,
      Channel.RegisterAnnounceDisposedResponse, Channel.RegisterRemoveExpiredHashlockTransfer,
      Channel.registerRemoveLock, h, if_true]

/-- C3: on a channel whose state is `StateClosed`, `RegisterTransfer` returns
`ErrUpdateBalanceProofAfterClosed` for each of the five kinds of envelope
message, whatever its nonce, sender or amounts, and the channel after the call
is the channel before it. -/
theorem RegisterTransfer_closed (P : Params) (c : Channel) (blocknumber : Int)
    (tr : EnvelopMessager) (hclosed : c.State = .StateClosed) :
    c.RegisterTransfer P blocknumber tr = (c, some .ErrUpdateBalanceProofAfterClosed) :=
  registerTransfer_of_isClosed P c blocknumber tr ((isClosed_eq_true_iff c).mpr hclosed)

/-- Witness of C3: an otherwise valid DirectTransfer on the closed example
channel. -/
theorem RegisterTransfer_closed_witness :
    (exChannel .StateClosed).State = .StateClosed ∧
    (exChannel .StateClosed).RegisterTransfer exParams 50 (.DirectTransfer ⟨exEnv 1 30 0 2⟩) =
      (exChannel .StateClosed, some .ErrUpdateBalanceProofAfterClosed) :=
  ⟨rfl, RegisterTransfer_closed exParams (exChannel .StateClosed) 50
    (.DirectTransfer ⟨exEnv 1 30 0 2⟩) rfl⟩

/-! ### Failure leaves the channel as it was -/

theorem EndState.registerDirectTransfer_error (P : Params) (node : EndState)
    (tr : DirectTransfer) (e : Err) (h : (node.registerDirectTransfer P tr).2 = some e) :
    (node.registerDirectTransfer P tr).1 = node := by
  unfold EndState.registerDirectTransfer at h ⊢
  split_ifs at h ⊢
  rfl

theorem EndState.registerMediatedMessage_error (P : Params) (node : EndState)
    (tr : MediatedTransfer) (e : Err) (h : (node.registerMediatedMessage P tr).2 = some e) :
    (node.registerMediatedMessage P tr).1 = node := by
  unfold EndState.registerMediatedMessage at h ⊢
  simp only at h ⊢
  split_ifs at h ⊢ <;> rfl

theorem EndState.registerSecretMessage_error (P : Params) (node : EndState)
    (tr : UnLock) (e : Err) (h : (node.registerSecretMessage P tr).2 = some e) :
    (node.registerSecretMessage P tr).1 = node := by
  unfold EndState.registerSecretMessage at h ⊢
  cases hl : node.getLockByHashlock (P.ShaSecret tr.LockSecret) with
  | none => rfl
  | some lock =>
    simp only [hl] at h ⊢
    cases hw : node.computeMerkleRootWithout P lock with
    | error e1 => rfl
    | ok p =>
      obtain ⟨newtree, root⟩ := p
      simp only [hw] at h ⊢
      split_ifs at h ⊢ <;> rfl

theorem EndState.registerRemoveLock_no_error (node : EndState) (msg : EnvelopMessager)
    (lockSecretHash : Hash) : (node.registerRemoveLock msg lockSecretHash).2 = none := rfl

theorem Channel.registerRemoveLock_error (P : Params) (c : Channel) (messager : EnvelopMessager)
    (blockNumber : Int) (lockSecretHash : Hash) (mustExpired : Bool) (e : Err)
    (h : (c.registerRemoveLock P messager blockNumber lockSecretHash mustExpired).2 = some e) :
    (c.registerRemoveLock P messager blockNumber lockSecretHash mustExpired).1 = c := by
  unfold Channel.registerRemoveLock at h ⊢
  simp only at h ⊢
  by_cases hc : c.IsClosed = true
  · rw [if_pos hc]
  · rw [if_neg hc] at h ⊢
    cases hpre : c.PreCheckRecievedTransfer messager with
    | error e1 => rfl
    | ok p =>
      obtain ⟨f, t⟩ := p
      simp only [hpre] at h ⊢
      by_cases ha : messager.GetEnvelopMessage.TransferAmount ≠ (c.deref f).TransferAmount
      · rw [if_pos ha]
      · rw [if_neg ha] at h ⊢
        cases htry : (c.deref f).TryRemoveHashLock P lockSecretHash blockNumber mustExpired with
        | error e1 => rfl
        | ok q =>
          obtain ⟨l, newtree, root⟩ := q
          simp only [htry] at h ⊢
          by_cases hr : root ≠ messager.GetEnvelopMessage.Locksroot
          · rw [if_pos hr]
          · rw [if_neg hr] at h
            rw [EndState.registerRemoveLock_no_error] at h
            cases h

/-- C2: whenever `RegisterTransfer` returns an error, for any channel, block
number and envelope message of the five kinds, the channel after the call is the
channel before it: lifecycle state, external state and both endpoints, the
lock tree of the sender endpoint included. -/
theorem RegisterTransfer_error_unchanged (P : Params) (c : Channel) (blocknumber : Int)
    (tr : EnvelopMessager) (e : Err) (herr : (c.RegisterTransfer P blocknumber tr).2 = some e) :
    (c.RegisterTransfer P blocknumber tr).1 = c := by
  cases tr with
  | MediatedTransfer msg =>
    simp only [Channel.RegisterTransfer, Channel.registerMediatedTranser] at herr ⊢
    by_cases hc : c.IsClosed = true
    · rw [if_pos hc]
    · rw [if_neg hc] at herr ⊢
      cases hpre : c.PreCheckRecievedTransfer (.MediatedTransfer msg) with
      | error e1 => rfl
      | ok p =>
        obtain ⟨f, t⟩ := p
        simp only [hpre] at herr ⊢
        split_ifs at herr ⊢
        · rfl
        · rfl
        · rfl
        · rw [EndState.registerMediatedMessage_error P _ msg e herr, assign_deref]
  | DirectTransfer msg =>
    simp only [Channel.RegisterTransfer, Channel.registerDirectTransfer] at herr ⊢
    by_cases hc : c.IsClosed = true
    · rw [if_pos hc]
    · rw [if_neg hc] at herr ⊢
      cases hpre : c.PreCheckRecievedTransfer (.DirectTransfer msg) with
      | error e1 => rfl
      | ok p =>
        obtain ⟨f, t⟩ := p
        simp only [hpre] at herr ⊢
        split_ifs at herr ⊢
        · rfl
        · rfl
        · rw [EndState.registerDirectTransfer_error P _ msg e herr, assign_deref]
  | UnLock msg =>
    simp only [Channel.RegisterTransfer, Channel.registerUnlock] at herr ⊢
    by_cases hc : c.IsClosed = true
    · rw [if_pos hc]
    · rw [if_neg hc] at herr ⊢
      cases hpre : c.PreCheckRecievedTransfer (.UnLock msg) with
      | error e1 => rfl
      | ok p =>
        obtain ⟨f, t⟩ := p
        simp only [hpre] at herr ⊢
        rw [EndState.registerSecretMessage_error P _ msg e herr, assign_deref]
  | AnnounceDisposedResponse msg =>
    exact Channel.registerRemoveLock_error P c _ blocknumber _ false e herr
  | RemoveExpiredHashlockTransfer msg =>
    exact Channel.registerRemoveLock_error P c _ blocknumber _ true e herr

/-- Witness of C2: a DirectTransfer of the partner that repeats nonce 0 is refused
and the example channel stays as it was. -/
theorem RegisterTransfer_error_unchanged_witness :
    ((exChannel .StateOpened).RegisterTransfer exParams 50
        (.DirectTransfer ⟨exEnv 0 30 0 2⟩)).2 = some .InvalidNonce ∧
    ((exChannel .StateOpened).RegisterTransfer exParams 50
        (.DirectTransfer ⟨exEnv 0 30 0 2⟩)).1 = exChannel .StateOpened :=
  ⟨by decide, RegisterTransfer_error_unchanged exParams (exChannel .StateOpened) 50
    (.DirectTransfer ⟨exEnv 0 30 0 2⟩) .InvalidNonce (by decide)⟩

/-! ### The lifecycle state and the admission of transfers -/

theorem deref_with_state (c : Channel) (s : State) (p : EndPtr) :
    ({ c with State := s } : Channel).deref p = c.deref p := by
  cases p <;> rfl

theorem assign_with_state (c : Channel) (s : State) (p : EndPtr) (es : EndState) :
    ({ c with State := s } : Channel).assign p es = { c.assign p es with State := s } := by
  cases p <;> rfl

theorem isClosed_with_state (c : Channel) (s : State) (hs : s ≠ .StateClosed) :
    ¬ ({ c with State := s } : Channel).IsClosed = true := by
  intro h
  exact hs ((isClosed_eq_true_iff _).mp h)

theorem registerRemoveLock_with_state (P : Params) (c : Channel) (messager : EnvelopMessager)
    (blockNumber : Int) (lockSecretHash : Hash) (mustExpired : Bool) (s : State)
    (hc : c.State ≠ .StateClosed) (hs : s ≠ .StateClosed) :
    ({ c with State := s } : Channel).registerRemoveLock P messager blockNumber lockSecretHash
        mustExpired =
      ({ (c.registerRemoveLock P messager blockNumber lockSecretHash mustExpired).1 with
          State := s },
        (c.registerRemoveLock P messager blockNumber lockSecretHash mustExpired).2) := by
  have hc1 : ¬ c.IsClosed = true := fun h => hc ((isClosed_eq_true_iff c).mp h)
  have hs1 := isClosed_with_state c s hs
  have hpre' : ({ c with State := s } : Channel).PreCheckRecievedTransfer messager =
      c.PreCheckRecievedTransfer messager := rfl
  unfold Channel.registerRemoveLock
  simp only
  rw [if_neg hc1, if_neg hs1, hpre']
  cases hpre : c.PreCheckRecievedTransfer messager with
  | error e1 => rfl
  | ok p =>
    obtain ⟨f, t⟩ := p
    simp only [deref_with_state]
    split_ifs
    · rfl
    · cases htry : (c.deref f).TryRemoveHashLock P lockSecretHash blockNumber mustExpired with
      | error e1 => rfl
      | ok q =>
        obtain ⟨l, newtree, root⟩ := q
        simp only
        split_ifs
        · rfl
        · cases f <;> rfl

theorem RegisterTransfer_with_state (P : Params) (c : Channel) (blocknumber : Int)
    (tr : EnvelopMessager) (s : State) (hc : c.State ≠ .StateClosed) (hs : s ≠ .StateClosed) :
    ({ c with State := s } : Channel).RegisterTransfer P blocknumber tr =
      ({ (c.RegisterTransfer P blocknumber tr).1 with State := s },
        (c.RegisterTransfer P blocknumber tr).2) := by
  have hc1 : ¬ c.IsClosed = true := fun h => hc ((isClosed_eq_true_iff c).mp h)
  have hs1 := isClosed_with_state c s hs
  have hpre' : ({ c with State := s } : Channel).PreCheckRecievedTransfer tr =
      c.PreCheckRecievedTransfer tr := rfl
  have hgse : ({ c with State := s } : Channel).GetSettleExpiration blocknumber =
      c.GetSettleExpiration blocknumber := rfl
  cases tr with
  | MediatedTransfer msg =>
    simp only [Channel.RegisterTransfer, Channel.registerMediatedTranser]
    rw [if_neg hc1, if_neg hs1, hpre', hgse]
    cases hpre : c.PreCheckRecievedTransfer (.MediatedTransfer msg) with
    | error e1 => rfl
    | ok p =>
      obtain ⟨f, t⟩ := p
      simp only [deref_with_state]
      split_ifs
      · rfl
      · rfl
      · rfl
      · cases f <;> rfl
  | DirectTransfer msg =>
    simp only [Channel.RegisterTransfer, Channel.registerDirectTransfer]
    rw [if_neg hc1, if_neg hs1, hpre']
    cases hpre : c.PreCheckRecievedTransfer (.DirectTransfer msg) with
    | error e1 => rfl
    | ok p =>
      obtain ⟨f, t⟩ := p
      simp only [deref_with_state]
      split_ifs
      · rfl
      · rfl
      · cases f <;> rfl
  | UnLock msg =>
    simp only [Channel.RegisterTransfer, Channel.registerUnlock]
    rw [if_neg hc1, if_neg hs1, hpre']
    cases hpre : c.PreCheckRecievedTransfer (.UnLock msg) with
    | error e1 => rfl
    | ok p =>
      obtain ⟨f, t⟩ := p
      simp only [deref_with_state]
      cases f <;> rfl
  | AnnounceDisposedResponse msg =>
    exact registerRemoveLock_with_state P c _ blocknumber _ false s hc hs
  | RemoveExpiredHashlockTransfer msg =>
    exact registerRemoveLock_with_state P c _ blocknumber _ true s hc hs

/-- C4, as stated, fails: the example channel in `StateClosing` admits a valid
DirectTransfer of the partner, and in `StatePrepareForWithdraw` it admits a
valid MediatedTransfer, both without error. -/
theorem RegisterTransfer_not_opened_counterexample :
    (exChannel .StateClosing).State ≠ .StateOpened ∧
    ((exChannel .StateClosing).RegisterTransfer exParams 50
      (.DirectTransfer ⟨exEnv 1 30 0 2⟩)).2 = none ∧
    (exChannel .StatePrepareForWithdraw).State ≠ .StateOpened ∧
    ((exChannel .StatePrepareForWithdraw).RegisterTransfer exParams 50
      (.MediatedTransfer ⟨exEnv 1 0 78 2, 30, 150, 77, 3, 4, 0, []⟩)).2 = none := by
  decide

/-- C4 (amended): the lifecycle state refuses a DirectTransfer or a
MediatedTransfer only when it is `StateClosed`, with
`ErrUpdateBalanceProofAfterClosed`. In every other state, `StateOpened` or not,
`RegisterTransfer` returns the error (or acceptance) that the same channel in
`StateOpened` returns, and updates the endpoints the same way, leaving the state
as it was. -/
theorem RegisterTransfer_transfer_state (P : Params) (c : Channel) (blocknumber : Int)
    (tr : EnvelopMessager)
    (_htr : (∃ m, tr = .DirectTransfer m) ∨ (∃ m, tr = .MediatedTransfer m)) :
    (c.State = .StateClosed →
      c.RegisterTransfer P blocknumber tr = (c, some .ErrUpdateBalanceProofAfterClosed)) ∧
    (c.State ≠ .StateClosed →
      (c.RegisterTransfer P blocknumber tr).2 =
        (({ c with State := .StateOpened } : Channel).RegisterTransfer P blocknumber tr).2 ∧
      (c.RegisterTransfer P blocknumber tr).1 =
        { (({ c with State := .StateOpened } : Channel).RegisterTransfer P blocknumber tr).1 with
          State := c.State }) := by
  refine ⟨fun hcl => registerTransfer_of_isClosed P c blocknumber tr
    ((isClosed_eq_true_iff c).mpr hcl), fun hc => ?_⟩
  have h := RegisterTransfer_with_state P { c with State := .StateOpened } blocknumber tr c.State
    (fun h => State.noConfusion h) hc
  have hcc : ({ ({ c with State := .StateOpened } : Channel) with State := c.State } : Channel) = c := rfl
  rw [hcc] at h
  rw [h]
  exact ⟨rfl, rfl⟩

/-- Witness of the amended C4: the DirectTransfer of the counterexample on the
channel in `StateClosing`. -/
theorem RegisterTransfer_transfer_state_witness :
    (exChannel .StateClosing).State ≠ .StateClosed ∧
    ((exChannel .StateClosing).RegisterTransfer exParams 50
      (.DirectTransfer ⟨exEnv 1 30 0 2⟩)).2 =
    ((exChannel .StateOpened).RegisterTransfer exParams 50
      (.DirectTransfer ⟨exEnv 1 30 0 2⟩)).2 :=
  ⟨by decide, ((RegisterTransfer_transfer_state exParams (exChannel .StateClosing) 50
    (.DirectTransfer ⟨exEnv 1 30 0 2⟩) (Or.inl ⟨_, rfl⟩)).2 (by decide)).1⟩

/-! ### The checks of DirectTransfer and MediatedTransfer -/

theorem precheck_ok_amount (c : Channel) (tr : EnvelopMessager) (f t : EndPtr)
    (hpre : c.PreCheckRecievedTransfer tr = .ok (f, t)) :
    (c.deref f).TransferAmount ≤ tr.GetEnvelopMessage.TransferAmount := by
  unfold Channel.PreCheckRecievedTransfer at hpre
  simp only at hpre
  by_cases h1 : ¬ c.isChannelIdentifierValid tr.GetEnvelopMessage = true
  · rw [if_pos h1] at hpre
    cases hpre
  · rw [if_neg h1] at hpre
    by_cases h2 : tr.GetSender = c.OurState.Address
    · rw [if_pos h2] at hpre
      simp only at hpre
      split_ifs at hpre with h3 h4
      cases hpre
      omega
    · rw [if_neg h2] at hpre
      by_cases h2' : tr.GetSender = c.PartnerState.Address
      · rw [if_pos h2'] at hpre
        simp only at hpre
        split_ifs at hpre with h3 h4
        cases hpre
        omega
      · rw [if_neg h2'] at hpre
        cases hpre

theorem addInt64_eq (a b : Int) (hlo : -2 ^ 63 ≤ a + b) (hhi : a + b < 2 ^ 63) :
    addInt64 a b = a + b := by
  unfold addInt64
  omega

/-- C5: on a channel that is not closed, for a DirectTransfer that passes the
pre-check, let `d = msg.transferred_amount - from.TransferAmount()` (the pre-check
gives `0 ≤ d`). When `0 < d ≤ from.Distributable(to)` the message is handed on to
the registration at the sender endpoint, whose result is the result of the call; when
`d = 0` or `d > from.Distributable(to)` it is refused with
`ErrChannelTransferAmountMismatch` and the channel stays as it was. -/
theorem registerDirectTransfer_amount (P : Params) (c : Channel) (tr : DirectTransfer)
    (blockNumber : Int) (fromState toState : EndPtr) (hopen : c.State ≠ .StateClosed)
    (hpre : c.PreCheckRecievedTransfer (.DirectTransfer tr) = .ok (fromState, toState)) :
    let d := tr.env.TransferAmount - (c.deref fromState).TransferAmount
    let distributable := (c.deref fromState).Distributable (c.deref toState)
    0 ≤ d ∧
    ((0 < d ∧ d ≤ distributable) →
      c.registerDirectTransfer P tr blockNumber =
        (c.assign fromState ((c.deref fromState).registerDirectTransfer P tr).1,
          ((c.deref fromState).registerDirectTransfer P tr).2)) ∧
    ((d = 0 ∨ d > distributable) →
      c.registerDirectTransfer P tr blockNumber =
        (c, some .ErrChannelTransferAmountMismatch)) := by
  intro d distributable
  have hc1 : ¬ c.IsClosed = true := fun h => hopen ((isClosed_eq_true_iff c).mp h)
  have hd : 0 ≤ d := by
    have := precheck_ok_amount c _ fromState toState hpre
    simp only [d]
    simp only [EnvelopMessager.GetEnvelopMessage] at this
    omega
  refine ⟨hd, ?_, ?_⟩
  · rintro ⟨h1, h2⟩
    unfold Channel.registerDirectTransfer
    rw [if_neg hc1, hpre]
    simp only
    rw [if_neg (by simp only [d] at h1; omega), if_neg (by simp only [d, distributable] at h2; omega)]
  · intro h
    unfold Channel.registerDirectTransfer
    rw [if_neg hc1, hpre]
    simp only
    by_cases h0 : tr.env.TransferAmount - (c.deref fromState).TransferAmount ≤ 0
    · rw [if_pos h0]
    · rw [if_neg h0, if_pos]
      rcases h with h | h
      · simp only [d] at h; omega
      · exact h

/-- Witness of C5: the first DirectTransfer of the partner, of 30, on the example
channel is handed on and accepted. -/
theorem registerDirectTransfer_amount_witness :
    (exChannel .StateOpened).State ≠ .StateClosed ∧
    (exChannel .StateOpened).PreCheckRecievedTransfer (.DirectTransfer ⟨exEnv 1 30 0 2⟩) =
      .ok (.partner, .our) ∧
    ((exChannel .StateOpened).registerDirectTransfer exParams ⟨exEnv 1 30 0 2⟩ 50).2 = none :=
  ⟨by decide, by decide, by
    rw [((registerDirectTransfer_amount exParams (exChannel .StateOpened) ⟨exEnv 1 30 0 2⟩ 50
      .partner .our (by decide) (by decide)).2.1 (by decide))]
    decide⟩

/-- C6: on a channel that is not closed, at block `b`, for a MediatedTransfer that
passes the pre-check, `registerMediatedTranser` runs three checks in this order
and the first that fails decides the error: `ErrChannelTransferAmountMismatch`
when `payment_amount ≤ 0`, `ErrInsufficientBalance` when
`payment_amount > from.Distributable(to)`, `ErrChannelLockExpirationTooLarge`
when `expiration > GetSettleExpiration(b)`; in each case the channel stays as it
was. A transfer with `expiration ≤ GetSettleExpiration(b)`, equality included,
passes the expiration check and is handed on to the sender endpoint.
`GetSettleExpiration(b)` is the `int64` sum `ClosedBlock + SettleTimeout` if
`ClosedBlock ≠ 0` and `b + SettleTimeout` otherwise, which is the plain sum
whenever that sum is an `int64`. -/
theorem registerMediatedTranser_checks (P : Params) (c : Channel) (tr : MediatedTransfer)
    (b : Int) (fromState toState : EndPtr) (hopen : c.State ≠ .StateClosed)
    (hpre : c.PreCheckRecievedTransfer (.MediatedTransfer tr) = .ok (fromState, toState)) :
    let distributable := (c.deref fromState).Distributable (c.deref toState)
    (tr.PaymentAmount ≤ 0 →
      c.registerMediatedTranser P tr b = (c, some .ErrChannelTransferAmountMismatch)) ∧
    (0 < tr.PaymentAmount → tr.PaymentAmount > distributable →
      c.registerMediatedTranser P tr b = (c, some .ErrInsufficientBalance)) ∧
    (0 < tr.PaymentAmount → tr.PaymentAmount ≤ distributable →
      tr.Expiration > c.GetSettleExpiration b →
      c.registerMediatedTranser P tr b = (c, some .ErrChannelLockExpirationTooLarge)) ∧
    (0 < tr.PaymentAmount → tr.PaymentAmount ≤ distributable →
      tr.Expiration ≤ c.GetSettleExpiration b →
      c.registerMediatedTranser P tr b =
        (c.assign fromState ((c.deref fromState).registerMediatedMessage P tr).1,
          ((c.deref fromState).registerMediatedMessage P tr).2)) ∧
    ((tr.PaymentAmount ≤ 0 ∨ tr.PaymentAmount > distributable ∨
        tr.Expiration > c.GetSettleExpiration b) →
      (c.registerMediatedTranser P tr b).1 = c ∧
      ((c.registerMediatedTranser P tr b).2 = some .ErrChannelTransferAmountMismatch ∨
        (c.registerMediatedTranser P tr b).2 = some .ErrInsufficientBalance ∨
        (c.registerMediatedTranser P tr b).2 = some .ErrChannelLockExpirationTooLarge)) ∧
    c.GetSettleExpiration b =
      (if c.ExternState.ClosedBlock ≠ 0 then addInt64 c.ExternState.ClosedBlock c.SettleTimeout
        else addInt64 b c.SettleTimeout) ∧
    (c.ExternState.ClosedBlock ≠ 0 →
      -2 ^ 63 ≤ c.ExternState.ClosedBlock + c.SettleTimeout →
      c.ExternState.ClosedBlock + c.SettleTimeout < 2 ^ 63 →
      c.GetSettleExpiration b = c.ExternState.ClosedBlock + c.SettleTimeout) ∧
    (c.ExternState.ClosedBlock = 0 → -2 ^ 63 ≤ b + c.SettleTimeout →
      b + c.SettleTimeout < 2 ^ 63 → c.GetSettleExpiration b = b + c.SettleTimeout) := by
  intro distributable
  have hc1 : ¬ c.IsClosed = true := fun h => hopen ((isClosed_eq_true_iff c).mp h)
  have hshape : c.registerMediatedTranser P tr b =
      if tr.PaymentAmount ≤ 0 then (c, some .ErrChannelTransferAmountMismatch)
      else if tr.PaymentAmount > distributable then (c, some .ErrInsufficientBalance)
      else if tr.Expiration > c.GetSettleExpiration b then
        (c, some .ErrChannelLockExpirationTooLarge)
      else (c.assign fromState ((c.deref fromState).registerMediatedMessage P tr).1,
          ((c.deref fromState).registerMediatedMessage P tr).2) := by
    unfold Channel.registerMediatedTranser
    rw [if_neg hc1, hpre]
    simp only [decide_eq_true_eq]
  refine ⟨?_, ?_, ?_, ?_, ?_, rfl, ?_, ?_⟩
  · intro h
    rw [hshape, if_pos h]
  · intro h1 h2
    rw [hshape, if_neg (by omega), if_pos h2]
  · intro h1 h2 h3
    rw [hshape, if_neg (by omega), if_neg (by omega), if_pos h3]
  · intro h1 h2 h3
    rw [hshape, if_neg (by omega), if_neg (by omega), if_neg (by omega)]
  · intro h
    rw [hshape]
    split_ifs with h1 h2 h3
    · exact ⟨rfl, Or.inl rfl⟩
    · exact ⟨rfl, Or.inr (Or.inl rfl)⟩
    · exact ⟨rfl, Or.inr (Or.inr rfl)⟩
    · omega
  · intro h0 hlo hhi
    unfold Channel.GetSettleExpiration
    rw [if_pos h0, addInt64_eq _ _ hlo hhi]
  · intro h0 hlo hhi
    unfold Channel.GetSettleExpiration
    rw [if_neg (not_not.mpr h0), addInt64_eq _ _ hlo hhi]

/-- Witness of C6: at block 50 the example channel has settle expiration 150, and
the MediatedTransfer of the partner, of 30 with expiration 150, is handed on and
accepted. -/
theorem registerMediatedTranser_checks_witness :
    (exChannel .StateOpened).State ≠ .StateClosed ∧
    (exChannel .StateOpened).PreCheckRecievedTransfer
      (.MediatedTransfer ⟨exEnv 1 0 78 2, 30, 150, 77, 3, 4, 0, []⟩) = .ok (.partner, .our) ∧
    (exChannel .StateOpened).GetSettleExpiration 50 = 150 ∧
    ((exChannel .StateOpened).registerMediatedTranser exParams
      ⟨exEnv 1 0 78 2, 30, 150, 77, 3, 4, 0, []⟩ 50).2 = none :=
  ⟨by decide, by decide, by decide, by
    rw [((registerMediatedTranser_checks exParams (exChannel .StateOpened)
      ⟨exEnv 1 0 78 2, 30, 150, 77, 3, 4, 0, []⟩ 50 .partner .our (by decide) (by decide)).2.2.2.1
      (by decide) (by decide) (by decide))]
    decide⟩

/-! ## Construction of outgoing messages -/

/-- C7: `CreateDirectTransfer(amount)` fails with the channel-state error of the
current state when the channel cannot transfer; otherwise it fails with
`ErrInsufficientBalance` when `amount ≤ 0` or
`amount > OurState.Distributable(PartnerState)`; otherwise it returns a
DirectTransfer whose balance proof has nonce `GetNextNonce()`, transferred amount
`OurState.TransferAmount() + amount` and, as locks root, the current Merkle root
of the tree of `OurState`. The channel is not modified. -/
theorem CreateDirectTransfer_spec (P : Params) (c : Channel) (amount : Int) :
    (c.CanTransfer = false →
      c.CreateDirectTransfer P amount = (c, .error (.ChannelStateError c.State))) ∧
    (c.CanTransfer = true →
      (amount ≤ 0 ∨ amount > c.OurState.Distributable c.PartnerState) →
      c.CreateDirectTransfer P amount = (c, .error .ErrInsufficientBalance)) ∧
    (c.CanTransfer = true → 0 < amount →
      amount ≤ c.OurState.Distributable c.PartnerState →
      ∃ tr, c.CreateDirectTransfer P amount = (c, .ok tr) ∧
        tr.env.Nonce = c.GetNextNonce ∧
        tr.env.TransferAmount = c.OurState.TransferAmount + amount ∧
        tr.env.Locksroot = MerkleRoot P c.OurState.Tree) := by
  refine ⟨?_, ?_, ?_⟩
  · intro h
    unfold Channel.CreateDirectTransfer
    rw [if_pos (by simp [h])]
  · intro h1 h2
    unfold Channel.CreateDirectTransfer
    rw [if_neg (by simp [h1])]
    simp only
    rw [if_pos h2]
  · intro h1 h2 h3
    unfold Channel.CreateDirectTransfer
    rw [if_neg (by simp [h1])]
    simp only
    rw [if_neg (by omega)]
    exact ⟨_, rfl, rfl, rfl, rfl⟩

/-- Witness of C7: a DirectTransfer of 30 created on the opened example channel
carries nonce 1, transferred amount 30 and the empty locks root. -/
theorem CreateDirectTransfer_spec_witness :
    (exChannel .StateOpened).CanTransfer = true ∧ (0 : Int) < 30 ∧
    (30 : Int) ≤ (exChannel .StateOpened).OurState.Distributable
      (exChannel .StateOpened).PartnerState ∧
    ∃ tr, (exChannel .StateOpened).CreateDirectTransfer exParams 30 =
        (exChannel .StateOpened, .ok tr) ∧
      tr.env.Nonce = (exChannel .StateOpened).GetNextNonce ∧
      tr.env.TransferAmount = (exChannel .StateOpened).OurState.TransferAmount + 30 ∧
      tr.env.Locksroot = MerkleRoot exParams (exChannel .StateOpened).OurState.Tree :=
  ⟨by decide, by decide, by decide,
    (CreateDirectTransfer_spec exParams (exChannel .StateOpened) 30).2.2
      (by decide) (by decide) (by decide)⟩

/-- C8: `CreateMediatedTransfer` succeeds only if the channel can transfer and
`amount ≤ Distributable()`; on a channel that can transfer, an amount `≤ 0` or
`> Distributable()` is refused with `ErrInsufficientBalance`. On success the
message carries nonce `GetNextNonce()`, the transferred amount
`OurState.TransferAmount()` unchanged, the lock `{amount, expiration,
lockSecretHash}` and the locks root of the tree of `OurState` with that lock added. In
every case the channel is not modified. -/
theorem CreateMediatedTransfer_spec (P : Params) (c : Channel) (initiator target : Address)
    (fee amount : Int) (expiration : Int) (lockSecretHash : Hash) (path : List Address) :
    (∀ tr, (c.CreateMediatedTransfer P initiator target fee amount expiration lockSecretHash
          path).2 = .ok tr →
      c.CanTransfer = true ∧ 0 < amount ∧ amount ≤ c.Distributable ∧
      tr.env.Nonce = c.GetNextNonce ∧
      tr.env.TransferAmount = c.OurState.TransferAmount ∧
      tr.PaymentAmount = amount ∧ tr.Expiration = expiration ∧
      tr.LockSecretHash = lockSecretHash ∧
      tr.env.Locksroot = MerkleRoot P (c.OurState.Tree ++
        [{ Amount := amount, Expiration := expiration, LockSecretHash := lockSecretHash }])) ∧
    (c.CanTransfer = true → (amount ≤ 0 ∨ amount > c.Distributable) →
      (c.CreateMediatedTransfer P initiator target fee amount expiration lockSecretHash
          path).2 = .error .ErrInsufficientBalance) ∧
    (c.CanTransfer = false →
      (c.CreateMediatedTransfer P initiator target fee amount expiration lockSecretHash
          path).2 = .error (.ChannelStateError c.State)) ∧
    (c.CanTransfer = true → 0 < amount → amount ≤ c.Distributable →
      ∃ tr, (c.CreateMediatedTransfer P initiator target fee amount expiration lockSecretHash
          path).2 = .ok tr) ∧
    (c.CreateMediatedTransfer P initiator target fee amount expiration lockSecretHash
        path).1 = c := by
  unfold Channel.CreateMediatedTransfer
  by_cases h1 : c.CanTransfer = true
  · rw [if_neg (not_not.mpr h1)]
    by_cases h2 : amount ≤ 0 ∨ amount > c.Distributable
    · rw [if_pos h2]
      refine ⟨fun tr h => (by cases h), fun _ _ => rfl, fun h => ?_, fun _ h3 h4 => ?_, rfl⟩
      · rw [h1] at h; cases h
      · exfalso; omega
    · rw [if_neg h2]
      refine ⟨fun tr h => ?_, fun _ h => absurd h h2, fun h => ?_, fun _ _ _ => ⟨_, rfl⟩, rfl⟩
      · cases h
        exact ⟨h1, by omega, by omega, rfl, rfl, rfl, rfl, rfl, rfl⟩
      · rw [h1] at h; cases h
  · rw [if_pos h1]
    refine ⟨fun tr h => (by cases h), fun h => absurd h h1, fun _ => rfl,
      fun h => absurd h h1, rfl⟩

/-- Witness of C8: a MediatedTransfer of 30 with secret hash 77 created on the
opened example channel. -/
theorem CreateMediatedTransfer_spec_witness :
    (exChannel .StateOpened).CanTransfer = true ∧ (0 : Int) < 30 ∧
    (30 : Int) ≤ (exChannel .StateOpened).Distributable ∧
    ∃ tr, ((exChannel .StateOpened).CreateMediatedTransfer exParams 1 3 0 30 150 77 []).2 =
      .ok tr :=
  ⟨by decide, by decide, by decide,
    (CreateMediatedTransfer_spec exParams (exChannel .StateOpened) 1 3 0 30 150 77 []).2.2.2.1
      (by decide) (by decide) (by decide)⟩

/-! ## On-chain event handlers -/

theorem HandleChannelPunished_our (c : Channel) (beneficiaries : Address)
    (h : beneficiaries = c.OurState.Address) :
    c.HandleChannelPunished beneficiaries = some
      { c with
        OurState :=
          { c.OurState with
            BalanceProofState := some
              { c.OurState.proofOrEmpty with
                ContractTransferAmount := 0
                ContractLocksRoot := EmptyHash
                ContractNonce := 0xffffffffffffffff }
            ContractBalance := c.OurState.ContractBalance + c.PartnerState.ContractBalance }
        PartnerState := { c.PartnerState with ContractBalance := 0 } } := by
  unfold Channel.HandleChannelPunished
  simp only [if_pos h]
  rfl

theorem HandleChannelPunished_partner (c : Channel) (beneficiaries : Address)
    (h1 : beneficiaries ≠ c.OurState.Address) (h2 : beneficiaries = c.PartnerState.Address) :
    c.HandleChannelPunished beneficiaries = some
      { c with
        PartnerState :=
          { c.PartnerState with
            BalanceProofState := some
              { c.PartnerState.proofOrEmpty with
                ContractTransferAmount := 0
                ContractLocksRoot := EmptyHash
                ContractNonce := 0xffffffffffffffff }
            ContractBalance := c.PartnerState.ContractBalance + c.OurState.ContractBalance }
        OurState := { c.OurState with ContractBalance := 0 } } := by
  unfold Channel.HandleChannelPunished
  simp only [if_neg h1, if_pos h2]
  rfl

/-- C11, as stated, fails: on the closed example channel, punished in favour of
our address 1, the mirror of the cheater (the partner: contract transferred amount
20, contract locks root 55, contract nonce 3) stays as it was, and it is the
mirror of the beneficiary that is zeroed and its contract nonce that becomes
`0xFFFFFFFFFFFFFFFF`. -/
theorem HandleChannelPunished_mirror_counterexample :
    ∃ c, exChannelMirror.HandleChannelPunished 1 = some c ∧
      (c.PartnerState.BalanceProofState.map (fun bp =>
        (bp.ContractTransferAmount, bp.ContractLocksRoot, bp.ContractNonce))) =
        some (20, 55, 3) ∧
      (exChannelMirror.OurState.BalanceProofState.map (fun bp =>
        (bp.ContractTransferAmount, bp.ContractLocksRoot, bp.ContractNonce))) =
        some (10, 44, 2) ∧
      (c.OurState.BalanceProofState.map (fun bp =>
        (bp.ContractTransferAmount, bp.ContractLocksRoot, bp.ContractNonce))) =
        some (0, EmptyHash, 0xffffffffffffffff) :=
  ⟨_, rfl, by decide, by decide, by decide⟩

/-- C11 (amended): after `HandleChannelPunished(beneficiary)`, with beneficiary one
of the two participants, the contract mirror of the beneficiary is zeroed
(contract transferred amount 0, contract locks root empty) and the contract nonce
of the beneficiary is `0xFFFFFFFFFFFFFFFF`, its signed balance proof (nonce,
transferred amount) being kept; the balance proof, the mirror and the nonce of
the cheater, the other participant, are not touched. -/
theorem HandleChannelPunished_mirror (c : Channel) (beneficiaries : Address)
    (hpart : beneficiaries = c.OurState.Address ∨ beneficiaries = c.PartnerState.Address) :
    let beneficiaryState : EndPtr := if beneficiaries = c.OurState.Address then .our else .partner
    let cheaterState : EndPtr := if beneficiaries = c.OurState.Address then .partner else .our
    ∃ c1, c.HandleChannelPunished beneficiaries = some c1 ∧
      (∃ bp, (c1.deref beneficiaryState).BalanceProofState = some bp ∧
        bp.ContractTransferAmount = 0 ∧ bp.ContractLocksRoot = EmptyHash ∧
        bp.ContractNonce = 0xffffffffffffffff ∧
        bp.Nonce = (c.deref beneficiaryState).nonce ∧
        bp.TransferAmount = (c.deref beneficiaryState).TransferAmount) ∧
      (c1.deref cheaterState).BalanceProofState = (c.deref cheaterState).BalanceProofState := by
  intro beneficiaryState cheaterState
  by_cases h : beneficiaries = c.OurState.Address
  · have hb : beneficiaryState = .our := if_pos h
    have hc : cheaterState = .partner := if_pos h
    rw [hb, hc]
    refine ⟨_, HandleChannelPunished_our c beneficiaries h, ⟨_, rfl, rfl, rfl, rfl, ?_, ?_⟩, rfl⟩
    · simp only [Channel.deref, EndState.nonce, EndState.proofOrEmpty]
      cases c.OurState.BalanceProofState <;> rfl
    · simp only [Channel.deref, EndState.TransferAmount, EndState.proofOrEmpty]
      cases c.OurState.BalanceProofState <;> rfl
  · have h2 : beneficiaries = c.PartnerState.Address := hpart.resolve_left h
    have hb : beneficiaryState = .partner := if_neg h
    have hc : cheaterState = .our := if_neg h
    rw [hb, hc]
    refine ⟨_, HandleChannelPunished_partner c beneficiaries h h2, ⟨_, rfl, rfl, rfl, rfl, ?_, ?_⟩,
      rfl⟩
    · simp only [Channel.deref, EndState.nonce, EndState.proofOrEmpty]
      cases c.PartnerState.BalanceProofState <;> rfl
    · simp only [Channel.deref, EndState.TransferAmount, EndState.proofOrEmpty]
      cases c.PartnerState.BalanceProofState <;> rfl

/-- Witness of the amended C11: the closed example channel punished in favour of
the partner, address 2. -/
theorem HandleChannelPunished_mirror_witness :
    ((2 : Address) = exChannelMirror.OurState.Address ∨
      (2 : Address) = exChannelMirror.PartnerState.Address) ∧
    ∃ c1, exChannelMirror.HandleChannelPunished 2 = some c1 ∧
      c1.OurState.BalanceProofState = exChannelMirror.OurState.BalanceProofState :=
  ⟨by decide, by
    obtain ⟨c1, h1, _, h3⟩ := HandleChannelPunished_mirror exChannelMirror 2 (by decide)
    exact ⟨c1, h1, h3⟩⟩

/-- C12: after `HandleChannelPunished(beneficiary)`, with beneficiary one of the
two participants, the `ContractBalance` of the beneficiary is the sum of the
`ContractBalance` of both participants before the call and the one of the cheater
is 0, so the total contract balance of the channel is conserved. -/
theorem HandleChannelPunished_balance (c : Channel) (beneficiaries : Address)
    (hpart : beneficiaries = c.OurState.Address ∨ beneficiaries = c.PartnerState.Address) :
    let beneficiaryState : EndPtr := if beneficiaries = c.OurState.Address then .our else .partner
    let cheaterState : EndPtr := if beneficiaries = c.OurState.Address then .partner else .our
    ∃ c1, c.HandleChannelPunished beneficiaries = some c1 ∧
      (c1.deref beneficiaryState).ContractBalance =
        c.OurState.ContractBalance + c.PartnerState.ContractBalance ∧
      (c1.deref cheaterState).ContractBalance = 0 ∧
      c1.OurState.ContractBalance + c1.PartnerState.ContractBalance =
        c.OurState.ContractBalance + c.PartnerState.ContractBalance := by
  intro beneficiaryState cheaterState
  by_cases h : beneficiaries = c.OurState.Address
  · have hb : beneficiaryState = .our := if_pos h
    have hc : cheaterState = .partner := if_pos h
    rw [hb, hc]
    refine ⟨_, HandleChannelPunished_our c beneficiaries h, rfl, rfl, ?_⟩
    simp only
    omega
  · have h2 : beneficiaries = c.PartnerState.Address := hpart.resolve_left h
    have hb : beneficiaryState = .partner := if_neg h
    have hc : cheaterState = .our := if_neg h
    rw [hb, hc]
    refine ⟨_, HandleChannelPunished_partner c beneficiaries h h2, ?_, rfl, ?_⟩
    · simp only [Channel.deref]
      omega
    · simp only
      omega

/-- Witness of C12: the closed example channel, 100 deposited on each side,
punished in favour of our address 1: we hold 200 and the partner 0. -/
theorem HandleChannelPunished_balance_witness :
    ((1 : Address) = exChannelMirror.OurState.Address ∨
      (1 : Address) = exChannelMirror.PartnerState.Address) ∧
    ∃ c1, exChannelMirror.HandleChannelPunished 1 = some c1 ∧
      c1.OurState.ContractBalance = 200 ∧ c1.PartnerState.ContractBalance = 0 :=
  ⟨by decide, by
    obtain ⟨c1, h1, h2, h3, _⟩ := HandleChannelPunished_balance exChannelMirror 1 (by decide)
    exact ⟨c1, h1, h2, h3⟩⟩

theorem HandleWithdrawed_direct (c : Channel) (newOpenBlockNumber : Int)
    (participant1 participant2 : Address) (participant1Balance participant2Balance : Int)
    (h : c.OurState.Address = participant1 ∧ c.PartnerState.Address = participant2) :
    c.HandleWithdrawed newOpenBlockNumber participant1 participant2 participant1Balance
        participant2Balance = some
      { c with
        ChannelIdentifier := { c.ChannelIdentifier with OpenBlockNumber := newOpenBlockNumber }
        State := .StateOpened
        ExternState :=
          { ChannelIdentifier :=
              { c.ExternState.ChannelIdentifier with OpenBlockNumber := newOpenBlockNumber }
            ClosedBlock := 0
            SettledBlock := 0 }
        OurState :=
          { Address := c.OurState.Address, ContractBalance := participant1Balance,
            BalanceProofState := some NewEmptyBalanceProofState, Lock2PendingLocks := [],
            Lock2UnclaimedLocks := [], Tree := [] }
        PartnerState :=
          { Address := c.PartnerState.Address, ContractBalance := participant2Balance,
            BalanceProofState := some NewEmptyBalanceProofState, Lock2PendingLocks := [],
            Lock2UnclaimedLocks := [], Tree := [] } } := by
  unfold Channel.HandleWithdrawed
  simp only [if_pos h]
  rfl

theorem HandleWithdrawed_swapped (c : Channel) (newOpenBlockNumber : Int)
    (participant1 participant2 : Address) (participant1Balance participant2Balance : Int)
    (h1 : ¬ (c.OurState.Address = participant1 ∧ c.PartnerState.Address = participant2))
    (h2 : c.OurState.Address = participant2 ∧ c.PartnerState.Address = participant1) :
    c.HandleWithdrawed newOpenBlockNumber participant1 participant2 participant1Balance
        participant2Balance = some
      { c with
        ChannelIdentifier := { c.ChannelIdentifier with OpenBlockNumber := newOpenBlockNumber }
        State := .StateOpened
        ExternState :=
          { ChannelIdentifier :=
              { c.ExternState.ChannelIdentifier with OpenBlockNumber := newOpenBlockNumber }
            ClosedBlock := 0
            SettledBlock := 0 }
        OurState :=
          { Address := c.OurState.Address, ContractBalance := participant2Balance,
            BalanceProofState := some NewEmptyBalanceProofState, Lock2PendingLocks := [],
            Lock2UnclaimedLocks := [], Tree := [] }
        PartnerState :=
          { Address := c.PartnerState.Address, ContractBalance := participant1Balance,
            BalanceProofState := some NewEmptyBalanceProofState, Lock2PendingLocks := [],
            Lock2UnclaimedLocks := [], Tree := [] } } := by
  unfold Channel.HandleWithdrawed
  simp only [if_neg h1, if_pos h2]
  rfl

/-- C13: for every channel, in any lifecycle state and with any locks, and every
`HandleWithdrawed(newOpenBlock, p1, p2, b1, b2)` where `p1`, `p2` are the addresses
of the two participants in either order: the call returns, and afterwards
`State = StateOpened`, the open block of the channel and of its external state is
`newOpenBlock`, `ClosedBlock = SettledBlock = 0`, both endpoints keep their
address and have the empty balance proof, empty pending and unclaimed lock maps
and an empty lock tree, and the endpoint with address `p1` has `ContractBalance`
`b1` and the one with address `p2` has `b2`. -/
theorem HandleWithdrawed_spec (c : Channel) (newOpenBlockNumber : Int)
    (participant1 participant2 : Address) (participant1Balance participant2Balance : Int)
    (hdistinct : c.OurState.Address ≠ c.PartnerState.Address)
    (hpart : (c.OurState.Address = participant1 ∧ c.PartnerState.Address = participant2) ∨
      (c.OurState.Address = participant2 ∧ c.PartnerState.Address = participant1)) :
    ∃ c1, c.HandleWithdrawed newOpenBlockNumber participant1 participant2 participant1Balance
        participant2Balance = some c1 ∧
      c1.State = .StateOpened ∧
      c1.ChannelIdentifier.OpenBlockNumber = newOpenBlockNumber ∧
      c1.ExternState.ChannelIdentifier.OpenBlockNumber = newOpenBlockNumber ∧
      c1.ExternState.ClosedBlock = 0 ∧ c1.ExternState.SettledBlock = 0 ∧
      (∀ p : EndPtr,
        (c1.deref p).Address = (c.deref p).Address ∧
        (c1.deref p).BalanceProofState = some NewEmptyBalanceProofState ∧
        (c1.deref p).Lock2PendingLocks = [] ∧ (c1.deref p).Lock2UnclaimedLocks = [] ∧
        (c1.deref p).Tree = [] ∧
        ((c1.deref p).Address = participant1 → (c1.deref p).ContractBalance = participant1Balance) ∧
        ((c1.deref p).Address = participant2 →
          (c1.deref p).ContractBalance = participant2Balance)) := by
  by_cases h : c.OurState.Address = participant1 ∧ c.PartnerState.Address = participant2
  · refine ⟨_, HandleWithdrawed_direct c newOpenBlockNumber participant1 participant2
      participant1Balance participant2Balance h, rfl, rfl, rfl, rfl, rfl, ?_⟩
    intro p
    cases p
    · refine ⟨rfl, rfl, rfl, rfl, rfl, fun _ => rfl, fun h2 => ?_⟩
      simp only [Channel.deref] at h2
      exact absurd (h2.trans h.2.symm) hdistinct
    · refine ⟨rfl, rfl, rfl, rfl, rfl, fun h2 => ?_, fun _ => rfl⟩
      simp only [Channel.deref] at h2
      exact absurd (h.1.trans h2.symm) hdistinct
  · have h2 := hpart.resolve_left h
    refine ⟨_, HandleWithdrawed_swapped c newOpenBlockNumber participant1 participant2
      participant1Balance participant2Balance h h2, rfl, rfl, rfl, rfl, rfl, ?_⟩
    intro p
    cases p
    · refine ⟨rfl, rfl, rfl, rfl, rfl, fun h3 => ?_, fun _ => rfl⟩
      simp only [Channel.deref] at h3
      exact absurd (h3.trans h2.2.symm) hdistinct
    · refine ⟨rfl, rfl, rfl, rfl, rfl, fun _ => rfl, fun h3 => ?_⟩
      simp only [Channel.deref] at h3
      exact absurd (h2.1.trans h3.symm) hdistinct

/-- Witness of C13: the closed example channel with balance proofs on both sides
is reopened at block 9 with the participants given in swapped order. -/
theorem HandleWithdrawed_spec_witness :
    exChannelMirror.OurState.Address ≠ exChannelMirror.PartnerState.Address ∧
    ∃ c1, exChannelMirror.HandleWithdrawed 9 2 1 100 80 = some c1 ∧
      c1.State = .StateOpened ∧ c1.OurState.ContractBalance = 80 ∧
      c1.PartnerState.ContractBalance = 100 :=
  ⟨by decide, by
    obtain ⟨c1, h1, h2, _, _, _, _, h3⟩ :=
      HandleWithdrawed_spec exChannelMirror 9 2 1 100 80 (by decide) (by decide)
    refine ⟨c1, h1, h2, ?_, ?_⟩
    · exact (h3 .our).2.2.2.2.2.2 ((h3 .our).1.trans (by decide))
    · exact (h3 .partner).2.2.2.2.2.1 ((h3 .partner).1.trans (by decide))⟩

/-! ## The lifecycle state -/

/-- C14, as stated, fails: `HandleWithdrawed` on the example channel in
`StateSettled` returns a channel in `StateOpened`; `RegisterWithdrawRequest` with
a request of the partner that matches the channel returns no error and leaves
the channel in `StatePartnerWithdrawing`; `RegisterCooperativeSettleRequest`
with a matching request of the partner returns no error and leaves the channel
in `StatePartnerCooperativeSettling`. -/
theorem Settled_terminal_counterexample :
    (exChannel .StateSettled).State = .StateSettled ∧
    ((exChannel .StateSettled).HandleWithdrawed 9 1 2 80 100).map (fun c => c.State) =
      some .StateOpened ∧
    (((exChannel .StateSettled).RegisterWithdrawRequest exWithdrawRequest).1.State,
        ((exChannel .StateSettled).RegisterWithdrawRequest exWithdrawRequest).2) =
      (.StatePartnerWithdrawing, none) ∧
    (((exChannel .StateSettled).RegisterCooperativeSettleRequest exSettleRequest).1.State,
        ((exChannel .StateSettled).RegisterCooperativeSettleRequest exSettleRequest).2) =
      (.StatePartnerCooperativeSettling, none) := by
  decide

/-- C14 (amended): once the `State` of a channel is `StateSettled`, none of
`PrepareForWithdraw`, `PrepareForCooperativeSettle`,
`CancelWithdrawOrCooperativeSettle`, `Close`, `Settle` and `HandleSettled` changes
it: the first five fail and leave the channel as it was, whatever the chain
client would answer, and `HandleSettled` sets `StateSettled` again. The three
other operations assign the `State` without reading it and take the channel out
of `StateSettled`. `HandleWithdrawed` reopens the channel: whenever it returns,
the `State` is `StateOpened`. `RegisterWithdrawRequest` sets
`StatePartnerWithdrawing` exactly when the request carries the identifier of the
channel, is sent by the partner, states the balance of the partner, and neither
lock map of the partner nor our map of unclaimed locks holds a lock; otherwise it
returns an error and leaves the channel as it was.
`RegisterCooperativeSettleRequest` sets `StatePartnerCooperativeSettling`
exactly when `preCheckSettleDataInMessage` accepts the request and the same
three lock maps are empty; otherwise it returns an error and leaves the channel
as it was. -/
theorem Settled_terminal (c : Channel) (hsettled : c.State = .StateSettled)
    (externClose : Option BalanceProofState → Option Err)
    (externSettle : Int → Int → Hash → Hash → Option Err) (blockNumber : Int) :
    c.PrepareForWithdraw = (c, some .ErrChannelNotAllowWithdraw) ∧
    c.PrepareForCooperativeSettle = (c, some (.ChannelStateError .StateSettled)) ∧
    c.CancelWithdrawOrCooperativeSettle = (c, some (.ChannelStateError .StateSettled)) ∧
    c.Close externClose = (c, some (.ChannelStateError .StateSettled)) ∧
    c.Settle externSettle blockNumber = (c, some (.ChannelStateError .StateSettled)) ∧
    (c.HandleSettled blockNumber).State = .StateSettled ∧
    (∀ newOpenBlockNumber participant1 participant2 participant1Balance participant2Balance c1,
      c.HandleWithdrawed newOpenBlockNumber participant1 participant2 participant1Balance
        participant2Balance = some c1 → c1.State = .StateOpened) ∧
    (∀ tr : WithdrawRequest,
      ((c.ChannelIdentifier.ChannelIdentifier = tr.ChannelIdentifier ∧
          c.ChannelIdentifier.OpenBlockNumber = tr.OpenBlockNumber ∧
          tr.Sender = c.PartnerState.Address ∧
          c.PartnerState.Balance c.OurState = tr.Participant1Balance ∧
          c.PartnerState.Lock2UnclaimedLocks = [] ∧ c.PartnerState.Lock2PendingLocks = [] ∧
          c.OurState.Lock2UnclaimedLocks = []) →
        c.RegisterWithdrawRequest tr = ({ c with State := .StatePartnerWithdrawing }, none)) ∧
      (¬ (c.ChannelIdentifier.ChannelIdentifier = tr.ChannelIdentifier ∧
          c.ChannelIdentifier.OpenBlockNumber = tr.OpenBlockNumber ∧
          tr.Sender = c.PartnerState.Address ∧
          c.PartnerState.Balance c.OurState = tr.Participant1Balance ∧
          c.PartnerState.Lock2UnclaimedLocks = [] ∧ c.PartnerState.Lock2PendingLocks = [] ∧
          c.OurState.Lock2UnclaimedLocks = []) →
        ∃ err, c.RegisterWithdrawRequest tr = (c, some err))) ∧
    (∀ msg : SettleRequest,
      ((c.preCheckSettleDataInMessage msg = none ∧
          c.PartnerState.Lock2UnclaimedLocks = [] ∧ c.PartnerState.Lock2PendingLocks = [] ∧
          c.OurState.Lock2UnclaimedLocks = []) →
        c.RegisterCooperativeSettleRequest msg =
          ({ c with State := .StatePartnerCooperativeSettling }, none)) ∧
      (¬ (c.preCheckSettleDataInMessage msg = none ∧
          c.PartnerState.Lock2UnclaimedLocks = [] ∧ c.PartnerState.Lock2PendingLocks = [] ∧
          c.OurState.Lock2UnclaimedLocks = []) →
        ∃ err, c.RegisterCooperativeSettleRequest msg = (c, some err))) := by
  have hlocks : (c.PartnerState.Lock2UnclaimedLocks.length > 0 ∨
      c.PartnerState.Lock2PendingLocks.length > 0 ∨
      c.OurState.Lock2UnclaimedLocks.length > 0) ↔
      ¬ (c.PartnerState.Lock2UnclaimedLocks = [] ∧ c.PartnerState.Lock2PendingLocks = [] ∧
        c.OurState.Lock2UnclaimedLocks = []) := by
    simp only [gt_iff_lt, List.length_pos, ne_eq]
    tauto
  refine ⟨?_, ?_, ?_, ?_, ?_, rfl, ?_, fun tr => ⟨fun hok => ?_, fun hbad => ?_⟩,
    fun msg => ⟨fun hok => ?_, fun hbad => ?_⟩⟩
  · unfold Channel.PrepareForWithdraw
    rw [if_pos (by rw [hsettled]; decide)]
  · unfold Channel.PrepareForCooperativeSettle
    rw [if_pos (by rw [hsettled]; decide), hsettled]
  · unfold Channel.CancelWithdrawOrCooperativeSettle
    split_ifs with h1 h2
    · rw [hsettled]
    · rw [hsettled]
    · exfalso
      apply h2
      rw [hsettled]
      decide
  · unfold Channel.Close
    rw [if_pos (Or.inr hsettled), hsettled]
  · unfold Channel.Settle
    rw [if_pos (by rw [hsettled]; decide), hsettled]
  · intro n p1 p2 b1 b2 c1 h
    unfold Channel.HandleWithdrawed at h
    simp only at h
    split_ifs at h with h1 h2
    · cases h; rfl
    · cases h; rfl
  · obtain ⟨h1, h2, h3, h4, h5, h6, h7⟩ := hok
    unfold Channel.RegisterWithdrawRequest
    rw [if_neg (by rw [h1, h2]; simp), if_neg (by rw [h3]; simp), if_neg (by rw [h4]; simp),
      if_neg (hlocks.not.mpr (not_not.mpr ⟨h5, h6, h7⟩))]
  · unfold Channel.RegisterWithdrawRequest
    split_ifs with g1 g2 g3 g4
    · exact ⟨_, rfl⟩
    · exact ⟨_, rfl⟩
    · exact ⟨_, rfl⟩
    · exact ⟨_, rfl⟩
    · exfalso
      apply hbad
      have hno := not_not.mp (hlocks.not.mp g4)
      exact ⟨by tauto, by tauto, not_not.mp g2, not_not.mp g3, hno.1, hno.2.1, hno.2.2⟩
  · obtain ⟨h1, h5, h6, h7⟩ := hok
    unfold Channel.RegisterCooperativeSettleRequest
    rw [h1]
    simp only
    rw [if_neg (hlocks.not.mpr (not_not.mpr ⟨h5, h6, h7⟩))]
  · unfold Channel.RegisterCooperativeSettleRequest
    cases hpre : c.preCheckSettleDataInMessage msg with
    | some err => exact ⟨err, rfl⟩
    | none =>
      simp only
      split_ifs with g4
      · exact ⟨_, rfl⟩
      · exfalso
        apply hbad
        have hno := not_not.mp (hlocks.not.mp g4)
        exact ⟨hpre, hno.1, hno.2.1, hno.2.2⟩

/-- Witness of the amended C14: on the settled example channel `Close` fails, with
a chain client that would accept the call, and the withdraw request of the
partner moves the channel to `StatePartnerWithdrawing`. -/
theorem Settled_terminal_witness :
    (exChannel .StateSettled).State = .StateSettled ∧
    (exChannel .StateSettled).Close (fun _ => none) =
      (exChannel .StateSettled, some (.ChannelStateError .StateSettled)) ∧
    (exChannel .StateSettled).RegisterWithdrawRequest exWithdrawRequest =
      ({ exChannel .StateSettled with State := .StatePartnerWithdrawing }, none) ∧
    (exChannel .StateSettled).RegisterCooperativeSettleRequest exSettleRequest =
      ({ exChannel .StateSettled with State := .StatePartnerCooperativeSettling }, none) :=
  ⟨rfl,
    (Settled_terminal (exChannel .StateSettled) rfl (fun _ => none)
      (fun _ _ _ _ => none) 0).2.2.2.1,
    ((Settled_terminal (exChannel .StateSettled) rfl (fun _ => none)
      (fun _ _ _ _ => none) 0).2.2.2.2.2.2.2.1 exWithdrawRequest).1 (by decide),
    ((Settled_terminal (exChannel .StateSettled) rfl (fun _ => none)
      (fun _ _ _ _ => none) 0).2.2.2.2.2.2.2.2 exSettleRequest).1 (by decide)⟩

/-- C15 (the code at the failing input): on the opened example channel in which
only our unclaimed lock map is non-empty, `hasAnyLock` reports a lock, yet
`CreateCooperativeSettleRequest` returns no error and `CreateWithdrawRequest(10)`
returns a request and no error: both test `OurState.Lock2PendingLocks` twice and
never `OurState.Lock2UnclaimedLocks`. -/
theorem CreateRequest_misses_our_unclaimed_lock :
    exChannelUnclaimed.OurState.Lock2UnclaimedLocks ≠ [] ∧
    exChannelUnclaimed.hasAnyLock = true ∧
    exChannelUnclaimed.CreateCooperativeSettleRequest.2 = none ∧
    (exChannelUnclaimed.CreateWithdrawRequest 10).map (fun r => r.2) = some none := by
  decide

/-- C16: `CancelWithdrawOrCooperativeSettle` returns no error and sets `State` to
`StateOpened` exactly when `ExternState.ClosedBlock = 0` and `State` is
`StatePrepareForWithdraw` or `StatePrepareForCooperativeSettle`; in every other
case it returns the channel-state error of the current state and leaves the
channel as it was. In particular, on an opened channel with `ClosedBlock = 0`,
`PrepareForWithdraw` (or `PrepareForCooperativeSettle`) succeeds and a following
`CancelWithdrawOrCooperativeSettle` gives back the channel in `StateOpened`. -/
theorem CancelWithdrawOrCooperativeSettle_spec (c : Channel) :
    (c.CancelWithdrawOrCooperativeSettle.2 = none ↔
      (c.ExternState.ClosedBlock = 0 ∧
        (c.State = .StatePrepareForWithdraw ∨ c.State = .StatePrepareForCooperativeSettle))) ∧
    (c.ExternState.ClosedBlock = 0 →
      (c.State = .StatePrepareForWithdraw ∨ c.State = .StatePrepareForCooperativeSettle) →
      c.CancelWithdrawOrCooperativeSettle = ({ c with State := .StateOpened }, none)) ∧
    (¬ (c.ExternState.ClosedBlock = 0 ∧
        (c.State = .StatePrepareForWithdraw ∨ c.State = .StatePrepareForCooperativeSettle)) →
      c.CancelWithdrawOrCooperativeSettle = (c, some (.ChannelStateError c.State))) ∧
    (c.State = .StateOpened → c.ExternState.ClosedBlock = 0 →
      c.PrepareForWithdraw.2 = none ∧
      c.PrepareForWithdraw.1.CancelWithdrawOrCooperativeSettle = (c, none) ∧
      c.PrepareForCooperativeSettle.2 = none ∧
      c.PrepareForCooperativeSettle.1.CancelWithdrawOrCooperativeSettle = (c, none)) := by
  have hpos : c.ExternState.ClosedBlock = 0 →
      (c.State = .StatePrepareForWithdraw ∨ c.State = .StatePrepareForCooperativeSettle) →
      c.CancelWithdrawOrCooperativeSettle = ({ c with State := .StateOpened }, none) := by
    intro h0 hs
    unfold Channel.CancelWithdrawOrCooperativeSettle
    rw [if_neg (not_not.mpr h0), if_neg]
    rintro ⟨h1, h2⟩
    exact hs.elim h2 h1
  have hneg : ¬ (c.ExternState.ClosedBlock = 0 ∧
        (c.State = .StatePrepareForWithdraw ∨ c.State = .StatePrepareForCooperativeSettle)) →
      c.CancelWithdrawOrCooperativeSettle = (c, some (.ChannelStateError c.State)) := by
    intro h
    unfold Channel.CancelWithdrawOrCooperativeSettle
    by_cases h0 : c.ExternState.ClosedBlock = 0
    · rw [if_neg (not_not.mpr h0), if_pos]
      constructor
      · intro h1; exact h ⟨h0, Or.inr h1⟩
      · intro h1; exact h ⟨h0, Or.inl h1⟩
    · rw [if_pos h0]
  refine ⟨⟨fun h => ?_, fun h => ?_⟩, hpos, hneg, ?_⟩
  · by_contra hn
    rw [hneg hn] at h
    cases h
  · rw [hpos h.1 h.2]
  · intro hs h0
    have hc : ({ c with State := .StateOpened } : Channel) = c := by
      cases c
      simp only at hs
      subst hs
      rfl
    refine ⟨?_, ?_, ?_, ?_⟩
    · unfold Channel.PrepareForWithdraw
      rw [if_neg (not_not.mpr hs)]
    · unfold Channel.PrepareForWithdraw
      rw [if_neg (not_not.mpr hs)]
      unfold Channel.CancelWithdrawOrCooperativeSettle
      rw [if_neg (not_not.mpr h0), if_neg (by simp)]
      exact congrArg (fun x => (x, (none : Option Err))) hc
    · unfold Channel.PrepareForCooperativeSettle
      rw [if_neg (not_not.mpr hs)]
    · unfold Channel.PrepareForCooperativeSettle
      rw [if_neg (not_not.mpr hs)]
      unfold Channel.CancelWithdrawOrCooperativeSettle
      rw [if_neg (not_not.mpr h0), if_neg (by simp)]
      exact congrArg (fun x => (x, (none : Option Err))) hc

/-- Witness of C16: preparing a withdraw on the opened example channel and
cancelling it gives the opened example channel back. -/
theorem CancelWithdrawOrCooperativeSettle_spec_witness :
    (exChannel .StateOpened).State = .StateOpened ∧
    (exChannel .StateOpened).ExternState.ClosedBlock = 0 ∧
    (exChannel .StateOpened).PrepareForWithdraw.1.CancelWithdrawOrCooperativeSettle =
      (exChannel .StateOpened, none) :=
  ⟨rfl, rfl, ((CancelWithdrawOrCooperativeSettle_spec (exChannel .StateOpened)).2.2.2
    rfl rfl).2.1⟩

end channel

/-! # Theorems on the mediator -/

namespace mediator

/-! ## Registration of the secret on chain -/

/-- A pair whose payer state is `StatePayerWaitingRegisterSecret` does not need
the registration again. -/
theorem registerNeeded_after (blockNumber : Int) (p : MediationPairState) :
    (isPendingPair { p with PayerState := .StatePayerWaitingRegisterSecret } &&
      isSecretRegisterNeeded { p with PayerState := .StatePayerWaitingRegisterSecret }
        blockNumber) = false := by
  simp [isSecretRegisterNeeded]

theorem eventsForRegisterSecretLoop_pairs (blockNumber : Int) (l : List MediationPairState)
    (need : Bool) (events : List Event) :
    (eventsForRegisterSecretLoop blockNumber l need events).1 =
      l.map (fun p =>
        if (isPendingPair p && isSecretRegisterNeeded p blockNumber) = true then
          { p with PayerState := .StatePayerWaitingRegisterSecret }
        else p) := by
  induction l generalizing need events with
  | nil => rfl
  | cons p rest ih =>
    simp only [eventsForRegisterSecretLoop, List.map_cons]
    split_ifs <;> simp only [ih]

theorem eventsForRegisterSecretLoop_events_need (blockNumber : Int)
    (l : List MediationPairState) (events : List Event) :
    (eventsForRegisterSecretLoop blockNumber l true events).2.2 = events := by
  induction l generalizing events with
  | nil => rfl
  | cons p rest ih =>
    simp only [eventsForRegisterSecretLoop]
    split_ifs <;> simp only [ih]

theorem eventsForRegisterSecretLoop_events (blockNumber : Int) (l : List MediationPairState)
    (events : List Event) :
    (eventsForRegisterSecretLoop blockNumber l false events).2.2 =
      match l.find? (fun p => isPendingPair p && isSecretRegisterNeeded p blockNumber) with
      | some p => events ++ [.EventContractSendRegisterSecret p.PayeeTransfer.Secret]
      | none => events := by
  induction l generalizing events with
  | nil => rfl
  | cons p rest ih =>
    simp only [eventsForRegisterSecretLoop, List.find?_cons]
    by_cases h : (isPendingPair p && isSecretRegisterNeeded p blockNumber) = true
    · simp only [h, if_true]
      simp [eventsForRegisterSecretLoop_events_need]
    · simp only [h, if_false]
      rw [Bool.not_eq_true] at h
      simp [h, ih]

theorem eventsForRegisterSecret_pairs (transfersPair : List MediationPairState)
    (blockNumber : Int) :
    (eventsForRegisterSecret transfersPair blockNumber).1 =
      transfersPair.map (fun p =>
        if (isPendingPair p && isSecretRegisterNeeded p blockNumber) = true then
          { p with PayerState := .StatePayerWaitingRegisterSecret }
        else p) := by
  unfold eventsForRegisterSecret
  simp only [eventsForRegisterSecretLoop_pairs, List.map_reverse, List.reverse_reverse]

theorem eventsForRegisterSecret_none (transfersPair : List MediationPairState)
    (blockNumber : Int)
    (h : ∀ p ∈ transfersPair, (isPendingPair p && isSecretRegisterNeeded p blockNumber) = false) :
    eventsForRegisterSecret transfersPair blockNumber = (transfersPair, []) := by
  have h1 := eventsForRegisterSecret_pairs transfersPair blockNumber
  have h2 : (eventsForRegisterSecret transfersPair blockNumber).2 = [] := by
    unfold eventsForRegisterSecret
    simp only [eventsForRegisterSecretLoop_events]
    have hf : List.find? (fun p => isPendingPair p && isSecretRegisterNeeded p blockNumber)
        transfersPair.reverse = none := by
      rw [List.find?_eq_none]
      intro p hp
      rw [h p (List.mem_reverse.mp hp)]
      decide
    rw [hf]
  have h3 : transfersPair.map (fun p =>
        if (isPendingPair p && isSecretRegisterNeeded p blockNumber) = true then
          { p with PayerState := .StatePayerWaitingRegisterSecret }
        else p) = transfersPair := by
    conv_rhs => rw [← List.map_id transfersPair]
    apply List.map_congr_left
    intro p hp
    rw [h p hp]
    rfl
  rw [h3] at h1
  exact Prod.ext h1 h2

/-- C19: `eventsForRegisterSecret` emits exactly one
`EventContractSendRegisterSecret` if at least one pending pair satisfies
`isSecretRegisterNeeded`, which is ((payee paid and not safe to wait) or payer
channel closed) and not already waiting and not payer paid, and emits nothing
otherwise. Afterwards every pending pair that satisfied the condition has
`PayerState = StatePayerWaitingRegisterSecret` and every other pair is unchanged,
so that a second call at the same block emits nothing and changes nothing. -/
theorem eventsForRegisterSecret_spec (transfersPair : List MediationPairState)
    (blockNumber : Int) :
    ((∃ p ∈ transfersPair, (isPendingPair p && isSecretRegisterNeeded p blockNumber) = true) →
      ∃ p ∈ transfersPair, (isPendingPair p && isSecretRegisterNeeded p blockNumber) = true ∧
        (eventsForRegisterSecret transfersPair blockNumber).2 =
          [.EventContractSendRegisterSecret p.PayeeTransfer.Secret]) ∧
    ((∀ p ∈ transfersPair, (isPendingPair p && isSecretRegisterNeeded p blockNumber) = false) →
      (eventsForRegisterSecret transfersPair blockNumber).2 = []) ∧
    (eventsForRegisterSecret transfersPair blockNumber).1 =
      transfersPair.map (fun p =>
        if (isPendingPair p && isSecretRegisterNeeded p blockNumber) = true then
          { p with PayerState := .StatePayerWaitingRegisterSecret }
        else p) ∧
    eventsForRegisterSecret (eventsForRegisterSecret transfersPair blockNumber).1 blockNumber =
      ((eventsForRegisterSecret transfersPair blockNumber).1, []) ∧
    (∀ p : MediationPairState, isSecretRegisterNeeded p blockNumber =
      (((p.PayeeState.paid &&
            !IsSafeToWait p.PayerTransfer p.PayerRoute.RevealTimeout blockNumber) ||
          decide (p.PayerRoute.State = .StateClosed)) &&
        !decide (p.PayerState = .StatePayerWaitingRegisterSecret) && !p.PayerState.paid)) := by
  refine ⟨?_, ?_, eventsForRegisterSecret_pairs transfersPair blockNumber, ?_, fun _ => rfl⟩
  · rintro ⟨p, hp, hneed⟩
    unfold eventsForRegisterSecret
    simp only [eventsForRegisterSecretLoop_events]
    cases hf : List.find? (fun p => isPendingPair p && isSecretRegisterNeeded p blockNumber)
        transfersPair.reverse with
    | none =>
      rw [List.find?_eq_none] at hf
      exact absurd hneed (hf p (List.mem_reverse.mpr hp))
    | some q =>
      refine ⟨q, List.mem_reverse.mp (List.mem_of_find?_eq_some hf), ?_, ?_⟩
      · exact List.find?_some (p := fun p => isPendingPair p && isSecretRegisterNeeded p blockNumber) hf
      · simp
  · intro h
    rw [eventsForRegisterSecret_none transfersPair blockNumber h]
  · apply eventsForRegisterSecret_none
    intro p hp
    rw [eventsForRegisterSecret_pairs, List.mem_map] at hp
    obtain ⟨q, _, hq⟩ := hp
    by_cases hn : (isPendingPair q && isSecretRegisterNeeded q blockNumber) = true
    · rw [if_pos hn] at hq
      rw [← hq]
      exact registerNeeded_after blockNumber q
    · rw [if_neg hn] at hq
      rw [← hq]
      exact (Bool.not_eq_true _).mp hn

/-- Witness of C19: at block 125 a pair whose payee is paid and whose payer has
only revealed the secret, with payer expiration 130 and reveal timeout 10, needs
the registration; one event carries the secret 5 and the payer state becomes
`StatePayerWaitingRegisterSecret`. -/
theorem eventsForRegisterSecret_spec_witness :
    (∃ p ∈ [exPairSecret .StatePayerSecretRevealed .StatePayeeBalanceProof],
      (isPendingPair p && isSecretRegisterNeeded p 125) = true) ∧
    ∃ p ∈ [exPairSecret .StatePayerSecretRevealed .StatePayeeBalanceProof],
      (isPendingPair p && isSecretRegisterNeeded p 125) = true ∧
      (eventsForRegisterSecret [exPairSecret .StatePayerSecretRevealed .StatePayeeBalanceProof]
        125).2 = [.EventContractSendRegisterSecret p.PayeeTransfer.Secret] :=
  ⟨⟨_, List.mem_singleton.mpr rfl, by decide⟩,
    (eventsForRegisterSecret_spec [exPairSecret .StatePayerSecretRevealed .StatePayeeBalanceProof]
      125).1 ⟨_, List.mem_singleton.mpr rfl, by decide⟩⟩

/-! ## The expiration of the payee lock -/

theorem subInt64_eq (a b : Int) (hlo : -2 ^ 63 ≤ a - b) (hhi : a - b < 2 ^ 63) :
    subInt64 a b = a - b := by
  unfold subInt64
  omega

theorem nextRouteLoop_mem (fromRoute : RouteState) (timeoutBlocks transferAmount fee : Int)
    (l ignored : List RouteState) (err : Option StandardError) (route : RouteState)
    (h : (nextRouteLoop fromRoute timeoutBlocks transferAmount fee l ignored err).1 = some route) :
    route ∈ l := by
  induction l generalizing ignored err with
  | nil => simp [nextRouteLoop] at h
  | cons r rest ih =>
    simp only [nextRouteLoop] at h
    split_ifs at h
    all_goals first
      | exact List.mem_cons_of_mem _ (ih _ _ h)
      | (cases h; exact List.mem_cons_self _ _)

theorem nextTransferPair_expiration (payerRoute : RouteState)
    (payerTransfer : LockedTransferState) (routesState : RoutesState)
    (timeoutBlocks blockNumber : Int) (pair : MediationPairState) (events : List Event)
    (err : Option StandardError) (routes : RoutesState)
    (hb0 : 0 ≤ blockNumber) (hb1 : blockNumber < 2 ^ 63)
    (he0 : 0 ≤ payerTransfer.Expiration) (he1 : payerTransfer.Expiration < 2 ^ 63)
    (hST : ∀ route ∈ routesState.AvailableRoutes, -2 ^ 63 ≤ route.SettleTimeout)
    (h : nextTransferPair payerRoute payerTransfer routesState timeoutBlocks blockNumber =
      some (some pair, events, err, routes)) :
    pair.PayerTransfer = payerTransfer ∧
      pair.PayeeTransfer.Expiration ≤ payerTransfer.Expiration := by
  unfold nextTransferPair at h
  split_ifs at h with h1 h2
  have hsub := subInt64_eq payerTransfer.Expiration blockNumber (by omega) (by omega)
  rw [hsub] at h2
  simp only at h
  cases hr : (nextRoute payerRoute routesState timeoutBlocks payerTransfer.Amount
      payerTransfer.Fee).1 with
  | none =>
    rw [hr] at h
    cases h
  | some payeeRoute =>
    rw [hr] at h
    have hmem : payeeRoute ∈ routesState.AvailableRoutes :=
      nextRouteLoop_mem _ _ _ _ _ _ _ _ hr
    have hst := hST payeeRoute hmem
    simp only [Option.some.injEq, Prod.mk.injEq] at h
    obtain ⟨hp, _, _, _⟩ := h
    subst hp
    refine ⟨rfl, ?_⟩
    have hexp : ∀ tb : Int, tb ≤ timeoutBlocks → -2 ^ 63 ≤ tb →
        channel.addInt64 tb blockNumber ≤ payerTransfer.Expiration := by
      intro tb htb hlo
      rw [channel.addInt64_eq _ _ (by omega) (by omega)]
      omega
    simp only [NewMediationPairState]
    split_ifs with hge htarget htarget
    all_goals first
      | exact hexp _ (by omega) hst
      | exact hexp _ (le_refl _) (by omega)

/-- C17: whenever `mediateTransfer` returns, the pairs of the new state are the
pairs of the state before, or these followed by one new pair, built by
`nextTransferPair` on the payer transfer; the payee transfer of that pair
expires no later than its payer transfer. Block numbers and expirations are
non-negative `int64` values and settle timeouts are `int` values. -/
theorem mediateTransfer_expiration (state : MediatorState) (payerRoute : RouteState)
    (payerTransfer : LockedTransferState) (result : TransitionResult)
    (hb0 : 0 ≤ state.BlockNumber) (hb1 : state.BlockNumber < 2 ^ 63)
    (he0 : 0 ≤ payerTransfer.Expiration) (he1 : payerTransfer.Expiration < 2 ^ 63)
    (hST : ∀ route ∈ state.Routes.AvailableRoutes, -2 ^ 63 ≤ route.SettleTimeout)
    (h : mediateTransfer state payerRoute payerTransfer = some result) :
    ∃ newState, result.NewState = some newState ∧
      (newState.TransfersPair = state.TransfersPair ∨
        ∃ pair, newState.TransfersPair = state.TransfersPair ++ [pair] ∧
          pair.PayerTransfer = payerTransfer ∧
          pair.PayeeTransfer.Expiration ≤ pair.PayerTransfer.Expiration) := by
  unfold mediateTransfer at h
  cases htb : getTimeoutBlocks payerRoute payerTransfer state.BlockNumber with
  | none =>
    rw [htb] at h
    cases h
  | some timeoutBlocks =>
    rw [htb] at h
    simp only at h
    by_cases hpos : timeoutBlocks > 0
    · rw [if_pos hpos] at h
      cases hn : nextTransferPair payerRoute payerTransfer state.Routes timeoutBlocks
          state.BlockNumber with
      | none =>
        rw [hn] at h
        cases h
      | some q =>
        obtain ⟨op, events, err, routes⟩ := q
        rw [hn] at h
        cases op with
        | none =>
          simp only [Option.some.injEq] at h
          subst h
          exact ⟨_, rfl, Or.inl rfl⟩
        | some pair =>
          have hp := nextTransferPair_expiration payerRoute payerTransfer state.Routes
            timeoutBlocks state.BlockNumber pair events err routes hb0 hb1 he0 he1 hST hn
          simp only at h
          split_ifs at h
          · simp only [Option.some.injEq] at h
            subst h
            exact ⟨_, rfl, Or.inl rfl⟩
          · simp only [Option.some.injEq] at h
            subst h
            exact ⟨_, rfl, Or.inr ⟨pair, rfl, hp.1, by rw [hp.1]; exact hp.2⟩⟩
    · rw [if_neg hpos] at h
      simp only [Option.some.injEq] at h
      subst h
      exact ⟨_, rfl, Or.inl rfl⟩

/-- Witness of C17: at block 100 the transfer of the payer hop 2, expiring at
block 130, is mediated over the route of the hop 3; one pair is appended and
its payee transfer expires at block 130. -/
theorem mediateTransfer_expiration_witness :
    (0 : Int) ≤ exState.BlockNumber ∧ exState.BlockNumber < 2 ^ 63 ∧
    (0 : Int) ≤ (exTransfer 130).Expiration ∧ (exTransfer 130).Expiration < 2 ^ 63 ∧
    (mediateTransfer exState (exRoute 2 11) (exTransfer 130)).map
      (fun r => r.NewState.map (fun st => st.TransfersPair)) =
      some (some [exPair .StatePayerPending .StatePayeePending]) ∧
    ∃ result, mediateTransfer exState (exRoute 2 11) (exTransfer 130) = some result ∧
      ∃ newState, result.NewState = some newState ∧
        (newState.TransfersPair = exState.TransfersPair ∨
          ∃ pair, newState.TransfersPair = exState.TransfersPair ++ [pair] ∧
            pair.PayerTransfer = exTransfer 130 ∧
            pair.PayeeTransfer.Expiration ≤ pair.PayerTransfer.Expiration) :=
  ⟨by decide, by decide, by decide, by decide, by decide, by
    cases h : mediateTransfer exState (exRoute 2 11) (exTransfer 130) with
    | none => exact absurd h (by decide)
    | some result =>
      exact ⟨result, rfl, mediateTransfer_expiration exState (exRoute 2 11) (exTransfer 130)
        result (by decide) (by decide) (by decide) (by decide) (by decide) h⟩⟩

/-! ## The sanity check and the end of a mediation -/

theorem sanityCheck_paid (P : MediatorParams) (state : MediatorState) (h : sanityCheck P state = true)
    (pair : MediationPairState) (hp : pair ∈ state.TransfersPair)
    (hpaid : pair.PayerState.paid = true ∨ pair.PayeeState.paid = true) :
    state.Secret ≠ channel.EmptyHash := by
  unfold sanityCheck at h
  have hlen : ¬ state.TransfersPair.length = 0 := by
    intro h0
    rw [List.length_eq_zero] at h0
    rw [h0] at hp
    cases hp
  rw [if_neg hlen] at h
  simp only [Bool.and_eq_true, List.all_eq_true] at h
  have h1 := h.1.1.1 pair hp
  intro hs
  rcases hpaid with hpaid | hpaid
  · simp [hpaid, hs] at h1
  · simp [hpaid, hs] at h1

theorem StateTransition_eq (P : MediatorParams) (originalState : Option MediatorState)
    (stateChange : StateChange) (result : TransitionResult)
    (h : StateTransition P originalState stateChange = some result) :
    ∃ it, handleStateChange P originalState stateChange = some it ∧
      result = clearIfFinalized P it ∧
      ∀ newState, it.NewState = some newState → sanityCheck P newState = true := by
  unfold StateTransition at h
  cases hh : handleStateChange P originalState stateChange with
  | none =>
    rw [hh] at h
    cases h
  | some it =>
    rw [hh] at h
    simp only at h
    cases hn : it.NewState with
    | none =>
      rw [hn] at h
      simp only [Option.some.injEq] at h
      exact ⟨it, rfl, h.symm, fun _ hx => by rw [hn] at hx; cases hx⟩
    | some newState =>
      rw [hn] at h
      simp only at h
      split_ifs at h with hs
      simp only [Option.some.injEq] at h
      refine ⟨it, rfl, h.symm, fun st hx => ?_⟩
      rw [hn] at hx
      cases hx
      exact hs

theorem clearIfFinalized_state (P : MediatorParams) (it : TransitionResult) (state : MediatorState)
    (h : (clearIfFinalized P it).NewState = some state) : it.NewState = some state := by
  unfold clearIfFinalized at h
  cases hn : it.NewState with
  | none =>
    rw [hn] at h
    have h2 : it.NewState = some state := h
    rw [hn] at h2
    cases h2
  | some st =>
    rw [hn] at h
    simp only at h
    split_ifs at h
    have h2 : it.NewState = some state := h
    rw [hn] at h2
    exact h2

/-- C18: every state that `StateTransition` of the mediator returns (a new state
that is not nil) satisfies: if the payer state or the payee state of any pair is
paid (`StatePayerBalanceProof`, `StatePayeeBalanceProof`), then the secret of
the state is not the empty hash. -/
theorem StateTransition_paid_secret (P : MediatorParams) (originalState : Option MediatorState)
    (stateChange : StateChange) (result : TransitionResult) (newState : MediatorState)
    (h : StateTransition P originalState stateChange = some result)
    (hnew : result.NewState = some newState) :
    ∀ pair ∈ newState.TransfersPair,
      (pair.PayerState.paid = true ∨ pair.PayeeState.paid = true) →
      newState.Secret ≠ channel.EmptyHash := by
  obtain ⟨it, _, hres, hsanity⟩ := StateTransition_eq P originalState stateChange result h
  rw [hres] at hnew
  have hit := clearIfFinalized_state P it newState hnew
  intro pair hp hpaid
  exact sanityCheck_paid P newState (hsanity newState hit) pair hp hpaid

/-- C20: when `StateTransition` of the mediator has handled a state change into
a result `it` whose new state passes the sanity check: if every pair of that
state is paid on the payer and on the payee side, `StateTransition` returns no
new state and the events of `it` followed by, as last event, the
`EventRemoveStateManager` with key `Sha3(lock_secret_hash, token)`; if some pair
is not paid on both sides, it returns `it`, whose new state is that state. -/
theorem StateTransition_clearIfFinalized (P : MediatorParams) (originalState : Option MediatorState)
    (stateChange : StateChange) (it : TransitionResult) (state : MediatorState)
    (hit : handleStateChange P originalState stateChange = some it)
    (hstate : it.NewState = some state) (hsanity : sanityCheck P state = true) :
    ((∀ pair ∈ state.TransfersPair, pair.PayeeState.paid = true ∧ pair.PayerState.paid = true) →
      StateTransition P originalState stateChange = some
        { NewState := none
          Events := it.Events ++
            [.EventRemoveStateManager (P.Sha3 state.LockSecretHash state.Token)] }) ∧
    ((∃ pair ∈ state.TransfersPair,
        ¬ (pair.PayeeState.paid = true ∧ pair.PayerState.paid = true)) →
      StateTransition P originalState stateChange = some it ∧ it.NewState = some state) := by
  have hst : StateTransition P originalState stateChange = some (clearIfFinalized P it) := by
    unfold StateTransition
    rw [hit]
    simp only [hstate, hsanity, if_true]
  rw [hst]
  unfold clearIfFinalized
  rw [hstate]
  simp only
  constructor
  · intro hall
    rw [if_pos]
    rw [List.all_eq_true]
    intro p hp
    rw [Bool.and_eq_true]
    exact hall p hp
  · rintro ⟨p, hp, hnot⟩
    rw [if_neg]
    · exact ⟨rfl, trivial⟩
    · rw [List.all_eq_true]
      intro hall
      apply hnot
      have := hall p hp
      rw [Bool.and_eq_true] at this
      exact this

/-- Witness of C18: at block 100 the payee hop 3 reveals the secret 5 of the
pending pair; the state returned knows the secret. -/
theorem StateTransition_paid_secret_witness :
    ∃ result newState,
      StateTransition exMediatorParams (some exStatePair) (.ReceiveSecretRevealStateChange 5 3) =
        some result ∧
      result.NewState = some newState ∧
      ∀ pair ∈ newState.TransfersPair,
        (pair.PayerState.paid = true ∨ pair.PayeeState.paid = true) →
        newState.Secret ≠ channel.EmptyHash := by
  cases h : StateTransition exMediatorParams (some exStatePair) (.ReceiveSecretRevealStateChange 5 3) with
  | none => exact absurd h (by decide)
  | some result =>
    cases hn : result.NewState with
    | none =>
      have hb : (StateTransition exMediatorParams (some exStatePair)
          (.ReceiveSecretRevealStateChange 5 3)).bind (fun r => r.NewState) = none := by
        rw [h]
        exact hn
      exact absurd hb (by decide)
    | some newState =>
      exact ⟨result, newState, rfl, hn,
        StateTransition_paid_secret exMediatorParams _ _ result newState h hn⟩

/-- The run of the witness of C18 returns the pair with the payee paid and the
secret 5. -/
theorem StateTransition_secret_reveal_run :
    (StateTransition exMediatorParams (some exStatePair) (.ReceiveSecretRevealStateChange 5 3)).bind
      (fun r => r.NewState.map (fun st =>
        (st.Secret, st.TransfersPair.map (fun p => (p.PayerState, p.PayeeState))))) =
      some (5, [(.StatePayerSecretRevealed, .StatePayeeBalanceProof)]) := by
  decide

/-- Witness of C20: the payer hop 2 sends the unlock with the secret 5 for the
pending pair; the pair is then paid on both sides, and the result has no new
state and ends with the `EventRemoveStateManager` of key 1014. -/
theorem StateTransition_clearIfFinalized_witness :
    handleStateChange exMediatorParams (some exStatePair) (.ReceiveUnlockStateChange 2 5) =
      some (handleBalanceProof exStatePair 2 5) ∧
    (handleBalanceProof exStatePair 2 5).NewState = some exStatePaid ∧
    sanityCheck exMediatorParams exStatePaid = true ∧
    StateTransition exMediatorParams (some exStatePair) (.ReceiveUnlockStateChange 2 5) = some
      { NewState := none
        Events := (handleBalanceProof exStatePair 2 5).Events ++
          [.EventRemoveStateManager 1014] } :=
  ⟨rfl, by decide, by decide,
    (StateTransition_clearIfFinalized exMediatorParams (some exStatePair)
      (.ReceiveUnlockStateChange 2 5) (handleBalanceProof exStatePair 2 5) exStatePaid rfl
      (by decide) (by decide)).1 (by decide)⟩

/-! ## The timeout blocks -/

/-- C23: for a block number at or after the closed block of the payer route,
`getTimeoutBlocks` returns the smaller of `s` and
`payer_transfer.expiration - block`, where `s` is the settle timeout when the
closed block is 0 and `settle_timeout - (block - closed_block)` otherwise. Block
numbers, the expiration and the settle timeout are non-negative `int64`
values. -/
theorem getTimeoutBlocks_spec (payerRoute : RouteState) (payerTransfer : LockedTransferState)
    (blockNumber : Int)
    (hc0 : 0 ≤ payerRoute.ClosedBlock) (hc : payerRoute.ClosedBlock ≤ blockNumber)
    (hb1 : blockNumber < 2 ^ 63)
    (hs0 : 0 ≤ payerRoute.SettleTimeout) (hs1 : payerRoute.SettleTimeout < 2 ^ 63)
    (he0 : 0 ≤ payerTransfer.Expiration) (he1 : payerTransfer.Expiration < 2 ^ 63) :
    getTimeoutBlocks payerRoute payerTransfer blockNumber =
      some (min
        (if payerRoute.ClosedBlock = 0 then payerRoute.SettleTimeout
          else payerRoute.SettleTimeout - (blockNumber - payerRoute.ClosedBlock))
        (payerTransfer.Expiration - blockNumber)) := by
  have h1 := subInt64_eq payerTransfer.Expiration blockNumber (by omega) (by omega)
  have h2 := subInt64_eq blockNumber payerRoute.ClosedBlock (by omega) (by omega)
  have h3 := subInt64_eq payerRoute.SettleTimeout (blockNumber - payerRoute.ClosedBlock)
    (by omega) (by omega)
  unfold getTimeoutBlocks
  rw [h1, h2, h3]
  by_cases hz : payerRoute.ClosedBlock = 0
  · simp only [hz, ne_eq, not_true_eq_false, if_false, if_true]
    split_ifs with hgt
    · rw [min_eq_right (by omega)]
    · rw [min_eq_left (by omega)]
  · have hlt : ¬ blockNumber < payerRoute.ClosedBlock := by omega
    simp only [hz, ne_eq, not_false_eq_true, if_true, if_false, hlt]
    split_ifs with hgt
    · rw [min_eq_right (by omega)]
    · rw [min_eq_left (by omega)]

/-- Witness of C23: the channel of the payer hop was closed at block 90, its
settle timeout is 40, the lock expires at block 150 and the block is 100; 30
blocks are left. -/
theorem getTimeoutBlocks_spec_witness :
    getTimeoutBlocks { exRoute 2 11 with ClosedBlock := 90 } (exTransfer 150) 100 = some 30 ∧
    getTimeoutBlocks { exRoute 2 11 with ClosedBlock := 90 } (exTransfer 150) 100 =
      some (min
        (if ({ exRoute 2 11 with ClosedBlock := 90 } : RouteState).ClosedBlock = 0 then
          ({ exRoute 2 11 with ClosedBlock := 90 } : RouteState).SettleTimeout
          else ({ exRoute 2 11 with ClosedBlock := 90 } : RouteState).SettleTimeout -
            (100 - ({ exRoute 2 11 with ClosedBlock := 90 } : RouteState).ClosedBlock))
        ((exTransfer 150).Expiration - 100)) :=
  ⟨by decide,
    getTimeoutBlocks_spec { exRoute 2 11 with ClosedBlock := 90 } (exTransfer 150) 100
      (by decide) (by decide) (by decide) (by decide) (by decide) (by decide) (by decide)⟩

/-! ## The choice of the payee route -/

theorem nextRouteLoop_spec (fromRoute : RouteState) (timeoutBlocks transferAmount fee : Int)
    (l ignored : List RouteState) (err : Option StandardError)
    (hrt : ∀ r ∈ l, -2 ^ 63 ≤ timeoutBlocks - r.RevealTimeout ∧
      timeoutBlocks - r.RevealTimeout < 2 ^ 63) :
    (∃ before r after, l = before ++ r :: after ∧
      (∀ x ∈ before, ¬ (x.CanTransfer = true ∧ transferAmount ≤ x.AvailableBalance ∧
        0 < timeoutBlocks - x.RevealTimeout ∧ x.Fee ≤ fee ∧ x.HopNode ≠ fromRoute.HopNode)) ∧
      (r.CanTransfer = true ∧ transferAmount ≤ r.AvailableBalance ∧
        0 < timeoutBlocks - r.RevealTimeout ∧ r.Fee ≤ fee ∧ r.HopNode ≠ fromRoute.HopNode) ∧
      (nextRouteLoop fromRoute timeoutBlocks transferAmount fee l ignored err).1 = some r ∧
      (nextRouteLoop fromRoute timeoutBlocks transferAmount fee l ignored err).2.2 =
        (after, ignored ++ before)) ∨
    ((∀ x ∈ l, ¬ (x.CanTransfer = true ∧ transferAmount ≤ x.AvailableBalance ∧
        0 < timeoutBlocks - x.RevealTimeout ∧ x.Fee ≤ fee ∧ x.HopNode ≠ fromRoute.HopNode)) ∧
      (nextRouteLoop fromRoute timeoutBlocks transferAmount fee l ignored err).1 = none ∧
      (nextRouteLoop fromRoute timeoutBlocks transferAmount fee l ignored err).2.2 =
        ([], ignored ++ l)) := by
  induction l generalizing ignored err with
  | nil =>
    right
    simp [nextRouteLoop]
  | cons a rest ih =>
    have ha := hrt a (List.mem_cons_self _ _)
    have hsub := subInt64_eq timeoutBlocks a.RevealTimeout ha.1 ha.2
    have hrest : ∀ r ∈ rest, -2 ^ 63 ≤ timeoutBlocks - r.RevealTimeout ∧
        timeoutBlocks - r.RevealTimeout < 2 ^ 63 :=
      fun r hr => hrt r (List.mem_cons_of_mem _ hr)
    by_cases hok : a.CanTransfer = true ∧ transferAmount ≤ a.AvailableBalance ∧
        0 < timeoutBlocks - a.RevealTimeout ∧ a.Fee ≤ fee ∧ a.HopNode ≠ fromRoute.HopNode
    · left
      refine ⟨[], a, rest, rfl, by simp, hok, ?_, ?_⟩
      · obtain ⟨h1, h2, h3, h4, h5⟩ := hok
        simp only [nextRouteLoop, hsub]
        rw [if_neg (by simp [h1]), if_neg (by omega), if_neg (by omega), if_neg (by omega),
          if_neg h5]
      · obtain ⟨h1, h2, h3, h4, h5⟩ := hok
        simp only [nextRouteLoop, hsub]
        rw [if_neg (by simp [h1]), if_neg (by omega), if_neg (by omega), if_neg (by omega),
          if_neg h5]
        simp
    · have hstep : ∃ e, nextRouteLoop fromRoute timeoutBlocks transferAmount fee (a :: rest)
          ignored err =
          nextRouteLoop fromRoute timeoutBlocks transferAmount fee rest (ignored ++ [a]) e := by
        simp only [nextRouteLoop, hsub]
        split_ifs
        all_goals first
          | exact ⟨_, rfl⟩
          | (exfalso
             apply hok
             refine ⟨by simp_all, by omega, by omega, by omega, by assumption⟩)
      obtain ⟨e, he⟩ := hstep
      rw [he]
      rcases ih (ignored ++ [a]) e hrest with
        ⟨before, r, after, hl, hbefore, hr, h1, h2⟩ | ⟨hall, h1, h2⟩
      · left
        refine ⟨a :: before, r, after, by simp [hl], ?_, hr, h1, ?_⟩
        · intro x hx
          rcases List.mem_cons.mp hx with hx | hx
          · subst hx
            exact hok
          · exact hbefore x hx
        · rw [h2]
          simp
      · right
        refine ⟨?_, h1, ?_⟩
        · intro x hx
          rcases List.mem_cons.mp hx with hx | hx
          · subst hx
            exact hok
          · exact hall x hx
        · rw [h2]
          simp

/-- C22: `nextRoute` returns the first available route, in list order, that can
transfer, has an available balance of at least the transfer amount, leaves a
lock timeout `timeoutBlocks - RevealTimeout` above 0, asks a fee that the given
fee covers and does not lead back to the hop of the inbound route; the routes
before it go to the end of the ignored routes in order and the routes after it
stay available. When no route qualifies it returns nil and all routes were moved
to the ignored routes. The timeout blocks and the reveal timeouts are
non-negative `int` values. -/
theorem nextRoute_spec (fromRoute : RouteState) (rss : RoutesState)
    (timeoutBlocks transferAmount fee : Int)
    (ht0 : 0 ≤ timeoutBlocks) (ht1 : timeoutBlocks < 2 ^ 63)
    (hrt : ∀ r ∈ rss.AvailableRoutes, 0 ≤ r.RevealTimeout ∧ r.RevealTimeout < 2 ^ 63) :
    (∃ before r after, rss.AvailableRoutes = before ++ r :: after ∧
      (∀ x ∈ before, ¬ (x.CanTransfer = true ∧ transferAmount ≤ x.AvailableBalance ∧
        0 < timeoutBlocks - x.RevealTimeout ∧ x.Fee ≤ fee ∧ x.HopNode ≠ fromRoute.HopNode)) ∧
      (r.CanTransfer = true ∧ transferAmount ≤ r.AvailableBalance ∧
        0 < timeoutBlocks - r.RevealTimeout ∧ r.Fee ≤ fee ∧ r.HopNode ≠ fromRoute.HopNode) ∧
      (nextRoute fromRoute rss timeoutBlocks transferAmount fee).1 = some r ∧
      (nextRoute fromRoute rss timeoutBlocks transferAmount fee).2.2 =
        { rss with
          AvailableRoutes := after
          IgnoredRoutes := rss.IgnoredRoutes ++ before }) ∨
    ((∀ x ∈ rss.AvailableRoutes, ¬ (x.CanTransfer = true ∧
        transferAmount ≤ x.AvailableBalance ∧ 0 < timeoutBlocks - x.RevealTimeout ∧
        x.Fee ≤ fee ∧ x.HopNode ≠ fromRoute.HopNode)) ∧
      (nextRoute fromRoute rss timeoutBlocks transferAmount fee).1 = none ∧
      (nextRoute fromRoute rss timeoutBlocks transferAmount fee).2.2 =
        { rss with
          AvailableRoutes := []
          IgnoredRoutes := rss.IgnoredRoutes ++ rss.AvailableRoutes }) := by
  have hrange : ∀ r ∈ rss.AvailableRoutes, -2 ^ 63 ≤ timeoutBlocks - r.RevealTimeout ∧
      timeoutBlocks - r.RevealTimeout < 2 ^ 63 := by
    intro r hr
    have := hrt r hr
    omega
  rcases nextRouteLoop_spec fromRoute timeoutBlocks transferAmount fee rss.AvailableRoutes
      rss.IgnoredRoutes none hrange with
    ⟨before, r, after, hl, hbefore, hr, h1, h2⟩ | ⟨hall, h1, h2⟩
  · left
    refine ⟨before, r, after, hl, hbefore, hr, h1, ?_⟩
    simp only [nextRoute, h2]
  · right
    refine ⟨hall, h1, ?_⟩
    simp only [nextRoute, h2]

/-- Witness of C22: with 30 timeout blocks, 30 tokens to transfer and a fee of 1,
the routes that cannot transfer, hold 20 tokens, have a reveal timeout of 30, ask
a fee of 2 or lead back to the inbound hop 2 are ignored in this order; the
route over the hop 5 is returned and the route over the hop 6 stays
available. -/
theorem nextRoute_spec_witness :
    nextRoute (exRoute 2 11) exRoutesMixed 30 30 1 =
      (some (exRoute 5 13), some (.ErrNoAvailabeRoute (some .cycleRoute)),
        { exRoutesMixed with
          AvailableRoutes := [exRoute 6 14]
          IgnoredRoutes := exRoute 8 15 :: exRoutesMixed.AvailableRoutes.take 5 }) ∧
    ((∃ before r after, exRoutesMixed.AvailableRoutes = before ++ r :: after ∧
      (∀ x ∈ before, ¬ (x.CanTransfer = true ∧ (30 : Int) ≤ x.AvailableBalance ∧
        0 < (30 : Int) - x.RevealTimeout ∧ x.Fee ≤ (1 : Int) ∧
        x.HopNode ≠ (exRoute 2 11).HopNode)) ∧
      (r.CanTransfer = true ∧ (30 : Int) ≤ r.AvailableBalance ∧
        0 < (30 : Int) - r.RevealTimeout ∧ r.Fee ≤ (1 : Int) ∧
        r.HopNode ≠ (exRoute 2 11).HopNode) ∧
      (nextRoute (exRoute 2 11) exRoutesMixed 30 30 1).1 = some r ∧
      (nextRoute (exRoute 2 11) exRoutesMixed 30 30 1).2.2 =
        { exRoutesMixed with
          AvailableRoutes := after
          IgnoredRoutes := exRoutesMixed.IgnoredRoutes ++ before }) ∨
    ((∀ x ∈ exRoutesMixed.AvailableRoutes, ¬ (x.CanTransfer = true ∧
        (30 : Int) ≤ x.AvailableBalance ∧ 0 < (30 : Int) - x.RevealTimeout ∧
        x.Fee ≤ (1 : Int) ∧ x.HopNode ≠ (exRoute 2 11).HopNode)) ∧
      (nextRoute (exRoute 2 11) exRoutesMixed 30 30 1).1 = none ∧
      (nextRoute (exRoute 2 11) exRoutesMixed 30 30 1).2.2 =
        { exRoutesMixed with
          AvailableRoutes := []
          IgnoredRoutes := exRoutesMixed.IgnoredRoutes ++ exRoutesMixed.AvailableRoutes })) :=
  ⟨by decide,
    nextRoute_spec (exRoute 2 11) exRoutesMixed 30 30 1 (by decide) (by decide) (by decide)⟩

/-! ## The refusal of a payer that holds too many locks -/

theorem getTimeoutBlocks_le (payerRoute : RouteState) (payerTransfer : LockedTransferState)
    (blockNumber : Int)
    (hclosed : payerRoute.ClosedBlock = 0 ∨ payerRoute.ClosedBlock ≤ blockNumber) :
    ∃ timeoutBlocks, getTimeoutBlocks payerRoute payerTransfer blockNumber = some timeoutBlocks ∧
      timeoutBlocks ≤ subInt64 payerTransfer.Expiration blockNumber := by
  unfold getTimeoutBlocks
  by_cases hz : payerRoute.ClosedBlock = 0
  · simp only [hz, ne_eq, not_true_eq_false, if_false]
    split_ifs with h
    · exact ⟨_, rfl, le_refl _⟩
    · exact ⟨_, rfl, by omega⟩
  · have hlt : ¬ blockNumber < payerRoute.ClosedBlock := by
      have := hclosed.resolve_left hz
      omega
    simp only [hz, ne_eq, not_false_eq_true, if_true, hlt, if_false]
    split_ifs with h
    · exact ⟨_, rfl, le_refl _⟩
    · exact ⟨_, rfl, by omega⟩

theorem nextRouteLoop_err (fromRoute : RouteState) (timeoutBlocks transferAmount fee : Int)
    (l ignored : List RouteState) (err : Option StandardError)
    (herr : ∀ e, err = some e → ∃ cause, e = .ErrNoAvailabeRoute cause) (e : StandardError)
    (h : (nextRouteLoop fromRoute timeoutBlocks transferAmount fee l ignored err).2.1 = some e) :
    ∃ cause, e = .ErrNoAvailabeRoute cause := by
  induction l generalizing ignored err with
  | nil => exact herr e (by simpa [nextRouteLoop] using h)
  | cons a rest ih =>
    simp only [nextRouteLoop] at h
    split_ifs at h
    all_goals first
      | exact herr e h
      | exact ih _ _ (fun e he => ⟨_, (Option.some.inj he).symm⟩) h

theorem nextTransferPair_run (payerRoute : RouteState) (payerTransfer : LockedTransferState)
    (routesState : RoutesState) (timeoutBlocks blockNumber : Int) (h0 : 0 < timeoutBlocks)
    (h1 : timeoutBlocks ≤ subInt64 payerTransfer.Expiration blockNumber) :
    ((nextRoute payerRoute routesState timeoutBlocks payerTransfer.Amount
        payerTransfer.Fee).1 = none ∧
      nextTransferPair payerRoute payerTransfer routesState timeoutBlocks blockNumber =
        some (none, [],
          (nextRoute payerRoute routesState timeoutBlocks payerTransfer.Amount
            payerTransfer.Fee).2.1,
          (nextRoute payerRoute routesState timeoutBlocks payerTransfer.Amount
            payerTransfer.Fee).2.2)) ∨
    (∃ pair events,
      (nextRoute payerRoute routesState timeoutBlocks payerTransfer.Amount
        payerTransfer.Fee).1 ≠ none ∧
      pair.PayerRoute = payerRoute ∧
      nextTransferPair payerRoute payerTransfer routesState timeoutBlocks blockNumber =
        some (some pair, events,
          (nextRoute payerRoute routesState timeoutBlocks payerTransfer.Amount
            payerTransfer.Fee).2.1,
          (nextRoute payerRoute routesState timeoutBlocks payerTransfer.Amount
            payerTransfer.Fee).2.2)) := by
  unfold nextTransferPair
  rw [if_neg (by omega), if_neg (by omega)]
  cases hr : (nextRoute payerRoute routesState timeoutBlocks payerTransfer.Amount
      payerTransfer.Fee).1 with
  | none =>
    left
    exact ⟨rfl, by simp only [hr]⟩
  | some payeeRoute =>
    right
    simp only [hr]
    exact ⟨_, _, by simp, rfl, rfl⟩

/-- C21: a call of `mediateTransfer` for a payer channel whose partner endpoint
holds more locks than the reveal timeout of the channel returns whenever the
channel of the payer was not closed after the current block; no pair is
appended, and the only event is the `SendAnnounceDisposed` refund of the payer
transfer to the payer hop. The reason is
`RejectTransferBecauseChannelHoldingTooMuchLock` exactly when the timeout
blocks are positive and `nextRoute` finds a payee route; otherwise it is
`NoAvailabeRoute`, because the routes are tried before the locks are
counted. -/
theorem mediateTransfer_holding_too_much_lock (state : MediatorState) (payerRoute : RouteState)
    (payerTransfer : LockedTransferState)
    (hlocks : (payerRoute.Channel.PartnerState.Lock2PendingLocks.length : Int) +
      payerRoute.Channel.PartnerState.Lock2UnclaimedLocks.length >
        payerRoute.Channel.RevealTimeout)
    (hclosed : payerRoute.ClosedBlock = 0 ∨ payerRoute.ClosedBlock ≤ state.BlockNumber) :
    ∃ timeoutBlocks result newState reason,
      getTimeoutBlocks payerRoute payerTransfer state.BlockNumber = some timeoutBlocks ∧
      mediateTransfer state payerRoute payerTransfer = some result ∧
      result.NewState = some newState ∧
      newState.TransfersPair = state.TransfersPair ∧
      result.Events =
        [.EventSendAnnounceDisposed payerTransfer.Token payerTransfer.Amount
          payerTransfer.LockSecretHash payerTransfer.Expiration payerRoute.HopNode reason] ∧
      (reason = .ErrRejectTransferBecauseChannelHoldingTooMuchLock ↔
        (0 < timeoutBlocks ∧
          (nextRoute payerRoute state.Routes timeoutBlocks payerTransfer.Amount
            payerTransfer.Fee).1 ≠ none)) ∧
      (reason ≠ .ErrRejectTransferBecauseChannelHoldingTooMuchLock →
        ∃ cause, reason = .ErrNoAvailabeRoute cause) := by
  obtain ⟨timeoutBlocks, htb, hle⟩ :=
    getTimeoutBlocks_le payerRoute payerTransfer state.BlockNumber hclosed
  unfold mediateTransfer
  rw [htb]
  by_cases hpos : timeoutBlocks > 0
  · simp only [if_pos hpos]
    rcases nextTransferPair_run payerRoute payerTransfer state.Routes timeoutBlocks
        state.BlockNumber hpos hle with ⟨hnone, hrun⟩ | ⟨pair, events, hsome, hpayer, hrun⟩
    · rw [hrun]
      cases herr : (nextRoute payerRoute state.Routes timeoutBlocks payerTransfer.Amount
          payerTransfer.Fee).2.1 with
      | none =>
        refine ⟨timeoutBlocks, _, _, .ErrNoAvailabeRoute none, rfl, rfl, rfl, rfl, rfl, ?_, ?_⟩
        · constructor
          · intro h
            cases h
          · intro h
            exact absurd hnone h.2
        · intro _
          exact ⟨_, rfl⟩
      | some e =>
        obtain ⟨cause, hcause⟩ := nextRouteLoop_err payerRoute timeoutBlocks
          payerTransfer.Amount payerTransfer.Fee state.Routes.AvailableRoutes
          state.Routes.IgnoredRoutes none (fun e he => by cases he) e herr
        subst hcause
        refine ⟨timeoutBlocks, _, _, .ErrNoAvailabeRoute cause, rfl, rfl, rfl, rfl, rfl, ?_, ?_⟩
        · constructor
          · intro h
            cases h
          · intro h
            exact absurd hnone h.2
        · intro _
          exact ⟨_, rfl⟩
    · rw [hrun]
      simp only [hpayer, if_pos hlocks]
      refine ⟨timeoutBlocks, _, _, .ErrRejectTransferBecauseChannelHoldingTooMuchLock, rfl, rfl,
        rfl, rfl, rfl, ?_, ?_⟩
      · exact ⟨fun _ => ⟨hpos, hsome⟩, fun _ => rfl⟩
      · intro h
        exact absurd rfl h
  · simp only [if_neg hpos]
    refine ⟨timeoutBlocks, _, _, .ErrNoAvailabeRoute none, rfl, rfl, rfl, rfl, rfl, ?_, ?_⟩
    · constructor
      · intro h
        cases h
      · intro h
        exact absurd h.1 hpos
    · intro _
      exact ⟨_, rfl⟩

/-- Counterexample to C21 as stated: the partner endpoint of the payer channel
holds four locks and the reveal timeout of the channel is 3, but no route is
available; the refund carries the reason `NoAvailabeRoute`, not
`RejectTransferBecauseChannelHoldingTooMuchLock`. -/
theorem mediateTransfer_flooded_counterexample :
    ((exRouteFlooded.Channel.PartnerState.Lock2PendingLocks.length : Int) +
      exRouteFlooded.Channel.PartnerState.Lock2UnclaimedLocks.length >
        exRouteFlooded.Channel.RevealTimeout) ∧
    mediateTransfer exStateNoRoute exRouteFlooded (exTransfer 130) =
      some
        { NewState := some exStateNoRoute
          Events :=
            [.EventSendAnnounceDisposed 9 30 1005 130 2 (.ErrNoAvailabeRoute none)] } := by
  decide

/-- Witness of C21: the same payer, with a route over the hop 3 available; the
route is found, the locks are counted, and the refund carries the reason
`RejectTransferBecauseChannelHoldingTooMuchLock`. -/
theorem mediateTransfer_holding_too_much_lock_witness :
    mediateTransfer exState exRouteFlooded (exTransfer 130) =
      some
        { NewState := some exStateNoRoute
          Events :=
            [.EventSendAnnounceDisposed 9 30 1005 130 2
              .ErrRejectTransferBecauseChannelHoldingTooMuchLock] } ∧
    ∃ timeoutBlocks result newState reason,
      getTimeoutBlocks exRouteFlooded (exTransfer 130) exState.BlockNumber =
        some timeoutBlocks ∧
      mediateTransfer exState exRouteFlooded (exTransfer 130) = some result ∧
      result.NewState = some newState ∧
      newState.TransfersPair = exState.TransfersPair ∧
      result.Events =
        [.EventSendAnnounceDisposed (exTransfer 130).Token (exTransfer 130).Amount
          (exTransfer 130).LockSecretHash (exTransfer 130).Expiration exRouteFlooded.HopNode
          reason] ∧
      (reason = .ErrRejectTransferBecauseChannelHoldingTooMuchLock ↔
        (0 < timeoutBlocks ∧
          (nextRoute exRouteFlooded exState.Routes timeoutBlocks (exTransfer 130).Amount
            (exTransfer 130).Fee).1 ≠ none)) ∧
      (reason ≠ .ErrRejectTransferBecauseChannelHoldingTooMuchLock →
        ∃ cause, reason = .ErrNoAvailabeRoute cause) :=
  ⟨by decide,
    mediateTransfer_holding_too_much_lock exState exRouteFlooded (exTransfer 130) (by decide)
      (by decide)⟩

end mediator

/-! # Theorems on the initiator -/

namespace initiator

open mediator (RouteState RoutesState CanceledRoute LockedTransferState subInt64)

/-! ## The choice of a route -/

theorem tryNewRouteLoop_spec (targetAmount : Int) (l ignored : List RouteState) :
    (∃ before r after, l = before ++ r :: after ∧
      (∀ x ∈ before, ¬ (x.CanTransfer = true ∧ targetAmount ≤ x.AvailableBalance)) ∧
      (r.CanTransfer = true ∧ targetAmount ≤ r.AvailableBalance) ∧
      tryNewRouteLoop targetAmount l ignored = (some r, after, ignored ++ before)) ∨
    ((∀ x ∈ l, ¬ (x.CanTransfer = true ∧ targetAmount ≤ x.AvailableBalance)) ∧
      tryNewRouteLoop targetAmount l ignored = (none, [], ignored ++ l)) := by
  induction l generalizing ignored with
  | nil =>
    right
    simp [tryNewRouteLoop]
  | cons a rest ih =>
    by_cases hok : a.CanTransfer = true ∧ targetAmount ≤ a.AvailableBalance
    · left
      refine ⟨[], a, rest, rfl, by simp, hok, ?_⟩
      have hskip : ¬ ((!a.CanTransfer || decide (a.AvailableBalance < targetAmount)) = true) := by
        simp only [Bool.or_eq_true, Bool.not_eq_true', decide_eq_true_eq, not_or, not_lt]
        exact ⟨by simp [hok.1], hok.2⟩
      simp only [tryNewRouteLoop]
      rw [if_neg hskip]
      simp
    · have hskip : (!a.CanTransfer || decide (a.AvailableBalance < targetAmount)) = true := by
        simp only [Bool.or_eq_true, Bool.not_eq_true', decide_eq_true_eq]
        by_cases hc : a.CanTransfer = true
        · right
          by_contra hlt
          exact hok ⟨hc, by omega⟩
        · left
          simpa using hc
      have hstep : tryNewRouteLoop targetAmount (a :: rest) ignored =
          tryNewRouteLoop targetAmount rest (ignored ++ [a]) := by
        simp only [tryNewRouteLoop]
        rw [if_pos hskip]
      rw [hstep]
      rcases ih (ignored ++ [a]) with ⟨before, r, after, hl, hbefore, hr, h1⟩ | ⟨hall, h1⟩
      · left
        refine ⟨a :: before, r, after, by simp [hl], ?_, hr, ?_⟩
        · intro x hx
          rcases List.mem_cons.mp hx with hx | hx
          · subst hx
            exact hok
          · exact hbefore x hx
        · rw [h1]
          simp
      · right
        refine ⟨?_, ?_⟩
        · intro x hx
          rcases List.mem_cons.mp hx with hx | hx
          · subst hx
            exact hok
          · exact hall x hx
        · rw [h1]
          simp

theorem join_cons_eq (a : String) (l : List String) : String.join (a :: l) = a ++ String.join l := by
  apply String.ext
  simp [String.join_eq, String.data_append]

theorem reason_foldl_eq (l : List CanceledRoute) (acc : String) :
    l.foldl (fun reason canceledRoute => reason ++ "," ++ canceledRoute.Reason) acc =
      acc ++ String.join (l.map (fun c => "," ++ c.Reason)) := by
  induction l generalizing acc with
  | nil => simp [String.join]
  | cons c rest ih =>
    simp only [List.foldl_cons, List.map_cons]
    rw [ih, join_cons_eq]
    simp only [String.append_assoc]

theorem failedReason_eq (l : List CanceledRoute) :
    failedReason l =
      if l = [] then "no route available" else String.join (l.map (fun c => "," ++ c.Reason)) := by
  unfold failedReason
  simp only [reason_foldl_eq, String.empty_append]
  cases l with
  | nil => simp [String.join]
  | cons c rest =>
    have hne : String.join (List.map (fun c => "," ++ c.Reason) (c :: rest)) ≠ "" := by
      intro h
      have hlen := congrArg String.length h
      rw [List.map_cons, join_cons_eq, String.length_append, String.length_append] at hlen
      have h1 : (",".length) = 1 := by decide
      have h0 : ("".length) = 0 := by decide
      omega
    rw [if_neg hne, if_neg (by simp)]

theorem tryNewRoute_found (P : InitiatorParams) (state : InitiatorState) (r : RouteState)
    (after ignored : List RouteState) (hroute : state.Route = none)
    (hcanceled : ∀ c ∈ state.Routes.CanceledRoutes, c.Route ≠ none)
    (hloop : tryNewRouteLoop state.Transfer.TargetAmount state.Routes.AvailableRoutes
      state.Routes.IgnoredRoutes = (some r, after, ignored)) :
    ∃ newState msg,
      tryNewRoute P state =
        some (newState,
          { NewState := some newState, Events := [.EventSendMediatedTransfer msg] }) ∧
      newState.Route = some r ∧ newState.Message = some msg ∧
      msg.Transfer = newState.Transfer ∧ msg.Receiver = r.HopNode ∧
      newState.Routes =
        { state.Routes with AvailableRoutes := after, IgnoredRoutes := ignored } ∧
      newState.Transfer.TargetAmount = state.Transfer.TargetAmount ∧
      newState.Transfer.Amount = state.Transfer.TargetAmount + r.TotalFee ∧
      newState.Transfer.LockSecretHash = state.LockSecretHash ∧
      newState.Transfer.Expiration =
        (if subInt64 (channel.addInt64 state.BlockNumber r.SettleTimeout)
              P.DefaultRevealTimeout > state.Transfer.Expiration ∧
            state.Transfer.Expiration ≠ 0 then
          state.Transfer.Expiration
        else
          subInt64 (channel.addInt64 state.BlockNumber r.SettleTimeout)
            P.DefaultRevealTimeout) := by
  unfold tryNewRoute
  rw [if_neg (by simp [hroute])]
  simp only [hloop]
  cases hlast : state.Routes.CanceledRoutes.getLast? with
  | none => exact ⟨_, _, rfl, rfl, rfl, rfl, rfl, rfl, rfl, rfl, rfl, rfl⟩
  | some c =>
    have hmem : c ∈ state.Routes.CanceledRoutes := List.mem_of_mem_getLast? hlast
    cases hc : c.Route with
    | none => exact absurd hc (hcanceled c hmem)
    | some route =>
      simp only [hc]
      exact ⟨_, _, rfl, rfl, rfl, rfl, rfl, rfl, rfl, rfl, rfl, rfl⟩

/-- C24: on a state without a route in use whose canceled routes each hold their
route, `tryNewRoute` returns. It chooses the first available route, in list
order, that can transfer and has an available balance of at least the target
amount: that route becomes the route of the new state and receives the one
event, the mediated transfer; the routes before it go to the end of the ignored
routes in order and the routes after it stay available. When no route qualifies,
all routes were moved to the ignored routes, the new state is nil and the events
are `TransferSentFailed` and `EventRemoveStateManager`; the reason of the failure
is `no route available` without canceled routes, and otherwise the reasons of
the canceled routes in order, each after a comma. -/
theorem tryNewRoute_spec (P : InitiatorParams) (state : InitiatorState)
    (hroute : state.Route = none)
    (hcanceled : ∀ c ∈ state.Routes.CanceledRoutes, c.Route ≠ none) :
    (∃ before r after, state.Routes.AvailableRoutes = before ++ r :: after ∧
      (∀ x ∈ before, ¬ (x.CanTransfer = true ∧
        state.Transfer.TargetAmount ≤ x.AvailableBalance)) ∧
      (r.CanTransfer = true ∧ state.Transfer.TargetAmount ≤ r.AvailableBalance) ∧
      ∃ newState msg,
        tryNewRoute P state =
          some (newState,
            { NewState := some newState, Events := [.EventSendMediatedTransfer msg] }) ∧
        newState.Route = some r ∧ msg.Receiver = r.HopNode ∧
        msg.Transfer = newState.Transfer ∧
        newState.Routes =
          { state.Routes with
            AvailableRoutes := after
            IgnoredRoutes := state.Routes.IgnoredRoutes ++ before }) ∨
    ((∀ x ∈ state.Routes.AvailableRoutes, ¬ (x.CanTransfer = true ∧
        state.Transfer.TargetAmount ≤ x.AvailableBalance)) ∧
      ∃ newState,
        tryNewRoute P state =
          some (newState,
            { NewState := none
              Events :=
                [.EventTransferSentFailed state.Transfer.LockSecretHash
                    (if state.Routes.CanceledRoutes = [] then "no route available"
                      else String.join
                        (state.Routes.CanceledRoutes.map (fun c => "," ++ c.Reason)))
                    state.Transfer.Target state.Transfer.Token,
                  .EventRemoveStateManager (P.Sha3 state.LockSecretHash state.Transfer.Token)] }) ∧
        newState.Routes =
          { state.Routes with
            AvailableRoutes := []
            IgnoredRoutes := state.Routes.IgnoredRoutes ++ state.Routes.AvailableRoutes }) := by
  rcases tryNewRouteLoop_spec state.Transfer.TargetAmount state.Routes.AvailableRoutes
      state.Routes.IgnoredRoutes with ⟨before, r, after, hl, hbefore, hr, hloop⟩ | ⟨hall, hloop⟩
  · left
    obtain ⟨newState, msg, h1, h2, _, h4, h5, h6, _⟩ :=
      tryNewRoute_found P state r after _ hroute hcanceled hloop
    exact ⟨before, r, after, hl, hbefore, hr, newState, msg, h1, h2, h5, h4, h6⟩
  · right
    refine ⟨hall, ?_⟩
    unfold tryNewRoute
    rw [if_neg (by simp [hroute])]
    simp only [hloop, failedReason_eq]
    exact ⟨_, rfl, rfl⟩

/-- Witness of C24: of the four routes of the example, the first cannot transfer
and the second holds 20 of the 30 tokens; the route over the hop 5 is chosen
and the route over the hop 6 stays available. With the first two routes only,
the transfer fails with the reason `no route available`, or with the reasons of
the canceled routes when there are some. -/
theorem tryNewRoute_spec_witness :
    (tryNewRoute exInitiatorParams (exInitState 0)).map
        (fun p => (p.1.Route, p.1.Routes.AvailableRoutes, p.1.Routes.IgnoredRoutes)) =
      some (some (mediator.exRoute 5 13), [mediator.exRoute 6 14],
        [exRouteDown 2 11, exRoutePoor 3 12]) ∧
    (tryNewRoute exInitiatorParams exInitStateNoRoute).map
        (fun p => (p.1.Routes.AvailableRoutes, p.2)) =
      some ([],
        { NewState := none
          Events :=
            [.EventTransferSentFailed 1005 "no route available" 4 9,
              .EventRemoveStateManager 1014] }) ∧
    (tryNewRoute exInitiatorParams
        { exInitStateNoRoute with
          Routes :=
            { exInitStateNoRoute.Routes with
              CanceledRoutes :=
                [{ Route := some (mediator.exRoute 5 13), Reason := "initiator cancel" },
                  { Route := some (mediator.exRoute 6 14), Reason := "refused" }] } }).map
        (fun p => p.2.Events) =
      some
        [.EventTransferSentFailed 1005 ",initiator cancel,refused" 4 9,
          .EventRemoveStateManager 1014] ∧
    ((∃ before r after, (exInitState 0).Routes.AvailableRoutes = before ++ r :: after ∧
      (∀ x ∈ before, ¬ (x.CanTransfer = true ∧
        (exInitState 0).Transfer.TargetAmount ≤ x.AvailableBalance)) ∧
      (r.CanTransfer = true ∧ (exInitState 0).Transfer.TargetAmount ≤ r.AvailableBalance) ∧
      ∃ newState msg,
        tryNewRoute exInitiatorParams (exInitState 0) =
          some (newState,
            { NewState := some newState, Events := [.EventSendMediatedTransfer msg] }) ∧
        newState.Route = some r ∧ msg.Receiver = r.HopNode ∧
        msg.Transfer = newState.Transfer ∧
        newState.Routes =
          { (exInitState 0).Routes with
            AvailableRoutes := after
            IgnoredRoutes := (exInitState 0).Routes.IgnoredRoutes ++ before }) ∨
    ((∀ x ∈ (exInitState 0).Routes.AvailableRoutes, ¬ (x.CanTransfer = true ∧
        (exInitState 0).Transfer.TargetAmount ≤ x.AvailableBalance)) ∧
      ∃ newState,
        tryNewRoute exInitiatorParams (exInitState 0) =
          some (newState,
            { NewState := none
              Events :=
                [.EventTransferSentFailed (exInitState 0).Transfer.LockSecretHash
                    (if (exInitState 0).Routes.CanceledRoutes = [] then "no route available"
                      else String.join
                        ((exInitState 0).Routes.CanceledRoutes.map (fun c => "," ++ c.Reason)))
                    (exInitState 0).Transfer.Target (exInitState 0).Transfer.Token,
                  .EventRemoveStateManager
                    (exInitiatorParams.Sha3 (exInitState 0).LockSecretHash
                      (exInitState 0).Transfer.Token)] }) ∧
        newState.Routes =
          { (exInitState 0).Routes with
            AvailableRoutes := []
            IgnoredRoutes :=
              (exInitState 0).Routes.IgnoredRoutes ++
                (exInitState 0).Routes.AvailableRoutes })) :=
  ⟨by decide, by decide, by decide,
    tryNewRoute_spec exInitiatorParams (exInitState 0) (by decide) (by decide)⟩

/-! ## The expiration of the lock -/

theorem tryNewRouteLoop_mem (targetAmount : Int) (l ignored : List RouteState) (r : RouteState)
    (h : (tryNewRouteLoop targetAmount l ignored).1 = some r) : r ∈ l := by
  rcases tryNewRouteLoop_spec targetAmount l ignored with
    ⟨before, r1, after, hl, _, _, hloop⟩ | ⟨_, hloop⟩
  · rw [hloop] at h
    cases h
    rw [hl]
    simp
  · rw [hloop] at h
    cases h

/-- C25: when `tryNewRoute` returns with the route `r` chosen, the new transfer
of the state, which is the transfer of the message sent, expires at the smaller
of `BlockNumber + r.SettleTimeout - DefaultRevealTimeout` and the requested
`Transfer.Expiration` if that expiration is not 0, and at
`BlockNumber + r.SettleTimeout - DefaultRevealTimeout` if it is 0. The block
number, the settle timeouts and the default reveal timeout are non-negative
values whose sum fits `int64`. -/
theorem tryNewRoute_lockExpiration (P : InitiatorParams) (state newState : InitiatorState)
    (result : InitiatorTransitionResult) (r : RouteState)
    (hb0 : 0 ≤ state.BlockNumber) (hb1 : state.BlockNumber < 2 ^ 62)
    (hst : ∀ x ∈ state.Routes.AvailableRoutes, 0 ≤ x.SettleTimeout ∧ x.SettleTimeout < 2 ^ 62)
    (hd0 : 0 ≤ P.DefaultRevealTimeout) (hd1 : P.DefaultRevealTimeout < 2 ^ 63)
    (h : tryNewRoute P state = some (newState, result)) (hr : newState.Route = some r) :
    result.NewState = some newState ∧
      (∃ msg, result.Events = [.EventSendMediatedTransfer msg] ∧
        msg.Transfer = newState.Transfer) ∧
      newState.Transfer.Expiration =
        (if state.Transfer.Expiration ≠ 0 then
          min (state.BlockNumber + r.SettleTimeout - P.DefaultRevealTimeout)
            state.Transfer.Expiration
        else
          state.BlockNumber + r.SettleTimeout - P.DefaultRevealTimeout) := by
  have hexp : ∀ x ∈ state.Routes.AvailableRoutes,
      (if subInt64 (channel.addInt64 state.BlockNumber x.SettleTimeout)
            P.DefaultRevealTimeout > state.Transfer.Expiration ∧
          state.Transfer.Expiration ≠ 0 then
        state.Transfer.Expiration
      else
        subInt64 (channel.addInt64 state.BlockNumber x.SettleTimeout)
          P.DefaultRevealTimeout) =
      (if state.Transfer.Expiration ≠ 0 then
        min (state.BlockNumber + x.SettleTimeout - P.DefaultRevealTimeout)
          state.Transfer.Expiration
      else
        state.BlockNumber + x.SettleTimeout - P.DefaultRevealTimeout) := by
    intro x hx
    have hx2 := hst x hx
    rw [channel.addInt64_eq _ _ (by omega) (by omega),
      mediator.subInt64_eq _ _ (by omega) (by omega)]
    by_cases hz : state.Transfer.Expiration = 0
    · simp [hz]
    · by_cases hgt : state.BlockNumber + x.SettleTimeout - P.DefaultRevealTimeout >
          state.Transfer.Expiration
      · rw [if_pos ⟨hgt, hz⟩, if_pos hz, min_eq_right (by omega)]
      · rw [if_neg (fun hh => hgt hh.1), if_pos hz, min_eq_left (by omega)]
  unfold tryNewRoute at h
  split_ifs at h with hroute
  simp only at h
  cases hl : (tryNewRouteLoop state.Transfer.TargetAmount state.Routes.AvailableRoutes
      state.Routes.IgnoredRoutes).1 with
  | none =>
    rw [hl] at h
    simp only [Option.some.injEq, Prod.mk.injEq] at h
    obtain ⟨h1, _⟩ := h
    rw [← h1] at hr
    simp only at hr
    rw [not_not.mp hroute] at hr
    cases hr
  | some tryRoute =>
    have hmem := tryNewRouteLoop_mem _ _ _ _ hl
    rw [hl] at h
    simp only at h
    cases hlast : state.Routes.CanceledRoutes.getLast? with
    | none =>
      simp only [hlast, Option.some.injEq, Prod.mk.injEq] at h
      obtain ⟨h1, h2⟩ := h
      subst h1
      subst h2
      simp only [Option.some.injEq] at hr
      subst hr
      exact ⟨rfl, ⟨_, rfl, rfl⟩, hexp _ hmem⟩
    | some c =>
      simp only [hlast] at h
      cases hc : c.Route with
      | none =>
        simp only [hc] at h
        cases h
      | some route =>
        simp only [hc, Option.some.injEq, Prod.mk.injEq] at h
        obtain ⟨h1, h2⟩ := h
        subst h1
        subst h2
        simp only [Option.some.injEq] at hr
        subst hr
        exact ⟨rfl, ⟨_, rfl, rfl⟩, hexp _ hmem⟩

/-- Witness of C25: at block 100, over a route with settle timeout 40 and with
the default reveal timeout 10, the lock expires at block 130 when no expiration
is requested, and at block 120 when the expiration 120 is requested. -/
theorem tryNewRoute_lockExpiration_witness :
    (tryNewRoute exInitiatorParams (exInitState 0)).map (fun p => p.1.Transfer.Expiration) =
      some 130 ∧
    (tryNewRoute exInitiatorParams (exInitState 120)).map (fun p => p.1.Transfer.Expiration) =
      some 120 ∧
    ∃ newState result, tryNewRoute exInitiatorParams (exInitState 120) = some (newState, result) ∧
      newState.Route = some (mediator.exRoute 5 13) ∧
      result.NewState = some newState ∧
      (∃ msg, result.Events = [.EventSendMediatedTransfer msg] ∧
        msg.Transfer = newState.Transfer) ∧
      newState.Transfer.Expiration =
        (if (exInitState 120).Transfer.Expiration ≠ 0 then
          min ((exInitState 120).BlockNumber + (mediator.exRoute 5 13).SettleTimeout -
              exInitiatorParams.DefaultRevealTimeout)
            (exInitState 120).Transfer.Expiration
        else
          (exInitState 120).BlockNumber + (mediator.exRoute 5 13).SettleTimeout -
            exInitiatorParams.DefaultRevealTimeout) :=
  ⟨by decide, by decide, by
    cases h : tryNewRoute exInitiatorParams (exInitState 120) with
    | none => exact absurd h (by decide)
    | some p =>
      obtain ⟨newState, result⟩ := p
      have hr : newState.Route = some (mediator.exRoute 5 13) := by
        have h2 : (tryNewRoute exInitiatorParams (exInitState 120)).map (fun p => p.1.Route) =
            some (some (mediator.exRoute 5 13)) := by decide
        rw [h] at h2
        simpa using h2
      exact ⟨newState, result, rfl, hr,
        tryNewRoute_lockExpiration exInitiatorParams (exInitState 120) newState result
          (mediator.exRoute 5 13) (by decide) (by decide) (by decide) (by decide) (by decide)
          h hr⟩⟩

/-! ## The expiration of the transfer -/

/-- C26: for an initiator state with a current route whose lock has not been
removed, `StateTransition` on `BlockStateChange(block)` returns the state with
the larger of the two block numbers. When that block number minus
`ForkConfirmNumber` is above the expiration of the transfer, which is the case
when `block - ForkConfirmNumber` is, the events are `UnlockFailed`,
`TransferSentFailed` and `EventRemoveStateManager`, once each in this order;
when it is not above, there is no event. Block numbers and `ForkConfirmNumber`
are non-negative `int64` values. -/
theorem StateTransition_block_expired (P : InitiatorParams) (state : InitiatorState)
    (blockNumber : Int) (route : RouteState)
    (hroute : state.Route = some route)
    (hremoved : P.IsThisLockRemoved route.ChannelIdentifier state.OurAddress
      state.Transfer.LockSecretHash = false)
    (hs0 : 0 ≤ state.BlockNumber) (hs1 : state.BlockNumber < 2 ^ 63)
    (hb0 : 0 ≤ blockNumber) (hb1 : blockNumber < 2 ^ 63)
    (hf0 : 0 ≤ P.ForkConfirmNumber) (hf1 : P.ForkConfirmNumber < 2 ^ 63) :
    ∃ events,
      StateTransition P (some state) (.BlockStateChange blockNumber) =
        some
          { NewState := some { state with BlockNumber := max state.BlockNumber blockNumber }
            Events := events } ∧
      (max state.BlockNumber blockNumber - P.ForkConfirmNumber > state.Transfer.Expiration →
        events =
          [.EventUnlockFailed state.Transfer.LockSecretHash route.ChannelIdentifier
              "lock expired",
            .EventTransferSentFailed state.Transfer.LockSecretHash "no route available"
              state.Transfer.Target state.Transfer.Token,
            .EventRemoveStateManager (P.Sha3 state.LockSecretHash state.Transfer.Token)]) ∧
      (max state.BlockNumber blockNumber - P.ForkConfirmNumber ≤ state.Transfer.Expiration →
        events = []) ∧
      (blockNumber - P.ForkConfirmNumber > state.Transfer.Expiration →
        max state.BlockNumber blockNumber - P.ForkConfirmNumber >
          state.Transfer.Expiration) := by
  by_cases hlt : state.BlockNumber < blockNumber
  · have hmax : max state.BlockNumber blockNumber = blockNumber := max_eq_right (by omega)
    have hsub := mediator.subInt64_eq blockNumber P.ForkConfirmNumber (by omega) (by omega)
    rw [hmax]
    by_cases hgt : blockNumber - P.ForkConfirmNumber > state.Transfer.Expiration
    · refine ⟨_, ?_, fun _ => rfl, fun hle => absurd hgt (by omega), fun _ => hgt⟩
      simp [StateTransition, handleBlock, hlt, expiredHashLockEvents, hroute, hremoved, hsub,
        hgt]
    · refine ⟨[], ?_, fun h => absurd h hgt, fun _ => rfl, fun h => absurd h hgt⟩
      simp [StateTransition, handleBlock, hlt, hsub, hgt]
  · have hmax : max state.BlockNumber blockNumber = state.BlockNumber :=
      max_eq_left (by omega)
    have hsub := mediator.subInt64_eq state.BlockNumber P.ForkConfirmNumber (by omega)
      (by omega)
    rw [hmax]
    by_cases hgt : state.BlockNumber - P.ForkConfirmNumber > state.Transfer.Expiration
    · refine ⟨_, ?_, fun _ => rfl, fun hle => absurd hgt (by omega), fun _ => hgt⟩
      simp [StateTransition, handleBlock, hlt, expiredHashLockEvents, hroute, hremoved, hsub,
        hgt]
      rw [← hroute]
    · refine ⟨[], ?_, fun h => absurd h hgt, fun _ => rfl, fun h => by omega⟩
      simp [StateTransition, handleBlock, hlt, hsub, hgt]

/-- Witness of C26: the lock of the example expires at block 130; the block 148
is the first whose distance of 17 confirmation blocks lies after it. -/
theorem StateTransition_block_expired_witness :
    StateTransition exInitiatorParams (some (exInitStateSent 100)) (.BlockStateChange 148) =
      some
        { NewState := some (exInitStateSent 148)
          Events :=
            [.EventUnlockFailed 1005 13 "lock expired",
              .EventTransferSentFailed 1005 "no route available" 4 9,
              .EventRemoveStateManager 1014] } ∧
    StateTransition exInitiatorParams (some (exInitStateSent 100)) (.BlockStateChange 147) =
      some { NewState := some (exInitStateSent 147), Events := [] } ∧
    ∃ events,
      StateTransition exInitiatorParams (some (exInitStateSent 100)) (.BlockStateChange 148) =
        some
          { NewState := some
              { exInitStateSent 100 with
                BlockNumber := max (exInitStateSent 100).BlockNumber 148 }
            Events := events } ∧
      (max (exInitStateSent 100).BlockNumber 148 - exInitiatorParams.ForkConfirmNumber >
          (exInitStateSent 100).Transfer.Expiration →
        events =
          [.EventUnlockFailed (exInitStateSent 100).Transfer.LockSecretHash
              (mediator.exRoute 5 13).ChannelIdentifier "lock expired",
            .EventTransferSentFailed (exInitStateSent 100).Transfer.LockSecretHash
              "no route available" (exInitStateSent 100).Transfer.Target
              (exInitStateSent 100).Transfer.Token,
            .EventRemoveStateManager
              (exInitiatorParams.Sha3 (exInitStateSent 100).LockSecretHash
                (exInitStateSent 100).Transfer.Token)]) ∧
      (max (exInitStateSent 100).BlockNumber 148 - exInitiatorParams.ForkConfirmNumber ≤
          (exInitStateSent 100).Transfer.Expiration →
        events = []) ∧
      ((148 : Int) - exInitiatorParams.ForkConfirmNumber >
          (exInitStateSent 100).Transfer.Expiration →
        max (exInitStateSent 100).BlockNumber 148 - exInitiatorParams.ForkConfirmNumber >
          (exInitStateSent 100).Transfer.Expiration) :=
  ⟨by decide, by decide,
    StateTransition_block_expired exInitiatorParams (exInitStateSent 100) 148
      (mediator.exRoute 5 13) rfl rfl (by decide) (by decide) (by decide) (by decide)
      (by decide) (by decide)⟩

/-! ## The secret -/

/-- Counterexample to C27 as stated: the secret has not been revealed and the
request of the target is valid before the expiration, but an earlier request
had marked `CancelByExceptionSecretRequest`; no `SendRevealSecret` is
emitted. -/
theorem StateTransition_secret_request_counterexample :
    ({ exInitStateSent 100 with CancelByExceptionSecretRequest := true } :
      InitiatorState).RevealSecret = none ∧
    StateTransition exInitiatorParams
        (some { exInitStateSent 100 with CancelByExceptionSecretRequest := true })
        (.ReceiveSecretRequestStateChange { Sender := 4, LockSecretHash := 1005, Amount := 30 }) =
      some
        { NewState := some { exInitStateSent 100 with CancelByExceptionSecretRequest := true }
          Events := [] } := by
  decide

/-- C27, amended: for an initiator state that has not revealed the secret and a
`ReceiveSecretRequest(sender, hash, amount)`: if the sender is the target, the
hash is the lock secret hash, the amount is the target amount, the block number
is below the expiration and `CancelByExceptionSecretRequest` is not set, the
transition emits one `SendRevealSecret` to the target and records it in the
state; otherwise it emits no event and sets
`CancelByExceptionSecretRequest`. -/
theorem StateTransition_secret_request (P : InitiatorParams) (state : InitiatorState)
    (stateChange : ReceiveSecretRequestStateChange) (hreveal : state.RevealSecret = none) :
    StateTransition P (some state) (.ReceiveSecretRequestStateChange stateChange) =
      some
        (if stateChange.Sender = state.Transfer.Target ∧
            stateChange.LockSecretHash = state.Transfer.LockSecretHash ∧
            stateChange.Amount = state.Transfer.TargetAmount ∧
            state.BlockNumber < state.Transfer.Expiration ∧
            state.CancelByExceptionSecretRequest = false then
          { NewState := some
              { state with
                RevealSecret := some
                  { LockSecretHash := state.Transfer.LockSecretHash
                    Secret := state.Transfer.Secret
                    Token := state.Transfer.Token
                    Receiver := state.Transfer.Target
                    Sender := state.OurAddress
                    Data := state.Transfer.Data } }
            Events :=
              [.EventSendRevealSecret
                { LockSecretHash := state.Transfer.LockSecretHash
                  Secret := state.Transfer.Secret
                  Token := state.Transfer.Token
                  Receiver := state.Transfer.Target
                  Sender := state.OurAddress
                  Data := state.Transfer.Data }] }
        else
          { NewState := some { state with CancelByExceptionSecretRequest := true }
            Events := [] }) := by
  simp only [StateTransition, if_pos hreveal, handleSecretRequest]
  by_cases hvalid : stateChange.Sender = state.Transfer.Target ∧
      stateChange.LockSecretHash = state.Transfer.LockSecretHash ∧
      stateChange.Amount = state.Transfer.TargetAmount ∧
      state.BlockNumber < state.Transfer.Expiration ∧
      state.CancelByExceptionSecretRequest = false
  · rw [if_pos hvalid]
    obtain ⟨h1, h2, h3, h4, h5⟩ := hvalid
    rw [if_pos (by simp [h1, h2, h3, h4, h5])]
  · rw [if_neg hvalid]
    rw [if_neg]
    intro h
    apply hvalid
    simp only [Bool.and_eq_true, decide_eq_true_eq, Bool.not_eq_true'] at h
    exact ⟨h.1.1.1.1, h.1.1.1.2, h.1.1.2, h.2, h.1.2⟩

/-- Witness of C27: the valid request of the target 4 at block 100 is answered by
the secret 5; a request for 31 tokens sets the mark. -/
theorem StateTransition_secret_request_witness :
    StateTransition exInitiatorParams (some (exInitStateSent 100))
        (.ReceiveSecretRequestStateChange { Sender := 4, LockSecretHash := 1005, Amount := 30 }) =
      some
        { NewState := some (exInitStateRevealed 100)
          Events :=
            [.EventSendRevealSecret
              { LockSecretHash := 1005, Secret := 5, Token := 9, Receiver := 4, Sender := 1,
                Data := "" }] } ∧
    StateTransition exInitiatorParams (some (exInitStateSent 100))
        (.ReceiveSecretRequestStateChange { Sender := 4, LockSecretHash := 1005, Amount := 31 }) =
      some
        { NewState := some { exInitStateSent 100 with CancelByExceptionSecretRequest := true }
          Events := [] } ∧
    StateTransition exInitiatorParams (some (exInitStateSent 100))
        (.ReceiveSecretRequestStateChange { Sender := 4, LockSecretHash := 1005, Amount := 30 }) =
      some
        (if (4 : channel.Address) = (exInitStateSent 100).Transfer.Target ∧
            (1005 : channel.Hash) = (exInitStateSent 100).Transfer.LockSecretHash ∧
            (30 : Int) = (exInitStateSent 100).Transfer.TargetAmount ∧
            (exInitStateSent 100).BlockNumber < (exInitStateSent 100).Transfer.Expiration ∧
            (exInitStateSent 100).CancelByExceptionSecretRequest = false then
          { NewState := some
              { exInitStateSent 100 with
                RevealSecret := some
                  { LockSecretHash := (exInitStateSent 100).Transfer.LockSecretHash
                    Secret := (exInitStateSent 100).Transfer.Secret
                    Token := (exInitStateSent 100).Transfer.Token
                    Receiver := (exInitStateSent 100).Transfer.Target
                    Sender := (exInitStateSent 100).OurAddress
                    Data := (exInitStateSent 100).Transfer.Data } }
            Events :=
              [.EventSendRevealSecret
                { LockSecretHash := (exInitStateSent 100).Transfer.LockSecretHash
                  Secret := (exInitStateSent 100).Transfer.Secret
                  Token := (exInitStateSent 100).Transfer.Token
                  Receiver := (exInitStateSent 100).Transfer.Target
                  Sender := (exInitStateSent 100).OurAddress
                  Data := (exInitStateSent 100).Transfer.Data }] }
        else
          { NewState := some { exInitStateSent 100 with CancelByExceptionSecretRequest := true }
            Events := [] }) :=
  ⟨by decide, by decide,
    StateTransition_secret_request exInitiatorParams (exInitStateSent 100)
      { Sender := 4, LockSecretHash := 1005, Amount := 30 } rfl⟩

/-- Counterexample to C28 as stated: at block 130, the expiration of the lock,
the hop 5 of the current route reveals the secret 5 of the transfer; the state
is returned unchanged and no event is emitted. -/
theorem StateTransition_secret_reveal_counterexample :
    (exInitStateSent 130).Route = some (mediator.exRoute 5 13) ∧
    (exInitStateSent 130).Transfer.Secret = 5 ∧
    StateTransition exInitiatorParams (some (exInitStateSent 130))
        (.ReceiveSecretRevealStateChange 5 5) =
      some { NewState := some (exInitStateSent 130), Events := [] } := by
  decide

/-- C28, amended: for an initiator state with a current route and a
`ReceiveSecretReveal(sender, secret)`: if the block number is below the
expiration of the transfer, the sender is the hop of the current route and the
secret is the secret of the transfer, `StateTransition` ends the payment: the
new state is nil and the events are `SendBalanceProof` to the hop,
`TransferSentSuccess`, `UnlockSuccess` and `EventRemoveStateManager`. In every
other case, a block number at or after the expiration included, the state is
returned unchanged and no event is emitted. -/
theorem StateTransition_secret_reveal (P : InitiatorParams) (state : InitiatorState)
    (route : RouteState) (secret : channel.Hash) (sender : channel.Address)
    (hroute : state.Route = some route) :
    StateTransition P (some state) (.ReceiveSecretRevealStateChange secret sender) =
      some
        (if state.BlockNumber < state.Transfer.Expiration ∧ sender = route.HopNode ∧
            secret = state.Transfer.Secret then
          { NewState := none
            Events :=
              [.EventSendBalanceProof state.Transfer.LockSecretHash route.ChannelIdentifier
                  state.Transfer.Token route.HopNode,
                .EventTransferSentSuccess state.Transfer.LockSecretHash state.Transfer.Amount
                  state.Transfer.Target route.ChannelIdentifier state.Transfer.Token
                  state.Transfer.Data,
                .EventUnlockSuccess state.Transfer.LockSecretHash,
                .EventRemoveStateManager
                  (P.Sha3 state.Transfer.LockSecretHash state.Transfer.Token)] }
        else
          { NewState := some state, Events := [] }) := by
  simp only [StateTransition, handleSecretReveal, transferSuccessEvents, hroute]
  by_cases hexp : state.BlockNumber ≥ state.Transfer.Expiration
  · rw [if_pos hexp, if_neg (fun h => absurd h.1 (by omega))]
  · rw [if_neg hexp]
    by_cases hmatch : sender = route.HopNode ∧ secret = state.Transfer.Secret
    · rw [if_pos hmatch, if_pos ⟨by omega, hmatch⟩]
    · rw [if_neg hmatch, if_neg (fun h => hmatch h.2)]

/-- Witness of C28: at block 100 the hop 5 reveals the secret 5 and the payment
ends; the secret 6, or the sender 6, changes nothing. -/
theorem StateTransition_secret_reveal_witness :
    StateTransition exInitiatorParams (some (exInitStateSent 100))
        (.ReceiveSecretRevealStateChange 5 5) =
      some
        { NewState := none
          Events :=
            [.EventSendBalanceProof 1005 13 9 5,
              .EventTransferSentSuccess 1005 30 4 13 9 "",
              .EventUnlockSuccess 1005,
              .EventRemoveStateManager 1014] } ∧
    StateTransition exInitiatorParams (some (exInitStateSent 100))
        (.ReceiveSecretRevealStateChange 6 5) =
      some { NewState := some (exInitStateSent 100), Events := [] } ∧
    StateTransition exInitiatorParams (some (exInitStateSent 100))
        (.ReceiveSecretRevealStateChange 5 6) =
      some { NewState := some (exInitStateSent 100), Events := [] } ∧
    StateTransition exInitiatorParams (some (exInitStateSent 100))
        (.ReceiveSecretRevealStateChange 5 5) =
      some
        (if (exInitStateSent 100).BlockNumber < (exInitStateSent 100).Transfer.Expiration ∧
            (5 : channel.Address) = (mediator.exRoute 5 13).HopNode ∧
            (5 : channel.Hash) = (exInitStateSent 100).Transfer.Secret then
          { NewState := none
            Events :=
              [.EventSendBalanceProof (exInitStateSent 100).Transfer.LockSecretHash
                  (mediator.exRoute 5 13).ChannelIdentifier (exInitStateSent 100).Transfer.Token
                  (mediator.exRoute 5 13).HopNode,
                .EventTransferSentSuccess (exInitStateSent 100).Transfer.LockSecretHash
                  (exInitStateSent 100).Transfer.Amount (exInitStateSent 100).Transfer.Target
                  (mediator.exRoute 5 13).ChannelIdentifier (exInitStateSent 100).Transfer.Token
                  (exInitStateSent 100).Transfer.Data,
                .EventUnlockSuccess (exInitStateSent 100).Transfer.LockSecretHash,
                .EventRemoveStateManager
                  (exInitiatorParams.Sha3 (exInitStateSent 100).Transfer.LockSecretHash
                    (exInitStateSent 100).Transfer.Token)] }
        else
          { NewState := some (exInitStateSent 100), Events := [] }) :=
  ⟨by decide, by decide, by decide,
    StateTransition_secret_reveal exInitiatorParams (exInitStateSent 100)
      (mediator.exRoute 5 13) 5 5 rfl⟩

/-! ## Cancellation -/

/-- Counterexample to C29 as stated: once the secret has been revealed,
`StateTransition` on `ActionCancelTransfer` panics; it returns no result, hence
no error result either. -/
theorem StateTransition_cancel_counterexample :
    (exInitStateRevealed 100).RevealSecret ≠ none ∧
    StateTransition exInitiatorParams (some (exInitStateRevealed 100))
      .ActionCancelTransferStateChange = none := by
  decide

/-- C29, amended: before the secret has been revealed, `StateTransition` on
`ActionCancelTransfer` returns the state with the secret of the transfer
cleared and the message and the secret request unset, the route and the lock
secret hash kept, and the one event `TransferSentFailed` with the reason
`user canceled transfer`. After the secret has been revealed, `StateTransition`
panics on `ActionCancelTransfer` and on `ActionCancelRoute`: no result is
returned. -/
theorem StateTransition_cancel (P : InitiatorParams) (state : InitiatorState) :
    (state.RevealSecret = none →
      StateTransition P (some state) .ActionCancelTransferStateChange =
        some
          { NewState := some
              { state with
                Transfer := { state.Transfer with Secret := channel.EmptyHash }
                Message := none
                SecretRequest := none }
            Events :=
              [.EventTransferSentFailed state.Transfer.LockSecretHash "user canceled transfer"
                state.Transfer.Target state.Transfer.Token] }) ∧
    (state.RevealSecret ≠ none →
      StateTransition P (some state) .ActionCancelTransferStateChange = none ∧
      ∀ lockSecretHash,
        StateTransition P (some state) (.ActionCancelRouteStateChange lockSecretHash) = none) := by
  constructor
  · intro hreveal
    simp only [StateTransition, if_pos hreveal, handleCancelTransfer, userCancelTransfer]
    rw [if_neg (by simp [hreveal])]
    simp only [← hreveal]
  · intro hreveal
    refine ⟨?_, fun lockSecretHash => ?_⟩
    · simp only [StateTransition, if_neg hreveal]
    · simp only [StateTransition, if_neg hreveal]

/-- Witness of C29: the transfer of the example is canceled at block 100 before
the secret was revealed, and the state keeps its route over the hop 5 and the
lock secret hash 1005; after the reveal both cancellations panic. -/
theorem StateTransition_cancel_witness :
    (StateTransition exInitiatorParams (some (exInitStateSent 100))
        .ActionCancelTransferStateChange).map
        (fun it => (it.NewState.map
          (fun st => (st.Route, st.LockSecretHash, st.Transfer.LockSecretHash)), it.Events)) =
      some (some (some (mediator.exRoute 5 13), 1005, 1005),
        [.EventTransferSentFailed 1005 "user canceled transfer" 4 9]) ∧
    StateTransition exInitiatorParams (some (exInitStateRevealed 100))
      (.ActionCancelRouteStateChange 1005) = none ∧
    StateTransition exInitiatorParams (some (exInitStateSent 100))
        .ActionCancelTransferStateChange =
      some
        { NewState := some
            { exInitStateSent 100 with
              Transfer := { (exInitStateSent 100).Transfer with Secret := channel.EmptyHash }
              Message := none
              SecretRequest := none }
          Events :=
            [.EventTransferSentFailed (exInitStateSent 100).Transfer.LockSecretHash
              "user canceled transfer" (exInitStateSent 100).Transfer.Target
              (exInitStateSent 100).Transfer.Token] } ∧
    (StateTransition exInitiatorParams (some (exInitStateRevealed 100))
        .ActionCancelTransferStateChange = none ∧
      ∀ lockSecretHash,
        StateTransition exInitiatorParams (some (exInitStateRevealed 100))
          (.ActionCancelRouteStateChange lockSecretHash) = none) :=
  ⟨by decide, by decide,
    (StateTransition_cancel exInitiatorParams (exInitStateSent 100)).1 rfl,
    (StateTransition_cancel exInitiatorParams (exInitStateRevealed 100)).2 (by decide)⟩

/-- Counterexample to C30 as stated: once the secret has been revealed,
`StateTransition` on `ContractCooperativeSettled` and on
`ContractChannelWithdraw` panics in `cancelCurrentRoute` and returns
nothing. -/
theorem StateTransition_contract_cancel_counterexample :
    (exInitStateRevealed 100).RevealSecret ≠ none ∧
    StateTransition exInitiatorParams (some (exInitStateRevealed 100))
      .ContractCooperativeSettledStateChange = none ∧
    StateTransition exInitiatorParams (some (exInitStateRevealed 100))
      .ContractChannelWithdrawStateChange = none := by
  decide

theorem cancelCurrentRoute_run (P : InitiatorParams) (state : InitiatorState)
    (route : RouteState) (reason : String) (hroute : state.Route = some route)
    (hreveal : state.RevealSecret = none) :
    ∃ newState result,
      tryNewRoute P
        { state with
          Routes :=
            { state.Routes with
              CanceledRoutes :=
                state.Routes.CanceledRoutes ++ [{ Route := some route, Reason := reason }] }
          Message := none
          Route := none
          SecretRequest := none } = some (newState, result) ∧
      cancelCurrentRoute P state reason = some (newState, result) := by
  have hcancel : cancelCurrentRoute P state reason =
      tryNewRoute P
        { state with
          Routes :=
            { state.Routes with
              CanceledRoutes :=
                state.Routes.CanceledRoutes ++ [{ Route := some route, Reason := reason }] }
          Message := none
          Route := none
          SecretRequest := none } := by
    unfold cancelCurrentRoute
    rw [if_neg (by simp [hreveal]), hroute]
  rw [hcancel]
  unfold tryNewRoute
  rw [if_neg (by simp)]
  simp only [List.getLast?_concat]
  cases hl : (tryNewRouteLoop state.Transfer.TargetAmount state.Routes.AvailableRoutes
      state.Routes.IgnoredRoutes).1 with
  | none => exact ⟨_, _, rfl, rfl⟩
  | some tryRoute => exact ⟨_, _, rfl, rfl⟩

/-- C30, amended: for an initiator state with a current route that has not
revealed the secret, `StateTransition` returns on `ContractCooperativeSettled`
and on `ContractChannelWithdraw`: the current route is appended to the canceled
routes with the reason of the state change, the message, the route and the
secret request are unset, and the result is the result of `tryNewRoute` on that
state. Once the secret has been revealed, `StateTransition` panics on both
state changes. -/
theorem StateTransition_contract_cancel (P : InitiatorParams) (state : InitiatorState)
    (route : RouteState) (hroute : state.Route = some route) :
    (state.RevealSecret = none →
      (∃ newState result,
        tryNewRoute P
          { state with
            Routes :=
              { state.Routes with
                CanceledRoutes :=
                  state.Routes.CanceledRoutes ++
                    [{ Route := some route
                       Reason := "partner cooperative settle channel with me" }] }
            Message := none
            Route := none
            SecretRequest := none } = some (newState, result) ∧
        StateTransition P (some state) .ContractCooperativeSettledStateChange = some result) ∧
      (∃ newState result,
        tryNewRoute P
          { state with
            Routes :=
              { state.Routes with
                CanceledRoutes :=
                  state.Routes.CanceledRoutes ++
                    [{ Route := some route, Reason := "partner withdraw on channel with me" }] }
            Message := none
            Route := none
            SecretRequest := none } = some (newState, result) ∧
        StateTransition P (some state) .ContractChannelWithdrawStateChange = some result)) ∧
    (state.RevealSecret ≠ none →
      StateTransition P (some state) .ContractCooperativeSettledStateChange = none ∧
      StateTransition P (some state) .ContractChannelWithdrawStateChange = none) := by
  constructor
  · intro hreveal
    constructor
    · obtain ⟨newState, result, h1, h2⟩ := cancelCurrentRoute_run P state route
        "partner cooperative settle channel with me" hroute hreveal
      exact ⟨newState, result, h1, by simp only [StateTransition, h2, Option.map_some']⟩
    · obtain ⟨newState, result, h1, h2⟩ := cancelCurrentRoute_run P state route
        "partner withdraw on channel with me" hroute hreveal
      exact ⟨newState, result, h1, by simp only [StateTransition, h2, Option.map_some']⟩
  · intro hreveal
    simp only [StateTransition, cancelCurrentRoute, if_pos hreveal, Option.map_none', and_self]

/-- Witness of C30: the channel of the route over the hop 5 is settled
cooperatively before the secret was revealed; the route is canceled and the
transfer is sent over the hop 6, with the channel 13 of the canceled route as
`FromChannel`. -/
theorem StateTransition_contract_cancel_witness :
    (StateTransition exInitiatorParams (some (exInitStateSent 100))
        .ContractCooperativeSettledStateChange).map
        (fun it => (it.NewState.map
          (fun st => (st.Route, st.Routes.CanceledRoutes, st.Routes.AvailableRoutes)),
          it.Events)) =
      some (some (some (mediator.exRoute 6 14),
          [{ Route := some (mediator.exRoute 5 13)
             Reason := "partner cooperative settle channel with me" }], []),
        [.EventSendMediatedTransfer
          { Transfer := exInitTransfer 130, Receiver := 6, Path := [], FromChannel := 13 }]) ∧
    ((∃ newState result,
        tryNewRoute exInitiatorParams
          { exInitStateSent 100 with
            Routes :=
              { (exInitStateSent 100).Routes with
                CanceledRoutes :=
                  (exInitStateSent 100).Routes.CanceledRoutes ++
                    [{ Route := some (mediator.exRoute 5 13)
                       Reason := "partner cooperative settle channel with me" }] }
            Message := none
            Route := none
            SecretRequest := none } = some (newState, result) ∧
        StateTransition exInitiatorParams (some (exInitStateSent 100))
          .ContractCooperativeSettledStateChange = some result) ∧
      (∃ newState result,
        tryNewRoute exInitiatorParams
          { exInitStateSent 100 with
            Routes :=
              { (exInitStateSent 100).Routes with
                CanceledRoutes :=
                  (exInitStateSent 100).Routes.CanceledRoutes ++
                    [{ Route := some (mediator.exRoute 5 13)
                       Reason := "partner withdraw on channel with me" }] }
            Message := none
            Route := none
            SecretRequest := none } = some (newState, result) ∧
        StateTransition exInitiatorParams (some (exInitStateSent 100))
          .ContractChannelWithdrawStateChange = some result)) :=
  ⟨by decide,
    (StateTransition_contract_cancel exInitiatorParams (exInitStateSent 100)
      (mediator.exRoute 5 13) rfl).1 rfl⟩

end initiator


/-! # Theorems on the channel: expiration of a created transfer, withdraw request -/

namespace channel

/-- C34: `CreateMediatedTransfer` enforces no upper bound on the expiration of the
lock: on a channel that can transfer, every positive amount within the
distributable balance gives a message with the expiration asked for, whatever
it is. On the opened example channel (settle timeout 100, never closed), at the
block 50, the amount 30 and the expiration 151, beyond 50 + 100, the message is
created, and `registerMediatedTranser` at the block 50 on the channel of the
partner, with the same settle timeout, rejects the signed message with
`ErrChannelLockExpirationTooLarge`. -/
theorem CreateMediatedTransfer_expiration_unbounded :
    (∀ (P : Params) (c : Channel) (initiator target : Address) (fee amount expiration : Int)
        (lockSecretHash : Hash) (path : List Address),
      c.CanTransfer = true → 0 < amount → amount ≤ c.Distributable →
      ∃ tr, (c.CreateMediatedTransfer P initiator target fee amount expiration lockSecretHash
          path).2 = .ok tr ∧ tr.Expiration = expiration ∧ tr.PaymentAmount = amount) ∧
    ∃ (c c2 : Channel) (b amount expiration : Int) (tr : MediatedTransfer),
      c.State = .StateOpened ∧ c.ExternState.ClosedBlock = 0 ∧
      0 < amount ∧ amount ≤ c.Distributable ∧ expiration > b + c.SettleTimeout ∧
      (c.CreateMediatedTransfer exParams 1 3 0 amount expiration 77 []).2 = .ok tr ∧
      tr.Expiration = expiration ∧
      c2.State = .StateOpened ∧ c2.ExternState.ClosedBlock = 0 ∧
      c2.SettleTimeout = c.SettleTimeout ∧
      c2.registerMediatedTranser exParams
          { tr with env := { tr.env with Sender := c.OurState.Address } } b =
        (c2, some .ErrChannelLockExpirationTooLarge) := by
  refine ⟨?_, ?_⟩
  · intro P c initiator target fee amount expiration lockSecretHash path hcan hpos hle
    unfold Channel.CreateMediatedTransfer
    rw [if_neg (by simp [hcan]), if_neg (by omega)]
    exact ⟨_, rfl, rfl, rfl⟩
  · refine ⟨exChannel .StateOpened, exChannelPartner, 50, 30, 151,
      { env := exEnv 1 0 78 0, PaymentAmount := 30, Expiration := 151, LockSecretHash := 77,
        Target := 3, Initiator := 1, Fee := 0, Path := [] }, ?_⟩
    decide

/-- Witness of C34: on the opened example channel the transfer of 30 with the
expiration 151 is created. -/
theorem CreateMediatedTransfer_expiration_unbounded_witness :
    ∃ tr, ((exChannel .StateOpened).CreateMediatedTransfer exParams 1 3 0 30 151 77 []).2 =
        .ok tr ∧ tr.Expiration = 151 ∧ tr.PaymentAmount = 30 :=
  CreateMediatedTransfer_expiration_unbounded.1 exParams (exChannel .StateOpened) 1 3 0 30 151
    77 [] (by decide) (by decide) (by decide)

/-- C35: when `withdrawAmount` is greater than `OurState.Balance(PartnerState)`,
`CreateWithdrawRequest` dereferences the result `w`, which is still nil; when it
is not, the call returns a request with our address as `Participant1`, the
address of the partner as `Participant2`, our balance as `Participant1Balance`
and `withdrawAmount` as `Participant1Withdraw`. -/
theorem CreateWithdrawRequest_spec (c : Channel) (withdrawAmount : Int) :
    (withdrawAmount > c.OurState.Balance c.PartnerState →
      c.CreateWithdrawRequest withdrawAmount = none) ∧
    (withdrawAmount ≤ c.OurState.Balance c.PartnerState →
      ∃ w err, c.CreateWithdrawRequest withdrawAmount = some (some w, err) ∧
        w.Participant1 = c.OurState.Address ∧
        w.Participant2 = c.PartnerState.Address ∧
        w.Participant1Balance = c.OurState.Balance c.PartnerState ∧
        w.Participant1Withdraw = withdrawAmount ∧
        w.ChannelIdentifier = c.ChannelIdentifier.ChannelIdentifier ∧
        w.OpenBlockNumber = c.ChannelIdentifier.OpenBlockNumber) := by
  refine ⟨fun h => ?_, fun h => ?_⟩
  · unfold Channel.CreateWithdrawRequest
    simp only [h, if_true]
  · unfold Channel.CreateWithdrawRequest
    simp only [not_lt.mpr h, gt_iff_lt, if_false]
    exact ⟨_, _, rfl, rfl, rfl, rfl, rfl, rfl, rfl⟩

/-- Witness of C35: on the opened example channel, whose balance is 100, the
withdraw of 101 hits the nil dereference and the withdraw of 100 returns a
request. -/
theorem CreateWithdrawRequest_spec_witness :
    (exChannel .StateOpened).CreateWithdrawRequest 101 = none ∧
    ∃ w err, (exChannel .StateOpened).CreateWithdrawRequest 100 = some (some w, err) ∧
      w.Participant1 = 1 ∧ w.Participant2 = 2 ∧ w.Participant1Balance = 100 ∧
      w.Participant1Withdraw = 100 :=
  ⟨(CreateWithdrawRequest_spec (exChannel .StateOpened) 101).1 (by decide),
    by
      obtain ⟨w, err, h, h1, h2, h3, h4, -, -⟩ :=
        (CreateWithdrawRequest_spec (exChannel .StateOpened) 100).2 (by decide)
      exact ⟨w, err, h, h1, h2, h3, h4⟩⟩

end channel

/-! # Theorems on the mediator: expired pairs, repeated secrets, registration -/

namespace mediator

/-! ## The payer state of an expired pair -/

/-- The body of the loop of `setExpiredPairs` returns when the payee transfer does
not expire after the payer transfer: each side is expired once its test on the
block holds, whatever its state was, and the event of a side is emitted when
the state was not expired yet. -/
theorem setExpiredPair_eq (P : MediatorParams) (blockNumber : Int) (pair : MediationPairState)
    (hexp : pair.PayeeTransfer.Expiration ≤ pair.PayerTransfer.Expiration) :
    setExpiredPair P blockNumber pair = some
      ({ pair with
          PayerState :=
            if blockNumber > pair.PayerTransfer.Expiration then .StatePayerExpired
            else pair.PayerState
          PayeeState :=
            if subInt64 blockNumber P.ForkConfirmNumber > pair.PayeeTransfer.Expiration then
              .StatePayeeExpired
            else pair.PayeeState },
        (if blockNumber > pair.PayerTransfer.Expiration ∧
            pair.PayerState ≠ .StatePayerExpired then
          [.EventWithdrawFailed pair.PayerTransfer.LockSecretHash
            pair.PayerRoute.ChannelIdentifier]
        else []) ++
        (if subInt64 blockNumber P.ForkConfirmNumber > pair.PayeeTransfer.Expiration ∧
            pair.PayeeState ≠ .StatePayeeExpired then
          [.EventUnlockFailed pair.PayeeTransfer.LockSecretHash
            pair.PayeeRoute.ChannelIdentifier]
        else [])) := by
  have hnot : ¬ pair.PayeeTransfer.Expiration > pair.PayerTransfer.Expiration := by omega
  obtain ⟨payerRoute, payeeRoute, payerTransfer, payeeTransfer, payerState, payeeState⟩ := pair
  simp only at hnot ⊢
  unfold setExpiredPair
  by_cases h1 : blockNumber > payerTransfer.Expiration <;>
    by_cases h2 : payerState = .StatePayerExpired <;>
    by_cases h3 : subInt64 blockNumber P.ForkConfirmNumber > payeeTransfer.Expiration <;>
    by_cases h4 : payeeState = .StatePayeeExpired <;>
    simp [h1, h2, h3, h4, hnot]

theorem setExpiredPair_payer (P : MediatorParams) (blockNumber : Int) (pair : MediationPairState)
    (hexp : pair.PayeeTransfer.Expiration ≤ pair.PayerTransfer.Expiration) :
    ∃ pair1 events, setExpiredPair P blockNumber pair = some (pair1, events) ∧
      pair1.PayerState =
        (if blockNumber > pair.PayerTransfer.Expiration then .StatePayerExpired
          else pair.PayerState) ∧
      ∀ lockSecretHash channelIdentifier,
        Event.EventWithdrawFailed lockSecretHash channelIdentifier ∈ events ↔
          (blockNumber > pair.PayerTransfer.Expiration ∧
            pair.PayerState ≠ .StatePayerExpired ∧
            pair.PayerTransfer.LockSecretHash = lockSecretHash ∧
            pair.PayerRoute.ChannelIdentifier = channelIdentifier) := by
  refine ⟨_, _, setExpiredPair_eq P blockNumber pair hexp, rfl, fun a b => ?_⟩
  rw [List.mem_append]
  constructor
  · rintro (h | h)
    · split_ifs at h with hc
      · simp only [List.mem_singleton, Event.EventWithdrawFailed.injEq] at h
        exact ⟨hc.1, hc.2, h.1.symm, h.2.symm⟩
      · cases h
    · split_ifs at h
      · simp at h
      · cases h
  · rintro ⟨hgt, hne, h1, h2⟩
    left
    rw [if_pos ⟨hgt, hne⟩, h1, h2]
    exact List.mem_singleton.mpr rfl

/-- The loop of `setExpiredPairs` returns when no pending pair has a payee
transfer that expires after the payer transfer; the payer state of a pending
pair is expired once the block is past the payer expiration. -/
theorem setExpiredPairsLoop_payer (P : MediatorParams) (blockNumber : Int)
    (pairs : List MediationPairState)
    (hexp : ∀ pair ∈ pairs, isPendingPair pair = true →
      pair.PayeeTransfer.Expiration ≤ pair.PayerTransfer.Expiration) :
    ∃ pairs1 events, setExpiredPairsLoop P blockNumber pairs = some (pairs1, events) ∧
      List.Forall₂ (fun pair pair1 =>
        pair1.PayerState =
          (if isPendingPair pair = true ∧ blockNumber > pair.PayerTransfer.Expiration then
            .StatePayerExpired
          else pair.PayerState)) pairs pairs1 ∧
      ∀ lockSecretHash channelIdentifier,
        Event.EventWithdrawFailed lockSecretHash channelIdentifier ∈ events ↔
          ∃ pair ∈ pairs, isPendingPair pair = true ∧
            blockNumber > pair.PayerTransfer.Expiration ∧
            pair.PayerState ≠ .StatePayerExpired ∧
            pair.PayerTransfer.LockSecretHash = lockSecretHash ∧
            pair.PayerRoute.ChannelIdentifier = channelIdentifier := by
  induction pairs with
  | nil =>
    exact ⟨[], [], rfl, List.Forall₂.nil, fun a b => by simp⟩
  | cons pair rest ih =>
    obtain ⟨rest1, events1, hrest, hall, hev⟩ :=
      ih (fun q hq => hexp q (List.mem_cons_of_mem _ hq))
    by_cases hp : isPendingPair pair = true
    · obtain ⟨pair1, ev, hpair, hstate, hmem⟩ :=
        setExpiredPair_payer P blockNumber pair (hexp pair (List.mem_cons_self _ _) hp)
      refine ⟨pair1 :: rest1, ev ++ events1,
        by simp only [setExpiredPairsLoop, hp, if_true, hpair, hrest],
        List.Forall₂.cons (by rw [hstate]; simp [hp]) hall, fun a b => ?_⟩
      rw [List.mem_append, hev a b, hmem a b]
      constructor
      · rintro (h | ⟨q, hq, h⟩)
        · exact ⟨pair, List.mem_cons_self _ _, hp, h⟩
        · exact ⟨q, List.mem_cons_of_mem _ hq, h⟩
      · rintro ⟨q, hq, hpend, h⟩
        rcases List.mem_cons.mp hq with hq | hq
        · subst hq
          exact Or.inl h
        · exact Or.inr ⟨q, hq, hpend, h⟩
    · refine ⟨pair :: rest1, events1,
        by simp [setExpiredPairsLoop, hp, hrest],
        List.Forall₂.cons (by simp [hp]) hall, fun a b => ?_⟩
      rw [hev a b]
      constructor
      · rintro ⟨q, hq, h⟩
        exact ⟨q, List.mem_cons_of_mem _ hq, h⟩
      · rintro ⟨q, hq, hpend, h⟩
        rcases List.mem_cons.mp hq with hq | hq
        · subst hq
          exact absurd hpend hp
        · exact ⟨q, hq, hpend, h⟩

/-- C36, as the code has it: `setExpiredPairs` returns when no pending pair has a
payee transfer that expires after the payer transfer, and it sets the payer
state of every pending pair to `StatePayerExpired` once the block number is past
the payer expiration, whatever the payer state was: a payer state
`StatePayerBalanceProof` is kept only on a pair that is final on both sides or
not past its payer expiration. `EventWithdrawFailed` is emitted for exactly the
pending pairs past their payer expiration whose payer state was not
`StatePayerExpired`, those at `StatePayerBalanceProof` included. -/
theorem setExpiredPairs_payer_state (P : MediatorParams) (pairs : List MediationPairState)
    (blockNumber : Int)
    (hexp : ∀ pair ∈ pairs, isPendingPair pair = true →
      pair.PayeeTransfer.Expiration ≤ pair.PayerTransfer.Expiration) :
    ∃ pairs1 events allExpired,
      setExpiredPairs P pairs blockNumber = some (pairs1, events, allExpired) ∧
      List.Forall₂ (fun pair pair1 =>
        pair1.PayerState =
          (if isPendingPair pair = true ∧ blockNumber > pair.PayerTransfer.Expiration then
            .StatePayerExpired
          else pair.PayerState)) pairs pairs1 ∧
      (∀ lockSecretHash channelIdentifier,
        Event.EventWithdrawFailed lockSecretHash channelIdentifier ∈ events ↔
          ∃ pair ∈ pairs, isPendingPair pair = true ∧
            blockNumber > pair.PayerTransfer.Expiration ∧
            pair.PayerState ≠ .StatePayerExpired ∧
            pair.PayerTransfer.LockSecretHash = lockSecretHash ∧
            pair.PayerRoute.ChannelIdentifier = channelIdentifier) ∧
      ∀ pair ∈ pairs, pair.PayerState = .StatePayerBalanceProof →
        pair.PayeeState.final = false → blockNumber > pair.PayerTransfer.Expiration →
        Event.EventWithdrawFailed pair.PayerTransfer.LockSecretHash
          pair.PayerRoute.ChannelIdentifier ∈ events := by
  obtain ⟨pairs1, events, hrun, hall, hev⟩ := setExpiredPairsLoop_payer P blockNumber pairs hexp
  refine ⟨pairs1, events, decide ((getPendingTransferPairs pairs).length = 0),
    by simp only [setExpiredPairs, hrun], hall, hev, ?_⟩
  intro pair hp hstate hfinal hgt
  refine (hev _ _).mpr ⟨pair, hp, by simp [isPendingPair, hfinal], hgt, ?_, rfl, rfl⟩
  rw [hstate]
  exact fun h => PayerState.noConfusion h

/-- Witness of C36: at the block 131 the pair whose payer is paid and whose payee
is pending, both transfers expiring at the block 130, gets the payer state
`StatePayerExpired` and the event `EventWithdrawFailed`. -/
theorem setExpiredPairs_payer_state_witness :
    ∃ pairs1 events allExpired,
      setExpiredPairs exMediatorParams
        [exPairSecret .StatePayerBalanceProof .StatePayeePending] 131 =
          some (pairs1, events, allExpired) ∧
      List.Forall₂ (fun pair pair1 =>
        pair1.PayerState =
          (if isPendingPair pair = true ∧ (131 : Int) > pair.PayerTransfer.Expiration then
            .StatePayerExpired
          else pair.PayerState))
        [exPairSecret .StatePayerBalanceProof .StatePayeePending] pairs1 ∧
      Event.EventWithdrawFailed 1005 11 ∈ events := by
  obtain ⟨pairs1, events, allExpired, hrun, hall, -, hev⟩ :=
    setExpiredPairs_payer_state exMediatorParams
      [exPairSecret .StatePayerBalanceProof .StatePayeePending] 131 (by decide)
  exact ⟨pairs1, events, allExpired, hrun, hall,
    hev _ (List.mem_singleton.mpr rfl) rfl rfl (by decide)⟩

/-- Counterexample to C36: the pending pair over a closed payer channel learns the
secret from the chain at the block 131, after the payee lock has expired: the
payer state is `StatePayerBalanceProof` and the payee state stays pending. The
`BlockStateChange` of the block 131 then sets the payer state to
`StatePayerExpired` and emits `EventWithdrawFailed`; `setExpiredPairs` alone
does the same on a paid payer with a pending payee. -/
theorem setExpiredPairs_downgrade_counterexample :
    (StateTransition exMediatorParams (some exStateClosedPayer)
        (.ContractSecretRevealOnChainStateChange 5 1005 131)).bind
      (fun r => r.NewState.map (fun st =>
        st.TransfersPair.map (fun p => (p.PayerState, p.PayeeState)))) =
      some [(.StatePayerBalanceProof, .StatePayeePending)] ∧
    ((StateTransition exMediatorParams (some exStateClosedPayer)
        (.ContractSecretRevealOnChainStateChange 5 1005 131)).bind
      (fun r => StateTransition exMediatorParams r.NewState (.BlockStateChange 131))).bind
      (fun r => r.NewState.map (fun st =>
        (st.TransfersPair.map (fun p => (p.PayerState, p.PayeeState)), r.Events))) =
      some ([(.StatePayerExpired, .StatePayeePending)], [.EventWithdrawFailed 1005 11]) ∧
    (setExpiredPairs exMediatorParams
        [exPairSecret .StatePayerBalanceProof .StatePayeePending] 131).map
      (fun r => (r.1.map (fun p => p.PayerState), r.2.1)) =
      some ([.StatePayerExpired], [.EventWithdrawFailed 1005 11]) := by
  decide

/-! ## A secret revealed again by a payee that is paid -/

theorem backwardLoop_pairs (body : MediationPairState → MediationPairState × List Event)
    (l : List MediationPairState) :
    (backwardLoop body l).1 = l.map (fun p => (body p).1) := by
  induction l with
  | nil => rfl
  | cons p rest ih => simp only [backwardLoop, List.map_cons, ih]

theorem backwardLoop_mem (body : MediationPairState → MediationPairState × List Event)
    (l : List MediationPairState) (e : Event) :
    e ∈ (backwardLoop body l).2 ↔ ∃ p ∈ l, e ∈ (body p).2 := by
  induction l with
  | nil => simp [backwardLoop]
  | cons p rest ih => simp [backwardLoop, ih]

theorem eventsForRevealSecret_pairs (transfersPair : List MediationPairState)
    (ourAddress : channel.Address) (blockNumber : Int) :
    (eventsForRevealSecret transfersPair ourAddress blockNumber).1 =
      transfersPair.map (fun p => (eventsForRevealSecretPair ourAddress blockNumber p).1) := by
  unfold eventsForRevealSecret
  simp only [backwardLoop_pairs, List.map_reverse, List.reverse_reverse]

theorem eventsForRevealSecret_mem (transfersPair : List MediationPairState)
    (ourAddress : channel.Address) (blockNumber : Int) (e : Event) :
    e ∈ (eventsForRevealSecret transfersPair ourAddress blockNumber).2 ↔
      ∃ p ∈ transfersPair, e ∈ (eventsForRevealSecretPair ourAddress blockNumber p).2 := by
  unfold eventsForRevealSecret
  simp only [backwardLoop_mem, List.mem_reverse]

theorem eventsForBalanceProof_pairs (transfersPair : List MediationPairState)
    (blockNumber : Int) :
    (eventsForBalanceProof transfersPair blockNumber).1 =
      transfersPair.map (fun p => (eventsForBalanceProofPair blockNumber p).1) := by
  unfold eventsForBalanceProof
  simp only [backwardLoop_pairs, List.map_reverse, List.reverse_reverse]

theorem eventsForBalanceProof_mem (transfersPair : List MediationPairState)
    (blockNumber : Int) (e : Event) :
    e ∈ (eventsForBalanceProof transfersPair blockNumber).2 ↔
      ∃ p ∈ transfersPair, e ∈ (eventsForBalanceProofPair blockNumber p).2 := by
  unfold eventsForBalanceProof
  simp only [backwardLoop_mem, List.mem_reverse]

/-- The loop of `setPayeeStateAndCheckRevealOrder` changes the first pair that it
meets with the payee hop. -/
theorem setPayeeStateLoop_append (payeeAddress : channel.Address) (newPayeeState : PayeeState)
    (l1 l2 : List MediationPairState) (pair : MediationPairState)
    (h1 : ∀ q ∈ l1, q.PayeeRoute.HopNode ≠ payeeAddress)
    (hpair : pair.PayeeRoute.HopNode = payeeAddress) :
    setPayeeStateLoop payeeAddress newPayeeState (l1 ++ pair :: l2) =
      l1 ++ { pair with PayeeState := newPayeeState } :: l2 := by
  induction l1 with
  | nil => simp [setPayeeStateLoop, hpair]
  | cons q rest ih =>
    have hih := ih (fun x hx => h1 x (List.mem_cons_of_mem _ hx))
    simp only [List.cons_append, setPayeeStateLoop]
    rw [if_neg (h1 q (List.mem_cons_self _ _))]
    exact congrArg (List.cons q) hih

theorem setPayeeStateAndCheckRevealOrder_split (front back : List MediationPairState)
    (pair : MediationPairState) (payeeAddress : channel.Address) (newPayeeState : PayeeState)
    (hback : ∀ q ∈ back, q.PayeeRoute.HopNode ≠ payeeAddress)
    (hpair : pair.PayeeRoute.HopNode = payeeAddress) :
    setPayeeStateAndCheckRevealOrder (front ++ pair :: back) payeeAddress newPayeeState =
      (front ++ { pair with PayeeState := newPayeeState } :: back, []) := by
  unfold setPayeeStateAndCheckRevealOrder
  rw [List.reverse_append, List.reverse_cons, List.append_assoc, List.singleton_append,
    setPayeeStateLoop_append payeeAddress newPayeeState back.reverse front.reverse pair
      (fun q hq => hback q (List.mem_reverse.mp hq)) hpair]
  simp

/-- The body of the loop of `eventsForRevealSecret` changes the payer state
only and sends no balance proof. -/
theorem eventsForRevealSecretPair_keeps (ourAddress : channel.Address) (blockNumber : Int)
    (pair : MediationPairState) :
    (eventsForRevealSecretPair ourAddress blockNumber pair).1.PayeeState = pair.PayeeState ∧
    (eventsForRevealSecretPair ourAddress blockNumber pair).1.PayeeRoute = pair.PayeeRoute ∧
    (eventsForRevealSecretPair ourAddress blockNumber pair).1.PayerRoute = pair.PayerRoute ∧
    (eventsForRevealSecretPair ourAddress blockNumber pair).1.PayeeTransfer =
      pair.PayeeTransfer ∧
    (eventsForRevealSecretPair ourAddress blockNumber pair).1.PayerTransfer =
      pair.PayerTransfer ∧
    ∀ h c t r, Event.EventSendBalanceProof h c t r ∉
      (eventsForRevealSecretPair ourAddress blockNumber pair).2 := by
  unfold eventsForRevealSecretPair
  simp only
  refine ⟨?_, ?_, ?_, ?_, ?_, fun h c t r => ?_⟩ <;> split_ifs <;> simp

/-- The body of the loop of `eventsForBalanceProof`, by its test. -/
theorem eventsForBalanceProofPair_eq (blockNumber : Int) (pair : MediationPairState) :
    eventsForBalanceProofPair blockNumber pair =
      if pair.PayerRoute.State = .StateOpened ∧ pair.PayeeRoute.State = .StateOpened ∧
          pair.PayeeState = .StatePayeeSecretRevealed ∧
          blockNumber ≤ pair.PayeeTransfer.Expiration ∧
          ¬ blockNumber > subInt64 pair.PayerTransfer.Expiration pair.PayerRoute.RevealTimeout then
        ({ pair with PayeeState := .StatePayeeBalanceProof },
          [.EventSendBalanceProof pair.PayeeTransfer.LockSecretHash
              pair.PayeeRoute.ChannelIdentifier pair.PayeeTransfer.Token
              pair.PayeeRoute.HopNode,
            .EventUnlockSuccess pair.PayerTransfer.LockSecretHash])
      else
        (pair, []) := by
  unfold eventsForBalanceProofPair isLockValid
  cases hs : pair.PayeeState <;>
    simp [PayeeState.secretKnown, PayeeState.paid, and_assoc]

theorem eventsForRegisterSecret_balanceProof (transfersPair : List MediationPairState)
    (blockNumber : Int) (h c : channel.Hash) (t r : channel.Address) :
    Event.EventSendBalanceProof h c t r ∉
      (eventsForRegisterSecret transfersPair blockNumber).2 := by
  unfold eventsForRegisterSecret
  simp only [eventsForRegisterSecretLoop_events]
  split <;> simp

/-- What the three loops of `secretLearned` after the reset of the payee state make
of one pair whose payee state is `StatePayeeSecretRevealed`: the payee is paid
when the test of `eventsForBalanceProof` holds, and the payee state stays as it
is when the test fails. -/
theorem secretLearned_pair (ourAddress : channel.Address) (blockNumber : Int)
    (pair : MediationPairState) (hstate : pair.PayeeState = .StatePayeeSecretRevealed) :
    ((pair.PayerRoute.State = .StateOpened ∧ pair.PayeeRoute.State = .StateOpened ∧
        blockNumber ≤ pair.PayeeTransfer.Expiration ∧
        ¬ blockNumber > subInt64 pair.PayerTransfer.Expiration pair.PayerRoute.RevealTimeout) →
      (eventsForBalanceProofPair blockNumber
        (eventsForRevealSecretPair ourAddress blockNumber pair).1).1.PayeeState =
          .StatePayeeBalanceProof ∧
      Event.EventSendBalanceProof pair.PayeeTransfer.LockSecretHash
          pair.PayeeRoute.ChannelIdentifier pair.PayeeTransfer.Token pair.PayeeRoute.HopNode ∈
        (eventsForBalanceProofPair blockNumber
          (eventsForRevealSecretPair ourAddress blockNumber pair).1).2) ∧
    (¬ (pair.PayerRoute.State = .StateOpened ∧ pair.PayeeRoute.State = .StateOpened ∧
        blockNumber ≤ pair.PayeeTransfer.Expiration ∧
        ¬ blockNumber > subInt64 pair.PayerTransfer.Expiration pair.PayerRoute.RevealTimeout) →
      (eventsForBalanceProofPair blockNumber
        (eventsForRevealSecretPair ourAddress blockNumber pair).1).1.PayeeState =
          .StatePayeeSecretRevealed ∧
      (eventsForBalanceProofPair blockNumber
        (eventsForRevealSecretPair ourAddress blockNumber pair).1).2 = []) := by
  obtain ⟨h1, h2, h3, h4, h5, -⟩ := eventsForRevealSecretPair_keeps ourAddress blockNumber pair
  rw [eventsForBalanceProofPair_eq, h1, h2, h3, h4, h5, hstate]
  refine ⟨fun hc => ?_, fun hc => ?_⟩
  · rw [if_pos ⟨hc.1, hc.2.1, rfl, hc.2.2.1, hc.2.2.2⟩]
    exact ⟨rfl, List.mem_cons_self _ _⟩
  · rw [if_neg (fun h => hc ⟨h.1, h.2.1, h.2.2.2.1, h.2.2.2.2⟩)]
    exact ⟨by rw [h1, hstate], rfl⟩

/-- A balance proof that the body of the loop of `eventsForBalanceProof` sends
goes over the payee channel of the pair. -/
theorem eventsForBalanceProofPair_channel (blockNumber : Int) (pair : MediationPairState)
    (h c : channel.Hash) (t r : channel.Address)
    (hmem : Event.EventSendBalanceProof h c t r ∈ (eventsForBalanceProofPair blockNumber pair).2) :
    c = pair.PayeeRoute.ChannelIdentifier := by
  rw [eventsForBalanceProofPair_eq] at hmem
  split_ifs at hmem
  · simp only [List.mem_cons, Event.EventSendBalanceProof.injEq, List.mem_singleton] at hmem
    rcases hmem with hm | hm | hm
    · exact hm.2.1
    · cases hm
    · cases hm
  · cases hmem

/-- The pairs after the three loops of `secretLearned`, one by one: each pair goes
through the bodies of the loops, the last of which keeps the payee state. -/
theorem secretLearned_pairs (ourAddress : channel.Address) (blockNumber : Int) :
    ∃ body : MediationPairState → MediationPairState,
      (∀ p, (body p).PayeeState =
        (eventsForBalanceProofPair blockNumber
          (eventsForRevealSecretPair ourAddress blockNumber p).1).1.PayeeState) ∧
      ∀ pairs : List MediationPairState,
        (eventsForRegisterSecret
          (eventsForBalanceProof (eventsForRevealSecret pairs ourAddress blockNumber).1
            blockNumber).1 blockNumber).1 = pairs.map body := by
  refine ⟨fun p =>
      if (isPendingPair (eventsForBalanceProofPair blockNumber
            (eventsForRevealSecretPair ourAddress blockNumber p).1).1 &&
          isSecretRegisterNeeded (eventsForBalanceProofPair blockNumber
            (eventsForRevealSecretPair ourAddress blockNumber p).1).1 blockNumber) = true then
        { (eventsForBalanceProofPair blockNumber
            (eventsForRevealSecretPair ourAddress blockNumber p).1).1 with
          PayerState := .StatePayerWaitingRegisterSecret }
      else
        (eventsForBalanceProofPair blockNumber
          (eventsForRevealSecretPair ourAddress blockNumber p).1).1,
    fun p => ?_, fun pairs => ?_⟩
  · simp only
    split_ifs <;> rfl
  · rw [eventsForRegisterSecret_pairs, eventsForBalanceProof_pairs, eventsForRevealSecret_pairs,
      List.map_map, List.map_map]
    rfl

/-- C37, as the code has it: a `ReceiveSecretReveal` from the payee hop of a pair,
the last pair with this hop, first resets the payee state of the pair to
`StatePayeeSecretRevealed`, also when the payee was paid. The payee is then paid
again, with the payee state `StatePayeeBalanceProof` and a further
`EventSendBalanceProof`, when both channels of the pair are opened, the payee
lock is valid and the payer transfer is not within the reveal timeout of its
expiration; otherwise the payee state is left at `StatePayeeSecretRevealed`, and
no balance proof is sent over the payee channel of the pair when no other pair
uses this channel. The secret of the state is known, as the sanity check makes
sure of a state with a paid pair. -/
theorem handleSecretReveal_paid_again (P : MediatorParams) (state : MediatorState)
    (secret : channel.Hash) (sender : channel.Address) (front back : List MediationPairState)
    (pair : MediationPairState)
    (hpairs : state.TransfersPair = front ++ pair :: back)
    (hhop : pair.PayeeRoute.HopNode = sender)
    (hlast : ∀ q ∈ back, q.PayeeRoute.HopNode ≠ sender)
    (hsecret : state.Secret ≠ channel.EmptyHash)
    (hhash : P.ShaSecret secret = state.Hashlock) :
    ∃ result newState front1 pair1 back1,
      handleSecretReveal P state secret sender = some result ∧
      result.NewState = some newState ∧
      newState.TransfersPair = front1 ++ pair1 :: back1 ∧
      front1.length = front.length ∧ back1.length = back.length ∧
      ((pair.PayerRoute.State = .StateOpened ∧ pair.PayeeRoute.State = .StateOpened ∧
          state.BlockNumber ≤ pair.PayeeTransfer.Expiration ∧
          ¬ state.BlockNumber >
            subInt64 pair.PayerTransfer.Expiration pair.PayerRoute.RevealTimeout) →
        pair1.PayeeState = .StatePayeeBalanceProof ∧
        Event.EventSendBalanceProof pair.PayeeTransfer.LockSecretHash
          pair.PayeeRoute.ChannelIdentifier pair.PayeeTransfer.Token pair.PayeeRoute.HopNode ∈
            result.Events) ∧
      (¬ (pair.PayerRoute.State = .StateOpened ∧ pair.PayeeRoute.State = .StateOpened ∧
          state.BlockNumber ≤ pair.PayeeTransfer.Expiration ∧
          ¬ state.BlockNumber >
            subInt64 pair.PayerTransfer.Expiration pair.PayerRoute.RevealTimeout) →
        pair1.PayeeState = .StatePayeeSecretRevealed ∧
        ((∀ q ∈ front ++ back,
            q.PayeeRoute.ChannelIdentifier ≠ pair.PayeeRoute.ChannelIdentifier) →
          ∀ h t r, Event.EventSendBalanceProof h pair.PayeeRoute.ChannelIdentifier t r ∉
            result.Events)) := by
  have hrun : handleSecretReveal P state secret sender = some
      { NewState := some
          { state with
            TransfersPair :=
              (eventsForRegisterSecret
                (eventsForBalanceProof
                  (eventsForRevealSecret
                    (front ++ { pair with PayeeState := .StatePayeeSecretRevealed } :: back)
                    state.OurAddress state.BlockNumber).1 state.BlockNumber).1
                state.BlockNumber).1 }
        Events :=
          [] ++
          (eventsForRevealSecret
            (front ++ { pair with PayeeState := .StatePayeeSecretRevealed } :: back)
            state.OurAddress state.BlockNumber).2 ++
          (eventsForBalanceProof
            (eventsForRevealSecret
              (front ++ { pair with PayeeState := .StatePayeeSecretRevealed } :: back)
              state.OurAddress state.BlockNumber).1 state.BlockNumber).2 ++
          (eventsForRegisterSecret
            (eventsForBalanceProof
              (eventsForRevealSecret
                (front ++ { pair with PayeeState := .StatePayeeSecretRevealed } :: back)
                state.OurAddress state.BlockNumber).1 state.BlockNumber).1
            state.BlockNumber).2 } := by
    unfold handleSecretReveal secretLearned
    rw [if_neg (fun h => h hhash), if_neg (fun h => h rfl)]
    simp only [if_neg hsecret, hpairs,
      setPayeeStateAndCheckRevealOrder_split front back pair sender .StatePayeeSecretRevealed
        hlast hhop]
  have hone := secretLearned_pair state.OurAddress state.BlockNumber
    { pair with PayeeState := .StatePayeeSecretRevealed } rfl
  obtain ⟨body, hbody, hmap⟩ := secretLearned_pairs state.OurAddress state.BlockNumber
  refine ⟨_, _, front.map body,
    body { pair with PayeeState := .StatePayeeSecretRevealed }, back.map body, hrun, rfl, ?_,
    List.length_map _ _, List.length_map _ _, fun hc => ?_, fun hc => ?_⟩
  · simp only [hmap, List.map_append, List.map_cons]
  · obtain ⟨hs, hev⟩ := hone.1 hc
    refine ⟨?_, ?_⟩
    · rw [hbody]
      exact hs
    · apply List.mem_append_left
      apply List.mem_append_right
      rw [eventsForBalanceProof_mem]
      refine ⟨_, ?_, hev⟩
      rw [eventsForRevealSecret_pairs]
      exact List.mem_map.mpr ⟨_, by simp, rfl⟩
  · obtain ⟨hs, hev⟩ := hone.2 hc
    refine ⟨?_, fun hother h t r hmem => ?_⟩
    · rw [hbody]
      exact hs
    · rcases List.mem_append.mp hmem with hmem | hmem
      · rcases List.mem_append.mp hmem with hmem | hmem
        · rcases List.mem_append.mp hmem with hmem | hmem
          · cases hmem
          · rw [eventsForRevealSecret_mem] at hmem
            obtain ⟨q, -, hq⟩ := hmem
            exact (eventsForRevealSecretPair_keeps _ _ q).2.2.2.2.2 _ _ _ _ hq
        · rw [eventsForBalanceProof_mem] at hmem
          obtain ⟨q, hq, he⟩ := hmem
          rw [eventsForRevealSecret_pairs] at hq
          obtain ⟨q0, hq0, rfl⟩ := List.mem_map.mp hq
          have hchan := eventsForBalanceProofPair_channel _ _ _ _ _ _ he
          rw [(eventsForRevealSecretPair_keeps _ _ q0).2.1] at hchan
          rcases List.mem_append.mp hq0 with hf | hb
          · exact hother q0 (List.mem_append_left _ hf) hchan.symm
          · rcases List.mem_cons.mp hb with hb | hb
            · subst hb
              rw [hev] at he
              cases he
            · exact hother q0 (List.mem_append_right _ hb) hchan.symm
      · exact eventsForRegisterSecret_balanceProof _ _ _ _ _ _ hmem

/-- Witness of C37: at the block 100 the payee hop 3 of the paid pair reveals the
secret 5 again; both channels are opened, the lock is valid until the block 130
and the payer transfer is 30 blocks from its expiration, with a reveal timeout
of 10: the payee is paid again. -/
theorem handleSecretReveal_paid_again_witness :
    ∃ result newState front1 pair1 back1,
      handleSecretReveal exMediatorParams exStatePayeePaid 5 3 = some result ∧
      result.NewState = some newState ∧
      newState.TransfersPair = front1 ++ pair1 :: back1 ∧
      pair1.PayeeState = .StatePayeeBalanceProof ∧
      Event.EventSendBalanceProof 1005 12 9 3 ∈ result.Events := by
  obtain ⟨result, newState, front1, pair1, back1, hrun, hnew, hpairs, -, -, hyes, -⟩ :=
    handleSecretReveal_paid_again exMediatorParams exStatePayeePaid 5 3 [] []
      (exPairSecret .StatePayerSecretRevealed .StatePayeeBalanceProof) rfl rfl
      (fun q hq => (List.not_mem_nil q hq).elim) (by decide) (by decide)
  exact ⟨result, newState, front1, pair1, back1, hrun, hnew, hpairs, (hyes (by decide)).1,
    (hyes (by decide)).2⟩

/-- Counterexample to C37: the payee hop 3 of a paid pair reveals the secret 5
again. At the block 100 the mediator sends a further `EventSendBalanceProof` to
the payee; at the block 125, within the reveal timeout of the payer expiration,
it sends nothing and leaves the payee state at `StatePayeeSecretRevealed`. -/
theorem handleSecretReveal_repeated_counterexample :
    (StateTransition exMediatorParams (some exStatePayeePaid)
        (.ReceiveSecretRevealStateChange 5 3)).map
      (fun r => (r.NewState.map (fun st => st.TransfersPair.map (fun p => p.PayeeState)),
        r.Events)) =
      some (some [.StatePayeeBalanceProof],
        [.EventSendBalanceProof 1005 12 9 3, .EventUnlockSuccess 1005]) ∧
    (StateTransition exMediatorParams (some { exStatePayeePaid with BlockNumber := 125 })
        (.ReceiveSecretRevealStateChange 5 3)).map
      (fun r => (r.NewState.map (fun st => st.TransfersPair.map (fun p => p.PayeeState)),
        r.Events)) =
      some (some [.StatePayeeSecretRevealed], []) := by
  decide

/-! ## The secret that is registered on chain -/

theorem setExpiredPair_events (P : MediatorParams) (blockNumber : Int)
    (pair pair1 : MediationPairState) (events : List Event)
    (h : setExpiredPair P blockNumber pair = some (pair1, events)) (secret : channel.Hash) :
    Event.EventContractSendRegisterSecret secret ∉ events := by
  by_cases hexp : pair.PayeeTransfer.Expiration ≤ pair.PayerTransfer.Expiration
  · rw [setExpiredPair_eq P blockNumber pair hexp] at h
    simp only [Option.some.injEq, Prod.mk.injEq] at h
    obtain ⟨-, rfl⟩ := h
    intro hm
    rcases List.mem_append.mp hm with hm | hm <;> split_ifs at hm <;> simp at hm
  · have hgt : pair.PayeeTransfer.Expiration > pair.PayerTransfer.Expiration := by omega
    unfold setExpiredPair at h
    by_cases h1 : blockNumber > pair.PayerTransfer.Expiration
    · simp [h1, hgt] at h
    · by_cases h3 : subInt64 blockNumber P.ForkConfirmNumber > pair.PayeeTransfer.Expiration
      · simp [h1, h3, hgt] at h
      · simp only [h1, h3, if_false, Option.some.injEq, Prod.mk.injEq] at h
        obtain ⟨-, rfl⟩ := h
        exact List.not_mem_nil _

theorem setExpiredPairsLoop_events (P : MediatorParams) (blockNumber : Int)
    (pairs pairs1 : List MediationPairState) (events : List Event)
    (h : setExpiredPairsLoop P blockNumber pairs = some (pairs1, events)) (secret : channel.Hash) :
    Event.EventContractSendRegisterSecret secret ∉ events := by
  induction pairs generalizing pairs1 events with
  | nil =>
    simp only [setExpiredPairsLoop, Option.some.injEq, Prod.mk.injEq] at h
    obtain ⟨-, rfl⟩ := h
    exact List.not_mem_nil _
  | cons pair rest ih =>
    simp only [setExpiredPairsLoop] at h
    cases hrest : setExpiredPairsLoop P blockNumber rest with
    | none =>
      rw [hrest] at h
      by_cases hpend : isPendingPair pair = true
      · rw [if_pos hpend] at h
        cases hp : setExpiredPair P blockNumber pair with
        | none =>
          rw [hp] at h
          cases h
        | some r =>
          rw [hp] at h
          cases h
      · rw [if_neg hpend] at h
        cases h
    | some r =>
      obtain ⟨rest1, events1⟩ := r
      rw [hrest] at h
      have hih := ih rest1 events1 hrest
      by_cases hpend : isPendingPair pair = true
      · rw [if_pos hpend] at h
        cases hp : setExpiredPair P blockNumber pair with
        | none =>
          rw [hp] at h
          cases h
        | some r =>
          obtain ⟨pair1, ev⟩ := r
          rw [hp] at h
          simp only [Option.some.injEq, Prod.mk.injEq] at h
          obtain ⟨-, rfl⟩ := h
          intro hmem
          rcases List.mem_append.mp hmem with hm | hm
          · exact setExpiredPair_events P blockNumber pair pair1 ev hp secret hm
          · exact hih hm
      · rw [if_neg hpend] at h
        simp only [Option.some.injEq, Prod.mk.injEq] at h
        obtain ⟨-, rfl⟩ := h
        exact hih

/-- The events of `handleBlock` that register a secret are those of
`eventsForRegisterSecret` at the block number of the state after the update. -/
theorem handleBlock_register_events (P : MediatorParams) (state : MediatorState)
    (stBlockNumber : Int) (result : TransitionResult)
    (h : handleBlock P state stBlockNumber = some result) (secret : channel.Hash) :
    Event.EventContractSendRegisterSecret secret ∈ result.Events ↔
      Event.EventContractSendRegisterSecret secret ∈
        (eventsForRegisterSecret state.TransfersPair
          (if state.BlockNumber < stBlockNumber then stBlockNumber else state.BlockNumber)).2 := by
  unfold handleBlock setExpiredPairs at h
  simp only at h
  generalize (if state.BlockNumber < stBlockNumber then stBlockNumber
    else state.BlockNumber) = b at h ⊢
  cases hloop : setExpiredPairsLoop P b (eventsForRegisterSecret state.TransfersPair b).1 with
  | none =>
    rw [hloop] at h
    cases h
  | some r =>
    obtain ⟨pairs1, events1⟩ := r
    rw [hloop] at h
    simp only [Option.some.injEq] at h
    have hno := setExpiredPairsLoop_events P _ _ pairs1 events1 hloop secret
    rw [← h]
    simp only
    by_cases hall : decide ((getPendingTransferPairs
        (eventsForRegisterSecret state.TransfersPair b).1).length = 0) = true
    · rw [if_pos hall]
      simp only [List.mem_append, List.mem_singleton]
      constructor
      · rintro ((hm | hm) | hm)
        · exact hm
        · exact absurd hm hno
        · cases hm
      · exact fun hm => Or.inl (Or.inl hm)
    · rw [if_neg hall]
      simp only [List.mem_append]
      constructor
      · rintro (hm | hm)
        · exact hm
        · exact absurd hm hno
      · exact fun hm => Or.inl hm

/-- C38, as the code has it: an `EventContractSendRegisterSecret` carries the
secret of the payee transfer of a pending pair for which
`isSecretRegisterNeeded` holds, whether this secret is known or is still the
empty hash, and the payer state of every such pair is set to
`StatePayerWaitingRegisterSecret`. A pair over a closed payer channel whose
payer state is neither `StatePayerWaitingRegisterSecret` nor
`StatePayerBalanceProof` needs the registration, whatever its secret. The events
of this kind that `handleBlock` returns are those of `eventsForRegisterSecret`
on the pairs of the state. -/
theorem eventsForRegisterSecret_secret (transfersPair : List MediationPairState)
    (blockNumber : Int) :
    (∀ secret, Event.EventContractSendRegisterSecret secret ∈
        (eventsForRegisterSecret transfersPair blockNumber).2 →
      ∃ p ∈ transfersPair, isPendingPair p = true ∧
        isSecretRegisterNeeded p blockNumber = true ∧ p.PayeeTransfer.Secret = secret) ∧
    ((∃ p ∈ transfersPair, isPendingPair p = true ∧ isSecretRegisterNeeded p blockNumber = true) →
      ∃ p ∈ transfersPair, isPendingPair p = true ∧
        isSecretRegisterNeeded p blockNumber = true ∧
        Event.EventContractSendRegisterSecret p.PayeeTransfer.Secret ∈
          (eventsForRegisterSecret transfersPair blockNumber).2) ∧
    (eventsForRegisterSecret transfersPair blockNumber).1 =
      transfersPair.map (fun p =>
        if (isPendingPair p && isSecretRegisterNeeded p blockNumber) = true then
          { p with PayerState := .StatePayerWaitingRegisterSecret }
        else p) ∧
    (∀ p : MediationPairState, p.PayerRoute.State = .StateClosed →
      p.PayerState ≠ .StatePayerWaitingRegisterSecret →
      p.PayerState ≠ .StatePayerBalanceProof →
      isSecretRegisterNeeded p blockNumber = true) ∧
    (∀ (P : MediatorParams) (state : MediatorState) (stBlockNumber : Int)
        (result : TransitionResult),
      state.TransfersPair = transfersPair →
      (if state.BlockNumber < stBlockNumber then stBlockNumber else state.BlockNumber) =
        blockNumber →
      handleBlock P state stBlockNumber = some result →
      ∀ secret, Event.EventContractSendRegisterSecret secret ∈ result.Events ↔
        Event.EventContractSendRegisterSecret secret ∈
          (eventsForRegisterSecret transfersPair blockNumber).2) := by
  have hevents : (eventsForRegisterSecret transfersPair blockNumber).2 =
      match transfersPair.reverse.find?
        (fun p => isPendingPair p && isSecretRegisterNeeded p blockNumber) with
      | some p => [.EventContractSendRegisterSecret p.PayeeTransfer.Secret]
      | none => [] := by
    unfold eventsForRegisterSecret
    simp only [eventsForRegisterSecretLoop_events, List.nil_append]
  refine ⟨fun secret hmem => ?_, ?_, eventsForRegisterSecret_pairs transfersPair blockNumber,
    fun p hclosed hw hb => ?_, ?_⟩
  · rw [hevents] at hmem
    cases hfind : transfersPair.reverse.find?
        (fun p => isPendingPair p && isSecretRegisterNeeded p blockNumber) with
    | none =>
      rw [hfind] at hmem
      cases hmem
    | some p =>
      rw [hfind] at hmem
      simp only [List.mem_singleton, Event.EventContractSendRegisterSecret.injEq] at hmem
      have hcond := List.find?_some hfind
      simp only [Bool.and_eq_true] at hcond
      exact ⟨p, List.mem_reverse.mp (List.mem_of_find?_eq_some hfind), hcond.1, hcond.2,
        hmem.symm⟩
  · rintro ⟨q, hq, hpend, hneed⟩
    cases hfind : transfersPair.reverse.find?
        (fun p => isPendingPair p && isSecretRegisterNeeded p blockNumber) with
    | none =>
      exfalso
      have := List.find?_eq_none.mp hfind q (List.mem_reverse.mpr hq)
      simp [hpend, hneed] at this
    | some p =>
      have hcond := List.find?_some hfind
      simp only [Bool.and_eq_true] at hcond
      refine ⟨p, List.mem_reverse.mp (List.mem_of_find?_eq_some hfind), hcond.1, hcond.2, ?_⟩
      rw [hevents, hfind]
      exact List.mem_singleton.mpr rfl
  · unfold isSecretRegisterNeeded
    have hpaid : p.PayerState.paid = false := by
      cases hs : p.PayerState <;> first | rfl | exact absurd hs hb
    simp [hclosed, hw, hpaid]
  · intro P state stBlockNumber result hpairs hblock h secret
    rw [handleBlock_register_events P state stBlockNumber result h secret, hpairs, hblock]

/-- Witness of C38: the pending pair over the closed payer channel needs the
registration at the block 101, with the secret still unknown. -/
theorem eventsForRegisterSecret_secret_witness :
    isSecretRegisterNeeded exPairClosed 101 = true ∧
    exPairClosed.PayeeTransfer.Secret = channel.EmptyHash ∧
    ∃ p ∈ [exPairClosed], isPendingPair p = true ∧ isSecretRegisterNeeded p 101 = true ∧
      Event.EventContractSendRegisterSecret p.PayeeTransfer.Secret ∈
        (eventsForRegisterSecret [exPairClosed] 101).2 :=
  ⟨(eventsForRegisterSecret_secret [exPairClosed] 101).2.2.2.1 exPairClosed rfl (by decide)
      (by decide),
    rfl,
    (eventsForRegisterSecret_secret [exPairClosed] 101).2.1
      ⟨exPairClosed, List.mem_singleton.mpr rfl, by decide, by decide⟩⟩

/-- Counterexample to C38: the payer channel of the pending pair is closed and the
secret is not known; the `BlockStateChange` of the block 101 emits an
`EventContractSendRegisterSecret` with the empty hash and sets the payer state
to `StatePayerWaitingRegisterSecret`. -/
theorem eventsForRegisterSecret_empty_counterexample :
    exStateClosedPayer.Secret = channel.EmptyHash ∧
    exStateClosedPayer.TransfersPair.map
      (fun p => (p.PayerState, p.PayeeState, p.PayeeTransfer.Secret, p.PayerRoute.State)) =
      [(.StatePayerPending, .StatePayeePending, channel.EmptyHash, .StateClosed)] ∧
    (StateTransition exMediatorParams (some exStateClosedPayer) (.BlockStateChange 101)).map
      (fun r => (r.NewState.map (fun st => st.TransfersPair.map (fun p => p.PayerState)),
        r.Events)) =
      some (some [.StatePayerWaitingRegisterSecret],
        [.EventContractSendRegisterSecret channel.EmptyHash]) := by
  decide

/-! ## The assertions of `nextTransferPair` -/

/-- C39: when the block number of the state is not before the closed block of the
payer route, `getTimeoutBlocks` returns, and what it returns is at most the
payer expiration minus the block number; `mediateTransfer` hands it to
`nextTransferPair` only when it is positive, so that neither assertion of
`nextTransferPair` fires and `mediateTransfer` returns. -/
theorem mediateTransfer_assertions (state : MediatorState) (payerRoute : RouteState)
    (payerTransfer : LockedTransferState)
    (hclosed : payerRoute.ClosedBlock ≤ state.BlockNumber) :
    ∃ timeoutBlocks,
      getTimeoutBlocks payerRoute payerTransfer state.BlockNumber = some timeoutBlocks ∧
      timeoutBlocks ≤ subInt64 payerTransfer.Expiration state.BlockNumber ∧
      (0 < timeoutBlocks →
        nextTransferPair payerRoute payerTransfer state.Routes timeoutBlocks
          state.BlockNumber ≠ none) ∧
      mediateTransfer state payerRoute payerTransfer ≠ none := by
  obtain ⟨timeoutBlocks, hget, hle⟩ :=
    getTimeoutBlocks_le payerRoute payerTransfer state.BlockNumber (Or.inr hclosed)
  have hnext : 0 < timeoutBlocks →
      nextTransferPair payerRoute payerTransfer state.Routes timeoutBlocks
        state.BlockNumber ≠ none := by
    intro hpos
    rcases nextTransferPair_run payerRoute payerTransfer state.Routes timeoutBlocks
      state.BlockNumber hpos hle with ⟨-, h⟩ | ⟨pair, events, -, -, h⟩
    · rw [h]
      exact fun hn => Option.noConfusion hn
    · rw [h]
      exact fun hn => Option.noConfusion hn
  refine ⟨timeoutBlocks, hget, hle, hnext, ?_⟩
  unfold mediateTransfer
  rw [hget]
  simp only
  by_cases hpos : timeoutBlocks > 0
  · rw [if_pos hpos]
    rcases nextTransferPair_run payerRoute payerTransfer state.Routes timeoutBlocks
      state.BlockNumber hpos hle with ⟨-, h⟩ | ⟨pair, events, -, -, h⟩
    · rw [h]
      exact fun hn => Option.noConfusion hn
    · rw [h]
      simp only
      split_ifs <;> exact fun hn => Option.noConfusion hn
  · rw [if_neg hpos]
    exact fun hn => Option.noConfusion hn

/-- Witness of C39: the init of the example state at the block 100 with the payer
transfer that expires at the block 130 over the route of the hop 2, which is not
closed. -/
theorem mediateTransfer_assertions_witness :
    ∃ timeoutBlocks,
      getTimeoutBlocks (exRoute 2 11) (exTransfer 130) exState.BlockNumber =
        some timeoutBlocks ∧
      timeoutBlocks ≤ subInt64 (exTransfer 130).Expiration exState.BlockNumber ∧
      (0 < timeoutBlocks →
        nextTransferPair (exRoute 2 11) (exTransfer 130) exState.Routes timeoutBlocks
          exState.BlockNumber ≠ none) ∧
      mediateTransfer exState (exRoute 2 11) (exTransfer 130) ≠ none :=
  mediateTransfer_assertions exState (exRoute 2 11) (exTransfer 130) (by decide)

end mediator

/-! # Theorems on the initiator: the current route of a returned state -/

namespace initiator

open mediator (RouteState RoutesState CanceledRoute LockedTransferState subInt64)

/-- A new state that `tryNewRoute` returns has a current route. -/
theorem tryNewRoute_route (P : InitiatorParams) (state after : InitiatorState)
    (result : InitiatorTransitionResult) (newState : InitiatorState)
    (h : tryNewRoute P state = some (after, result)) (hnew : result.NewState = some newState) :
    newState.Route ≠ none := by
  unfold tryNewRoute at h
  split_ifs at h
  simp only at h
  split at h
  · simp only [Option.some.injEq, Prod.mk.injEq] at h
    rw [← h.2] at hnew
    cases hnew
  · split at h
    · cases h
    · simp only [Option.some.injEq, Prod.mk.injEq] at h
      rw [← h.2] at hnew
      simp only [Option.some.injEq] at hnew
      rw [← hnew]
      exact fun hn => Option.noConfusion hn

/-- A new state that `cancelCurrentRoute` returns has a current route. -/
theorem cancelCurrentRoute_route (P : InitiatorParams) (state after : InitiatorState)
    (reason : String) (result : InitiatorTransitionResult) (newState : InitiatorState)
    (h : cancelCurrentRoute P state reason = some (after, result))
    (hnew : result.NewState = some newState) :
    newState.Route ≠ none := by
  unfold cancelCurrentRoute at h
  split_ifs at h
  exact tryNewRoute_route P _ after result newState h hnew

theorem handleSecretRequest_route (state : InitiatorState)
    (stateChange : ReceiveSecretRequestStateChange) (newState : InitiatorState)
    (h : (handleSecretRequest state stateChange).NewState = some newState) :
    newState.Route = state.Route := by
  unfold handleSecretRequest at h
  simp only at h
  split_ifs at h <;> (simp only [Option.some.injEq] at h; rw [← h])

theorem handleRefund_route (P : InitiatorParams) (state : InitiatorState)
    (stSender : channel.Address) (stLock : channel.Lock) (stToken : channel.Address)
    (errorCode : Int) (errorMsg : String) (result : InitiatorTransitionResult)
    (newState : InitiatorState) (route : RouteState) (hroute : state.Route = some route)
    (h : handleRefund P state stSender stLock stToken errorCode errorMsg = some result)
    (hnew : result.NewState = some newState) :
    newState.Route ≠ none := by
  unfold handleRefund at h
  rw [hroute] at h
  simp only at h
  cases hvalid : mediator.IsValidRefund state.Transfer route stSender stLock stToken with
  | false =>
    rw [hvalid] at h
    simp only [Option.some.injEq] at h
    rw [← h] at hnew
    simp only [Option.some.injEq] at hnew
    rw [← hnew, hroute]
    exact fun hn => Option.noConfusion hn
  | true =>
    rw [hvalid] at h
    simp only at h
    cases hcancel : cancelCurrentRoute P state (P.StandardErrorText errorCode errorMsg) with
    | none =>
      rw [hcancel] at h
      cases h
    | some r =>
      obtain ⟨after, it⟩ := r
      rw [hcancel] at h
      simp only [Option.some.injEq] at h
      rw [← h] at hnew
      exact cancelCurrentRoute_route P state after _ it newState hcancel hnew

/-- One call of `StateTransition` on the nil state, or on a state with a current
route, returns a new state that is nil or has a current route. -/
theorem StateTransition_route (P : InitiatorParams) (originalState : Option InitiatorState)
    (st : InitiatorStateChange) (result : InitiatorTransitionResult)
    (newState : InitiatorState)
    (horiginal : ∀ state, originalState = some state → state.Route ≠ none)
    (h : StateTransition P originalState st = some result)
    (hnew : result.NewState = some newState) :
    newState.Route ≠ none := by
  cases originalState with
  | none =>
    cases st with
    | ActionInitInitiatorStateChange ourAddress tranfer routes blockNumber lockSecretHash
        secret =>
      simp only [StateTransition, Option.map_eq_some'] at h
      obtain ⟨⟨after, r⟩, hrun, hr⟩ := h
      simp only at hr
      subst hr
      exact tryNewRoute_route P _ after r newState hrun hnew
    | _ =>
      simp only [StateTransition, Option.some.injEq] at h
      rw [← h] at hnew
      cases hnew
  | some state =>
    have hroute := horiginal state rfl
    have hsame : ∀ r : InitiatorTransitionResult, r = { NewState := some state, Events := [] } →
        r.NewState = some newState → newState.Route ≠ none := by
      intro r hr hn
      rw [hr] at hn
      simp only [Option.some.injEq] at hn
      rw [← hn]
      exact hroute
    cases st with
    | BlockStateChange blockNumber =>
      simp only [StateTransition, Option.some.injEq] at h
      rw [← h] at hnew
      unfold handleBlock at hnew
      simp only [Option.some.injEq] at hnew
      rw [← hnew]
      split_ifs <;> exact hroute
    | ReceiveSecretRevealStateChange secret sender =>
      simp only [StateTransition] at h
      unfold handleSecretReveal at h
      split_ifs at h
      · exact hsame result (Option.some.inj h).symm hnew
      · split at h
        · cases h
        · split_ifs at h
          · split at h
            · cases h
            · simp only [Option.some.injEq] at h
              rw [← h] at hnew
              cases hnew
          · exact hsame result (Option.some.inj h).symm hnew
    | ContractSecretRevealOnChainStateChange lockSecretHash blockNumber =>
      simp only [StateTransition] at h
      unfold handleSecretRevealOnChain at h
      split_ifs at h
      · simp only [Option.some.injEq] at h
        rw [← h] at hnew
        simp only [Option.some.injEq] at hnew
        rw [← hnew]
        exact hroute
      · split at h
        · cases h
        · simp only [Option.some.injEq] at h
          rw [← h] at hnew
          simp only [Option.some.injEq] at hnew
          rw [← hnew]
          exact hroute
    | ReceiveSecretRequestStateChange stateChange =>
      simp only [StateTransition] at h
      split_ifs at h
      · simp only [Option.some.injEq] at h
        rw [← h] at hnew
        rw [handleSecretRequest_route state stateChange newState hnew]
        exact hroute
      · exact hsame result (Option.some.inj h).symm hnew
    | ReceiveAnnounceDisposedStateChange sender lock token errorCode errorMsg =>
      simp only [StateTransition] at h
      obtain ⟨route, hr⟩ := Option.ne_none_iff_exists'.mp hroute
      split_ifs at h
      · exact handleRefund_route P state sender lock token errorCode errorMsg result newState
          route hr h hnew
      · exact hsame result (Option.some.inj h).symm hnew
    | ActionCancelRouteStateChange lockSecretHash =>
      simp only [StateTransition] at h
      split_ifs at h
      unfold handleCancelRoute at h
      split_ifs at h
      · simp only [Option.map_eq_some'] at h
        obtain ⟨⟨after, r⟩, hrun, hr⟩ := h
        simp only at hr
        subst hr
        exact cancelCurrentRoute_route P state after _ r newState hrun hnew
      · exact hsame result (Option.some.inj h).symm hnew
    | ActionCancelTransferStateChange =>
      simp only [StateTransition] at h
      split_ifs at h
      unfold handleCancelTransfer userCancelTransfer at h
      split_ifs at h
      simp only [Option.some.injEq] at h
      rw [← h] at hnew
      simp only [Option.some.injEq] at hnew
      rw [← hnew]
      exact hroute
    | ContractCooperativeSettledStateChange =>
      simp only [StateTransition, Option.map_eq_some'] at h
      obtain ⟨⟨after, r⟩, hrun, hr⟩ := h
      simp only at hr
      subst hr
      exact cancelCurrentRoute_route P state after _ r newState hrun hnew
    | ContractChannelWithdrawStateChange =>
      simp only [StateTransition, Option.map_eq_some'] at h
      obtain ⟨⟨after, r⟩, hrun, hr⟩ := h
      simp only at hr
      subst hr
      exact cancelCurrentRoute_route P state after _ r newState hrun hnew
    | ActionInitInitiatorStateChange ourAddress tranfer routes blockNumber lockSecretHash
        secret =>
      simp only [StateTransition] at h
      exact hsame result (Option.some.inj h).symm hnew
    | Other =>
      simp only [StateTransition] at h
      exact hsame result (Option.some.inj h).symm hnew

/-- The state after a run that does not panic, from a state that is nil or has a
current route, is nil or has a current route. -/
theorem runStateTransitions_invariant (P : InitiatorParams)
    (stateChanges : List InitiatorStateChange) (original : Option InitiatorState)
    (state : InitiatorState)
    (horiginal : ∀ s, original = some s → s.Route ≠ none)
    (h : runStateTransitions P original stateChanges = some (some state)) :
    state.Route ≠ none := by
  induction stateChanges generalizing original with
  | nil =>
    simp only [runStateTransitions, Option.some.injEq] at h
    exact horiginal state h
  | cons st rest ih =>
    simp only [runStateTransitions] at h
    cases hstep : StateTransition P original st with
    | none =>
      rw [hstep] at h
      cases h
    | some it =>
      rw [hstep] at h
      exact ih it.NewState
        (fun s hs => StateTransition_route P original st it s horiginal hstep hs) h

/-- C40: a state that is not nil and that the initiator holds after state changes
handed to `StateTransition` one by one from the nil state on, none of which
panics, has a current route. On such a state `handleSecretReveal` and
`transferSuccessEvents` do not meet a nil route, and `cancelCurrentRoute`, which
unsets the route before it calls `tryNewRoute`, returns as long as the secret
has not been revealed: the panic of `tryNewRoute` on a route in use does not
fire, and the route of the canceled route that `tryNewRoute` reads is not
nil. -/
theorem runStateTransitions_route (P : InitiatorParams)
    (stateChanges : List InitiatorStateChange) (state : InitiatorState)
    (h : runStateTransitions P none stateChanges = some (some state)) :
    state.Route ≠ none ∧
    (∀ secret sender, handleSecretReveal P state secret sender ≠ none) ∧
    transferSuccessEvents P state ≠ none ∧
    (∀ reason, state.RevealSecret = none → cancelCurrentRoute P state reason ≠ none) ∧
    ∀ st result newState, StateTransition P (some state) st = some result →
      result.NewState = some newState → newState.Route ≠ none := by
  have hroute : state.Route ≠ none :=
    runStateTransitions_invariant P stateChanges none state
      (fun s hs => Option.noConfusion hs) h
  obtain ⟨route, hr⟩ := Option.ne_none_iff_exists'.mp hroute
  have hsuccess : transferSuccessEvents P state ≠ none := by
    unfold transferSuccessEvents
    rw [hr]
    exact fun hn => Option.noConfusion hn
  refine ⟨hroute, fun secret sender => ?_, hsuccess, fun reason hreveal => ?_,
    fun st result newState hstep hnew =>
      StateTransition_route P (some state) st result newState
        (fun s hs => by cases hs; exact hroute) hstep hnew⟩
  · unfold handleSecretReveal
    rw [hr]
    simp only
    obtain ⟨events, he⟩ := Option.ne_none_iff_exists'.mp hsuccess
    rw [he]
    split_ifs <;> exact fun hn => Option.noConfusion hn
  · obtain ⟨newState, result, -, hrun⟩ := cancelCurrentRoute_run P state route reason hr hreveal
    rw [hrun]
    exact fun hn => Option.noConfusion hn

/-- Witness of C40: after the init at the block 100 and the block 101 the initiator
waits on the route over the hop 5. -/
theorem runStateTransitions_route_witness :
    runStateTransitions exInitiatorParams none exInitRun = some (some (exInitStateSent 101)) ∧
    (exInitStateSent 101).Route ≠ none ∧
    transferSuccessEvents exInitiatorParams (exInitStateSent 101) ≠ none :=
  ⟨by decide,
    (runStateTransitions_route exInitiatorParams exInitRun (exInitStateSent 101)
      (by decide)).1,
    (runStateTransitions_route exInitiatorParams exInitRun (exInitStateSent 101)
      (by decide)).2.2.1⟩

end initiator
/-! # Theorems on the ingest of the events of the chain -/

namespace blockchain

/-! ## The announcement of the blocks -/

theorem lastBlock_foldl_contract (init : Option Int) (sc : ContractStateChange)
    (l : List ChainStateChange) :
    (ChainStateChange.Contract sc :: l).foldl
        (fun acc m => match m with
          | .BlockStateChange n => some n
          | _ => acc) init =
      l.foldl
        (fun acc m => match m with
          | .BlockStateChange n => some n
          | _ => acc) init := rfl

theorem lastBlock_foldl_block (init : Option Int) (n : Int) (l : List ChainStateChange) :
    (ChainStateChange.BlockStateChange n :: l).foldl
        (fun acc m => match m with
          | .BlockStateChange n => some n
          | _ => acc) init =
      l.foldl
        (fun acc m => match m with
          | .BlockStateChange n => some n
          | _ => acc) (some n) := rfl

/-- The block number of the last `BlockStateChange` of a list that holds none is
the initial value; with one, the initial value does not matter. -/
theorem lastBlock_foldl_split (init : Option Int) (l : List ChainStateChange) :
    ((∀ n, ChainStateChange.BlockStateChange n ∉ l) ∧
      l.foldl
        (fun acc m => match m with
          | .BlockStateChange n => some n
          | _ => acc) init = init) ∨
    (∃ pre n post, l = pre ++ ChainStateChange.BlockStateChange n :: post ∧
      (∀ k, ChainStateChange.BlockStateChange k ∉ post) ∧
      ∀ init2 : Option Int,
        l.foldl
          (fun acc m => match m with
            | .BlockStateChange n => some n
            | _ => acc) init2 = some n) := by
  induction l generalizing init with
  | nil =>
    left
    exact ⟨fun n h => (List.not_mem_nil _ h).elim, rfl⟩
  | cons m rest ih =>
    cases m with
    | BlockStateChange b =>
      right
      rcases ih (some b) with ⟨hno, hfold⟩ | ⟨pre, n, post, hl, hpost, hfold⟩
      · refine ⟨[], b, rest, rfl, hno, fun init2 => ?_⟩
        rw [lastBlock_foldl_block]
        exact hfold
      · refine ⟨.BlockStateChange b :: pre, n, post, by rw [hl]; rfl, hpost, fun init2 => ?_⟩
        rw [lastBlock_foldl_block]
        exact hfold (some b)
    | ContractHistoryEventCompleteStateChange b =>
      rcases ih init with ⟨hno, hfold⟩ | ⟨pre, n, post, hl, hpost, hfold⟩
      · left
        refine ⟨fun n h => ?_, hfold⟩
        rcases List.mem_cons.mp h with h | h
        · cases h
        · exact hno n h
      · right
        exact ⟨.ContractHistoryEventCompleteStateChange b :: pre, n, post, by rw [hl]; rfl,
          hpost, fun init2 => hfold init2⟩
    | Contract sc =>
      rcases ih init with ⟨hno, hfold⟩ | ⟨pre, n, post, hl, hpost, hfold⟩
      · left
        refine ⟨fun n h => ?_, hfold⟩
        rcases List.mem_cons.mp h with h | h
        · cases h
        · exact hno n h
      · right
        exact ⟨.Contract sc :: pre, n, post, by rw [hl]; rfl, hpost, fun init2 => hfold init2⟩

/-- In what the loop over the state changes sends, the last `BlockStateChange`
before a contract state change, or else `lastSendBlockNumber` at the start of
the loop, is the block number of the state change. -/
theorem sendStateChangesLoop_before (stateChanges : List ContractStateChange)
    (lastSendBlockNumber : Int) (pre post : List ChainStateChange) (sc : ContractStateChange)
    (h : (sendStateChangesLoop stateChanges lastSendBlockNumber).1 =
      pre ++ ChainStateChange.Contract sc :: post) :
    pre.foldl
        (fun acc m => match m with
          | .BlockStateChange n => some n
          | _ => acc) (some lastSendBlockNumber) = some sc.BlockNumber := by
  induction stateChanges generalizing lastSendBlockNumber pre with
  | nil =>
    simp [sendStateChangesLoop] at h
  | cons a rest ih =>
    simp only [sendStateChangesLoop] at h
    split_ifs at h with hne
    · cases pre with
      | nil => simp at h
      | cons p pre1 =>
        simp only [List.cons_append, List.cons.injEq] at h
        obtain ⟨hp, h⟩ := h
        subst hp
        cases pre1 with
        | nil =>
          simp only [List.nil_append, List.cons.injEq, ChainStateChange.Contract.injEq] at h
          obtain ⟨hsc, _⟩ := h
          subst hsc
          rfl
        | cons q pre2 =>
          simp only [List.cons_append, List.cons.injEq] at h
          obtain ⟨hq, h⟩ := h
          subst hq
          rw [lastBlock_foldl_block, lastBlock_foldl_contract]
          exact ih _ _ h
    · have heq : a.BlockNumber = lastSendBlockNumber := not_not.mp hne
      cases pre with
      | nil =>
        simp only [List.nil_append, List.cons.injEq, ChainStateChange.Contract.injEq] at h
        obtain ⟨hsc, _⟩ := h
        subst hsc
        simp [heq]
      | cons p pre1 =>
        simp only [List.cons_append, List.cons.injEq] at h
        obtain ⟨hp, h⟩ := h
        subst hp
        rw [lastBlock_foldl_contract]
        exact ih _ _ h

/-- After the loop over the state changes, `lastSendBlockNumber` is the block
number of the last `BlockStateChange` sent, or else its value at the start. -/
theorem sendStateChangesLoop_last (stateChanges : List ContractStateChange)
    (lastSendBlockNumber : Int) :
    (sendStateChangesLoop stateChanges lastSendBlockNumber).1.foldl
        (fun acc m => match m with
          | .BlockStateChange n => some n
          | _ => acc) (some lastSendBlockNumber) =
      some (sendStateChangesLoop stateChanges lastSendBlockNumber).2 := by
  induction stateChanges generalizing lastSendBlockNumber with
  | nil => rfl
  | cons a rest ih =>
    simp only [sendStateChangesLoop]
    split_ifs with hne
    · rw [lastBlock_foldl_block, lastBlock_foldl_contract]
      exact ih _
    · rw [lastBlock_foldl_contract]
      exact ih _

theorem sendStateChangesLoop_contract (stateChanges : List ContractStateChange)
    (lastSendBlockNumber : Int) (sc : ContractStateChange)
    (h : ChainStateChange.Contract sc ∈ (sendStateChangesLoop stateChanges lastSendBlockNumber).1) :
    sc ∈ stateChanges := by
  induction stateChanges generalizing lastSendBlockNumber with
  | nil => simp [sendStateChangesLoop] at h
  | cons a rest ih =>
    simp only [sendStateChangesLoop] at h
    split_ifs at h with hne
    · simp only [List.mem_cons, ChainStateChange.Contract.injEq] at h
      rcases h with h | h | h
      · cases h
      · exact List.mem_cons.mpr (Or.inl h)
      · exact List.mem_cons_of_mem _ (ih _ h)
    · simp only [List.mem_cons, ChainStateChange.Contract.injEq] at h
      rcases h with h | h
      · exact List.mem_cons.mpr (Or.inl h)
      · exact List.mem_cons_of_mem _ (ih _ h)

theorem sendStateChangesLoop_mem (stateChanges : List ContractStateChange)
    (lastSendBlockNumber : Int) (sc : ContractStateChange) (h : sc ∈ stateChanges) :
    ChainStateChange.Contract sc ∈ (sendStateChangesLoop stateChanges lastSendBlockNumber).1 := by
  induction stateChanges generalizing lastSendBlockNumber with
  | nil => cases h
  | cons a rest ih =>
    simp only [sendStateChangesLoop]
    rcases List.mem_cons.mp h with h | h
    · subst h
      split_ifs <;> simp
    · split_ifs
      · exact List.mem_cons_of_mem _ (List.mem_cons_of_mem _ (ih _ h))
      · exact List.mem_cons_of_mem _ (ih _ h)

/-- The method `notifyPhotonStartupCompleteIfNeeded` sends nothing or one
`ContractHistoryEventCompleteStateChange`. -/
theorem notifyPhotonStartupCompleteIfNeeded_sent (be : Events) (currentBlock : Int) :
    (be.notifyPhotonStartupCompleteIfNeeded currentBlock).2 = [] ∨
    (be.notifyPhotonStartupCompleteIfNeeded currentBlock).2 =
      [.ContractHistoryEventCompleteStateChange currentBlock] := by
  unfold Events.notifyPhotonStartupCompleteIfNeeded
  split_ifs
  · exact Or.inr rfl
  · exact Or.inl rfl

/-- What a pass sends once the query of the logs has succeeded. -/
theorem alarmIteration_success (P : EventsParams) (t : AlarmTask) (lastedBlock : Int)
    (chain : Option (List Log)) (stop : Bool) (stateChanges : List ContractStateChange)
    (hnew : t.currentBlock < lastedBlock)
    (hquery : (t.be.queryAllStateChange P chain
      (if toInt64 (t.currentBlock - toInt64 (2 * P.ForkConfirmNumber)) < 0 then 0
        else toInt64 (t.currentBlock - toInt64 (2 * P.ForkConfirmNumber)))
      lastedBlock).2 = some stateChanges) :
    ∃ notified : List ChainStateChange,
      (notified = [] ∨
        notified = [.ContractHistoryEventCompleteStateChange lastedBlock]) ∧
      (alarmIteration P t (some lastedBlock) chain stop).1 =
        (sendStateChangesLoop stateChanges 0).1 ++ notified ++
          (if (sendStateChangesLoop stateChanges 0).2 ≠ lastedBlock then
            [.BlockStateChange lastedBlock] else []) ∧
      (alarmIteration P t (some lastedBlock) chain stop).2.1.currentBlock = lastedBlock ∧
      (alarmIteration P t (some lastedBlock) chain stop).2.1.be.lastBlockNumber =
        lastedBlock := by
  refine ⟨(Events.notifyPhotonStartupCompleteIfNeeded
      { (t.be.queryAllStateChange P chain
          (if toInt64 (t.currentBlock - toInt64 (2 * P.ForkConfirmNumber)) < 0 then 0
            else toInt64 (t.currentBlock - toInt64 (2 * P.ForkConfirmNumber)))
          lastedBlock).1 with lastBlockNumber := lastedBlock } lastedBlock).2,
    notifyPhotonStartupCompleteIfNeeded_sent _ lastedBlock, ?_, ?_, ?_⟩
  · unfold alarmIteration
    simp only [ge_iff_le, not_le.mpr hnew, if_false, hquery]
  · unfold alarmIteration
    simp only [ge_iff_le, not_le.mpr hnew, if_false, hquery]
  · unfold alarmIteration
    simp only [ge_iff_le, not_le.mpr hnew, if_false, hquery]
    unfold Events.notifyPhotonStartupCompleteIfNeeded
    split_ifs <;> rfl

/-- C31: in the messages that one pass of the ingest loop sends after a
successful query, every contract state change comes after a `BlockStateChange`
with its block number, with no other `BlockStateChange` between the two, and the
last `BlockStateChange` of the pass carries the latest block number. The block
numbers, of the state changes and of the latest block, are not 0, the initial
value of `lastSendBlockNumber`. -/
theorem alarmIteration_block_announced (P : EventsParams) (t : AlarmTask) (lastedBlock : Int)
    (chain : Option (List Log)) (stop : Bool) (stateChanges : List ContractStateChange)
    (hnew : t.currentBlock < lastedBlock)
    (hquery : (t.be.queryAllStateChange P chain
      (if toInt64 (t.currentBlock - toInt64 (2 * P.ForkConfirmNumber)) < 0 then 0
        else toInt64 (t.currentBlock - toInt64 (2 * P.ForkConfirmNumber)))
      lastedBlock).2 = some stateChanges)
    (hblocks : ∀ sc ∈ stateChanges, sc.BlockNumber ≠ 0) (hlatest : lastedBlock ≠ 0) :
    (∀ sc, sc ∈ stateChanges ↔
      ChainStateChange.Contract sc ∈ (alarmIteration P t (some lastedBlock) chain stop).1) ∧
    (∀ pre sc post,
      (alarmIteration P t (some lastedBlock) chain stop).1 =
        pre ++ ChainStateChange.Contract sc :: post →
      ∃ pre1 pre2, pre = pre1 ++ ChainStateChange.BlockStateChange sc.BlockNumber :: pre2 ∧
        ∀ n, ChainStateChange.BlockStateChange n ∉ pre2) ∧
    ∃ pre post,
      (alarmIteration P t (some lastedBlock) chain stop).1 =
        pre ++ ChainStateChange.BlockStateChange lastedBlock :: post ∧
      ∀ n, ChainStateChange.BlockStateChange n ∉ post := by
  obtain ⟨notified, hnotified, hsent, -, -⟩ :=
    alarmIteration_success P t lastedBlock chain stop stateChanges hnew hquery
  rw [hsent]
  have hN : ∀ sc, ChainStateChange.Contract sc ∉ notified := by
    intro sc h
    rcases hnotified with hn | hn <;> rw [hn] at h <;> simp at h
  have hNb : ∀ n, ChainStateChange.BlockStateChange n ∉ notified := by
    intro n h
    rcases hnotified with hn | hn <;> rw [hn] at h <;> simp at h
  have hL : ∀ sc, ChainStateChange.Contract sc ∉
      (if (sendStateChangesLoop stateChanges 0).2 ≠ lastedBlock then
        [ChainStateChange.BlockStateChange lastedBlock] else []) := by
    intro sc h
    split_ifs at h <;> simp at h
  refine ⟨fun sc => ⟨fun h => ?_, fun h => ?_⟩, fun pre sc post h => ?_, ?_⟩
  · exact List.mem_append_left _ (List.mem_append_left _ (sendStateChangesLoop_mem _ _ _ h))
  · rcases List.mem_append.mp h with h | h
    · rcases List.mem_append.mp h with h | h
      · exact sendStateChangesLoop_contract _ _ _ h
      · exact absurd h (hN sc)
    · exact absurd h (hL sc)
  · rw [List.append_assoc] at h
    have hin : ∃ post1, (sendStateChangesLoop stateChanges 0).1 =
        pre ++ ChainStateChange.Contract sc :: post1 := by
      rcases List.append_eq_append_iff.mp h with ⟨a, hpre, hrest⟩ | ⟨c, hS, hrest⟩
      · exfalso
        have hmem : ChainStateChange.Contract sc ∈ notified ++
            (if (sendStateChangesLoop stateChanges 0).2 ≠ lastedBlock then
              [ChainStateChange.BlockStateChange lastedBlock] else []) := by
          rw [hrest]
          simp
        rcases List.mem_append.mp hmem with hm | hm
        · exact hN sc hm
        · exact hL sc hm
      · cases c with
        | nil =>
          exfalso
          have hmem : ChainStateChange.Contract sc ∈ notified ++
              (if (sendStateChangesLoop stateChanges 0).2 ≠ lastedBlock then
                [ChainStateChange.BlockStateChange lastedBlock] else []) := by
            rw [List.nil_append] at hrest
            rw [← hrest]
            simp
          rcases List.mem_append.mp hmem with hm | hm
          · exact hN sc hm
          · exact hL sc hm
        | cons x c1 =>
          simp only [List.cons_append, List.cons.injEq] at hrest
          obtain ⟨hx, -⟩ := hrest
          subst hx
          exact ⟨c1, hS⟩
    obtain ⟨post1, hS⟩ := hin
    have hfold := sendStateChangesLoop_before stateChanges 0 pre post1 sc hS
    have hmem : sc ∈ stateChanges := by
      apply sendStateChangesLoop_contract stateChanges 0
      rw [hS]
      simp
    rcases lastBlock_foldl_split (some 0) pre with ⟨-, hinit⟩ | ⟨pre1, n, pre2, hpre, hno, hn⟩
    · rw [hinit] at hfold
      exact absurd (Option.some.inj hfold).symm (hblocks sc hmem)
    · rw [hn (some 0)] at hfold
      cases Option.some.inj hfold
      exact ⟨pre1, pre2, hpre, hno⟩
  · by_cases hlast : (sendStateChangesLoop stateChanges 0).2 ≠ lastedBlock
    · rw [if_pos hlast]
      exact ⟨_, [], rfl, fun n h => (List.not_mem_nil _ h).elim⟩
    · rw [if_neg hlast, List.append_nil]
      have hlast2 : (sendStateChangesLoop stateChanges 0).2 = lastedBlock := not_not.mp hlast
      have hfold := sendStateChangesLoop_last stateChanges 0
      rcases lastBlock_foldl_split (some 0) (sendStateChangesLoop stateChanges 0).1 with
        ⟨-, hinit⟩ | ⟨pre1, n, pre2, hpre, hno, hn⟩
      · rw [hinit, hlast2] at hfold
        exact absurd (Option.some.inj hfold).symm hlatest
      · rw [hn (some 0), hlast2] at hfold
        cases Option.some.inj hfold
        refine ⟨pre1, pre2 ++ notified, ?_, fun k h => ?_⟩
        · rw [hpre]
          simp
        · rcases List.mem_append.mp h with h | h
          · exact hno k h
          · exact hNb k h

/-- Witness of C31: the pass of a node at the block 100 that finds the chain at the
block 140 sends the close of the block 130 after `BlockStateChange 130`, and
`BlockStateChange 140` last. -/
theorem alarmIteration_block_announced_witness :
    (alarmIteration exEventsParams exAlarmTask (some 140) (some exChain) false).1 =
      [.BlockStateChange 130,
        .Contract ⟨.ContractClosedStateChange, 130, exClosed 3 130⟩,
        .ContractHistoryEventCompleteStateChange 140,
        .BlockStateChange 140] ∧
    ∃ pre post,
      (alarmIteration exEventsParams exAlarmTask (some 140) (some exChain) false).1 =
        pre ++ ChainStateChange.BlockStateChange 140 :: post ∧
      ∀ n, ChainStateChange.BlockStateChange n ∉ post :=
  ⟨by rfl,
    (alarmIteration_block_announced exEventsParams exAlarmTask 140 (some exChain) false
      [⟨.ContractClosedStateChange, 130, exClosed 3 130⟩]
      (by decide) (by decide) (by decide) (by decide)).2.2⟩

/-! ## Logs that the ingest never converts -/

theorem toInt64_eq (x : Int) (h1 : -2 ^ 63 ≤ x) (h2 : x < 2 ^ 63) : toInt64 x = x := by
  unfold toInt64
  norm_num at h1 h2 ⊢
  omega

theorem stateChangesOf_raw (l : Log) (sc : ContractStateChange) (h : sc ∈ stateChangesOf l) :
    sc.Raw = l := by
  unfold stateChangesOf at h
  cases hname : l.Name <;> simp only [hname] at h <;> simp at h
  all_goals first | (rcases h with h | h <;> rw [h]) | rw [h]

theorem parseLogsToEventsLoop_lastBlockNumber (P : EventsParams) (be : Events) (logs : List Log)
    (stateChanges : List ContractStateChange) :
    (parseLogsToEventsLoop P be logs stateChanges).1.lastBlockNumber = be.lastBlockNumber := by
  induction logs generalizing be stateChanges with
  | nil => rfl
  | cons a rest ih =>
    simp only [parseLogsToEventsLoop]
    split_ifs
    · exact ih _ _
    · exact ih _ _
    · exact ih _ _
    · rfl
    · rw [ih]

/-- A log that needs a confirmation and is not confirmed at `be.lastBlockNumber` is
skipped by the loop of `parseLogsToEvents`. -/
theorem parseLogsToEventsLoop_skipped (P : EventsParams) (be : Events) (logs : List Log)
    (stateChanges : List ContractStateChange) (l : Log)
    (hconfirm : P.EnableForkConfirm = true)
    (hname : needConfirm l.Name = true ∨ l.Name = .NameSecretRevealed)
    (hskip : l ∈ logs →
      toInt64 (be.lastBlockNumber - toInt64 l.BlockNumber) < P.ForkConfirmNumber)
    (sc : ContractStateChange)
    (hsc : sc ∈ (parseLogsToEventsLoop P be logs stateChanges).2.1) (hraw : sc.Raw = l) :
    sc ∈ stateChanges := by
  induction logs generalizing be stateChanges with
  | nil => exact hsc
  | cons a rest ih =>
    have hrest : ∀ be2 : Events, be2.lastBlockNumber = be.lastBlockNumber → l ∈ rest →
        toInt64 (be2.lastBlockNumber - toInt64 l.BlockNumber) < P.ForkConfirmNumber := by
      intro be2 h2 hmem
      rw [h2]
      exact hskip (List.mem_cons_of_mem _ hmem)
    simp only [parseLogsToEventsLoop] at hsc
    by_cases h1 : be.txDone.lookup (makeEventID a) = some a.BlockNumber
    · rw [if_pos h1] at hsc
      exact ih be stateChanges (hrest be rfl) hsc
    rw [if_neg h1] at hsc
    by_cases h2 : (P.EnableForkConfirm && needConfirm a.Name) = true ∧
        toInt64 (be.lastBlockNumber - toInt64 a.BlockNumber) < P.ForkConfirmNumber
    · rw [if_pos h2] at hsc
      exact ih be stateChanges (hrest be rfl) hsc
    rw [if_neg h2] at hsc
    by_cases h3 : (a.Name = .NameSecretRevealed ∧ P.EnableForkConfirm = true) ∧
        toInt64 (be.lastBlockNumber - toInt64 a.BlockNumber) < P.ForkConfirmNumber
    · rw [if_pos h3] at hsc
      exact ih be stateChanges (hrest be rfl) hsc
    rw [if_neg h3] at hsc
    by_cases h4 : a.Name ≠ .Unknown ∧ P.Unpack a = false
    · rw [if_pos h4] at hsc
      exact hsc
    rw [if_neg h4] at hsc
    · have hmem : sc ∈ stateChanges ++ stateChangesOf a := by
        refine ih _ _ ?_ hsc
        exact fun hm => hskip (List.mem_cons_of_mem _ hm)
      rcases List.mem_append.mp hmem with hm | hm
      · exact hm
      · exfalso
        have ha : a = l := by rw [← stateChangesOf_raw a sc hm, hraw]
        subst ha
        have hlt := hskip (List.mem_cons_self _ _)
        rcases hname with hn | hn
        · exact h2 ⟨by simp [hconfirm, hn], hlt⟩
        · exact h3 ⟨⟨hn, hconfirm⟩, hlt⟩

theorem sortContractStateChange_mem (stateChanges : List ContractStateChange)
    (sc : ContractStateChange) :
    sc ∈ sortContractStateChange stateChanges ↔ sc ∈ stateChanges :=
  (List.perm_insertionSort _ stateChanges).mem_iff

theorem queryAllStateChange_lastBlockNumber (P : EventsParams) (be : Events)
    (chain : Option (List Log)) (fromBlock toBlock : Int) :
    (be.queryAllStateChange P chain fromBlock toBlock).1.lastBlockNumber =
      be.lastBlockNumber := by
  unfold Events.queryAllStateChange Events.parseLogsToEvents
  cases getLogsFromChain chain fromBlock toBlock with
  | none => rfl
  | some logs =>
    simp only
    split
    · exact parseLogsToEventsLoop_lastBlockNumber _ _ _ _
    · exact parseLogsToEventsLoop_lastBlockNumber _ _ _ _

/-- A query does not convert a log that needs a confirmation when the log is not
confirmed at `be.lastBlockNumber` or its block is before the blocks of the
query. -/
theorem queryAllStateChange_skipped (P : EventsParams) (be : Events)
    (chain : Option (List Log)) (fromBlock toBlock : Int) (l : Log)
    (hconfirm : P.EnableForkConfirm = true)
    (hname : needConfirm l.Name = true ∨ l.Name = .NameSecretRevealed)
    (hskip : toInt64 (be.lastBlockNumber - toInt64 l.BlockNumber) < P.ForkConfirmNumber ∨
      (l.BlockNumber : Int) < fromBlock)
    (stateChanges : List ContractStateChange)
    (hquery : (be.queryAllStateChange P chain fromBlock toBlock).2 = some stateChanges)
    (sc : ContractStateChange) (hsc : sc ∈ stateChanges) :
    sc.Raw ≠ l := by
  intro hraw
  unfold Events.queryAllStateChange Events.parseLogsToEvents at hquery
  cases hlogs : getLogsFromChain chain fromBlock toBlock with
  | none =>
    rw [hlogs] at hquery
    cases hquery
  | some logs =>
    simp only [hlogs] at hquery
    split at hquery
    · cases hquery
    · cases Option.some.inj hquery
      have hmem := (sortContractStateChange_mem _ sc).mp hsc
      have hnil := parseLogsToEventsLoop_skipped P be logs [] l hconfirm hname
        (fun hl => by
          rcases hskip with h | h
          · exact h
          · exfalso
            unfold getLogsFromChain at hlogs
            cases chain with
            | none => cases hlogs
            | some all =>
              simp only [Option.map_some'] at hlogs
              cases Option.some.inj hlogs
              have := (List.mem_filter.mp hl).2
              simp only [decide_eq_true_eq] at this
              omega)
        sc hmem hraw
      cases hnil

theorem notifyPhotonStartupCompleteIfNeeded_lastBlockNumber (be : Events) (currentBlock : Int) :
    (be.notifyPhotonStartupCompleteIfNeeded currentBlock).1.lastBlockNumber =
      be.lastBlockNumber := by
  unfold Events.notifyPhotonStartupCompleteIfNeeded
  split_ifs <;> rfl

theorem notifyPhotonStartupCompleteIfNeeded_contract (be : Events) (currentBlock : Int)
    (sc : ContractStateChange) :
    ChainStateChange.Contract sc ∉ (be.notifyPhotonStartupCompleteIfNeeded currentBlock).2 := by
  intro h
  rcases notifyPhotonStartupCompleteIfNeeded_sent be currentBlock with hn | hn <;>
    rw [hn] at h <;> simp at h

/-- A pass that does not get the state changes of new blocks sends no contract
state change and keeps the current block. -/
theorem alarmIteration_idle (P : EventsParams) (t : AlarmTask) (header : Option Int)
    (chain : Option (List Log)) (stop : Bool)
    (hidle : ∀ lastedBlock, header = some lastedBlock → t.currentBlock < lastedBlock →
      (t.be.queryAllStateChange P chain
        (if toInt64 (t.currentBlock - toInt64 (2 * P.ForkConfirmNumber)) < 0 then 0
          else toInt64 (t.currentBlock - toInt64 (2 * P.ForkConfirmNumber)))
        lastedBlock).2 = none) :
    (∀ sc, ChainStateChange.Contract sc ∉ (alarmIteration P t header chain stop).1) ∧
    (alarmIteration P t header chain stop).2.1.be.lastBlockNumber = t.be.lastBlockNumber ∧
    (alarmIteration P t header chain stop).2.1.currentBlock = t.currentBlock := by
  cases header with
  | none =>
    unfold alarmIteration
    exact ⟨fun sc => notifyPhotonStartupCompleteIfNeeded_contract _ _ sc,
      notifyPhotonStartupCompleteIfNeeded_lastBlockNumber _ _, rfl⟩
  | some lastedBlock =>
    by_cases hge : t.currentBlock ≥ lastedBlock
    · unfold alarmIteration
      simp only [hge, if_true]
      refine ⟨fun sc h => ?_, notifyPhotonStartupCompleteIfNeeded_lastBlockNumber _ _, trivial⟩
      rcases List.mem_append.mp h with h | h
      · split_ifs at h <;> simp at h
      · exact notifyPhotonStartupCompleteIfNeeded_contract _ _ sc h
    · have hq := hidle lastedBlock rfl (not_le.mp hge)
      unfold alarmIteration
      simp only [hge, if_false, hq]
      refine ⟨fun sc => notifyPhotonStartupCompleteIfNeeded_contract _ _ sc, ?_, trivial⟩
      rw [notifyPhotonStartupCompleteIfNeeded_lastBlockNumber,
        queryAllStateChange_lastBlockNumber]

/-- One pass of the loop does not convert a log that needs a confirmation, was not
confirmed at the block `c` and is more than twice `ForkConfirmNumber` blocks
behind every latest block after `c`; the pass keeps this situation. -/
theorem alarmIteration_skipped (P : EventsParams) (t : AlarmTask) (header : Option Int)
    (chain : Option (List Log)) (stop : Bool) (l : Log) (c : Int)
    (hconfirm : P.EnableForkConfirm = true)
    (hname : needConfirm l.Name = true ∨ l.Name = .NameSecretRevealed)
    (hF : 0 ≤ P.ForkConfirmNumber) (hF2 : P.ForkConfirmNumber < 2 ^ 61)
    (hb : (l.BlockNumber : Int) < 2 ^ 63) (hc : 0 ≤ c) (hc2 : c < 2 ^ 63)
    (hunconfirmed : c - l.BlockNumber < P.ForkConfirmNumber)
    (hheader : ∀ lastedBlock, header = some lastedBlock →
      (lastedBlock ≤ c ∨ l.BlockNumber + 2 * P.ForkConfirmNumber < lastedBlock) ∧
        lastedBlock < 2 ^ 63)
    (hinv : t.be.lastBlockNumber = t.currentBlock ∧
      (t.currentBlock = c ∨
        (l.BlockNumber + 2 * P.ForkConfirmNumber < t.currentBlock ∧ t.currentBlock < 2 ^ 63))) :
    (∀ sc, ChainStateChange.Contract sc ∈ (alarmIteration P t header chain stop).1 → sc.Raw ≠ l) ∧
    (alarmIteration P t header chain stop).2.1.be.lastBlockNumber =
      (alarmIteration P t header chain stop).2.1.currentBlock ∧
    ((alarmIteration P t header chain stop).2.1.currentBlock = c ∨
      (l.BlockNumber + 2 * P.ForkConfirmNumber <
          (alarmIteration P t header chain stop).2.1.currentBlock ∧
        (alarmIteration P t header chain stop).2.1.currentBlock < 2 ^ 63)) := by
  by_cases hidle : ∀ lastedBlock, header = some lastedBlock → t.currentBlock < lastedBlock →
      (t.be.queryAllStateChange P chain
        (if toInt64 (t.currentBlock - toInt64 (2 * P.ForkConfirmNumber)) < 0 then 0
          else toInt64 (t.currentBlock - toInt64 (2 * P.ForkConfirmNumber)))
        lastedBlock).2 = none
  · obtain ⟨h1, h2, h3⟩ := alarmIteration_idle P t header chain stop hidle
    refine ⟨fun sc h => absurd h (h1 sc), ?_, ?_⟩
    · rw [h2, h3]
      exact hinv.1
    · rw [h3]
      exact hinv.2
  · push_neg at hidle
    obtain ⟨lastedBlock, hh, hnew, hq⟩ := hidle
    subst hh
    obtain ⟨stateChanges, hquery⟩ := Option.ne_none_iff_exists'.mp hq
    obtain ⟨notified, hnotified, hsent, hcur, hlast⟩ :=
      alarmIteration_success P t lastedBlock chain stop stateChanges hnew hquery
    have hhead := hheader lastedBlock rfl
    have h2F : toInt64 (2 * P.ForkConfirmNumber) = 2 * P.ForkConfirmNumber :=
      toInt64_eq _ (by norm_num at hF2 ⊢; omega) (by norm_num at hF2 ⊢; omega)
    have hbl : toInt64 l.BlockNumber = l.BlockNumber :=
      toInt64_eq _ (by norm_num; omega) hb
    refine ⟨fun sc h => ?_, ?_, ?_⟩
    · rw [hsent] at h
      have hmem : sc ∈ stateChanges := by
        rcases List.mem_append.mp h with h | h
        · rcases List.mem_append.mp h with h | h
          · exact sendStateChangesLoop_contract _ _ _ h
          · rcases hnotified with hn | hn <;> rw [hn] at h <;> simp at h
        · split_ifs at h <;> simp at h
      refine queryAllStateChange_skipped P t.be chain _ lastedBlock l hconfirm hname ?_
        stateChanges hquery sc hmem
      rcases hinv.2 with hcc | ⟨hfar, hrange⟩
      · left
        rw [hinv.1, hcc, hbl, toInt64_eq _ (by norm_num at hb hc2 ⊢; omega)
          (by norm_num at hb hc2 ⊢; omega)]
        exact hunconfirmed
      · right
        rw [h2F, toInt64_eq _ (by norm_num at hrange ⊢; omega) (by norm_num at hrange ⊢; omega)]
        split_ifs <;> omega
    · rw [hcur, hlast]
    · rw [hcur]
      right
      refine ⟨?_, hhead.2⟩
      rcases hinv.2 with hcc | ⟨hfar, -⟩
      · rcases hhead.1 with h | h
        · omega
        · exact h
      · omega

/-- The loop of the passes never converts such a log. -/
theorem alarmLoop_skipped (P : EventsParams) (t : AlarmTask) (inputs : List PollInput)
    (l : Log) (c : Int)
    (hconfirm : P.EnableForkConfirm = true)
    (hname : needConfirm l.Name = true ∨ l.Name = .NameSecretRevealed)
    (hF : 0 ≤ P.ForkConfirmNumber) (hF2 : P.ForkConfirmNumber < 2 ^ 61)
    (hb : (l.BlockNumber : Int) < 2 ^ 63) (hc : 0 ≤ c) (hc2 : c < 2 ^ 63)
    (hunconfirmed : c - l.BlockNumber < P.ForkConfirmNumber)
    (hheaders : ∀ lastedBlock ∈ inputs.filterMap fun input => input.header,
      (lastedBlock ≤ c ∨ l.BlockNumber + 2 * P.ForkConfirmNumber < lastedBlock) ∧
        lastedBlock < 2 ^ 63)
    (hinv : t.be.lastBlockNumber = t.currentBlock ∧
      (t.currentBlock = c ∨
        (l.BlockNumber + 2 * P.ForkConfirmNumber < t.currentBlock ∧ t.currentBlock < 2 ^ 63)))
    (sc : ContractStateChange) (hsc : ChainStateChange.Contract sc ∈ alarmLoop P t inputs) :
    sc.Raw ≠ l := by
  induction inputs generalizing t with
  | nil => cases hsc
  | cons input rest ih =>
    obtain ⟨h1, h2, h3⟩ := alarmIteration_skipped P t input.header input.chain input.stop l c
      hconfirm hname hF hF2 hb hc hc2 hunconfirmed
      (fun lastedBlock hh => hheaders lastedBlock (by
        rw [List.filterMap_cons, hh]
        exact List.mem_cons_self _ _))
      hinv
    have hrest : ∀ lastedBlock ∈ rest.filterMap fun input => input.header,
        (lastedBlock ≤ c ∨ l.BlockNumber + 2 * P.ForkConfirmNumber < lastedBlock) ∧
          lastedBlock < 2 ^ 63 := by
      intro lastedBlock hm
      apply hheaders
      rw [List.filterMap_cons]
      cases input.header with
      | none => exact hm
      | some b => exact List.mem_cons_of_mem _ hm
    simp only [alarmLoop] at hsc
    split_ifs at hsc
    · rcases List.mem_append.mp hsc with h | h
      · exact h1 sc h
      · exact ih _ hrest ⟨h2, h3⟩ h
    · exact h1 sc hsc

/-- C32: a log that needs a confirmation can be lost. The node starts at the
block `c`, where the log, of the block `b`, is not confirmed (`c - b` is less than
`ForkConfirmNumber`), and every latest block number that the passes observe
after `c` is beyond `b + 2 * ForkConfirmNumber`: whatever the logs that the
queries return, no contract state change that the ingest sends is built from the
log. The first query tests the confirmation against `c`, and the blocks of the
later queries start after `b`. -/
theorem Start_confirmation_lost (P : EventsParams) (be : Events) (c : Int)
    (inputs : List PollInput) (l : Log)
    (hconfirm : P.EnableForkConfirm = true)
    (hname : needConfirm l.Name = true ∨ l.Name = .NameSecretRevealed)
    (hF : 0 ≤ P.ForkConfirmNumber) (hF2 : P.ForkConfirmNumber < 2 ^ 61)
    (hb : (l.BlockNumber : Int) < 2 ^ 63) (hc : 0 ≤ c) (hc2 : c < 2 ^ 63)
    (hunconfirmed : c - l.BlockNumber < P.ForkConfirmNumber)
    (hheaders : ∀ lastedBlock ∈ inputs.filterMap fun input => input.header,
      (lastedBlock ≤ c ∨ l.BlockNumber + 2 * P.ForkConfirmNumber < lastedBlock) ∧
        lastedBlock < 2 ^ 63) :
    ∀ sc, ChainStateChange.Contract sc ∈ Events.Start P be c inputs → sc.Raw ≠ l := by
  intro sc hsc
  unfold Events.Start at hsc
  rcases List.mem_cons.mp hsc with h | h
  · cases h
  · exact alarmLoop_skipped P _ inputs l c hconfirm hname hF hF2 hb hc hc2 hunconfirmed
      hheaders ⟨rfl, Or.inl rfl⟩ sc h

/-- Witness of C32: the node was last at the block 100 and finds the chain at the
block 140, then at the blocks 141 to 160; the deposit of the block 105 is among
the logs of the chain and is never converted, while the deposit of the block 120
is. -/
theorem Start_confirmation_lost_witness :
    exDeposit 1 105 ∈ exChain ∧
    (∀ sc, ChainStateChange.Contract sc ∈ Events.Start exEventsParams NewBlockChainEvents 100 exPolls →
      sc.Raw ≠ exDeposit 1 105) ∧
    ChainStateChange.Contract ⟨.ContractBalanceStateChange, 120, exDeposit 2 120⟩ ∈
      Events.Start exEventsParams NewBlockChainEvents 100 exPolls :=
  ⟨by decide,
    Start_confirmation_lost exEventsParams NewBlockChainEvents 100 exPolls (exDeposit 1 105)
      rfl (by decide) (by decide) (by decide) (by decide) (by decide) (by decide) (by decide)
      (by decide),
    by decide⟩

end blockchain

/-! # Theorems on the persistence of the chain id -/

namespace models

/-- A value written to an open store is the value read under the same bucket and
key. -/
theorem KVStore_Get_Set (db : KVStore) (bucket key : String) (value target : Int)
    (hopen : db.closed = false) :
    (db.Set bucket key value).2 = none ∧ (db.Set bucket key value).1.closed = false ∧
    (db.Set bucket key value).1.Get bucket key target = (value, none) := by
  unfold KVStore.Set
  rw [if_neg (by rw [hopen]; exact Bool.false_ne_true)]
  refine ⟨rfl, hopen, ?_⟩
  unfold KVStore.Get
  rw [if_neg (by rw [hopen]; exact Bool.false_ne_true)]
  simp [List.lookup]

/-- C33: on a store that is open, `GetChainID` after `SaveChainID x` returns `x`,
also when another chain id had been saved before, for the implementation of
`gkvdb` and for the one of `stormdb`. -/
theorem ChainID_round_trip (db : KVStore) (x : Int) (hopen : db.closed = false) :
    (GkvDB.SaveChainID ⟨db⟩ x).GetChainID = x ∧
    (StormDB.SaveChainID ⟨db⟩ x).GetChainID = x ∧
    (∀ y : Int, ((GkvDB.SaveChainID ⟨db⟩ y).SaveChainID x).GetChainID = x) ∧
    (∀ y : Int, ((StormDB.SaveChainID ⟨db⟩ y).SaveChainID x).GetChainID = x) := by
  have hg : ∀ (s : KVStore) (v : Int), s.closed = false →
      (GkvDB.SaveChainID ⟨s⟩ v).GetChainID = v ∧ (GkvDB.SaveChainID ⟨s⟩ v).db.closed = false := by
    intro s v hs
    obtain ⟨h1, h2, h3⟩ := KVStore_Get_Set s BucketChainID KeyChainID v 0 hs
    unfold GkvDB.GetChainID GkvDB.SaveChainID GkvDB.getKeyValueToBucket
      GkvDB.saveKeyValueToBucket
    simp only [h1, h3]
    exact ⟨trivial, h2⟩
  have hs : ∀ (s : KVStore) (v : Int), s.closed = false →
      (StormDB.SaveChainID ⟨s⟩ v).GetChainID = v ∧
        (StormDB.SaveChainID ⟨s⟩ v).db.closed = false := by
    intro s v hs
    obtain ⟨h1, h2, h3⟩ := KVStore_Get_Set s BucketChainID KeyChainID v 0 hs
    unfold StormDB.GetChainID StormDB.SaveChainID
    simp only [h1, h3]
    exact ⟨trivial, h2⟩
  exact ⟨(hg db x hopen).1, (hs db x hopen).1,
    fun y => (hg _ x (hg db y hopen).2).1, fun y => (hs _ x (hs db y hopen).2).1⟩

/-- Witness of C33: the chain id 500 on a store that holds the chain id 8545. -/
theorem ChainID_round_trip_witness :
    (GkvDB.GetChainID ⟨exStore⟩ = 8545 ∧ StormDB.GetChainID ⟨exStore⟩ = 8545) ∧
    (GkvDB.SaveChainID ⟨exStore⟩ 500).GetChainID = 500 ∧
    (StormDB.SaveChainID ⟨exStore⟩ 500).GetChainID = 500 :=
  ⟨by decide, (ChainID_round_trip exStore 500 rfl).1, (ChainID_round_trip exStore 500 rfl).2.1⟩

end models
